import Mathlib

/-!
# UefiCpuPkg/CpuDxe/CpuMp.c : MP services of the CPU DXE driver

A shallow embedding of the multi-processor services implemented in
`CpuMp.c` (core registry, per-core state guard, broadcast and single-target
dispatch, the supervision loop), followed by theorems about them.

Conventions of the embedding.

* Pointers are natural numbers, `0` is `NULL`.  The objects the caller passes
  by address (the `BOOLEAN` behind `Finished`, the `UINTN *` behind
  `FailedCpuList`) live in two association lists of the platform state.
* `UINTN` has `w` bits; `INTN` values are integers kept in
  `[-2^(w-1), 2^(w-1))` by `ToINTN`.  The counters `StartCount`,
  `FinishCount` and `FailedListIndex` are only ever incremented once per loop
  iteration over the registered processors and are kept as natural numbers.
* The spin lock of a `CPU_DATA_BLOCK` is always free when the sequential code
  takes it, so `GetApState`, `SetApState`, ... are plain field accesses.
* A `for` loop over `0 .. NumberOfProcessors - 1` is a recursion (when the
  loop can `return`) or a left fold (when it cannot) over
  `List.range NumberOfProcessors`.
* A blocking call polls while the application processors run.  What they do
  during the `k`-th `gBS->Stall` is the `k`-th entry of a schedule; a blocking
  call that consumes the whole schedule without leaving its loop yields `none`.
-/

namespace CpuMp

/-! ## Types of `CpuMp.h` and of the MP services protocol -/

/-- The status codes returned by the services of `CpuMp.c`. -/
inductive EFI_STATUS
  | EFI_SUCCESS
  | EFI_INVALID_PARAMETER
  | EFI_UNSUPPORTED
  | EFI_NOT_READY
  | EFI_DEVICE_ERROR
  | EFI_NOT_FOUND
  | EFI_NOT_STARTED
  | EFI_TIMEOUT
  deriving DecidableEq, Repr

/-- The states of a processor record (`CPU_STATE` of `CpuMp.h`). -/
inductive CPU_STATE
  | CpuStateIdle
  | CpuStateBlocked
  | CpuStateReady
  | CpuStateBuzy
  | CpuStateFinished
  deriving DecidableEq, Repr

open EFI_STATUS CPU_STATE

/-- Modelled from the spec: the flag `IsPrimary` of the `flags` bitset of a
core record; the header defining `PROCESSOR_AS_BSP_BIT` is not part of the
sources, the value is the one of the MP services protocol. -/
def PROCESSOR_AS_BSP_BIT : Nat := 1

/-- Modelled from the spec: the flag `Enabled` of the `flags` bitset of a
core record (`PROCESSOR_ENABLED_BIT` of the MP services protocol). -/
def PROCESSOR_ENABLED_BIT : Nat := 2

/-- Modelled from the spec: the flag `Healthy` of the `flags` bitset of a
core record (`PROCESSOR_HEALTH_STATUS_BIT` of the MP services protocol). -/
def PROCESSOR_HEALTH_STATUS_BIT : Nat := 4

/-- Modelled from the spec: the sentinel value that terminates a failure
list (`END_OF_CPU_LIST` of the MP services protocol). -/
def END_OF_CPU_LIST : Nat := 0xffffffff

/-- The polling granularity: `UINTN gPollInterval = 100; // 100 microseconds`. -/
def gPollInterval : Nat := 100

/-- The type `EFI_CPU_PHYSICAL_LOCATION`. -/
structure EFI_CPU_PHYSICAL_LOCATION where
  Package : Nat
  Core : Nat
  Thread : Nat
  deriving DecidableEq, Repr

/-- The type `EFI_PROCESSOR_INFORMATION`. -/
structure EFI_PROCESSOR_INFORMATION where
  ProcessorId : Nat
  StatusFlag : Nat
  Location : EFI_CPU_PHYSICAL_LOCATION
  deriving DecidableEq, Repr

/-- The type `CPU_DATA_BLOCK`: the fields `CpuMp.c` reads and writes (the spin
lock is left out). `Timeout` is an `INTN`, `Finished` a `BOOLEAN *`. -/
structure CPU_DATA_BLOCK where
  Info : EFI_PROCESSOR_INFORMATION
  Procedure : Nat
  Parameter : Nat
  State : CPU_STATE
  CheckThisAPEvent : Nat
  Timeout : Int
  TimeoutActive : Bool
  WaitEvent : Nat
  Finished : Nat
  deriving DecidableEq, Repr

/-- The type `MP_SYSTEM_DATA`: the fields `CpuMp.c` reads and writes.
`CpuDatas` is the table allocated by `InitMpSystemData`, `Timeout` is an
`INTN`, `FailedList` a `UINTN **`. -/
structure MP_SYSTEM_DATA where
  CpuDatas : List CPU_DATA_BLOCK
  NumberOfProcessors : Nat
  NumberOfEnabledProcessors : Nat
  Procedure : Nat
  ProcedureArgument : Nat
  StartCount : Nat
  FinishCount : Nat
  SingleThread : Bool
  FailedList : Nat
  FailedListIndex : Nat
  Timeout : Int
  TimeoutActive : Bool
  WaitEvent : Nat
  CheckAllAPsEvent : Nat
  deriving DecidableEq, Repr

/-- The state the services act on: the global `mMpSystemData`, the caller
objects reached through the `Finished` and `FailedCpuList` pointers (address
and content), the events whose periodic timer is set and the events signalled
so far (most recent first). -/
structure MpWorld where
  mMpSystemData : MP_SYSTEM_DATA
  FinishedMem : List (Nat × Bool)
  FailedCpuListMem : List (Nat × Option (List Nat))
  PeriodicTimers : List Nat
  SignaledEvents : List Nat
  deriving DecidableEq, Repr

/-- What an application processor does on its own. -/
inductive ApEvent
  | Begin (Number : Nat)
  | Return (Number : Nat)
  deriving DecidableEq, Repr

/-! ## Machine words and table access -/

/-- The value of an `INTN` of `w` bits holding the bit pattern of `x`. -/
def ToINTN (w : Nat) (x : Int) : Int :=
  if x % 2 ^ w < 2 ^ (w - 1) then x % 2 ^ w else x % 2 ^ w - 2 ^ w

/-- A zero-filled `CPU_DATA_BLOCK`, as `AllocateZeroPool` leaves it. -/
def ZeroCpuData : CPU_DATA_BLOCK :=
  { Info := { ProcessorId := 0, StatusFlag := 0,
              Location := { Package := 0, Core := 0, Thread := 0 } },
    Procedure := 0, Parameter := 0, State := CpuStateIdle, CheckThisAPEvent := 0,
    Timeout := 0, TimeoutActive := false, WaitEvent := 0, Finished := 0 }

/-- The record `mMpSystemData.CpuDatas[Number]`. -/
def MP_SYSTEM_DATA.Cpu (s : MP_SYSTEM_DATA) (Number : Nat) : CPU_DATA_BLOCK :=
  s.CpuDatas.getD Number ZeroCpuData

/-- The store `mMpSystemData.CpuDatas[Number] = CpuData`. -/
def MP_SYSTEM_DATA.SetCpu (s : MP_SYSTEM_DATA) (Number : Nat) (CpuData : CPU_DATA_BLOCK) :
    MP_SYSTEM_DATA :=
  { s with CpuDatas := s.CpuDatas.set Number CpuData }

/-! ## Per-core state guard (lines 61-200) -/

/-- The function `GetApState`. -/
def GetApState (CpuData : CPU_DATA_BLOCK) : CPU_STATE :=
  CpuData.State

/-- The function `SetApState`. -/
def SetApState (CpuData : CPU_DATA_BLOCK) (State : CPU_STATE) : CPU_DATA_BLOCK :=
  { CpuData with State := State }

/-- The function `SetApProcedure`. -/
def SetApProcedure (CpuData : CPU_DATA_BLOCK) (Procedure ProcedureArgument : Nat) :
    CPU_DATA_BLOCK :=
  { CpuData with Parameter := ProcedureArgument, Procedure := Procedure }

/-- The function `TestCpuStatusFlag`: `!!(CpuData->Info.StatusFlag & Flags)`. -/
def TestCpuStatusFlag (CpuData : CPU_DATA_BLOCK) (Flags : Nat) : Bool :=
  (CpuData.Info.StatusFlag &&& Flags) != 0

/-- The function `CpuStatusFlagOr`: `StatusFlag |= Flags`. -/
def CpuStatusFlagOr (CpuData : CPU_DATA_BLOCK) (Flags : Nat) : CPU_DATA_BLOCK :=
  { CpuData with Info := { CpuData.Info with StatusFlag := CpuData.Info.StatusFlag ||| Flags } }

/-- The function `CpuStatusFlagAndNot`: `StatusFlag &= ~Flags` on a `UINT32`. -/
def CpuStatusFlagAndNot (CpuData : CPU_DATA_BLOCK) (Flags : Nat) : CPU_DATA_BLOCK :=
  { CpuData with
    Info := { CpuData.Info with
              StatusFlag := CpuData.Info.StatusFlag &&& (0xffffffff ^^^ (Flags % 2 ^ 32)) } }

/-- The function `ResetProcessorToIdleState`: its body is empty. -/
def ResetProcessorToIdleState (CpuData : CPU_DATA_BLOCK) : CPU_DATA_BLOCK :=
  CpuData

/-! ## Identity resolver (lines 45-59, 1007-1030) -/

/-- The loop of `WhoAmI`: the first `Index` whose `ProcessorId` matches, or
`NumberOfProcessors` when the loop runs to its end. -/
def WhoAmILoop (s : MP_SYSTEM_DATA) (ProcessorId : Nat) : List Nat → Nat
  | [] => s.NumberOfProcessors
  | Index :: rest =>
    if (s.Cpu Index).Info.ProcessorId == ProcessorId then Index
    else WhoAmILoop s ProcessorId rest

/-- The function `WhoAmI` called with a non-null `ProcessorNumber` by the
processor whose `GetApicId ()` is `ApicId`: the status and `*ProcessorNumber`. -/
def WhoAmI (s : MP_SYSTEM_DATA) (ApicId : Nat) : EFI_STATUS × Nat :=
  (EFI_SUCCESS, WhoAmILoop s ApicId (List.range s.NumberOfProcessors))

/-- The function `IsBSP` evaluated on the processor whose APIC id is `ApicId`. -/
def IsBSP (s : MP_SYSTEM_DATA) (ApicId : Nat) : Bool :=
  let CpuIndex := (WhoAmI s ApicId).2
  TestCpuStatusFlag (s.Cpu CpuIndex) PROCESSOR_AS_BSP_BIT

/-! ## Secondary self-transitions -/

/-- Modelled from the spec: the loop in which an application processor polls
its own record is not part of the sources.  "A secondary core transitions
itself from Ready to Busy (it discovers its own Ready assignment by polling
its own record) and from Busy to Finished (when its assigned routine
returns)"; the assignment "becomes empty again once the core transitions to
Busy (it copies the assignment itself)". -/
def ApSelfTransition (s : MP_SYSTEM_DATA) : ApEvent → MP_SYSTEM_DATA
  | ApEvent.Begin Number =>
    if Number < s.NumberOfProcessors
        ∧ TestCpuStatusFlag (s.Cpu Number) PROCESSOR_AS_BSP_BIT = false
        ∧ GetApState (s.Cpu Number) = CpuStateReady then
      s.SetCpu Number (SetApProcedure (SetApState (s.Cpu Number) CpuStateBuzy) 0 0)
    else s
  | ApEvent.Return Number =>
    if Number < s.NumberOfProcessors
        ∧ TestCpuStatusFlag (s.Cpu Number) PROCESSOR_AS_BSP_BIT = false
        ∧ GetApState (s.Cpu Number) = CpuStateBuzy then
      s.SetCpu Number (SetApState (s.Cpu Number) CpuStateFinished)
    else s

/-- The application processors run the events of one stall, in order. -/
def RunAps (s : MP_SYSTEM_DATA) (Events : List ApEvent) : MP_SYSTEM_DATA :=
  Events.foldl ApSelfTransition s

/-! ## Harvesting (lines 213-339) -/

/-- The loop of `GetNextBlockedNumber`: `some Number` for
`*NextNumber = Number; return EFI_SUCCESS`, `none` for `EFI_NOT_FOUND`. -/
def GetNextBlockedNumberLoop (s : MP_SYSTEM_DATA) : List Nat → Option Nat
  | [] => none
  | Number :: rest =>
    if TestCpuStatusFlag (s.Cpu Number) PROCESSOR_AS_BSP_BIT then
      GetNextBlockedNumberLoop s rest
    else if GetApState (s.Cpu Number) = CpuStateBlocked then some Number
    else GetNextBlockedNumberLoop s rest

/-- The function `GetNextBlockedNumber`. -/
def GetNextBlockedNumber (s : MP_SYSTEM_DATA) : Option Nat :=
  GetNextBlockedNumberLoop s (List.range s.NumberOfProcessors)

/-- The body of the loop of `CheckAndUpdateAllAPsToIdleState` at
`ProcessorNumber`. -/
def CheckAndUpdateBody (s : MP_SYSTEM_DATA) (ProcessorNumber : Nat) : MP_SYSTEM_DATA :=
  if TestCpuStatusFlag (s.Cpu ProcessorNumber) PROCESSOR_AS_BSP_BIT then s
  else if !TestCpuStatusFlag (s.Cpu ProcessorNumber) PROCESSOR_ENABLED_BIT then s
  else if GetApState (s.Cpu ProcessorNumber) = CpuStateFinished then
    let s1 := { s with FinishCount := s.FinishCount + 1 }
    let s2 :=
      if s1.SingleThread then
        match GetNextBlockedNumber s1 with
        | some NextNumber =>
          let s3 := s1.SetCpu NextNumber (SetApState (s1.Cpu NextNumber) CpuStateReady)
          s3.SetCpu NextNumber
            (SetApProcedure (s3.Cpu NextNumber) s3.Procedure s3.ProcedureArgument)
        | none => s1
      else s1
    s2.SetCpu ProcessorNumber (SetApState (s2.Cpu ProcessorNumber) CpuStateIdle)
  else s

/-- The function `CheckAndUpdateAllAPsToIdleState`. -/
def CheckAndUpdateAllAPsToIdleState (s : MP_SYSTEM_DATA) : MP_SYSTEM_DATA :=
  (List.range s.NumberOfProcessors).foldl CheckAndUpdateBody s

/-- The read `*p` of a caller object; an address never written reads as `d`. -/
def MemRead {α : Type} (Mem : List (Nat × α)) (p : Nat) (d : α) : α :=
  (Mem.lookup p).getD d

/-- The store `*p = v` to a caller object. -/
def MemWrite {α : Type} (Mem : List (Nat × α)) (p : Nat) (v : α) : List (Nat × α) :=
  (p, v) :: Mem.filter (fun e => e.1 != p)

/-- The store `(*mMpSystemData.FailedList)[Index] = Value`. -/
def FailedListStore (W : MpWorld) (Index Value : Nat) : MpWorld :=
  match MemRead W.FailedCpuListMem W.mMpSystemData.FailedList none with
  | some Buffer =>
    { W with FailedCpuListMem :=
        MemWrite W.FailedCpuListMem W.mMpSystemData.FailedList (some (Buffer.set Index Value)) }
  | none => W

/-- The body of the loop of `ResetAllFailedAPs` at `Number`. -/
def ResetAllFailedBody (W : MpWorld) (Number : Nat) : MpWorld :=
  let s := W.mMpSystemData
  if TestCpuStatusFlag (s.Cpu Number) PROCESSOR_AS_BSP_BIT then W
  else if !TestCpuStatusFlag (s.Cpu Number) PROCESSOR_ENABLED_BIT then W
  else if GetApState (s.Cpu Number) ≠ CpuStateIdle then
    let W1 :=
      if s.FailedList ≠ 0 then
        { FailedListStore W s.FailedListIndex Number with
          mMpSystemData := { s with FailedListIndex := s.FailedListIndex + 1 } }
      else W
    { W1 with mMpSystemData :=
        W1.mMpSystemData.SetCpu Number (ResetProcessorToIdleState (W1.mMpSystemData.Cpu Number)) }
  else W

/-- The number of `UINTN` entries `ResetAllFailedAPs` asks `AllocatePool` for:
`StartCount - FinishCount + 1` in `w`-bit unsigned arithmetic. -/
def FailedListEntries (w : Nat) (s : MP_SYSTEM_DATA) : Nat :=
  Int.toNat (((s.StartCount : Int) - (s.FinishCount : Int) + 1) % 2 ^ w)

/-- The function `ResetAllFailedAPs`. The pool buffer is a list of
`FailedListEntries` words, zero before they are written. -/
def ResetAllFailedAPs (w : Nat) (W : MpWorld) : MpWorld :=
  let W1 :=
    if W.mMpSystemData.FailedList ≠ 0 then
      { W with FailedCpuListMem :=
          (MemWrite W.FailedCpuListMem W.mMpSystemData.FailedList
            (some (List.replicate (FailedListEntries w W.mMpSystemData) 0))) }
    else W
  let W2 := (List.range W1.mMpSystemData.NumberOfProcessors).foldl ResetAllFailedBody W1
  if W2.mMpSystemData.FailedList ≠ 0 then
    FailedListStore W2 W2.mMpSystemData.FailedListIndex END_OF_CPU_LIST
  else W2

/-! ## Broadcast dispatch: `StartupAllAPs` (lines 584-721) -/

/-- The first loop of `StartupAllAPs` (lines 619-638): `false` when it leaves
with `return EFI_NOT_READY`, `true` when it runs to its end. -/
def StartupAllAPsReady (s : MP_SYSTEM_DATA) : List Nat → Bool
  | [] => true
  | Number :: rest =>
    if TestCpuStatusFlag (s.Cpu Number) PROCESSOR_AS_BSP_BIT then StartupAllAPsReady s rest
    else if !TestCpuStatusFlag (s.Cpu Number) PROCESSOR_ENABLED_BIT then
      StartupAllAPsReady s rest
    else if GetApState (s.Cpu Number) ≠ CpuStateIdle then false
    else StartupAllAPsReady s rest

/-- The assignments of lines 640-649 of `StartupAllAPs`. -/
def StartupAllAPsInit (w : Nat) (s : MP_SYSTEM_DATA) (Procedure : Nat) (SingleThread : Bool)
    (WaitEvent TimeoutInMicroseconds ProcedureArgument FailedCpuList : Nat) : MP_SYSTEM_DATA :=
  { s with
    Procedure := Procedure
    ProcedureArgument := ProcedureArgument
    WaitEvent := WaitEvent
    Timeout := ToINTN w TimeoutInMicroseconds
    TimeoutActive := decide (TimeoutInMicroseconds ≠ 0)
    FinishCount := 0
    StartCount := 0
    SingleThread := SingleThread
    FailedList := FailedCpuList
    FailedListIndex := 0 }

/-- The body of the second loop of `StartupAllAPs` (lines 652-687) at
`Number`; the second component is the local variable `APInitialState`. -/
def StartupAllAPsBody (Procedure ProcedureArgument : Nat) (SingleThread : Bool)
    (acc : MP_SYSTEM_DATA × CPU_STATE) (Number : Nat) : MP_SYSTEM_DATA × CPU_STATE :=
  let s := acc.1
  let APInitialState := acc.2
  if TestCpuStatusFlag (s.Cpu Number) PROCESSOR_AS_BSP_BIT then acc
  else if !TestCpuStatusFlag (s.Cpu Number) PROCESSOR_ENABLED_BIT then acc
  else if GetApState (s.Cpu Number) = CpuStateIdle then
    let s1 := { s with StartCount := s.StartCount + 1 }
    let s2 := s1.SetCpu Number (SetApState (s1.Cpu Number) APInitialState)
    let s3 :=
      if APInitialState = CpuStateReady then
        s2.SetCpu Number (SetApProcedure (s2.Cpu Number) Procedure ProcedureArgument)
      else s2
    (s3, if SingleThread then CpuStateBlocked else APInitialState)
  else acc

/-- Lines 640-687 of `StartupAllAPs`: the session is initialised and the
enabled application processors are dispatched; no harvesting pass has run. -/
def StartupAllAPsDispatch (w : Nat) (s : MP_SYSTEM_DATA) (Procedure : Nat) (SingleThread : Bool)
    (WaitEvent TimeoutInMicroseconds ProcedureArgument FailedCpuList : Nat) : MP_SYSTEM_DATA :=
  ((List.range s.NumberOfProcessors).foldl
    (StartupAllAPsBody Procedure ProcedureArgument SingleThread)
    (StartupAllAPsInit w s Procedure SingleThread WaitEvent TimeoutInMicroseconds
      ProcedureArgument FailedCpuList, CpuStateReady)).1

/-- One turn of the `while (TRUE)` loop of `StartupAllAPs` up to the stall
(lines 699-712): the status and state it leaves the loop with, or the state
in which it stalls. -/
def StartupAllAPsPass (w : Nat) (W : MpWorld) : (EFI_STATUS × MpWorld) ⊕ MpWorld :=
  let W1 := { W with mMpSystemData := CheckAndUpdateAllAPsToIdleState W.mMpSystemData }
  if W1.mMpSystemData.FinishCount = W1.mMpSystemData.StartCount then
    Sum.inl (EFI_SUCCESS, W1)
  else if W1.mMpSystemData.TimeoutActive && decide (W1.mMpSystemData.Timeout < 0) then
    Sum.inl (EFI_TIMEOUT, ResetAllFailedAPs w W1)
  else Sum.inr W1

/-- Lines 714-715 of `StartupAllAPs`: `gBS->Stall (gPollInterval)`, during
which the application processors run `Events`, then
`mMpSystemData.Timeout -= gPollInterval`. -/
def StartupAllAPsStall (w : Nat) (W : MpWorld) (Events : List ApEvent) : MpWorld :=
  let s := RunAps W.mMpSystemData Events
  { W with mMpSystemData := { s with Timeout := ToINTN w (s.Timeout - gPollInterval) } }

/-- The `while (TRUE)` loop of `StartupAllAPs` (lines 698-716). -/
def StartupAllAPsWait (w : Nat) : List (List ApEvent) → MpWorld → Option (EFI_STATUS × MpWorld)
  | [], W =>
    match StartupAllAPsPass w W with
    | Sum.inl r => some r
    | Sum.inr _ => none
  | Events :: rest, W =>
    match StartupAllAPsPass w W with
    | Sum.inl r => some r
    | Sum.inr W1 => StartupAllAPsWait w rest (StartupAllAPsStall w W1 Events)

/-- The function `StartupAllAPs`, called by the processor whose APIC id is
`ApicId`.  `gBS->SetTimer` on the event created by `InitMpSystemData` returns
`EFI_SUCCESS`. -/
def StartupAllAPs (w : Nat) (ApicId : Nat) (Procedure : Nat) (SingleThread : Bool)
    (WaitEvent TimeoutInMicroseconds ProcedureArgument FailedCpuList : Nat)
    (Schedule : List (List ApEvent)) (W : MpWorld) : Option (EFI_STATUS × MpWorld) :=
  let W0 :=
    if FailedCpuList ≠ 0 then
      { W with FailedCpuListMem := MemWrite W.FailedCpuListMem FailedCpuList none }
    else W
  if !IsBSP W0.mMpSystemData ApicId then some (EFI_DEVICE_ERROR, W0)
  else if W0.mMpSystemData.NumberOfProcessors = 1 then some (EFI_NOT_STARTED, W0)
  else if Procedure = 0 then some (EFI_INVALID_PARAMETER, W0)
  else if !StartupAllAPsReady W0.mMpSystemData
      (List.range W0.mMpSystemData.NumberOfProcessors) then some (EFI_NOT_READY, W0)
  else
    let W1 :=
      { W0 with mMpSystemData :=
          (StartupAllAPsDispatch w W0.mMpSystemData Procedure SingleThread WaitEvent
            TimeoutInMicroseconds ProcedureArgument FailedCpuList) }
    if WaitEvent ≠ 0 then
      some (EFI_SUCCESS,
        { W1 with PeriodicTimers := W1.mMpSystemData.CheckAllAPsEvent :: W1.PeriodicTimers })
    else StartupAllAPsWait w Schedule W1

/-! ## Single-target dispatch: `StartupThisAP` (lines 809-892) -/

/-- Lines 852-859 of `StartupThisAP`: the target is made ready and given its
assignment, deadline and completion sink. -/
def StartupThisAPDispatch (w : Nat) (s : MP_SYSTEM_DATA) (Procedure ProcessorNumber : Nat)
    (WaitEvent TimeoutInMicroseconds ProcedureArgument Finished : Nat) : MP_SYSTEM_DATA :=
  let s1 := s.SetCpu ProcessorNumber (SetApState (s.Cpu ProcessorNumber) CpuStateReady)
  let s2 := s1.SetCpu ProcessorNumber
    (SetApProcedure (s1.Cpu ProcessorNumber) Procedure ProcedureArgument)
  let CpuData := s2.Cpu ProcessorNumber
  s2.SetCpu ProcessorNumber
    { CpuData with
      Timeout := ToINTN w TimeoutInMicroseconds
      WaitEvent := WaitEvent
      TimeoutActive := decide (TimeoutInMicroseconds ≠ 0)
      Finished := Finished }

/-- One turn of the `while (TRUE)` loop of `StartupThisAP` up to the stall
(lines 877-885). -/
def StartupThisAPPass (ProcessorNumber : Nat) (W : MpWorld) :
    (EFI_STATUS × MpWorld) ⊕ MpWorld :=
  let s := W.mMpSystemData
  if GetApState (s.Cpu ProcessorNumber) = CpuStateFinished then
    Sum.inl (EFI_SUCCESS,
      { W with mMpSystemData :=
          s.SetCpu ProcessorNumber (SetApState (s.Cpu ProcessorNumber) CpuStateIdle) })
  else if (s.Cpu ProcessorNumber).TimeoutActive
      && decide ((s.Cpu ProcessorNumber).Timeout < 0) then
    Sum.inl (EFI_TIMEOUT,
      { W with mMpSystemData :=
          s.SetCpu ProcessorNumber (ResetProcessorToIdleState (s.Cpu ProcessorNumber)) })
  else Sum.inr W

/-- Lines 887-888 of `StartupThisAP`: `gBS->Stall (gPollInterval)`, during
which the application processors run `Events`, then
`CpuData->Timeout -= gPollInterval`. -/
def StartupThisAPStall (w : Nat) (ProcessorNumber : Nat) (W : MpWorld)
    (Events : List ApEvent) : MpWorld :=
  let s := RunAps W.mMpSystemData Events
  let CpuData := s.Cpu ProcessorNumber
  { W with mMpSystemData :=
      (s.SetCpu ProcessorNumber
        { CpuData with Timeout := ToINTN w (CpuData.Timeout - gPollInterval) }) }

/-- The `while (TRUE)` loop of `StartupThisAP` (lines 876-889). -/
def StartupThisAPWait (w : Nat) (ProcessorNumber : Nat) :
    List (List ApEvent) → MpWorld → Option (EFI_STATUS × MpWorld)
  | [], W =>
    match StartupThisAPPass ProcessorNumber W with
    | Sum.inl r => some r
    | Sum.inr _ => none
  | Events :: rest, W =>
    match StartupThisAPPass ProcessorNumber W with
    | Sum.inl r => some r
    | Sum.inr W1 =>
      StartupThisAPWait w ProcessorNumber rest (StartupThisAPStall w ProcessorNumber W1 Events)

/-- The function `StartupThisAP`, called by the processor whose APIC id is
`ApicId`. -/
def StartupThisAP (w : Nat) (ApicId : Nat) (Procedure ProcessorNumber : Nat)
    (WaitEvent TimeoutInMicroseconds ProcedureArgument Finished : Nat)
    (Schedule : List (List ApEvent)) (W : MpWorld) : Option (EFI_STATUS × MpWorld) :=
  let W0 :=
    if Finished ≠ 0 then { W with FinishedMem := MemWrite W.FinishedMem Finished false }
    else W
  if !IsBSP W0.mMpSystemData ApicId then some (EFI_DEVICE_ERROR, W0)
  else if Procedure = 0 then some (EFI_INVALID_PARAMETER, W0)
  else if ProcessorNumber ≥ W0.mMpSystemData.NumberOfProcessors then some (EFI_NOT_FOUND, W0)
  else if TestCpuStatusFlag (W0.mMpSystemData.Cpu ProcessorNumber) PROCESSOR_AS_BSP_BIT
      || !TestCpuStatusFlag (W0.mMpSystemData.Cpu ProcessorNumber) PROCESSOR_ENABLED_BIT then
    some (EFI_INVALID_PARAMETER, W0)
  else if GetApState (W0.mMpSystemData.Cpu ProcessorNumber) ≠ CpuStateIdle then
    some (EFI_NOT_READY, W0)
  else
    let W1 :=
      { W0 with mMpSystemData :=
          (StartupThisAPDispatch w W0.mMpSystemData Procedure ProcessorNumber WaitEvent
            TimeoutInMicroseconds ProcedureArgument Finished) }
    if WaitEvent ≠ 0 then
      some (EFI_SUCCESS,
        { W1 with PeriodicTimers :=
            (W1.mMpSystemData.Cpu ProcessorNumber).CheckThisAPEvent :: W1.PeriodicTimers })
    else StartupThisAPWait w ProcessorNumber Schedule W1

/-! ## Vocabulary of the statements -/

/-- The record is an enabled application processor: `PROCESSOR_AS_BSP_BIT` is
clear and `PROCESSOR_ENABLED_BIT` is set. -/
def IsEnabledAP (CpuData : CPU_DATA_BLOCK) : Bool :=
  !TestCpuStatusFlag CpuData PROCESSOR_AS_BSP_BIT
    && TestCpuStatusFlag CpuData PROCESSOR_ENABLED_BIT

/-- The record is an enabled application processor in state idle: what the
second loop of `StartupAllAPs` dispatches. -/
def IsIdleEnabledAP (CpuData : CPU_DATA_BLOCK) : Bool :=
  IsEnabledAP CpuData && decide (GetApState CpuData = CpuStateIdle)

/-- The handle numbers of the enabled application processors, ascending. -/
def EnabledAPs (s : MP_SYSTEM_DATA) : List Nat :=
  (List.range s.NumberOfProcessors).filter (fun i => IsEnabledAP (s.Cpu i))

/-- The state polled by turn `j + 1` of the `while (TRUE)` loop of
`StartupThisAP` when the turns before it stalled: the state after the first
`j` stalls of the schedule. -/
def StartupThisAPPolled (w : Nat) (ProcessorNumber : Nat) :
    List (List ApEvent) → Nat → MpWorld → MpWorld
  | _, 0, W => W
  | [], _ + 1, W => W
  | Events :: rest, j + 1, W =>
    StartupThisAPPolled w ProcessorNumber rest j (StartupThisAPStall w ProcessorNumber W Events)

/-- The session dispatched in `s0` is under way in `s` and no procedure has
returned: the session fields other than `Timeout` and the flags of the records
are those of `s0`, and every enabled application processor is neither idle nor
finished. -/
def SessionStuck (s0 s : MP_SYSTEM_DATA) : Prop :=
  { s with CpuDatas := s0.CpuDatas, Timeout := s0.Timeout } = s0
  ∧ s.CpuDatas.length = s0.CpuDatas.length
  ∧ (∀ i, (s.Cpu i).Info = (s0.Cpu i).Info)
  ∧ (∀ i, i < s0.NumberOfProcessors → IsEnabledAP (s0.Cpu i) = true →
      GetApState (s.Cpu i) ≠ CpuStateIdle ∧ GetApState (s.Cpu i) ≠ CpuStateFinished)

/-- The record is executing or about to execute a procedure: it is in state
busy, or in state ready with a procedure installed. -/
def IsRunning (CpuData : CPU_DATA_BLOCK) : Prop :=
  GetApState CpuData = CpuStateBuzy
    ∨ (GetApState CpuData = CpuStateReady ∧ CpuData.Procedure ≠ 0)

/-- The application processors made ready by a step from `t` to `t'`: the
handle numbers, ascending, of the records without `PROCESSOR_AS_BSP_BIT` that
are in state ready in `t'` and were not in `t`. -/
def MadeReady (t t' : MP_SYSTEM_DATA) : List Nat :=
  (List.range t.NumberOfProcessors).filter (fun i =>
    !TestCpuStatusFlag (t.Cpu i) PROCESSOR_AS_BSP_BIT
      && decide (GetApState (t.Cpu i) ≠ CpuStateReady)
      && decide (GetApState (t'.Cpu i) = CpuStateReady))

/-- The states reached after the single-thread dispatch of `StartupAllAPs` on
the registry `s` (lines 640-687 with `SingleThread = TRUE`) by harvesting
passes, self-transitions of the application processors and decrements of the
budget, in any order, each with the list of the application processors made
ready so far, in the order in which they were made ready. -/
inductive SingleThreadRun (w : Nat) (s : MP_SYSTEM_DATA)
    (Procedure WaitEvent TimeoutInMicroseconds ProcedureArgument FailedCpuList : Nat) :
    MP_SYSTEM_DATA → List Nat → Prop
  | dispatch :
    SingleThreadRun w s Procedure WaitEvent TimeoutInMicroseconds ProcedureArgument FailedCpuList
      (StartupAllAPsDispatch w s Procedure true WaitEvent TimeoutInMicroseconds
        ProcedureArgument FailedCpuList)
      (MadeReady s (StartupAllAPsDispatch w s Procedure true WaitEvent TimeoutInMicroseconds
        ProcedureArgument FailedCpuList))
  | harvest (t : MP_SYSTEM_DATA) (Log : List Nat) :
    SingleThreadRun w s Procedure WaitEvent TimeoutInMicroseconds ProcedureArgument FailedCpuList
      t Log →
    SingleThreadRun w s Procedure WaitEvent TimeoutInMicroseconds ProcedureArgument FailedCpuList
      (CheckAndUpdateAllAPsToIdleState t)
      (Log ++ MadeReady t (CheckAndUpdateAllAPsToIdleState t))
  | selfTransition (t : MP_SYSTEM_DATA) (Log : List Nat) (e : ApEvent) :
    SingleThreadRun w s Procedure WaitEvent TimeoutInMicroseconds ProcedureArgument FailedCpuList
      t Log →
    SingleThreadRun w s Procedure WaitEvent TimeoutInMicroseconds ProcedureArgument FailedCpuList
      (ApSelfTransition t e) (Log ++ MadeReady t (ApSelfTransition t e))
  | tick (t : MP_SYSTEM_DATA) (Log : List Nat) :
    SingleThreadRun w s Procedure WaitEvent TimeoutInMicroseconds ProcedureArgument FailedCpuList
      t Log →
    SingleThreadRun w s Procedure WaitEvent TimeoutInMicroseconds ProcedureArgument FailedCpuList
      { t with Timeout := ToINTN w (t.Timeout - gPollInterval) } Log

/-- The shape of a single-thread session on the registry `s` whose current
processor is `c`: the flags are those of `s`; the application processors that
are not enabled are idle; the enabled ones below `c` are idle (they are done),
those above `c` are blocked (they wait), `c` itself is not blocked, and if it
is idle no enabled application processor comes after it. -/
def ChainInv (s t : MP_SYSTEM_DATA) (c : Nat) : Prop :=
  t.NumberOfProcessors = s.NumberOfProcessors
  ∧ t.SingleThread = true
  ∧ t.CpuDatas.length = s.CpuDatas.length
  ∧ (∀ i, (t.Cpu i).Info = (s.Cpu i).Info)
  ∧ (∀ i, i < s.NumberOfProcessors →
      TestCpuStatusFlag (s.Cpu i) PROCESSOR_AS_BSP_BIT = false → i ∉ EnabledAPs s →
      GetApState (t.Cpu i) = CpuStateIdle)
  ∧ (∀ i, i ∈ EnabledAPs s → i < c → GetApState (t.Cpu i) = CpuStateIdle)
  ∧ (∀ i, i ∈ EnabledAPs s → c < i → GetApState (t.Cpu i) = CpuStateBlocked)
  ∧ (c ∈ EnabledAPs s → GetApState (t.Cpu c) ≠ CpuStateBlocked)
  ∧ (c ∈ EnabledAPs s → GetApState (t.Cpu c) = CpuStateIdle → ∀ i, i ∈ EnabledAPs s → i ≤ c)
  ∧ (EnabledAPs s ≠ [] → c ∈ EnabledAPs s)

/-! ## Core counts: `GetNumberOfProcessors` (lines 377-396) -/

/-- The function `GetNumberOfProcessors`, called by the processor whose APIC
id is `ApicId`; `NumberOfProcessors` and `NumberOfEnabledProcessors` are the
two output pointers, and the second component of the result is what is stored
through them. -/
def GetNumberOfProcessors (s : MP_SYSTEM_DATA) (ApicId : Nat)
    (NumberOfProcessors NumberOfEnabledProcessors : Nat) : EFI_STATUS × Option (Nat × Nat) :=
  if NumberOfProcessors = 0 ∨ NumberOfEnabledProcessors = 0 then (EFI_INVALID_PARAMETER, none)
  else if !IsBSP s ApicId then (EFI_DEVICE_ERROR, none)
  else (EFI_SUCCESS, some (s.NumberOfProcessors, s.NumberOfEnabledProcessors))

/-! ## Enable and disable: `EnableDisableAP` (lines 935-981) -/

/-- The function `EnableDisableAP`, called by the processor whose APIC id is
`ApicId`.  `HealthFlag` is `none` for a null pointer and `some v` for a pointer
to the value `v`.  `NumberOfEnabledProcessors` is a `UINTN` of `w` bits.
`(UINT32)~PROCESSOR_HEALTH_STATUS_BIT` is `0xffffffff ^^^ 4`. -/
def EnableDisableAP (w : Nat) (ApicId ProcessorNumber : Nat) (EnableAP : Bool)
    (HealthFlag : Option Nat) (s : MP_SYSTEM_DATA) : EFI_STATUS × MP_SYSTEM_DATA :=
  if !IsBSP s ApicId then (EFI_DEVICE_ERROR, s)
  else if ProcessorNumber ≥ s.NumberOfProcessors then (EFI_NOT_FOUND, s)
  else if TestCpuStatusFlag (s.Cpu ProcessorNumber) PROCESSOR_AS_BSP_BIT then
    (EFI_INVALID_PARAMETER, s)
  else if GetApState (s.Cpu ProcessorNumber) ≠ CpuStateIdle then (EFI_UNSUPPORTED, s)
  else
    let s1 :=
      if EnableAP then
        let s0 :=
          if !TestCpuStatusFlag (s.Cpu ProcessorNumber) PROCESSOR_ENABLED_BIT then
            { s with NumberOfEnabledProcessors := (s.NumberOfEnabledProcessors + 1) % 2 ^ w }
          else s
        s0.SetCpu ProcessorNumber (CpuStatusFlagOr (s0.Cpu ProcessorNumber) PROCESSOR_ENABLED_BIT)
      else
        let s0 :=
          if TestCpuStatusFlag (s.Cpu ProcessorNumber) PROCESSOR_ENABLED_BIT then
            { s with
              NumberOfEnabledProcessors := (s.NumberOfEnabledProcessors + 2 ^ w - 1) % 2 ^ w }
          else s
        s0.SetCpu ProcessorNumber
          (CpuStatusFlagAndNot (s0.Cpu ProcessorNumber) PROCESSOR_ENABLED_BIT)
    let s2 :=
      match HealthFlag with
      | some v =>
        let s3 := s1.SetCpu ProcessorNumber
          (CpuStatusFlagAndNot (s1.Cpu ProcessorNumber)
            (0xffffffff ^^^ PROCESSOR_HEALTH_STATUS_BIT))
        s3.SetCpu ProcessorNumber
          (CpuStatusFlagOr (s3.Cpu ProcessorNumber) (v &&& PROCESSOR_HEALTH_STATUS_BIT))
      | none => s1
    (EFI_SUCCESS, s2)

/-! ## Supervision callback of `StartupAllAPs`: `CheckAllAPsStatus` (lines 1134-1172) -/

/-- The function `CheckAllAPsStatus`, the notification of the periodic timer
on `CheckAllAPsEvent`.  `gBS->SetTimer (.., TimerCancel, 0)` removes the event
from the periodic timers, `gBS->SignalEvent` records the event. -/
def CheckAllAPsStatus (w : Nat) (W : MpWorld) : MpWorld :=
  let s0 := W.mMpSystemData
  let s1 :=
    if s0.TimeoutActive then { s0 with Timeout := ToINTN w (s0.Timeout - gPollInterval) }
    else s0
  let W2 : MpWorld := { W with mMpSystemData := CheckAndUpdateAllAPsToIdleState s1 }
  let W3 : MpWorld :=
    if W2.mMpSystemData.TimeoutActive && decide (W2.mMpSystemData.Timeout < 0) then
      let W5 := ResetAllFailedAPs w W2
      { W5 with mMpSystemData :=
          { W5.mMpSystemData with FinishCount := W5.mMpSystemData.StartCount } }
    else W2
  if W3.mMpSystemData.FinishCount ≠ W3.mMpSystemData.StartCount then W3
  else
    let W4 : MpWorld :=
      { W3 with PeriodicTimers :=
          W3.PeriodicTimers.filter (fun e => e != W3.mMpSystemData.CheckAllAPsEvent) }
    if W4.mMpSystemData.WaitEvent ≠ 0 then
      { W4 with
        SignaledEvents := W4.mMpSystemData.WaitEvent :: W4.SignaledEvents
        mMpSystemData := { W4.mMpSystemData with WaitEvent := 0 } }
    else W4

/-! ## Bring-up: registration of the processors (lines 1178-1286) -/

/-- The function `FillInProcessorInformation` run by the processor whose
`GetApicId ()` is `ApicId`. -/
def FillInProcessorInformation (s : MP_SYSTEM_DATA) (ApicId : Nat) (Bsp : Bool)
    (ProcessorNumber : Nat) : MP_SYSTEM_DATA :=
  let CpuData := s.Cpu ProcessorNumber
  let StatusFlag := PROCESSOR_ENABLED_BIT ||| PROCESSOR_HEALTH_STATUS_BIT
  s.SetCpu ProcessorNumber
    { CpuData with
      Info := { ProcessorId := ApicId,
                StatusFlag := if Bsp then StatusFlag ||| PROCESSOR_AS_BSP_BIT else StatusFlag,
                Location := { Package := ApicId, Core := 0, Thread := 0 } }
      State := if Bsp then CpuStateBuzy else CpuStateIdle
      Procedure := 0
      Parameter := 0 }

/-- The handle of the `k`-th event made by `gBS->CreateEvent`: the handles are
not null and pairwise distinct. -/
def EventHandle (k : Nat) : Nat := k + 1

/-- The loop of `InitMpSystemData` that creates `CheckThisAPEvent` for the
record at `ProcessorNumber`. -/
def InitMpSystemDataBody (s : MP_SYSTEM_DATA) (ProcessorNumber : Nat) : MP_SYSTEM_DATA :=
  let CpuData := s.Cpu ProcessorNumber
  s.SetCpu ProcessorNumber { CpuData with CheckThisAPEvent := EventHandle (ProcessorNumber + 1) }

/-- The function `InitMpSystemData` run by the BSP, whose `GetApicId ()` is
`ApicId`, with `gMaxLogicalProcessorNumber` records allocated. -/
def InitMpSystemData (gMaxLogicalProcessorNumber ApicId : Nat) : MP_SYSTEM_DATA :=
  let s0 : MP_SYSTEM_DATA :=
    { CpuDatas := List.replicate gMaxLogicalProcessorNumber ZeroCpuData,
      NumberOfProcessors := 1, NumberOfEnabledProcessors := 1,
      Procedure := 0, ProcedureArgument := 0, StartCount := 0, FinishCount := 0,
      SingleThread := false, FailedList := 0, FailedListIndex := 0, Timeout := 0,
      TimeoutActive := false, WaitEvent := 0, CheckAllAPsEvent := EventHandle 0 }
  let s1 := (List.range gMaxLogicalProcessorNumber).foldl InitMpSystemDataBody s0
  FillInProcessorInformation s1 ApicId true 0

/-- The function `ApEntryPointInC` run by an application processor whose
`GetApicId ()` is `ApicId`, as far as `mMpSystemData` goes (the hand-over of
the stack is not part of the registry). -/
def ApEntryPointInC (s : MP_SYSTEM_DATA) (ApicId : Nat) : MP_SYSTEM_DATA :=
  let s1 := FillInProcessorInformation s ApicId false s.NumberOfProcessors
  { s1 with NumberOfProcessors := s1.NumberOfProcessors + 1 }

/-- The registry after the bring-up of the BSP and of the application
processors whose APIC ids are `ApIds`, in this order. -/
def BringUp (gMaxLogicalProcessorNumber BspId : Nat) (ApIds : List Nat) : MP_SYSTEM_DATA :=
  ApIds.foldl ApEntryPointInC (InitMpSystemData gMaxLogicalProcessorNumber BspId)

/-! ## Vocabulary of the statements: counts and sessions -/

/-- The number of enabled application processors that are not idle. -/
def ActiveCount (s : MP_SYSTEM_DATA) : Nat :=
  (List.range s.NumberOfProcessors).countP
    (fun i => IsEnabledAP (s.Cpu i) && decide (GetApState (s.Cpu i) ≠ CpuStateIdle))

/-- The number of registered records whose `PROCESSOR_ENABLED_BIT` is set. -/
def EnabledFlagCount (s : MP_SYSTEM_DATA) : Nat :=
  (List.range s.NumberOfProcessors).countP
    (fun i => TestCpuStatusFlag (s.Cpu i) PROCESSOR_ENABLED_BIT)

/-- The number of registered records without `PROCESSOR_AS_BSP_BIT` whose
`PROCESSOR_ENABLED_BIT` is set. -/
def EnabledAPCount (s : MP_SYSTEM_DATA) : Nat :=
  (List.range s.NumberOfProcessors).countP (fun i => IsEnabledAP (s.Cpu i))

/-- The session accounts for every enabled application processor that is not
idle: `FinishCount` plus their number is `StartCount`. -/
def Balanced (s : MP_SYSTEM_DATA) : Prop :=
  s.FinishCount + ActiveCount s = s.StartCount

/-! ## Supervision callback of `StartupThisAP`: `CheckThisAPStatus` (lines 1080-1122) -/

/-- The code of `CheckThisAPStatus` after the label `out`, for the record at
`Number`: the periodic timer on `CheckThisAPEvent` is cancelled, and
`WaitEvent`, when not null, is signalled and set to `NULL`. -/
def CheckThisAPStatusOut (Number : Nat) (W : MpWorld) : MpWorld :=
  let CpuData := W.mMpSystemData.Cpu Number
  let W1 : MpWorld :=
    { W with PeriodicTimers := W.PeriodicTimers.filter (fun e => e != CpuData.CheckThisAPEvent) }
  if CpuData.WaitEvent ≠ 0 then
    { W1 with
      SignaledEvents := CpuData.WaitEvent :: W1.SignaledEvents
      mMpSystemData := W1.mMpSystemData.SetCpu Number { CpuData with WaitEvent := 0 } }
  else W1

/-- The function `CheckThisAPStatus`, the notification of the periodic timer
on the `CheckThisAPEvent` of the record at `Number` (`Context` is
`&mMpSystemData.CpuDatas[Number]`). -/
def CheckThisAPStatus (w : Nat) (Number : Nat) (W : MpWorld) : MpWorld :=
  let CpuData0 := W.mMpSystemData.Cpu Number
  let CpuData :=
    if CpuData0.TimeoutActive then
      { CpuData0 with Timeout := ToINTN w (CpuData0.Timeout - gPollInterval) }
    else CpuData0
  let W1 : MpWorld := { W with mMpSystemData := W.mMpSystemData.SetCpu Number CpuData }
  let CpuState := GetApState CpuData
  if CpuState = CpuStateFinished then
    let W2 : MpWorld :=
      if CpuData.Finished ≠ 0 then
        { W1 with FinishedMem := MemWrite W1.FinishedMem CpuData.Finished true }
      else W1
    let W3 : MpWorld :=
      { W2 with mMpSystemData :=
          W2.mMpSystemData.SetCpu Number (SetApState (W2.mMpSystemData.Cpu Number) CpuStateIdle) }
    CheckThisAPStatusOut Number W3
  else if CpuData.TimeoutActive && decide (CpuData.Timeout < 0) then
    let W2 : MpWorld :=
      if CpuState ≠ CpuStateIdle ∧ CpuData.Finished ≠ 0 then
        { W1 with FinishedMem := MemWrite W1.FinishedMem CpuData.Finished false }
      else W1
    let W3 : MpWorld :=
      { W2 with mMpSystemData :=
          (W2.mMpSystemData.SetCpu Number
            (ResetProcessorToIdleState (W2.mMpSystemData.Cpu Number))) }
    CheckThisAPStatusOut Number W3
  else W1

/-! ## Stacks of the application processors (lines 1178-1197, 1292-1333) -/

/-- The globals `gMaxLogicalProcessorNumber`, `gApStackSize`, `mCommonStack`,
`mTopOfApCommonStack` and `mApStackStart`, with what the page allocator and
`SwitchStack` were asked for: the calls of `AllocatePages` (address returned,
pages), the calls of `FreePages` (address, pages) and the `TopOfApStack`
passed to `SwitchStack`, each list most recent first. -/
structure MP_STACKS where
  gMaxLogicalProcessorNumber : Nat
  gApStackSize : Nat
  mCommonStack : Nat
  mTopOfApCommonStack : Nat
  mApStackStart : Nat
  AllocatePagesCalls : List (Nat × Nat)
  FreePagesCalls : List (Nat × Nat)
  SwitchStackCalls : List Nat
  deriving DecidableEq, Repr

/-- The global `mMpSystemData` before `InitMpSystemData`: static storage, all
zero, no table. -/
def ZeroMpSystemData : MP_SYSTEM_DATA :=
  { CpuDatas := [], NumberOfProcessors := 0, NumberOfEnabledProcessors := 0,
    Procedure := 0, ProcedureArgument := 0, StartCount := 0, FinishCount := 0,
    SingleThread := false, FailedList := 0, FailedListIndex := 0, Timeout := 0,
    TimeoutActive := false, WaitEvent := 0, CheckAllAPsEvent := 0 }

/-- The function `ApEntryPointInC` as far as the stacks go: the application
processor takes the stack that ends at `mApStackStart + gApStackSize`
(pointer arithmetic of `w` bits) and moves `mApStackStart` there. -/
def ApEntryPointInCStack (w : Nat) (k : MP_STACKS) : MP_STACKS :=
  let TopOfApStack := (k.mApStackStart + k.gApStackSize) % 2 ^ w
  { k with mApStackStart := TopOfApStack, SwitchStackCalls := TopOfApStack :: k.SwitchStackCalls }

/-- The function `InitializeMpSupport`.  The macro `EFI_SIZE_TO_PAGES` is not
part of the sources and is a parameter, `PcdCpuMaxLogicalProcessorNumber` and
`PcdCpuApStackSize` are the values of the two PCDs, `AllocatePages` is the
address the page allocator returns.  The application processors whose APIC
ids are `ApIds` run `ApEntryPointInC`, in this order, after `InitMpSystemData`
and before `NumberOfProcessors` is tested (what starts them is not part of the
sources).  Sizes are `UINTN` of `w` bits. -/
def InitializeMpSupport (w : Nat) (EFI_SIZE_TO_PAGES : Nat → Nat)
    (PcdCpuMaxLogicalProcessorNumber PcdCpuApStackSize AllocatePages BspId : Nat)
    (ApIds : List Nat) : MP_SYSTEM_DATA × MP_STACKS :=
  let k0 : MP_STACKS :=
    { gMaxLogicalProcessorNumber := PcdCpuMaxLogicalProcessorNumber, gApStackSize := 0,
      mCommonStack := 0, mTopOfApCommonStack := 0, mApStackStart := 0,
      AllocatePagesCalls := [], FreePagesCalls := [], SwitchStackCalls := [] }
  if k0.gMaxLogicalProcessorNumber < 1 then (ZeroMpSystemData, k0)
  else if k0.gMaxLogicalProcessorNumber = 1 then (ZeroMpSystemData, k0)
  else
    let k1 : MP_STACKS :=
      { k0 with
        gApStackSize := PcdCpuApStackSize
        mApStackStart := AllocatePages
        AllocatePagesCalls :=
          [(AllocatePages,
            EFI_SIZE_TO_PAGES ((k0.gMaxLogicalProcessorNumber * PcdCpuApStackSize) % 2 ^ w))] }
    let k2 : MP_STACKS :=
      { k1 with
        mCommonStack := k1.mApStackStart
        mTopOfApCommonStack := (k1.mApStackStart + k1.gApStackSize) % 2 ^ w
        mApStackStart := (k1.mApStackStart + k1.gApStackSize) % 2 ^ w }
    let r : MP_SYSTEM_DATA × MP_STACKS :=
      ApIds.foldl (fun acc ApicId => (ApEntryPointInC acc.1 ApicId, ApEntryPointInCStack w acc.2))
        (InitMpSystemData k2.gMaxLogicalProcessorNumber BspId, k2)
    let s := r.1
    let k3 := r.2
    if s.NumberOfProcessors = 1 then
      (s, { k3 with FreePagesCalls :=
              ((k3.mCommonStack,
                EFI_SIZE_TO_PAGES ((k3.gMaxLogicalProcessorNumber * k3.gApStackSize) % 2 ^ w))
                :: k3.FreePagesCalls) })
    else if s.NumberOfProcessors < k3.gMaxLogicalProcessorNumber then
      (s, { k3 with FreePagesCalls :=
              ((k3.mApStackStart,
                EFI_SIZE_TO_PAGES
                  (((k3.gMaxLogicalProcessorNumber - s.NumberOfProcessors) * k3.gApStackSize)
                    % 2 ^ w))
                :: k3.FreePagesCalls) })
    else (s, k3)

/-! ## Vocabulary of the statements: supervision, harvesting, reachable states -/

/-- The size of a page, `SIZE_4KB`. -/
def EFI_PAGE_SIZE : Nat := 4096

/-- The bytes `[a, b)` of the pages of a call `AllocatePages` or `FreePages`,
given as address and number of pages. -/
def PageRegion (Call : Nat × Nat) : Nat × Nat :=
  (Call.1, Call.1 + Call.2 * EFI_PAGE_SIZE)

/-- Modelled from the spec: the timer services behind `gBS->SetTimer` are not
part of the sources.  "invoke callback C after duration D, once or
periodically, cancellable": while the periodic timer on the `CheckThisAPEvent`
of the record at `Number` is set, `CheckThisAPStatus` runs once per period;
during the `j`-th period the application processors run the `j`-th entry of
the schedule.  The result is the number of the notification that cancelled the
timer and the state it left, `none` when the timer is still set after the
schedule. -/
def CheckThisAPRun (w : Nat) (Number : Nat) :
    List (List ApEvent) → MpWorld → Option (Nat × MpWorld)
  | [], _ => none
  | Events :: rest, W =>
    let W1 := CheckThisAPStatus w Number
      { W with mMpSystemData := RunAps W.mMpSystemData Events }
    if (W1.mMpSystemData.Cpu Number).CheckThisAPEvent ∈ W1.PeriodicTimers then
      (CheckThisAPRun w Number rest W1).map (fun r => (r.1 + 1, r.2))
    else some (1, W1)

/-- The states reached from `W0`, the state in which a non-blocking
`StartupThisAP` on the record at `Number` returns, by notifications of the
periodic timer on its `CheckThisAPEvent` (while it is set) and
self-transitions of the application processors, in any order. -/
inductive ThisAPRun (w : Nat) (Number : Nat) (W0 : MpWorld) : MpWorld → Prop
  | start : ThisAPRun w Number W0 W0
  | tick (W : MpWorld) :
    ThisAPRun w Number W0 W →
    (W.mMpSystemData.Cpu Number).CheckThisAPEvent ∈ W.PeriodicTimers →
    ThisAPRun w Number W0 (CheckThisAPStatus w Number W)
  | selfTransition (W : MpWorld) (e : ApEvent) :
    ThisAPRun w Number W0 W →
    ThisAPRun w Number W0 { W with mMpSystemData := ApSelfTransition W.mMpSystemData e }

/-- The states reached from `W0`, the state in which a non-blocking
`StartupAllAPs` returns, by notifications of the periodic timer of
`StartupAllAPs` (while it is set), calls of `StartupThisAP`, notifications of
the periodic timer of a `StartupThisAP` (while it is set), calls of
`EnableDisableAP` and self-transitions of the application processors, in any
order and with any arguments. -/
inductive NonBlockingRun (w : Nat) (W0 : MpWorld) : MpWorld → Prop
  | start : NonBlockingRun w W0 W0
  | tick (W : MpWorld) :
    NonBlockingRun w W0 W →
    W.mMpSystemData.CheckAllAPsEvent ∈ W.PeriodicTimers →
    NonBlockingRun w W0 (CheckAllAPsStatus w W)
  | selfTransition (W : MpWorld) (e : ApEvent) :
    NonBlockingRun w W0 W →
    NonBlockingRun w W0 { W with mMpSystemData := ApSelfTransition W.mMpSystemData e }
  | enableDisable (W : MpWorld) (ApicId ProcessorNumber : Nat) (EnableAP : Bool)
      (HealthFlag : Option Nat) :
    NonBlockingRun w W0 W →
    NonBlockingRun w W0
      { W with mMpSystemData :=
          (EnableDisableAP w ApicId ProcessorNumber EnableAP HealthFlag W.mMpSystemData).2 }
  | startupThisAP (W W' : MpWorld) (Status : EFI_STATUS)
      (ApicId Procedure ProcessorNumber : Nat)
      (WaitEvent TimeoutInMicroseconds ProcedureArgument Finished : Nat)
      (Schedule : List (List ApEvent)) :
    NonBlockingRun w W0 W →
    StartupThisAP w ApicId Procedure ProcessorNumber WaitEvent TimeoutInMicroseconds
      ProcedureArgument Finished Schedule W = some (Status, W') →
    NonBlockingRun w W0 W'
  | checkThisAPStatus (W : MpWorld) (Number : Nat) :
    NonBlockingRun w W0 W →
    (W.mMpSystemData.Cpu Number).CheckThisAPEvent ∈ W.PeriodicTimers →
    NonBlockingRun w W0 (CheckThisAPStatus w Number W)

/-- The record is harvested by a pass of `CheckAndUpdateAllAPsToIdleState`: an
enabled application processor in state finished. -/
def IsHarvestable (CpuData : CPU_DATA_BLOCK) : Bool :=
  IsEnabledAP CpuData && decide (GetApState CpuData = CpuStateFinished)

/-- The number of harvestable records with a handle number below `k`. -/
def HarvestCount (s : MP_SYSTEM_DATA) (k : Nat) : Nat :=
  (List.range k).countP (fun i => IsHarvestable (s.Cpu i))

/-- The record is what `GetNextBlockedNumber` looks for: `PROCESSOR_AS_BSP_BIT`
clear and state blocked. -/
def IsBlockedAP (CpuData : CPU_DATA_BLOCK) : Bool :=
  !TestCpuStatusFlag CpuData PROCESSOR_AS_BSP_BIT
    && decide (GetApState CpuData = CpuStateBlocked)

/-- The number of blocked application processors with a handle number below
`j`: a blocked application processor of rank `r` is the `r + 1`-st lowest. -/
def BlockedRank (s : MP_SYSTEM_DATA) (j : Nat) : Nat :=
  (List.range j).countP (fun i => IsBlockedAP (s.Cpu i))

/-- The record holds an assignment only in state ready or blocked. -/
def AssignmentOk (CpuData : CPU_DATA_BLOCK) : Prop :=
  CpuData.Procedure ≠ 0 →
    GetApState CpuData = CpuStateReady ∨ GetApState CpuData = CpuStateBlocked

/-- The states reached from `InitMpSystemData` on a table of
`gMaxLogicalProcessorNumber` records by registrations of application
processors (while the table has room), calls of the services, notifications of
the two periodic timers, harvesting passes, the timeout handling and
self-transitions of the application processors, in any order and with any
arguments. -/
inductive MpRun (w gMaxLogicalProcessorNumber BspId : Nat) : MpWorld → Prop
  | init :
    MpRun w gMaxLogicalProcessorNumber BspId
      { mMpSystemData := InitMpSystemData gMaxLogicalProcessorNumber BspId,
        FinishedMem := [], FailedCpuListMem := [], PeriodicTimers := [], SignaledEvents := [] }
  | register (W : MpWorld) (ApicId : Nat) :
    MpRun w gMaxLogicalProcessorNumber BspId W →
    W.mMpSystemData.NumberOfProcessors < gMaxLogicalProcessorNumber →
    MpRun w gMaxLogicalProcessorNumber BspId
      { W with mMpSystemData := ApEntryPointInC W.mMpSystemData ApicId }
  | enableDisable (W : MpWorld) (ApicId ProcessorNumber : Nat) (EnableAP : Bool)
      (HealthFlag : Option Nat) :
    MpRun w gMaxLogicalProcessorNumber BspId W →
    MpRun w gMaxLogicalProcessorNumber BspId
      { W with mMpSystemData :=
          (EnableDisableAP w ApicId ProcessorNumber EnableAP HealthFlag W.mMpSystemData).2 }
  | startupAllAPs (W W' : MpWorld) (Status : EFI_STATUS) (ApicId Procedure : Nat)
      (SingleThread : Bool)
      (WaitEvent TimeoutInMicroseconds ProcedureArgument FailedCpuList : Nat)
      (Schedule : List (List ApEvent)) :
    MpRun w gMaxLogicalProcessorNumber BspId W →
    StartupAllAPs w ApicId Procedure SingleThread WaitEvent TimeoutInMicroseconds
      ProcedureArgument FailedCpuList Schedule W = some (Status, W') →
    MpRun w gMaxLogicalProcessorNumber BspId W'
  | startupThisAP (W W' : MpWorld) (Status : EFI_STATUS)
      (ApicId Procedure ProcessorNumber : Nat)
      (WaitEvent TimeoutInMicroseconds ProcedureArgument Finished : Nat)
      (Schedule : List (List ApEvent)) :
    MpRun w gMaxLogicalProcessorNumber BspId W →
    StartupThisAP w ApicId Procedure ProcessorNumber WaitEvent TimeoutInMicroseconds
      ProcedureArgument Finished Schedule W = some (Status, W') →
    MpRun w gMaxLogicalProcessorNumber BspId W'
  | checkAllAPsStatus (W : MpWorld) :
    MpRun w gMaxLogicalProcessorNumber BspId W →
    MpRun w gMaxLogicalProcessorNumber BspId (CheckAllAPsStatus w W)
  | checkThisAPStatus (W : MpWorld) (Number : Nat) :
    MpRun w gMaxLogicalProcessorNumber BspId W →
    MpRun w gMaxLogicalProcessorNumber BspId (CheckThisAPStatus w Number W)
  | harvest (W : MpWorld) :
    MpRun w gMaxLogicalProcessorNumber BspId W →
    MpRun w gMaxLogicalProcessorNumber BspId
      { W with mMpSystemData := CheckAndUpdateAllAPsToIdleState W.mMpSystemData }
  | resetAllFailedAPs (W : MpWorld) :
    MpRun w gMaxLogicalProcessorNumber BspId W →
    MpRun w gMaxLogicalProcessorNumber BspId (ResetAllFailedAPs w W)
  | selfTransition (W : MpWorld) (e : ApEvent) :
    MpRun w gMaxLogicalProcessorNumber BspId W →
    MpRun w gMaxLogicalProcessorNumber BspId
      { W with mMpSystemData := ApSelfTransition W.mMpSystemData e }

/-- The record at `j` after the turns `0, .., k - 1` of the loop of
`CheckAndUpdateAllAPsToIdleState` on the registry `s`: idle when it was
harvested; made ready with the assignment of the session when the session is
single-thread and it is a blocked application processor whose rank is below
the number of records harvested; as in `s` otherwise. -/
def HarvestedRecord (s : MP_SYSTEM_DATA) (k j : Nat) : CPU_DATA_BLOCK :=
  if j < k ∧ IsHarvestable (s.Cpu j) = true then SetApState (s.Cpu j) CpuStateIdle
  else if s.SingleThread = true ∧ j < s.NumberOfProcessors ∧ IsBlockedAP (s.Cpu j) = true
      ∧ BlockedRank s j < HarvestCount s k then
    SetApProcedure (SetApState (s.Cpu j) CpuStateReady) s.Procedure s.ProcedureArgument
  else s.Cpu j

/-- The step from the registry `s` to the registry `t` registers no processor,
keeps the identity and the flags of every record, and keeps the assignment of
every record that holds one only in state ready or blocked within these
states. -/
def KeepsRecords (s t : MP_SYSTEM_DATA) : Prop :=
  t.NumberOfProcessors = s.NumberOfProcessors
  ∧ ∀ j, (t.Cpu j).Info = (s.Cpu j).Info
      ∧ (AssignmentOk (s.Cpu j) → AssignmentOk (t.Cpu j))

/-- The step from the registry `s` to the registry `t` registers no processor,
keeps the identity and the flags of every record, and leaves idle every idle
record that is not an enabled application processor. -/
def KeepsDisabledIdle (s t : MP_SYSTEM_DATA) : Prop :=
  t.NumberOfProcessors = s.NumberOfProcessors
  ∧ ∀ j, (t.Cpu j).Info = (s.Cpu j).Info
      ∧ (IsEnabledAP (s.Cpu j) = false → GetApState (s.Cpu j) = CpuStateIdle →
          GetApState (t.Cpu j) = CpuStateIdle)

/-! ## Example registry -/

/-- A registered processor record with the given identity, flags and state. -/
def MkCpu (ProcessorId StatusFlag : Nat) (State : CPU_STATE) : CPU_DATA_BLOCK :=
  { ZeroCpuData with
    Info := { ProcessorId := ProcessorId, StatusFlag := StatusFlag,
              Location := { Package := ProcessorId, Core := 0, Thread := 0 } }
    State := State }

/-- A registry over the given records, all of them registered, no session
data. -/
def MkSystem (Cpus : List CPU_DATA_BLOCK) : MP_SYSTEM_DATA :=
  { CpuDatas := Cpus, NumberOfProcessors := Cpus.length,
    NumberOfEnabledProcessors := Cpus.length,
    Procedure := 0, ProcedureArgument := 0, StartCount := 0, FinishCount := 0,
    SingleThread := false, FailedList := 0, FailedListIndex := 0, Timeout := 0,
    TimeoutActive := false, WaitEvent := 0, CheckAllAPsEvent := 0 }

/-- A platform state around a registry: no caller object written, no timer
set, no event signalled. -/
def MkWorld (s : MP_SYSTEM_DATA) : MpWorld :=
  { mMpSystemData := s, FinishedMem := [], FailedCpuListMem := [], PeriodicTimers := [],
    SignaledEvents := [] }

/-- Three processors: the BSP (APIC id 0) and two enabled, healthy, idle APs. -/
def Sys3 : MP_SYSTEM_DATA :=
  MkSystem [MkCpu 0 7 CpuStateBuzy, MkCpu 1 6 CpuStateIdle, MkCpu 2 6 CpuStateIdle]

/-- Three processors, the first AP still busy. -/
def Sys3Busy : MP_SYSTEM_DATA :=
  MkSystem [MkCpu 0 7 CpuStateBuzy, MkCpu 1 6 CpuStateBuzy, MkCpu 2 6 CpuStateIdle]

/-- Two processors after bring-up: the BSP (APIC id 0) and one AP (APIC id 1),
both enabled and healthy, the AP idle. -/
def Sys2 : MP_SYSTEM_DATA := BringUp 2 0 [1]

/-- Two processors after bring-up, then the AP disabled by the BSP with
`EnableDisableAP (1, FALSE, NULL)`. -/
def Sys2Disabled : MP_SYSTEM_DATA := (EnableDisableAP 64 0 1 false none Sys2).2

/-- Two processors, both enabled and healthy, with
`NumberOfEnabledProcessors = 2`: the state reached from bring-up by
`EnableDisableAP (1, TRUE, &Health)` followed by `EnableDisableAP (1, TRUE, NULL)`. -/
def Sys2Counted : MP_SYSTEM_DATA :=
  (EnableDisableAP 64 0 1 true none (EnableDisableAP 64 0 1 true (some 4) Sys2).2).2

/-- One processor: the BSP alone after `InitMpSystemData`. -/
def Sys1 : MP_SYSTEM_DATA := BringUp 1 0 []

/-- Three processors after bring-up, in the state in which the non-blocking
`StartupAllAPs (5, FALSE, 3, 0, 9, NULL)` of the BSP returns: both application
processors are ready and the periodic timer is set. -/
def Sys3Pending : MpWorld :=
  match StartupAllAPs 64 0 5 false 3 0 9 0 [] (MkWorld (BringUp 3 0 [1, 2])) with
  | some r => r.2
  | none => MkWorld (BringUp 3 0 [1, 2])

/-- Three processors in a single-thread session of `StartupAllAPs`
(procedure `5`, argument `9`): processor 1 has begun and returned its
procedure and is finished, processor 2 is blocked. -/
def Sys3Chain : MP_SYSTEM_DATA :=
  ApSelfTransition
    (ApSelfTransition (StartupAllAPsDispatch 64 Sys3 5 true 0 1000 9 77) (ApEvent.Begin 1))
    (ApEvent.Return 1)

/-- Three processors after bring-up, in the state in which the non-blocking
`StartupThisAP (5, 1, 8, 250, 9, &Flag)` of the BSP returns, `Flag` at address
`77`: processor 1 is ready and the timer on its `CheckThisAPEvent` is set. -/
def Sys3ThisAPPending : MpWorld :=
  match StartupThisAP 64 0 5 1 8 250 9 77 [] (MkWorld (BringUp 3 0 [1, 2])) with
  | some r => r.2
  | none => MkWorld (BringUp 3 0 [1, 2])

/-- Three processors after bring-up and a blocking
`StartupThisAP (5, 1, NULL, 250, 9, &Flag)` of the BSP, `Flag` at address `77`,
during which processor 1 begins its procedure in the first stall and returns
from it in the second: the state in which the call returns. -/
def Sys3ThisAPBlocking : MpWorld :=
  match StartupThisAP 64 0 5 1 0 250 9 77 [[ApEvent.Begin 1], [ApEvent.Return 1]]
      (MkWorld (BringUp 3 0 [1, 2])) with
  | some r => r.2
  | none => MkWorld (BringUp 3 0 [1, 2])

/-- A table of three records after `InitMpSystemData`, the registration of the
application processor with APIC id 1, and a call
`EnableDisableAP (1, FALSE, &Health)` of the BSP with `Health = 0`. -/
def Run3Disabled : MpWorld :=
  { MkWorld (BringUp 3 0 [1]) with
    mMpSystemData := (EnableDisableAP 64 0 1 false (some 0) (BringUp 3 0 [1])).2 }

/-- The state `Sys3ThisAPPending` after processor 1 has begun its procedure,
has returned from it and the timer of the record has been notified: the record
is harvested. -/
def Sys3ThisAPHarvested : MpWorld :=
  CheckThisAPStatus 64 1
    { Sys3ThisAPPending with
      mMpSystemData :=
        (ApSelfTransition (ApSelfTransition Sys3ThisAPPending.mMpSystemData (ApEvent.Begin 1))
          (ApEvent.Return 1)) }

/-- Three processors after bring-up, in the state in which the non-blocking
`StartupAllAPs (5, FALSE, 3, 150, 9, &List)` of the BSP returns, `List` at
address `77`: both application processors are ready, the deadline is 150
microseconds and the periodic timer is set. -/
def Sys3Deadline : MpWorld :=
  match StartupAllAPs 64 0 5 false 3 150 9 77 [] (MkWorld (BringUp 3 0 [1, 2])) with
  | some r => r.2
  | none => MkWorld (BringUp 3 0 [1, 2])

/-- The session of `Sys3Deadline` just before the second notification of its
timer: both application processors began their procedure during the first poll
interval, the first notification left a budget of 50 microseconds, and both
returned from the procedure during the second poll interval. -/
def Sys3LateFinish : MpWorld :=
  { CheckAllAPsStatus 64
      { Sys3Deadline with
        mMpSystemData :=
          (ApSelfTransition (ApSelfTransition Sys3Deadline.mMpSystemData (ApEvent.Begin 1))
            (ApEvent.Begin 2)) } with
    mMpSystemData :=
      (ApSelfTransition
        (ApSelfTransition
          (CheckAllAPsStatus 64
            { Sys3Deadline with
              mMpSystemData :=
                (ApSelfTransition
                  (ApSelfTransition Sys3Deadline.mMpSystemData (ApEvent.Begin 1))
                  (ApEvent.Begin 2)) }).mMpSystemData
          (ApEvent.Return 1))
        (ApEvent.Return 2)) }

/-- The session of `Sys3Deadline` after processor 1 has run its procedure
during the first poll interval and the first notification of the timer has
harvested it (`FinishCount = 1`, budget 50 microseconds). -/
def Sys3OneHarvested : MpWorld :=
  CheckAllAPsStatus 64
    { Sys3Deadline with
      mMpSystemData :=
        (ApSelfTransition (ApSelfTransition Sys3Deadline.mMpSystemData (ApEvent.Begin 1))
          (ApEvent.Return 1)) }

/-- The state `Sys3OneHarvested` after the BSP has dispatched processor 1
again with a non-blocking `StartupThisAP (6, 1, 4, 0, NULL, NULL)`: the
broadcast session is still open with processor 2 outstanding. -/
def Sys3Redispatched : MpWorld :=
  match StartupThisAP 64 0 6 1 4 0 0 0 [] Sys3OneHarvested with
  | some r => r.2
  | none => Sys3OneHarvested

/-- The state in which `CheckAllAPsStatus` calls `ResetAllFailedAPs` on its
next notification in `Sys3Redispatched`: the budget is decremented to -50 and
the harvesting pass has run. -/
def Sys3RedispatchedTimeout : MpWorld :=
  { Sys3Redispatched with
    mMpSystemData :=
      CheckAndUpdateAllAPsToIdleState
        { Sys3Redispatched.mMpSystemData with
          Timeout := ToINTN 64 (Sys3Redispatched.mMpSystemData.Timeout - gPollInterval) } }

/-- Three processors after bring-up, processor 2 disabled by the BSP with
`EnableDisableAP (2, FALSE, NULL)`. -/
def Run3SecondDisabled : MpWorld :=
  { MkWorld (BringUp 3 0 [1, 2]) with
    mMpSystemData := (EnableDisableAP 64 0 2 false none (BringUp 3 0 [1, 2])).2 }

/-- The state in which the non-blocking single-thread
`StartupAllAPs (5, TRUE, 3, 0, 9, NULL)` of the BSP returns on
`Run3SecondDisabled`: processor 1 is ready, processor 2 was skipped. -/
def Run3SecondDisabledPending : MpWorld :=
  match StartupAllAPs 64 0 5 true 3 0 9 0 [] Run3SecondDisabled with
  | some r => r.2
  | none => Run3SecondDisabled

/-- Three processors after bring-up, processor 1 disabled by the BSP with
`EnableDisableAP (1, FALSE, NULL)`. -/
def Run3FirstDisabled : MP_SYSTEM_DATA :=
  (EnableDisableAP 64 0 1 false none (BringUp 3 0 [1, 2])).2

/-- The session of `Sys3Pending` after processor 1 has run its procedure and a
notification of the timer has harvested it (`FinishCount = 1`,
`StartCount = 2`). -/
def Sys3PendingOneHarvested : MpWorld :=
  CheckAllAPsStatus 64
    { Sys3Pending with
      mMpSystemData :=
        (ApSelfTransition (ApSelfTransition Sys3Pending.mMpSystemData (ApEvent.Begin 1))
          (ApEvent.Return 1)) }

/-- The state `Sys3PendingOneHarvested` after the BSP has dispatched
processor 1 again with a non-blocking `StartupThisAP (6, 1, 4, 0, NULL, NULL)`. -/
def Sys3PendingRedispatched : MpWorld :=
  match StartupThisAP 64 0 6 1 4 0 0 0 [] Sys3PendingOneHarvested with
  | some r => r.2
  | none => Sys3PendingOneHarvested

/-- The state `Sys3PendingRedispatched` after both application processors have
run their procedures and the next notification of the timer of
`StartupAllAPs` has harvested both. -/
def Sys3Overcounted : MpWorld :=
  CheckAllAPsStatus 64
    { Sys3PendingRedispatched with
      mMpSystemData :=
        (ApSelfTransition (ApSelfTransition (ApSelfTransition (ApSelfTransition
          Sys3PendingRedispatched.mMpSystemData (ApEvent.Begin 1)) (ApEvent.Return 1))
          (ApEvent.Begin 2)) (ApEvent.Return 2)) }

/-! ## Table access and the pre-flight loop -/

theorem Cpu_SetCpu (s : MP_SYSTEM_DATA) (i j : Nat) (c : CPU_DATA_BLOCK) :
    (s.SetCpu i c).Cpu j = if i = j ∧ i < s.CpuDatas.length then c else s.Cpu j := by
  unfold MP_SYSTEM_DATA.SetCpu MP_SYSTEM_DATA.Cpu
  simp only [List.getD_eq_getElem?_getD, List.getElem?_set]
  by_cases h : i = j
  · subst h
    by_cases h2 : i < s.CpuDatas.length
    · simp [h2]
    · simp [h2, List.getElem?_eq_none (not_lt.mp h2)]
  · simp [h]

theorem StartupAllAPsReady_eq_false (s : MP_SYSTEM_DATA) (l : List Nat) :
    StartupAllAPsReady s l = false ↔
      ∃ i ∈ l, TestCpuStatusFlag (s.Cpu i) PROCESSOR_AS_BSP_BIT = false
        ∧ TestCpuStatusFlag (s.Cpu i) PROCESSOR_ENABLED_BIT = true
        ∧ GetApState (s.Cpu i) ≠ CpuStateIdle := by
  induction l with
  | nil => simp [StartupAllAPsReady]
  | cons n rest ih =>
    unfold StartupAllAPsReady
    by_cases h1 : TestCpuStatusFlag (s.Cpu n) PROCESSOR_AS_BSP_BIT = true
    · simp [h1, ih]
    · by_cases h2 : TestCpuStatusFlag (s.Cpu n) PROCESSOR_ENABLED_BIT = true
      · by_cases h3 : GetApState (s.Cpu n) = CpuStateIdle
        · simp [h1, h2, h3, ih]
        · simp [h1, h2, h3]
      · simp [h1, h2, ih]

/-- C1. Busy pre-flight is all-or-nothing: when the caller is the BSP, at
least two processors are registered, the procedure is not null and some
enabled application processor is not idle, `StartupAllAPs` (single-thread or
not, blocking or not, whatever the schedule of the application processors)
returns `EFI_NOT_READY`, and `mMpSystemData` (every record's state, procedure,
parameter and flags, every field of the session) is exactly as before, as are
the timers and the signalled events. -/
theorem C1_busy_preflight_no_effect (w ApicId Procedure : Nat) (SingleThread : Bool)
    (WaitEvent TimeoutInMicroseconds ProcedureArgument FailedCpuList : Nat)
    (Schedule : List (List ApEvent)) (W : MpWorld)
    (hBsp : IsBSP W.mMpSystemData ApicId = true)
    (hN : 2 ≤ W.mMpSystemData.NumberOfProcessors)
    (hProc : Procedure ≠ 0)
    (hBusy : ∃ i, i < W.mMpSystemData.NumberOfProcessors
      ∧ TestCpuStatusFlag (W.mMpSystemData.Cpu i) PROCESSOR_AS_BSP_BIT = false
      ∧ TestCpuStatusFlag (W.mMpSystemData.Cpu i) PROCESSOR_ENABLED_BIT = true
      ∧ GetApState (W.mMpSystemData.Cpu i) ≠ CpuStateIdle) :
    ∃ W', StartupAllAPs w ApicId Procedure SingleThread WaitEvent TimeoutInMicroseconds
        ProcedureArgument FailedCpuList Schedule W = some (EFI_NOT_READY, W')
      ∧ W'.mMpSystemData = W.mMpSystemData
      ∧ W'.PeriodicTimers = W.PeriodicTimers
      ∧ W'.SignaledEvents = W.SignaledEvents
      ∧ W'.FinishedMem = W.FinishedMem := by
  obtain ⟨i, hi, hb, he, hs⟩ := hBusy
  have hReady : StartupAllAPsReady W.mMpSystemData
      (List.range W.mMpSystemData.NumberOfProcessors) = false :=
    (StartupAllAPsReady_eq_false _ _).2 ⟨i, List.mem_range.2 hi, hb, he, hs⟩
  have hN1 : W.mMpSystemData.NumberOfProcessors ≠ 1 := by omega
  by_cases hF : FailedCpuList = 0
  · refine ⟨W, ?_, rfl, rfl, rfl, rfl⟩
    simp [StartupAllAPs, hF, hBsp, hN1, hProc, hReady]
  · refine ⟨{ W with FailedCpuListMem := MemWrite W.FailedCpuListMem FailedCpuList none },
      ?_, rfl, rfl, rfl, rfl⟩
    simp [StartupAllAPs, hF, hBsp, hN1, hProc, hReady]

/-- Witness of C1 on three processors, the first application processor busy. -/
theorem C1_busy_preflight_no_effect_witness :
    ∃ W', StartupAllAPs 64 0 5 true 0 1000 9 77 [] (MkWorld Sys3Busy) = some (EFI_NOT_READY, W')
      ∧ W'.mMpSystemData = (MkWorld Sys3Busy).mMpSystemData
      ∧ W'.PeriodicTimers = (MkWorld Sys3Busy).PeriodicTimers
      ∧ W'.SignaledEvents = (MkWorld Sys3Busy).SignaledEvents
      ∧ W'.FinishedMem = (MkWorld Sys3Busy).FinishedMem :=
  C1_busy_preflight_no_effect 64 0 5 true 0 1000 9 77 [] (MkWorld Sys3Busy) (by decide)
    (by decide) (by decide) ⟨1, by decide, by decide, by decide, by decide⟩

/-! ## The dispatch loop of `StartupAllAPs` -/

theorem Cpu_of_length_le (s : MP_SYSTEM_DATA) (k : Nat) (h : s.CpuDatas.length ≤ k) :
    s.Cpu k = ZeroCpuData := by
  unfold MP_SYSTEM_DATA.Cpu
  simp [List.getD_eq_getElem?_getD, List.getElem?_eq_none h]

theorem TestCpuStatusFlag_ZeroCpuData (Flags : Nat) :
    TestCpuStatusFlag ZeroCpuData Flags = false := by
  simp [TestCpuStatusFlag, ZeroCpuData]

theorem lt_length_of_TestCpuStatusFlag (s : MP_SYSTEM_DATA) (k Flags : Nat)
    (h : TestCpuStatusFlag (s.Cpu k) Flags = true) : k < s.CpuDatas.length := by
  by_contra hk
  rw [Cpu_of_length_le s k (not_lt.mp hk), TestCpuStatusFlag_ZeroCpuData] at h
  exact Bool.false_ne_true h

theorem SetCpu_SetCpu (s : MP_SYSTEM_DATA) (k : Nat) (c c' : CPU_DATA_BLOCK) :
    (s.SetCpu k c).SetCpu k c' = s.SetCpu k c' := by
  simp [MP_SYSTEM_DATA.SetCpu, List.set_set]

theorem Cpu_SetCpu_self (s : MP_SYSTEM_DATA) (k : Nat) (c : CPU_DATA_BLOCK)
    (h : k < s.CpuDatas.length) : (s.SetCpu k c).Cpu k = c := by
  simp [Cpu_SetCpu, h]

theorem Cpu_SetCpu_of_ne (s : MP_SYSTEM_DATA) (i j : Nat) (c : CPU_DATA_BLOCK) (h : i ≠ j) :
    (s.SetCpu i c).Cpu j = s.Cpu j := by
  simp [Cpu_SetCpu, h]

theorem length_SetCpu (s : MP_SYSTEM_DATA) (k : Nat) (c : CPU_DATA_BLOCK) :
    (s.SetCpu k c).CpuDatas.length = s.CpuDatas.length := by
  simp [MP_SYSTEM_DATA.SetCpu]

theorem lt_length_of_IsEnabledAP (s : MP_SYSTEM_DATA) (k : Nat)
    (h : IsEnabledAP (s.Cpu k) = true) : k < s.CpuDatas.length := by
  simp only [IsEnabledAP, Bool.and_eq_true] at h
  exact lt_length_of_TestCpuStatusFlag s k _ h.2

theorem StartupAllAPsBody_eq (P A : Nat) (ST : Bool) (s : MP_SYSTEM_DATA) (a : CPU_STATE)
    (k : Nat) :
    StartupAllAPsBody P A ST (s, a) k =
      if IsIdleEnabledAP (s.Cpu k) = true then
        (({ s with StartCount := s.StartCount + 1 } : MP_SYSTEM_DATA).SetCpu k
            (if a = CpuStateReady then SetApProcedure (SetApState (s.Cpu k) CpuStateReady) P A
             else SetApState (s.Cpu k) a),
          if ST then CpuStateBlocked else a)
      else (s, a) := by
  have hc : ∀ t : MP_SYSTEM_DATA, t.CpuDatas = s.CpuDatas → t.Cpu k = s.Cpu k := by
    intro t ht
    simp [MP_SYSTEM_DATA.Cpu, ht]
  simp only [StartupAllAPsBody, IsIdleEnabledAP, IsEnabledAP]
  by_cases h1 : TestCpuStatusFlag (s.Cpu k) PROCESSOR_AS_BSP_BIT = true
  · simp [h1]
  · by_cases h2 : TestCpuStatusFlag (s.Cpu k) PROCESSOR_ENABLED_BIT = true
    · have hk := lt_length_of_TestCpuStatusFlag s k _ h2
      by_cases h3 : GetApState (s.Cpu k) = CpuStateIdle
      · by_cases h4 : a = CpuStateReady
        · subst h4
          simp only [h1, h2, h3, if_true, Bool.not_true, Bool.false_eq_true, if_false]
          simp only [SetCpu_SetCpu, Cpu_SetCpu]
          simp [hk, hc]
        · simp [h1, h2, h3, h4, hc]
      · simp [h1, h2, h3]
    · simp [h1, h2]

theorem StartupAllAPs_fold (P A : Nat) (ST : Bool) (s0 : MP_SYSTEM_DATA) (k : Nat) :
    ((List.range k).foldl (StartupAllAPsBody P A ST) (s0, CpuStateReady)).1 =
        { s0 with
          CpuDatas := ((List.range k).foldl (StartupAllAPsBody P A ST) (s0, CpuStateReady)).1.CpuDatas
          StartCount := s0.StartCount
            + ((List.range k).filter (fun i => IsIdleEnabledAP (s0.Cpu i))).length }
    ∧ ((List.range k).foldl (StartupAllAPsBody P A ST) (s0, CpuStateReady)).1.CpuDatas.length
        = s0.CpuDatas.length
    ∧ ((List.range k).foldl (StartupAllAPsBody P A ST) (s0, CpuStateReady)).2 =
        (if (ST && (List.range k).any (fun i => IsIdleEnabledAP (s0.Cpu i))) = true
          then CpuStateBlocked else CpuStateReady)
    ∧ ∀ i, ((List.range k).foldl (StartupAllAPsBody P A ST) (s0, CpuStateReady)).1.Cpu i =
        if i < k ∧ IsIdleEnabledAP (s0.Cpu i) = true then
          (if (ST && (List.range i).any (fun j => IsIdleEnabledAP (s0.Cpu j))) = true
            then SetApState (s0.Cpu i) CpuStateBlocked
            else SetApProcedure (SetApState (s0.Cpu i) CpuStateReady) P A)
        else s0.Cpu i := by
  induction k with
  | zero => simp
  | succ k ih =>
    rw [List.range_succ, List.foldl_append, List.foldl_cons, List.foldl_nil]
    generalize (List.range k).foldl (StartupAllAPsBody P A ST) (s0, CpuStateReady) = acc at ih ⊢
    obtain ⟨t, a⟩ := acc
    obtain ⟨hframe, hlen, hloc, hcpu⟩ := ih
    simp only at hframe hlen hloc hcpu
    have hk : t.Cpu k = s0.Cpu k := by rw [hcpu k]; simp
    rw [StartupAllAPsBody_eq, hk]
    by_cases he : IsIdleEnabledAP (s0.Cpu k) = true
    · have hklen : k < t.CpuDatas.length := by
        rw [hlen]
        simp only [IsIdleEnabledAP, Bool.and_eq_true] at he
        exact lt_length_of_IsEnabledAP s0 k he.1
      simp only [he, if_true, List.filter_append, List.any_append, List.length_append]
      refine ⟨?_, ?_, ?_, ?_⟩
      · rw [hframe]
        simp [MP_SYSTEM_DATA.SetCpu, he, Nat.add_assoc]
      · rw [length_SetCpu]; exact hlen
      · cases ST <;> simp [he, hloc]
      · intro i
        rw [Cpu_SetCpu]
        by_cases hik : k = i
        · subst hik
          have : k < (({ t with StartCount := t.StartCount + 1 } : MP_SYSTEM_DATA)).CpuDatas.length :=
            hklen
          simp only [this, and_self, if_true, he, Nat.lt_succ_self]
          rw [hloc]
          by_cases hst : (ST && (List.range k).any (fun i => IsIdleEnabledAP (s0.Cpu i))) = true
          · simp [hst]
          · simp [hst]
        · have hik' : i < k + 1 ↔ i < k := by omega
          simp only [hik, false_and, if_false, hik']
          exact hcpu i
    · simp only [he, Bool.false_eq_true, if_false, List.filter_append, List.any_append,
        List.length_append]
      refine ⟨?_, hlen, ?_, ?_⟩
      · rw [hframe]
        simp [he]
      · simp [he, hloc]
      · intro i
        rw [hcpu i]
        by_cases hik : i = k
        · subst hik
          simp [he]
        · have hik' : i < k + 1 ↔ i < k := by omega
          simp only [hik']

theorem Cpu_StartupAllAPsInit (w : Nat) (s : MP_SYSTEM_DATA) (P : Nat) (ST : Bool)
    (E T A F : Nat) (i : Nat) : (StartupAllAPsInit w s P ST E T A F).Cpu i = s.Cpu i := rfl

theorem any_range_IsIdleEnabledAP (s : MP_SYSTEM_DATA) (i : Nat)
    (hi : i ≤ s.NumberOfProcessors)
    (hIdle : ∀ j, j < s.NumberOfProcessors → IsEnabledAP (s.Cpu j) = true →
      GetApState (s.Cpu j) = CpuStateIdle) :
    (List.range i).any (fun j => IsIdleEnabledAP (s.Cpu j)) = true
      ↔ ∃ j, j < i ∧ IsEnabledAP (s.Cpu j) = true := by
  simp only [List.any_eq_true, List.mem_range, IsIdleEnabledAP, Bool.and_eq_true,
    decide_eq_true_eq]
  constructor
  · rintro ⟨j, hj, he, -⟩
    exact ⟨j, hj, he⟩
  · rintro ⟨j, hj, he⟩
    exact ⟨j, hj, he, hIdle j (by omega) he⟩

theorem filter_range_IsIdleEnabledAP (s : MP_SYSTEM_DATA)
    (hIdle : ∀ j, j < s.NumberOfProcessors → IsEnabledAP (s.Cpu j) = true →
      GetApState (s.Cpu j) = CpuStateIdle) :
    (List.range s.NumberOfProcessors).filter (fun i => IsIdleEnabledAP (s.Cpu i))
      = EnabledAPs s := by
  unfold EnabledAPs
  apply List.filter_congr
  intro j hj
  have hj' := List.mem_range.1 hj
  by_cases he : IsEnabledAP (s.Cpu j) = true
  · simp [IsIdleEnabledAP, he, hIdle j hj' he]
  · simp [IsIdleEnabledAP, he]

/-- What lines 640-687 of `StartupAllAPs` leave behind when every enabled
application processor is idle. -/
theorem StartupAllAPsDispatch_spec (w : Nat) (s : MP_SYSTEM_DATA) (P : Nat) (ST : Bool)
    (E T A F : Nat)
    (hIdle : ∀ j, j < s.NumberOfProcessors → IsEnabledAP (s.Cpu j) = true →
      GetApState (s.Cpu j) = CpuStateIdle) :
    StartupAllAPsDispatch w s P ST E T A F =
        { StartupAllAPsInit w s P ST E T A F with
          CpuDatas := (StartupAllAPsDispatch w s P ST E T A F).CpuDatas
          StartCount := (EnabledAPs s).length }
    ∧ (StartupAllAPsDispatch w s P ST E T A F).CpuDatas.length = s.CpuDatas.length
    ∧ (∀ i, i < s.NumberOfProcessors → IsEnabledAP (s.Cpu i) = true →
        (ST = false ∨ ∀ j, j < i → IsEnabledAP (s.Cpu j) = false) →
        (StartupAllAPsDispatch w s P ST E T A F).Cpu i
          = SetApProcedure (SetApState (s.Cpu i) CpuStateReady) P A)
    ∧ (∀ i, i < s.NumberOfProcessors → IsEnabledAP (s.Cpu i) = true →
        ST = true → (∃ j, j < i ∧ IsEnabledAP (s.Cpu j) = true) →
        (StartupAllAPsDispatch w s P ST E T A F).Cpu i = SetApState (s.Cpu i) CpuStateBlocked)
    ∧ (∀ i, ¬ (i < s.NumberOfProcessors ∧ IsEnabledAP (s.Cpu i) = true) →
        (StartupAllAPsDispatch w s P ST E T A F).Cpu i = s.Cpu i) := by
  have hN : (StartupAllAPsInit w s P ST E T A F).NumberOfProcessors = s.NumberOfProcessors := rfl
  obtain ⟨h1, h2, -, h4⟩ :=
    StartupAllAPs_fold P A ST (StartupAllAPsInit w s P ST E T A F) s.NumberOfProcessors
  simp only [Cpu_StartupAllAPsInit] at h1 h4
  rw [filter_range_IsIdleEnabledAP s hIdle] at h1
  have hElig : ∀ i, i < s.NumberOfProcessors →
      (IsIdleEnabledAP (s.Cpu i) = true ↔ IsEnabledAP (s.Cpu i) = true) := by
    intro i hi
    simp only [IsIdleEnabledAP, Bool.and_eq_true, decide_eq_true_eq]
    exact ⟨fun h => h.1, fun h => ⟨h, hIdle i hi h⟩⟩
  refine ⟨?_, h2, ?_, ?_, ?_⟩
  · unfold StartupAllAPsDispatch
    rw [h1]
    simp [StartupAllAPsInit]
  · intro i hi he hfirst
    unfold StartupAllAPsDispatch
    rw [h4 i, if_pos ⟨hi, (hElig i hi).2 he⟩]
    have hcond : ¬ (ST && (List.range i).any (fun j => IsIdleEnabledAP (s.Cpu j))) = true := by
      rw [Bool.and_eq_true, any_range_IsIdleEnabledAP s i (le_of_lt hi) hIdle]
      rintro ⟨hst, j, hj, hej⟩
      rcases hfirst with h | h
      · rw [h] at hst; exact Bool.false_ne_true hst
      · rw [h j hj] at hej; exact Bool.false_ne_true hej
    rw [if_neg hcond]
  · intro i hi he hst hex
    unfold StartupAllAPsDispatch
    rw [h4 i, if_pos ⟨hi, (hElig i hi).2 he⟩]
    have hcond : (ST && (List.range i).any (fun j => IsIdleEnabledAP (s.Cpu j))) = true := by
      rw [Bool.and_eq_true, any_range_IsIdleEnabledAP s i (le_of_lt hi) hIdle]
      exact ⟨hst, hex⟩
    rw [if_pos hcond]
  · intro i hne
    unfold StartupAllAPsDispatch
    rw [h4 i, if_neg]
    rintro ⟨hi, he⟩
    exact hne ⟨hi, (hElig i hi).1 he⟩

theorem StartupAllAPsReady_of_idle (s : MP_SYSTEM_DATA)
    (hIdle : ∀ j, j < s.NumberOfProcessors → IsEnabledAP (s.Cpu j) = true →
      GetApState (s.Cpu j) = CpuStateIdle) :
    StartupAllAPsReady s (List.range s.NumberOfProcessors) = true := by
  by_contra h
  rw [Bool.not_eq_true, StartupAllAPsReady_eq_false] at h
  obtain ⟨i, hi, hb, he, hs⟩ := h
  exact hs (hIdle i (List.mem_range.1 hi) (by simp [IsEnabledAP, hb, he]))

/-- A call of `StartupAllAPs` that passes every check: the dispatch of lines
640-687 is followed by the arming of the timer or by the polling loop. -/
theorem StartupAllAPs_of_valid (w ApicId Procedure : Nat) (SingleThread : Bool)
    (WaitEvent TimeoutInMicroseconds ProcedureArgument FailedCpuList : Nat)
    (Schedule : List (List ApEvent)) (W : MpWorld)
    (hBsp : IsBSP W.mMpSystemData ApicId = true)
    (hN : W.mMpSystemData.NumberOfProcessors ≠ 1)
    (hProc : Procedure ≠ 0)
    (hIdle : ∀ j, j < W.mMpSystemData.NumberOfProcessors →
      IsEnabledAP (W.mMpSystemData.Cpu j) = true →
      GetApState (W.mMpSystemData.Cpu j) = CpuStateIdle) :
    ∃ W1 : MpWorld,
      StartupAllAPs w ApicId Procedure SingleThread WaitEvent TimeoutInMicroseconds
          ProcedureArgument FailedCpuList Schedule W =
        (if WaitEvent ≠ 0 then
          some (EFI_SUCCESS,
            { W1 with PeriodicTimers := W1.mMpSystemData.CheckAllAPsEvent :: W1.PeriodicTimers })
        else StartupAllAPsWait w Schedule W1)
      ∧ W1.mMpSystemData = StartupAllAPsDispatch w W.mMpSystemData Procedure SingleThread
          WaitEvent TimeoutInMicroseconds ProcedureArgument FailedCpuList
      ∧ W1.FailedCpuListMem =
          (if FailedCpuList ≠ 0 then MemWrite W.FailedCpuListMem FailedCpuList none
            else W.FailedCpuListMem)
      ∧ W1.FinishedMem = W.FinishedMem
      ∧ W1.PeriodicTimers = W.PeriodicTimers
      ∧ W1.SignaledEvents = W.SignaledEvents := by
  have hReady := StartupAllAPsReady_of_idle W.mMpSystemData hIdle
  by_cases hF : FailedCpuList = 0
  · refine ⟨{ W with mMpSystemData := (StartupAllAPsDispatch w W.mMpSystemData Procedure
      SingleThread WaitEvent TimeoutInMicroseconds ProcedureArgument FailedCpuList) },
      ?_, rfl, ?_, rfl, rfl, rfl⟩
    · simp [StartupAllAPs, hF, hBsp, hN, hProc, hReady]
    · simp [hF]
  · refine ⟨{ W with
      mMpSystemData := (StartupAllAPsDispatch w W.mMpSystemData Procedure
        SingleThread WaitEvent TimeoutInMicroseconds ProcedureArgument FailedCpuList)
      FailedCpuListMem := MemWrite W.FailedCpuListMem FailedCpuList none },
      ?_, rfl, ?_, rfl, rfl, rfl⟩
    · simp [StartupAllAPs, hF, hBsp, hN, hProc, hReady]
    · simp [hF]

/-- C2. Parallel dispatch: when the call passes the pre-flight checks (the
caller is the BSP, at least two processors are registered, the procedure is
not null, every enabled application processor is idle), `StartupAllAPs` with
`SingleThread = FALSE` continues (arming the timer, or entering its polling
loop) from a state `W1` reached before any harvesting pass, in which every
enabled application processor is in state ready with `Procedure` and
`Parameter` installed and nothing else of its record changed, every other
record (BSP, disabled processors) is unchanged, `StartCount` is the number of
enabled application processors and `FinishCount` is zero. -/
theorem C2_parallel_dispatch (w ApicId Procedure : Nat)
    (WaitEvent TimeoutInMicroseconds ProcedureArgument FailedCpuList : Nat)
    (Schedule : List (List ApEvent)) (W : MpWorld)
    (hBsp : IsBSP W.mMpSystemData ApicId = true)
    (hN : 2 ≤ W.mMpSystemData.NumberOfProcessors)
    (hProc : Procedure ≠ 0)
    (hIdle : ∀ j, j < W.mMpSystemData.NumberOfProcessors →
      IsEnabledAP (W.mMpSystemData.Cpu j) = true →
      GetApState (W.mMpSystemData.Cpu j) = CpuStateIdle) :
    ∃ W1 : MpWorld,
      StartupAllAPs w ApicId Procedure false WaitEvent TimeoutInMicroseconds
          ProcedureArgument FailedCpuList Schedule W =
        (if WaitEvent ≠ 0 then
          some (EFI_SUCCESS,
            { W1 with PeriodicTimers := W1.mMpSystemData.CheckAllAPsEvent :: W1.PeriodicTimers })
        else StartupAllAPsWait w Schedule W1)
      ∧ W1.mMpSystemData = StartupAllAPsDispatch w W.mMpSystemData Procedure false
          WaitEvent TimeoutInMicroseconds ProcedureArgument FailedCpuList
      ∧ (∀ i, i < W.mMpSystemData.NumberOfProcessors →
          IsEnabledAP (W.mMpSystemData.Cpu i) = true →
          W1.mMpSystemData.Cpu i =
            { W.mMpSystemData.Cpu i with
              State := CpuStateReady, Procedure := Procedure, Parameter := ProcedureArgument })
      ∧ (∀ i, ¬ (i < W.mMpSystemData.NumberOfProcessors
            ∧ IsEnabledAP (W.mMpSystemData.Cpu i) = true) →
          W1.mMpSystemData.Cpu i = W.mMpSystemData.Cpu i)
      ∧ W1.mMpSystemData.CpuDatas.length = W.mMpSystemData.CpuDatas.length
      ∧ W1.mMpSystemData.NumberOfProcessors = W.mMpSystemData.NumberOfProcessors
      ∧ W1.mMpSystemData.StartCount = (EnabledAPs W.mMpSystemData).length
      ∧ W1.mMpSystemData.FinishCount = 0 := by
  obtain ⟨W1, hcall, hmp, -⟩ := StartupAllAPs_of_valid w ApicId Procedure false WaitEvent
    TimeoutInMicroseconds ProcedureArgument FailedCpuList Schedule W hBsp (by omega) hProc hIdle
  obtain ⟨hframe, hlen, hready, -, hother⟩ := StartupAllAPsDispatch_spec w W.mMpSystemData
    Procedure false WaitEvent TimeoutInMicroseconds ProcedureArgument FailedCpuList hIdle
  refine ⟨W1, hcall, hmp, ?_, ?_, ?_, ?_, ?_, ?_⟩
  · intro i hi he
    rw [hmp, hready i hi he (Or.inl rfl)]
    rfl
  · intro i hne
    rw [hmp, hother i hne]
  · rw [hmp, hlen]
  · rw [hmp, hframe]; rfl
  · rw [hmp, hframe]
  · rw [hmp, hframe]; rfl

/-- Witness of C2 on three processors with two idle application processors. -/
theorem C2_parallel_dispatch_witness :
    ∃ W1 : MpWorld,
      StartupAllAPs 64 0 5 false 3 1000 9 77 [] (MkWorld Sys3) =
        (if 3 ≠ 0 then
          some (EFI_SUCCESS,
            { W1 with PeriodicTimers := W1.mMpSystemData.CheckAllAPsEvent :: W1.PeriodicTimers })
        else StartupAllAPsWait 64 [] W1)
      ∧ W1.mMpSystemData = StartupAllAPsDispatch 64 (MkWorld Sys3).mMpSystemData 5 false
          3 1000 9 77
      ∧ (∀ i, i < (MkWorld Sys3).mMpSystemData.NumberOfProcessors →
          IsEnabledAP ((MkWorld Sys3).mMpSystemData.Cpu i) = true →
          W1.mMpSystemData.Cpu i =
            { (MkWorld Sys3).mMpSystemData.Cpu i with
              State := CpuStateReady, Procedure := 5, Parameter := 9 })
      ∧ (∀ i, ¬ (i < (MkWorld Sys3).mMpSystemData.NumberOfProcessors
            ∧ IsEnabledAP ((MkWorld Sys3).mMpSystemData.Cpu i) = true) →
          W1.mMpSystemData.Cpu i = (MkWorld Sys3).mMpSystemData.Cpu i)
      ∧ W1.mMpSystemData.CpuDatas.length = (MkWorld Sys3).mMpSystemData.CpuDatas.length
      ∧ W1.mMpSystemData.NumberOfProcessors = (MkWorld Sys3).mMpSystemData.NumberOfProcessors
      ∧ W1.mMpSystemData.StartCount = (EnabledAPs (MkWorld Sys3).mMpSystemData).length
      ∧ W1.mMpSystemData.FinishCount = 0 :=
  C2_parallel_dispatch 64 0 5 3 1000 9 77 [] (MkWorld Sys3) (by decide) (by decide)
    (by decide) (by decide)

/-- C3. Single-thread dispatch: when the call passes the pre-flight checks,
`StartupAllAPs` with `SingleThread = TRUE` continues from a state `W1` in
which the enabled application processor of lowest handle number is in state
ready with `Procedure` and `Parameter` installed, every other enabled
application processor is in state blocked with its `Procedure` and `Parameter`
(and the rest of its record) as they were, every other record (BSP, disabled
processors) is unchanged, and `StartCount` is the number of enabled
application processors. -/
theorem C3_single_thread_dispatch (w ApicId Procedure : Nat)
    (WaitEvent TimeoutInMicroseconds ProcedureArgument FailedCpuList : Nat)
    (Schedule : List (List ApEvent)) (W : MpWorld)
    (hBsp : IsBSP W.mMpSystemData ApicId = true)
    (hN : 2 ≤ W.mMpSystemData.NumberOfProcessors)
    (hProc : Procedure ≠ 0)
    (hIdle : ∀ j, j < W.mMpSystemData.NumberOfProcessors →
      IsEnabledAP (W.mMpSystemData.Cpu j) = true →
      GetApState (W.mMpSystemData.Cpu j) = CpuStateIdle) :
    ∃ W1 : MpWorld,
      StartupAllAPs w ApicId Procedure true WaitEvent TimeoutInMicroseconds
          ProcedureArgument FailedCpuList Schedule W =
        (if WaitEvent ≠ 0 then
          some (EFI_SUCCESS,
            { W1 with PeriodicTimers := W1.mMpSystemData.CheckAllAPsEvent :: W1.PeriodicTimers })
        else StartupAllAPsWait w Schedule W1)
      ∧ W1.mMpSystemData = StartupAllAPsDispatch w W.mMpSystemData Procedure true
          WaitEvent TimeoutInMicroseconds ProcedureArgument FailedCpuList
      ∧ (∀ i, i < W.mMpSystemData.NumberOfProcessors →
          IsEnabledAP (W.mMpSystemData.Cpu i) = true →
          (∀ j, j < i → IsEnabledAP (W.mMpSystemData.Cpu j) = false) →
          W1.mMpSystemData.Cpu i =
            { W.mMpSystemData.Cpu i with
              State := CpuStateReady, Procedure := Procedure, Parameter := ProcedureArgument })
      ∧ (∀ i, i < W.mMpSystemData.NumberOfProcessors →
          IsEnabledAP (W.mMpSystemData.Cpu i) = true →
          (∃ j, j < i ∧ IsEnabledAP (W.mMpSystemData.Cpu j) = true) →
          W1.mMpSystemData.Cpu i = { W.mMpSystemData.Cpu i with State := CpuStateBlocked })
      ∧ (∀ i, ¬ (i < W.mMpSystemData.NumberOfProcessors
            ∧ IsEnabledAP (W.mMpSystemData.Cpu i) = true) →
          W1.mMpSystemData.Cpu i = W.mMpSystemData.Cpu i)
      ∧ W1.mMpSystemData.CpuDatas.length = W.mMpSystemData.CpuDatas.length
      ∧ W1.mMpSystemData.NumberOfProcessors = W.mMpSystemData.NumberOfProcessors
      ∧ W1.mMpSystemData.StartCount = (EnabledAPs W.mMpSystemData).length := by
  obtain ⟨W1, hcall, hmp, -⟩ := StartupAllAPs_of_valid w ApicId Procedure true WaitEvent
    TimeoutInMicroseconds ProcedureArgument FailedCpuList Schedule W hBsp (by omega) hProc hIdle
  obtain ⟨hframe, hlen, hready, hblocked, hother⟩ := StartupAllAPsDispatch_spec w
    W.mMpSystemData Procedure true WaitEvent TimeoutInMicroseconds ProcedureArgument
    FailedCpuList hIdle
  refine ⟨W1, hcall, hmp, ?_, ?_, ?_, ?_, ?_, ?_⟩
  · intro i hi he hfirst
    rw [hmp, hready i hi he (Or.inr hfirst)]
    rfl
  · intro i hi he hex
    rw [hmp, hblocked i hi he rfl hex]
    rfl
  · intro i hne
    rw [hmp, hother i hne]
  · rw [hmp, hlen]
  · rw [hmp, hframe]; rfl
  · rw [hmp, hframe]

/-- Witness of C3 on three processors with two idle application processors. -/
theorem C3_single_thread_dispatch_witness :
    ∃ W1 : MpWorld,
      StartupAllAPs 64 0 5 true 3 1000 9 77 [] (MkWorld Sys3) =
        (if 3 ≠ 0 then
          some (EFI_SUCCESS,
            { W1 with PeriodicTimers := W1.mMpSystemData.CheckAllAPsEvent :: W1.PeriodicTimers })
        else StartupAllAPsWait 64 [] W1)
      ∧ W1.mMpSystemData = StartupAllAPsDispatch 64 (MkWorld Sys3).mMpSystemData 5 true
          3 1000 9 77
      ∧ (∀ i, i < (MkWorld Sys3).mMpSystemData.NumberOfProcessors →
          IsEnabledAP ((MkWorld Sys3).mMpSystemData.Cpu i) = true →
          (∀ j, j < i → IsEnabledAP ((MkWorld Sys3).mMpSystemData.Cpu j) = false) →
          W1.mMpSystemData.Cpu i =
            { (MkWorld Sys3).mMpSystemData.Cpu i with
              State := CpuStateReady, Procedure := 5, Parameter := 9 })
      ∧ (∀ i, i < (MkWorld Sys3).mMpSystemData.NumberOfProcessors →
          IsEnabledAP ((MkWorld Sys3).mMpSystemData.Cpu i) = true →
          (∃ j, j < i ∧ IsEnabledAP ((MkWorld Sys3).mMpSystemData.Cpu j) = true) →
          W1.mMpSystemData.Cpu i =
            { (MkWorld Sys3).mMpSystemData.Cpu i with State := CpuStateBlocked })
      ∧ (∀ i, ¬ (i < (MkWorld Sys3).mMpSystemData.NumberOfProcessors
            ∧ IsEnabledAP ((MkWorld Sys3).mMpSystemData.Cpu i) = true) →
          W1.mMpSystemData.Cpu i = (MkWorld Sys3).mMpSystemData.Cpu i)
      ∧ W1.mMpSystemData.CpuDatas.length = (MkWorld Sys3).mMpSystemData.CpuDatas.length
      ∧ W1.mMpSystemData.NumberOfProcessors = (MkWorld Sys3).mMpSystemData.NumberOfProcessors
      ∧ W1.mMpSystemData.StartCount = (EnabledAPs (MkWorld Sys3).mMpSystemData).length :=
  C3_single_thread_dispatch 64 0 5 3 1000 9 77 [] (MkWorld Sys3) (by decide) (by decide)
    (by decide) (by decide)

/-! ## Single-target dispatch -/

theorem StartupThisAPPass_status (k : Nat) (W : MpWorld) (st : EFI_STATUS) (W' : MpWorld)
    (h : StartupThisAPPass k W = Sum.inl (st, W')) : st = EFI_SUCCESS ∨ st = EFI_TIMEOUT := by
  simp only [StartupThisAPPass] at h
  split_ifs at h
  · simp only [Sum.inl.injEq, Prod.mk.injEq] at h
    exact Or.inl h.1.symm
  · simp only [Sum.inl.injEq, Prod.mk.injEq] at h
    exact Or.inr h.1.symm

theorem StartupThisAPWait_status (w k : Nat) (Schedule : List (List ApEvent)) (W : MpWorld)
    (st : EFI_STATUS) (W' : MpWorld)
    (h : StartupThisAPWait w k Schedule W = some (st, W')) :
    st = EFI_SUCCESS ∨ st = EFI_TIMEOUT := by
  induction Schedule generalizing W with
  | nil =>
    unfold StartupThisAPWait at h
    cases hp : StartupThisAPPass k W with
    | inl r =>
      rw [hp] at h
      simp only [Option.some.injEq] at h
      subst h
      exact StartupThisAPPass_status k W st W' hp
    | inr W1 => rw [hp] at h; simp at h
  | cons Events rest ih =>
    unfold StartupThisAPWait at h
    cases hp : StartupThisAPPass k W with
    | inl r =>
      rw [hp] at h
      simp only [Option.some.injEq] at h
      subst h
      exact StartupThisAPPass_status k W st W' hp
    | inr W1 =>
      rw [hp] at h
      exact ih _ h

/-- A call of `StartupThisAP` that passes every check: the dispatch of lines
852-859 is followed by the arming of the timer or by the polling loop. -/
theorem StartupThisAP_of_valid (w ApicId Procedure ProcessorNumber : Nat)
    (WaitEvent TimeoutInMicroseconds ProcedureArgument Finished : Nat)
    (Schedule : List (List ApEvent)) (W : MpWorld)
    (hBsp : IsBSP W.mMpSystemData ApicId = true)
    (hProc : Procedure ≠ 0)
    (hlt : ProcessorNumber < W.mMpSystemData.NumberOfProcessors)
    (hEn : IsEnabledAP (W.mMpSystemData.Cpu ProcessorNumber) = true)
    (hIdle : GetApState (W.mMpSystemData.Cpu ProcessorNumber) = CpuStateIdle) :
    ∃ W1 : MpWorld,
      StartupThisAP w ApicId Procedure ProcessorNumber WaitEvent TimeoutInMicroseconds
          ProcedureArgument Finished Schedule W =
        (if WaitEvent ≠ 0 then
          some (EFI_SUCCESS,
            { W1 with PeriodicTimers :=
                (W1.mMpSystemData.Cpu ProcessorNumber).CheckThisAPEvent :: W1.PeriodicTimers })
        else StartupThisAPWait w ProcessorNumber Schedule W1)
      ∧ W1.mMpSystemData = StartupThisAPDispatch w W.mMpSystemData Procedure ProcessorNumber
          WaitEvent TimeoutInMicroseconds ProcedureArgument Finished
      ∧ W1.FinishedMem =
          (if Finished ≠ 0 then MemWrite W.FinishedMem Finished false else W.FinishedMem)
      ∧ W1.FailedCpuListMem = W.FailedCpuListMem
      ∧ W1.PeriodicTimers = W.PeriodicTimers
      ∧ W1.SignaledEvents = W.SignaledEvents := by
  simp only [IsEnabledAP, Bool.and_eq_true, Bool.not_eq_true'] at hEn
  have hge : ¬ ProcessorNumber ≥ W.mMpSystemData.NumberOfProcessors := by omega
  by_cases hF : Finished = 0
  · refine ⟨{ W with mMpSystemData := (StartupThisAPDispatch w W.mMpSystemData Procedure
      ProcessorNumber WaitEvent TimeoutInMicroseconds ProcedureArgument Finished) },
      ?_, rfl, ?_, rfl, rfl, rfl⟩
    · simp [StartupThisAP, hF, hBsp, hProc, hge, hEn.1, hEn.2, hIdle]
    · simp [hF]
  · refine ⟨{ W with
      mMpSystemData := (StartupThisAPDispatch w W.mMpSystemData Procedure
        ProcessorNumber WaitEvent TimeoutInMicroseconds ProcedureArgument Finished)
      FinishedMem := MemWrite W.FinishedMem Finished false },
      ?_, rfl, ?_, rfl, rfl, rfl⟩
    · simp [StartupThisAP, hF, hBsp, hProc, hge, hEn.1, hEn.2, hIdle]
    · simp [hF]

/-- A call of `StartupThisAP` that passes every check returns `EFI_SUCCESS`
or `EFI_TIMEOUT` when it returns. -/
theorem StartupThisAP_valid_status (w ApicId Procedure ProcessorNumber : Nat)
    (WaitEvent TimeoutInMicroseconds ProcedureArgument Finished : Nat)
    (Schedule : List (List ApEvent)) (W : MpWorld)
    (hBsp : IsBSP W.mMpSystemData ApicId = true)
    (hProc : Procedure ≠ 0)
    (hlt : ProcessorNumber < W.mMpSystemData.NumberOfProcessors)
    (hEn : IsEnabledAP (W.mMpSystemData.Cpu ProcessorNumber) = true)
    (hIdle : GetApState (W.mMpSystemData.Cpu ProcessorNumber) = CpuStateIdle)
    (st : EFI_STATUS) (W' : MpWorld)
    (h : StartupThisAP w ApicId Procedure ProcessorNumber WaitEvent TimeoutInMicroseconds
          ProcedureArgument Finished Schedule W = some (st, W')) :
    st = EFI_SUCCESS ∨ st = EFI_TIMEOUT := by
  obtain ⟨W1, hcall, -⟩ := StartupThisAP_of_valid w ApicId Procedure ProcessorNumber WaitEvent
    TimeoutInMicroseconds ProcedureArgument Finished Schedule W hBsp hProc hlt hEn hIdle
  rw [hcall] at h
  split_ifs at h
  · simp only [Option.some.injEq, Prod.mk.injEq] at h
    exact Or.inl h.1.symm
  · exact StartupThisAPWait_status w ProcessorNumber Schedule W1 st W' h

/-- The checks of `StartupThisAP` called from the BSP with a procedure: the
first failing one decides the status, and the registry is not touched. -/
theorem StartupThisAP_of_invalid (w ApicId Procedure ProcessorNumber : Nat)
    (WaitEvent TimeoutInMicroseconds ProcedureArgument Finished : Nat)
    (Schedule : List (List ApEvent)) (W : MpWorld)
    (hBsp : IsBSP W.mMpSystemData ApicId = true)
    (hProc : Procedure ≠ 0)
    (hbad : ¬ (ProcessorNumber < W.mMpSystemData.NumberOfProcessors
      ∧ IsEnabledAP (W.mMpSystemData.Cpu ProcessorNumber) = true
      ∧ GetApState (W.mMpSystemData.Cpu ProcessorNumber) = CpuStateIdle)) :
    ∃ W0 : MpWorld,
      StartupThisAP w ApicId Procedure ProcessorNumber WaitEvent TimeoutInMicroseconds
          ProcedureArgument Finished Schedule W =
        some (if W.mMpSystemData.NumberOfProcessors ≤ ProcessorNumber then EFI_NOT_FOUND
              else if IsEnabledAP (W.mMpSystemData.Cpu ProcessorNumber) = false then
                EFI_INVALID_PARAMETER
              else EFI_NOT_READY, W0)
      ∧ W0.mMpSystemData = W.mMpSystemData
      ∧ W0.FailedCpuListMem = W.FailedCpuListMem
      ∧ W0.PeriodicTimers = W.PeriodicTimers
      ∧ W0.SignaledEvents = W.SignaledEvents := by
  refine ⟨if Finished ≠ 0 then { W with FinishedMem := MemWrite W.FinishedMem Finished false }
    else W, ?_, ?_, ?_, ?_, ?_⟩
  · have hmp : (if Finished ≠ 0 then
          { W with FinishedMem := MemWrite W.FinishedMem Finished false }
        else W).mMpSystemData = W.mMpSystemData := by split_ifs <;> rfl
    simp only [StartupThisAP, hmp, hBsp, hProc, Bool.not_true, Bool.false_eq_true, if_false]
    by_cases hge : W.mMpSystemData.NumberOfProcessors ≤ ProcessorNumber
    · simp [hge]
    · have hlt : ProcessorNumber < W.mMpSystemData.NumberOfProcessors := by omega
      by_cases hEn : IsEnabledAP (W.mMpSystemData.Cpu ProcessorNumber) = true
      · have hst : GetApState (W.mMpSystemData.Cpu ProcessorNumber) ≠ CpuStateIdle :=
          fun h => hbad ⟨hlt, hEn, h⟩
        have hEn' := hEn
        simp only [IsEnabledAP, Bool.and_eq_true, Bool.not_eq_true'] at hEn'
        simp [hge, hEn, hEn'.1, hEn'.2, hst]
      · have hEn' := hEn
        simp only [IsEnabledAP, Bool.and_eq_true, Bool.not_eq_true', not_and,
          Bool.not_eq_true] at hEn'
        simp only [Bool.not_eq_true] at hEn
        by_cases hb : TestCpuStatusFlag (W.mMpSystemData.Cpu ProcessorNumber)
            PROCESSOR_AS_BSP_BIT = true
        · simp [hge, hEn, hb]
        · simp only [Bool.not_eq_true] at hb
          simp [hge, hEn, hb, hEn' hb]
  all_goals split_ifs <;> rfl

theorem IsEnabledAP_eq_false (c : CPU_DATA_BLOCK) :
    IsEnabledAP c = false ↔
      (TestCpuStatusFlag c PROCESSOR_AS_BSP_BIT = true
        ∨ TestCpuStatusFlag c PROCESSOR_ENABLED_BIT = false) := by
  unfold IsEnabledAP
  cases TestCpuStatusFlag c PROCESSOR_AS_BSP_BIT <;>
    cases TestCpuStatusFlag c PROCESSOR_ENABLED_BIT <;> simp

/-- C9. Rejection table of `StartupThisAP` called from the BSP with a
procedure that is not null: it returns `EFI_NOT_FOUND` exactly when
`ProcessorNumber` is not below `NumberOfProcessors`; for a handle number in
range it returns `EFI_INVALID_PARAMETER` exactly when the target is the BSP or
is not enabled; for an enabled application processor in range it returns
`EFI_NOT_READY` exactly when the target is not idle; and whenever it returns
one of these three statuses, `mMpSystemData` (every record's state,
assignment, flags, deadline and completion sink) is unchanged, as are the
failure lists, the timers and the signalled events. -/
theorem C9_StartupThisAP_rejection_table (w ApicId Procedure ProcessorNumber : Nat)
    (WaitEvent TimeoutInMicroseconds ProcedureArgument Finished : Nat)
    (Schedule : List (List ApEvent)) (W : MpWorld)
    (hBsp : IsBSP W.mMpSystemData ApicId = true)
    (hProc : Procedure ≠ 0) :
    ((∃ W', StartupThisAP w ApicId Procedure ProcessorNumber WaitEvent TimeoutInMicroseconds
          ProcedureArgument Finished Schedule W = some (EFI_NOT_FOUND, W'))
        ↔ W.mMpSystemData.NumberOfProcessors ≤ ProcessorNumber)
    ∧ (ProcessorNumber < W.mMpSystemData.NumberOfProcessors →
        ((∃ W', StartupThisAP w ApicId Procedure ProcessorNumber WaitEvent TimeoutInMicroseconds
            ProcedureArgument Finished Schedule W = some (EFI_INVALID_PARAMETER, W'))
          ↔ (TestCpuStatusFlag (W.mMpSystemData.Cpu ProcessorNumber) PROCESSOR_AS_BSP_BIT = true
              ∨ TestCpuStatusFlag (W.mMpSystemData.Cpu ProcessorNumber) PROCESSOR_ENABLED_BIT
                  = false)))
    ∧ (ProcessorNumber < W.mMpSystemData.NumberOfProcessors →
        TestCpuStatusFlag (W.mMpSystemData.Cpu ProcessorNumber) PROCESSOR_AS_BSP_BIT = false →
        TestCpuStatusFlag (W.mMpSystemData.Cpu ProcessorNumber) PROCESSOR_ENABLED_BIT = true →
        ((∃ W', StartupThisAP w ApicId Procedure ProcessorNumber WaitEvent TimeoutInMicroseconds
            ProcedureArgument Finished Schedule W = some (EFI_NOT_READY, W'))
          ↔ GetApState (W.mMpSystemData.Cpu ProcessorNumber) ≠ CpuStateIdle))
    ∧ (∀ st W', StartupThisAP w ApicId Procedure ProcessorNumber WaitEvent
          TimeoutInMicroseconds ProcedureArgument Finished Schedule W = some (st, W') →
        st = EFI_NOT_FOUND ∨ st = EFI_INVALID_PARAMETER ∨ st = EFI_NOT_READY →
        W'.mMpSystemData = W.mMpSystemData
          ∧ W'.FailedCpuListMem = W.FailedCpuListMem
          ∧ W'.PeriodicTimers = W.PeriodicTimers
          ∧ W'.SignaledEvents = W.SignaledEvents) := by
  by_cases hvalid : ProcessorNumber < W.mMpSystemData.NumberOfProcessors
      ∧ IsEnabledAP (W.mMpSystemData.Cpu ProcessorNumber) = true
      ∧ GetApState (W.mMpSystemData.Cpu ProcessorNumber) = CpuStateIdle
  · obtain ⟨hlt, hEn, hIdle⟩ := hvalid
    have hst := StartupThisAP_valid_status w ApicId Procedure ProcessorNumber WaitEvent
      TimeoutInMicroseconds ProcedureArgument Finished Schedule W hBsp hProc hlt hEn hIdle
    have hEn' : ¬ IsEnabledAP (W.mMpSystemData.Cpu ProcessorNumber) = false := by simp [hEn]
    rw [IsEnabledAP_eq_false] at hEn'
    refine ⟨⟨?_, fun h => absurd hlt (by omega)⟩, fun _ => ⟨?_, fun h => absurd h hEn'⟩,
      fun _ _ _ => ⟨?_, fun h => absurd hIdle h⟩, ?_⟩
    · rintro ⟨W', h⟩
      rcases hst _ _ h with h' | h' <;> cases h'
    · rintro ⟨W', h⟩
      rcases hst _ _ h with h' | h' <;> cases h'
    · rintro ⟨W', h⟩
      rcases hst _ _ h with h' | h' <;> cases h'
    · intro st W' h hbad
      rcases hst _ _ h with h' | h' <;> subst h' <;> simp at hbad
  · obtain ⟨W0, hcall, hmp, hfl, htm, hsg⟩ := StartupThisAP_of_invalid w ApicId Procedure
      ProcessorNumber WaitEvent TimeoutInMicroseconds ProcedureArgument Finished Schedule W
      hBsp hProc hvalid
    rw [hcall]
    refine ⟨?_, ?_, ?_, ?_⟩
    · by_cases hge : W.mMpSystemData.NumberOfProcessors ≤ ProcessorNumber
      · simp [hge]
      · by_cases hEn : IsEnabledAP (W.mMpSystemData.Cpu ProcessorNumber) = false
        · simp [hge, hEn]
        · simp [hge, hEn]
    · intro hlt
      rw [← IsEnabledAP_eq_false]
      have hge : ¬ W.mMpSystemData.NumberOfProcessors ≤ ProcessorNumber := by omega
      by_cases hEn : IsEnabledAP (W.mMpSystemData.Cpu ProcessorNumber) = false
      · simp [hge, hEn]
      · simp [hge, hEn]
    · intro hlt hb he
      have hge : ¬ W.mMpSystemData.NumberOfProcessors ≤ ProcessorNumber := by omega
      have hEn : IsEnabledAP (W.mMpSystemData.Cpu ProcessorNumber) = true := by
        simp [IsEnabledAP, hb, he]
      have hst : GetApState (W.mMpSystemData.Cpu ProcessorNumber) ≠ CpuStateIdle :=
        fun h => hvalid ⟨hlt, hEn, h⟩
      simp [hge, hEn, hst]
    · intro st W' h _
      simp only [Option.some.injEq, Prod.mk.injEq] at h
      rw [← h.2]
      exact ⟨hmp, hfl, htm, hsg⟩

/-- Witness of C9: on three processors the BSP asks for processor 7. -/
theorem C9_StartupThisAP_rejection_table_witness :
    (∃ W', StartupThisAP 64 0 5 7 0 1000 9 0 [] (MkWorld Sys3) = some (EFI_NOT_FOUND, W'))
      ↔ (MkWorld Sys3).mMpSystemData.NumberOfProcessors ≤ 7 :=
  (C9_StartupThisAP_rejection_table 64 0 5 7 0 1000 9 0 [] (MkWorld Sys3) (by decide)
    (by decide)).1

/-- What lines 852-859 of `StartupThisAP` do to the registry. -/
theorem StartupThisAPDispatch_spec (w : Nat) (s : MP_SYSTEM_DATA) (P k E T A F : Nat)
    (hk : k < s.CpuDatas.length) :
    (StartupThisAPDispatch w s P k E T A F).Cpu k =
        { s.Cpu k with
          State := CpuStateReady, Procedure := P, Parameter := A,
          Timeout := ToINTN w T, WaitEvent := E, TimeoutActive := decide (T ≠ 0),
          Finished := F }
    ∧ (∀ i, i ≠ k → (StartupThisAPDispatch w s P k E T A F).Cpu i = s.Cpu i)
    ∧ StartupThisAPDispatch w s P k E T A F =
        { s with CpuDatas := (StartupThisAPDispatch w s P k E T A F).CpuDatas }
    ∧ (StartupThisAPDispatch w s P k E T A F).CpuDatas.length = s.CpuDatas.length := by
  refine ⟨?_, ?_, ?_, ?_⟩
  · simp only [StartupThisAPDispatch, Cpu_SetCpu, length_SetCpu, hk, and_self, if_true]
    rfl
  · intro i hi
    simp only [StartupThisAPDispatch, Cpu_SetCpu, length_SetCpu, hk, and_true, Ne.symm hi,
      if_false]
  · simp [StartupThisAPDispatch, MP_SYSTEM_DATA.SetCpu]
  · simp [StartupThisAPDispatch, length_SetCpu]

/-- C10. Single-target dispatch touches one record only: a call of
`StartupThisAP` from the BSP, with a procedure, on an enabled idle application
processor in range continues (arming the timer, or entering its polling loop)
from a state `W1` in which the target is in state ready with `Procedure`,
`Parameter`, `Timeout`, `TimeoutActive`, `WaitEvent` and `Finished` stored in
its own record, every other record is unchanged, and every field of
`mMpSystemData` other than the table of records (procedure, argument,
counters, deadline, failure slot, single-thread flag, ...) is unchanged. -/
theorem C10_StartupThisAP_touches_one_record (w ApicId Procedure ProcessorNumber : Nat)
    (WaitEvent TimeoutInMicroseconds ProcedureArgument Finished : Nat)
    (Schedule : List (List ApEvent)) (W : MpWorld)
    (hBsp : IsBSP W.mMpSystemData ApicId = true)
    (hProc : Procedure ≠ 0)
    (hlt : ProcessorNumber < W.mMpSystemData.NumberOfProcessors)
    (hEn : IsEnabledAP (W.mMpSystemData.Cpu ProcessorNumber) = true)
    (hIdle : GetApState (W.mMpSystemData.Cpu ProcessorNumber) = CpuStateIdle) :
    ∃ W1 : MpWorld,
      StartupThisAP w ApicId Procedure ProcessorNumber WaitEvent TimeoutInMicroseconds
          ProcedureArgument Finished Schedule W =
        (if WaitEvent ≠ 0 then
          some (EFI_SUCCESS,
            { W1 with PeriodicTimers :=
                (W1.mMpSystemData.Cpu ProcessorNumber).CheckThisAPEvent :: W1.PeriodicTimers })
        else StartupThisAPWait w ProcessorNumber Schedule W1)
      ∧ W1.mMpSystemData = StartupThisAPDispatch w W.mMpSystemData Procedure ProcessorNumber
          WaitEvent TimeoutInMicroseconds ProcedureArgument Finished
      ∧ W1.mMpSystemData.Cpu ProcessorNumber =
          { W.mMpSystemData.Cpu ProcessorNumber with
            State := CpuStateReady, Procedure := Procedure, Parameter := ProcedureArgument,
            Timeout := ToINTN w TimeoutInMicroseconds, WaitEvent := WaitEvent,
            TimeoutActive := decide (TimeoutInMicroseconds ≠ 0), Finished := Finished }
      ∧ (∀ i, i ≠ ProcessorNumber → W1.mMpSystemData.Cpu i = W.mMpSystemData.Cpu i)
      ∧ W1.mMpSystemData.CpuDatas.length = W.mMpSystemData.CpuDatas.length
      ∧ W1.mMpSystemData = { W.mMpSystemData with CpuDatas := W1.mMpSystemData.CpuDatas }
      ∧ W1.FailedCpuListMem = W.FailedCpuListMem
      ∧ W1.PeriodicTimers = W.PeriodicTimers
      ∧ W1.SignaledEvents = W.SignaledEvents := by
  obtain ⟨W1, hcall, hmp, -, hfl, htm, hsg⟩ := StartupThisAP_of_valid w ApicId Procedure
    ProcessorNumber WaitEvent TimeoutInMicroseconds ProcedureArgument Finished Schedule W
    hBsp hProc hlt hEn hIdle
  obtain ⟨h1, h2, h3, h4⟩ := StartupThisAPDispatch_spec w W.mMpSystemData Procedure
    ProcessorNumber WaitEvent TimeoutInMicroseconds ProcedureArgument Finished
    (lt_length_of_IsEnabledAP _ _ hEn)
  refine ⟨W1, hcall, hmp, ?_, ?_, ?_, ?_, hfl, htm, hsg⟩
  · rw [hmp]; exact h1
  · rw [hmp]; exact h2
  · rw [hmp]; exact h4
  · rw [hmp]; exact h3

/-- Witness of C10: on three processors the BSP dispatches processor 2 without
waiting. -/
theorem C10_StartupThisAP_touches_one_record_witness :
    ∃ W1 : MpWorld,
      StartupThisAP 64 0 5 2 3 1000 9 8 [] (MkWorld Sys3) =
        (if 3 ≠ 0 then
          some (EFI_SUCCESS,
            { W1 with PeriodicTimers :=
                (W1.mMpSystemData.Cpu 2).CheckThisAPEvent :: W1.PeriodicTimers })
        else StartupThisAPWait 64 2 [] W1)
      ∧ W1.mMpSystemData = StartupThisAPDispatch 64 (MkWorld Sys3).mMpSystemData 5 2 3 1000 9 8
      ∧ W1.mMpSystemData.Cpu 2 =
          { (MkWorld Sys3).mMpSystemData.Cpu 2 with
            State := CpuStateReady, Procedure := 5, Parameter := 9,
            Timeout := ToINTN 64 1000, WaitEvent := 3,
            TimeoutActive := decide (1000 ≠ 0), Finished := 8 }
      ∧ (∀ i, i ≠ 2 → W1.mMpSystemData.Cpu i = (MkWorld Sys3).mMpSystemData.Cpu i)
      ∧ W1.mMpSystemData.CpuDatas.length = (MkWorld Sys3).mMpSystemData.CpuDatas.length
      ∧ W1.mMpSystemData =
          { (MkWorld Sys3).mMpSystemData with CpuDatas := W1.mMpSystemData.CpuDatas }
      ∧ W1.FailedCpuListMem = (MkWorld Sys3).FailedCpuListMem
      ∧ W1.PeriodicTimers = (MkWorld Sys3).PeriodicTimers
      ∧ W1.SignaledEvents = (MkWorld Sys3).SignaledEvents :=
  C10_StartupThisAP_touches_one_record 64 0 5 2 3 1000 9 8 [] (MkWorld Sys3) (by decide)
    (by decide) (by decide) (by decide) (by decide)

/-- C7 fails on the code: `ResetProcessorToIdleState` has an empty body.  On
three processors the BSP starts processor 1 with a deadline of 100
microseconds and waits; processor 1 begins the procedure and never returns.
The call returns `EFI_TIMEOUT` and leaves processor 1 in state busy, so the
next `StartupThisAP` on it and the next `StartupAllAPs` return
`EFI_NOT_READY`.  The same happens after a blocking `StartupAllAPs` that times
out. -/
theorem C7_timed_out_core_stays_busy :
    (∃ W', StartupThisAP 64 0 5 1 0 100 9 0 [[ApEvent.Begin 1], []] (MkWorld Sys3)
          = some (EFI_TIMEOUT, W')
        ∧ GetApState (W'.mMpSystemData.Cpu 1) = CpuStateBuzy
        ∧ (∃ W'', StartupThisAP 64 0 5 1 0 100 9 0 [[], []] W' = some (EFI_NOT_READY, W''))
        ∧ (∃ W'', StartupAllAPs 64 0 5 false 0 100 9 0 [[], []] W' = some (EFI_NOT_READY, W'')))
    ∧ (∃ W', StartupAllAPs 64 0 5 false 0 100 9 0 [[ApEvent.Begin 1], []] (MkWorld Sys3)
          = some (EFI_TIMEOUT, W')
        ∧ GetApState (W'.mMpSystemData.Cpu 1) = CpuStateBuzy
        ∧ GetApState (W'.mMpSystemData.Cpu 2) = CpuStateReady
        ∧ (∃ W'', StartupAllAPs 64 0 5 false 0 100 9 0 [[], []] W' = some (EFI_NOT_READY, W''))) := by
  refine ⟨⟨_, rfl, ?_, ⟨_, rfl⟩, ⟨_, rfl⟩⟩, ⟨_, rfl, ?_, ?_, ⟨_, rfl⟩⟩⟩ <;> rfl

theorem lt_length_of_GetApState_ne (s : MP_SYSTEM_DATA) (k : Nat)
    (h : GetApState (s.Cpu k) ≠ CpuStateIdle) : k < s.CpuDatas.length := by
  by_contra hk
  rw [Cpu_of_length_le s k (not_lt.mp hk)] at h
  exact h rfl

theorem StartupThisAPPass_of_finished (k : Nat) (W : MpWorld)
    (h : GetApState (W.mMpSystemData.Cpu k) = CpuStateFinished) :
    ∃ W', StartupThisAPPass k W = Sum.inl (EFI_SUCCESS, W')
      ∧ GetApState (W'.mMpSystemData.Cpu k) = CpuStateIdle := by
  have hk : k < W.mMpSystemData.CpuDatas.length :=
    lt_length_of_GetApState_ne _ _ (by rw [h]; decide)
  refine ⟨{ W with mMpSystemData :=
    W.mMpSystemData.SetCpu k (SetApState (W.mMpSystemData.Cpu k) CpuStateIdle) }, ?_, ?_⟩
  · simp only [StartupThisAPPass, h, if_true]
  · simp only [Cpu_SetCpu_self _ _ _ hk]
    rfl

theorem StartupThisAPWait_of_finished (w k : Nat) (j : Nat) :
    ∀ (Schedule : List (List ApEvent)) (W : MpWorld), j ≤ Schedule.length →
      GetApState ((StartupThisAPPolled w k Schedule j W).mMpSystemData.Cpu k)
        = CpuStateFinished →
      (∀ i, i < j →
        ¬ (((StartupThisAPPolled w k Schedule i W).mMpSystemData.Cpu k).TimeoutActive = true
            ∧ ((StartupThisAPPolled w k Schedule i W).mMpSystemData.Cpu k).Timeout < 0)) →
      ∃ W', StartupThisAPWait w k Schedule W = some (EFI_SUCCESS, W')
        ∧ GetApState (W'.mMpSystemData.Cpu k) = CpuStateIdle := by
  induction j with
  | zero =>
    intro Schedule W _ hfin _
    have hfin' : GetApState (W.mMpSystemData.Cpu k) = CpuStateFinished := by
      cases Schedule <;> exact hfin
    obtain ⟨W', hp, hidle⟩ := StartupThisAPPass_of_finished k W hfin'
    refine ⟨W', ?_, hidle⟩
    cases Schedule <;> simp [StartupThisAPWait, hp]
  | succ j ih =>
    intro Schedule W hlen hfin hbudget
    cases Schedule with
    | nil => simp at hlen
    | cons Events rest =>
      by_cases hnow : GetApState (W.mMpSystemData.Cpu k) = CpuStateFinished
      · obtain ⟨W', hp, hidle⟩ := StartupThisAPPass_of_finished k W hnow
        exact ⟨W', by simp [StartupThisAPWait, hp], hidle⟩
      · have h0 := hbudget 0 (Nat.succ_pos j)
        have hp : StartupThisAPPass k W = Sum.inr W := by
          simp only [StartupThisAPPolled] at h0
          simp only [StartupThisAPPass, hnow, if_false, Bool.and_eq_true, decide_eq_true_eq, h0]
        have hrec := ih rest (StartupThisAPStall w k W Events)
          (by simpa using hlen) hfin
          (fun i hi => hbudget (i + 1) (by omega))
        obtain ⟨W', hw, hidle⟩ := hrec
        exact ⟨W', by simp [StartupThisAPWait, hp, hw], hidle⟩

theorem StartupThisAPPolled_congr (w k : Nat) (Schedule : List (List ApEvent)) (j : Nat)
    (W W' : MpWorld) (h : W.mMpSystemData = W'.mMpSystemData) :
    (StartupThisAPPolled w k Schedule j W).mMpSystemData
      = (StartupThisAPPolled w k Schedule j W').mMpSystemData := by
  induction Schedule generalizing j W W' with
  | nil => cases j <;> exact h
  | cons Events rest ih =>
    cases j with
    | zero => exact h
    | succ j =>
      simp only [StartupThisAPPolled]
      apply ih
      simp only [StartupThisAPStall, h]

/-- C8. Single-target round trip: the BSP calls `StartupThisAP` in blocking
mode (`WaitEvent` null) with a procedure on an enabled idle application
processor `ProcessorNumber`.  If at some turn `j + 1` of the polling loop
(within the schedule) the target is seen in state finished, and at no earlier
turn the remaining budget of an active deadline was negative, the call returns
`EFI_SUCCESS` and leaves the target in state idle. -/
theorem C8_single_target_round_trip (w ApicId Procedure ProcessorNumber : Nat)
    (TimeoutInMicroseconds ProcedureArgument Finished : Nat)
    (Schedule : List (List ApEvent)) (W : MpWorld)
    (hBsp : IsBSP W.mMpSystemData ApicId = true)
    (hProc : Procedure ≠ 0)
    (hlt : ProcessorNumber < W.mMpSystemData.NumberOfProcessors)
    (hEn : IsEnabledAP (W.mMpSystemData.Cpu ProcessorNumber) = true)
    (hIdle : GetApState (W.mMpSystemData.Cpu ProcessorNumber) = CpuStateIdle)
    (j : Nat) (hj : j ≤ Schedule.length)
    (hFinished : GetApState ((StartupThisAPPolled w ProcessorNumber Schedule j
        { W with mMpSystemData := (StartupThisAPDispatch w W.mMpSystemData Procedure
            ProcessorNumber 0 TimeoutInMicroseconds ProcedureArgument Finished) }
        ).mMpSystemData.Cpu ProcessorNumber) = CpuStateFinished)
    (hBudget : ∀ i, i < j →
      ¬ (((StartupThisAPPolled w ProcessorNumber Schedule i
            { W with mMpSystemData := (StartupThisAPDispatch w W.mMpSystemData Procedure
                ProcessorNumber 0 TimeoutInMicroseconds ProcedureArgument Finished) }
            ).mMpSystemData.Cpu ProcessorNumber).TimeoutActive = true
        ∧ ((StartupThisAPPolled w ProcessorNumber Schedule i
            { W with mMpSystemData := (StartupThisAPDispatch w W.mMpSystemData Procedure
                ProcessorNumber 0 TimeoutInMicroseconds ProcedureArgument Finished) }
            ).mMpSystemData.Cpu ProcessorNumber).Timeout < 0)) :
    ∃ W', StartupThisAP w ApicId Procedure ProcessorNumber 0 TimeoutInMicroseconds
          ProcedureArgument Finished Schedule W = some (EFI_SUCCESS, W')
      ∧ GetApState (W'.mMpSystemData.Cpu ProcessorNumber) = CpuStateIdle := by
  obtain ⟨W1, hcall, hmp, -⟩ := StartupThisAP_of_valid w ApicId Procedure ProcessorNumber 0
    TimeoutInMicroseconds ProcedureArgument Finished Schedule W hBsp hProc hlt hEn hIdle
  rw [hcall]
  simp only [ne_eq, not_true_eq_false, if_false]
  have hc : ∀ i, (StartupThisAPPolled w ProcessorNumber Schedule i W1).mMpSystemData
      = (StartupThisAPPolled w ProcessorNumber Schedule i
          { W with mMpSystemData := (StartupThisAPDispatch w W.mMpSystemData Procedure
              ProcessorNumber 0 TimeoutInMicroseconds ProcedureArgument Finished) }
          ).mMpSystemData :=
    fun i => StartupThisAPPolled_congr w ProcessorNumber Schedule i _ _ hmp
  apply StartupThisAPWait_of_finished w ProcessorNumber j Schedule W1 hj
  · rw [hc j]; exact hFinished
  · intro i hi
    rw [hc i]
    exact hBudget i hi

/-- Witness of C8: processor 1 of three begins during the first stall and
returns during the second; the third turn of the loop sees it finished. -/
theorem C8_single_target_round_trip_witness :
    ∃ W', StartupThisAP 64 0 5 1 0 1000 9 0 [[ApEvent.Begin 1], [ApEvent.Return 1]]
          (MkWorld Sys3) = some (EFI_SUCCESS, W')
      ∧ GetApState (W'.mMpSystemData.Cpu 1) = CpuStateIdle :=
  C8_single_target_round_trip 64 0 5 1 1000 9 0 [[ApEvent.Begin 1], [ApEvent.Return 1]]
    (MkWorld Sys3) (by decide) (by decide) (by decide) (by decide) (by decide) 2 (by decide)
    (by decide) (by decide)

/-! ## Harvesting and the polling loop of `StartupAllAPs` -/

theorem SetCpu_Cpu_self (s : MP_SYSTEM_DATA) (i : Nat) : s.SetCpu i (s.Cpu i) = s := by
  unfold MP_SYSTEM_DATA.SetCpu MP_SYSTEM_DATA.Cpu
  have : s.CpuDatas.set i (s.CpuDatas.getD i ZeroCpuData) = s.CpuDatas := by
    apply List.ext_getElem?
    intro j
    rw [List.getElem?_set]
    by_cases hij : i = j
    · subst hij
      by_cases hi : i < s.CpuDatas.length
      · simp [hi, List.getD_eq_getElem?_getD, List.getElem?_eq_getElem hi]
      · simp [hi, List.getElem?_eq_none (not_lt.mp hi)]
    · simp [hij]
  rw [this]

theorem IsEnabledAP_congr (c c' : CPU_DATA_BLOCK) (h : c.Info = c'.Info) :
    IsEnabledAP c = IsEnabledAP c' := by
  simp [IsEnabledAP, TestCpuStatusFlag, h]

theorem TestCpuStatusFlag_congr (c c' : CPU_DATA_BLOCK) (Flags : Nat) (h : c.Info = c'.Info) :
    TestCpuStatusFlag c Flags = TestCpuStatusFlag c' Flags := by
  simp [TestCpuStatusFlag, h]

theorem foldl_eq_self {α β : Type} (f : α → β → α) (a : α) (l : List β)
    (h : ∀ b, b ∈ l → f a b = a) : l.foldl f a = a := by
  induction l with
  | nil => rfl
  | cons b rest ih =>
    rw [List.foldl_cons, h b (List.mem_cons_self _ _)]
    exact ih (fun b' hb' => h b' (List.mem_cons_of_mem _ hb'))

theorem CheckAndUpdateBody_of_not_finished (s : MP_SYSTEM_DATA) (i : Nat)
    (h : IsEnabledAP (s.Cpu i) = true → GetApState (s.Cpu i) ≠ CpuStateFinished) :
    CheckAndUpdateBody s i = s := by
  unfold CheckAndUpdateBody
  by_cases h1 : TestCpuStatusFlag (s.Cpu i) PROCESSOR_AS_BSP_BIT = true
  · simp [h1]
  · by_cases h2 : TestCpuStatusFlag (s.Cpu i) PROCESSOR_ENABLED_BIT = true
    · have := h (by simp [IsEnabledAP, h1, h2])
      simp [h1, h2, this]
    · simp [h1, h2]

/-- A harvesting pass over a registry without a finished enabled application
processor changes nothing. -/
theorem CheckAndUpdateAllAPsToIdleState_of_none_finished (s : MP_SYSTEM_DATA)
    (h : ∀ i, i < s.NumberOfProcessors → IsEnabledAP (s.Cpu i) = true →
      GetApState (s.Cpu i) ≠ CpuStateFinished) :
    CheckAndUpdateAllAPsToIdleState s = s := by
  unfold CheckAndUpdateAllAPsToIdleState
  apply foldl_eq_self
  intro i hi
  exact CheckAndUpdateBody_of_not_finished s i (h i (List.mem_range.1 hi))

theorem SessionStuck_Begin (s0 s : MP_SYSTEM_DATA) (n : Nat) (h : SessionStuck s0 s) :
    SessionStuck s0 (ApSelfTransition s (ApEvent.Begin n)) := by
  obtain ⟨hframe, hlen, hinfo, hstate⟩ := h
  simp only [ApSelfTransition]
  split_ifs with hc
  · have hn : n < s.CpuDatas.length :=
      lt_length_of_GetApState_ne s n (by rw [hc.2.2]; decide)
    refine ⟨?_, ?_, ?_, ?_⟩
    · rw [← hframe]
      simp [MP_SYSTEM_DATA.SetCpu]
    · rw [length_SetCpu]; exact hlen
    · intro i
      rw [Cpu_SetCpu]
      by_cases hi : n = i
      · subst hi
        simp only [hn, and_self, if_true]
        exact hinfo n
      · simp only [hi, false_and, if_false]
        exact hinfo i
    · intro i hi he
      rw [Cpu_SetCpu]
      by_cases hin : n = i
      · subst hin
        simp only [hn, and_self, if_true]
        exact ⟨by simp [GetApState, SetApProcedure, SetApState],
          by simp [GetApState, SetApProcedure, SetApState]⟩
      · simp only [hin, false_and, if_false]
        exact hstate i hi he
  · exact ⟨hframe, hlen, hinfo, hstate⟩

theorem SessionStuck_RunAps (s0 s : MP_SYSTEM_DATA) (Events : List ApEvent)
    (hev : ∀ e, e ∈ Events → ∃ n, e = ApEvent.Begin n) (h : SessionStuck s0 s) :
    SessionStuck s0 (RunAps s Events) := by
  unfold RunAps
  induction Events generalizing s with
  | nil => exact h
  | cons e rest ih =>
    rw [List.foldl_cons]
    obtain ⟨n, rfl⟩ := hev e (List.mem_cons_self _ _)
    exact ih _ (fun e' he' => hev e' (List.mem_cons_of_mem _ he')) (SessionStuck_Begin s0 s n h)

/-! ## The failure list -/

theorem MemRead_MemWrite {α : Type} (Mem : List (Nat × α)) (p : Nat) (v d : α) :
    MemRead (MemWrite Mem p v) p d = v := by
  simp [MemRead, MemWrite, List.lookup]

theorem set_append_replicate (L : List Nat) (r v : Nat) (hr : 0 < r) :
    (L ++ List.replicate r 0).set L.length v = L ++ v :: List.replicate (r - 1) 0 := by
  obtain ⟨r', rfl⟩ : ∃ r', r = r' + 1 := ⟨r - 1, by omega⟩
  induction L with
  | nil => simp [List.replicate_succ]
  | cons a L ih => simp [ih]

theorem length_filter_range_le (f : Nat → Bool) (k n : Nat) (h : k ≤ n) :
    ((List.range k).filter f).length ≤ ((List.range n).filter f).length :=
  ((List.range_sublist.2 h).filter f).length_le

/-- The loop of `ResetAllFailedAPs` when a failure list is asked for, the
buffer holds `E` entries, every enabled application processor is not idle and
the buffer is large enough for them. -/
theorem ResetAllFailedAPs_fold (W : MpWorld) (E : Nat) (k : Nat)
    (hp : W.mMpSystemData.FailedList ≠ 0)
    (hidx : W.mMpSystemData.FailedListIndex = 0)
    (hbuf : MemRead W.FailedCpuListMem W.mMpSystemData.FailedList none
      = some (List.replicate E 0))
    (hbusy : ∀ i, i < W.mMpSystemData.NumberOfProcessors →
      IsEnabledAP (W.mMpSystemData.Cpu i) = true →
      GetApState (W.mMpSystemData.Cpu i) ≠ CpuStateIdle)
    (hk : k ≤ W.mMpSystemData.NumberOfProcessors)
    (hfit : (EnabledAPs W.mMpSystemData).length < E) :
    ((List.range k).foldl ResetAllFailedBody W).mMpSystemData =
        { W.mMpSystemData with
          FailedListIndex :=
            ((List.range k).filter (fun i => IsEnabledAP (W.mMpSystemData.Cpu i))).length }
    ∧ MemRead ((List.range k).foldl ResetAllFailedBody W).FailedCpuListMem
          W.mMpSystemData.FailedList none =
        some ((List.range k).filter (fun i => IsEnabledAP (W.mMpSystemData.Cpu i))
          ++ List.replicate
              (E - ((List.range k).filter
                (fun i => IsEnabledAP (W.mMpSystemData.Cpu i))).length) 0)
    ∧ ((List.range k).foldl ResetAllFailedBody W).FinishedMem = W.FinishedMem
    ∧ ((List.range k).foldl ResetAllFailedBody W).PeriodicTimers = W.PeriodicTimers
    ∧ ((List.range k).foldl ResetAllFailedBody W).SignaledEvents = W.SignaledEvents := by
  induction k with
  | zero =>
    refine ⟨?_, ?_, rfl, rfl, rfl⟩
    · simp only [List.range_zero, List.foldl_nil, List.filter_nil, List.length_nil]
      rw [← hidx]
    · simpa using hbuf
  | succ k ih =>
    obtain ⟨hmp, hmem, hfm, htm, hsg⟩ := ih (by omega)
    rw [List.range_succ, List.foldl_append, List.foldl_cons, List.foldl_nil]
    generalize (List.range k).foldl ResetAllFailedBody W = Wk at hmp hmem hfm htm hsg ⊢
    simp only [List.filter_append, List.length_append]
    have hcpu : Wk.mMpSystemData.Cpu k = W.mMpSystemData.Cpu k := by rw [hmp]; rfl
    have hFL : Wk.mMpSystemData.FailedList = W.mMpSystemData.FailedList := by rw [hmp]
    by_cases he : IsEnabledAP (W.mMpSystemData.Cpu k) = true
    · have hst := hbusy k (by omega) he
      have he' := he
      simp only [IsEnabledAP, Bool.and_eq_true, Bool.not_eq_true'] at he'
      have hlen := length_filter_range_le (fun i => IsEnabledAP (W.mMpSystemData.Cpu i))
        (k + 1) W.mMpSystemData.NumberOfProcessors hk
      rw [List.range_succ, List.filter_append, List.length_append] at hlen
      simp only [List.filter_cons, List.filter_nil, he, if_true, List.length_singleton] at hlen ⊢
      have hfit' : (EnabledAPs W.mMpSystemData).length < E := hfit
      unfold EnabledAPs at hfit'
      have hbody : ResetAllFailedBody Wk k =
          { Wk with
            mMpSystemData := { Wk.mMpSystemData with
              FailedListIndex := Wk.mMpSystemData.FailedListIndex + 1 }
            FailedCpuListMem := MemWrite Wk.FailedCpuListMem W.mMpSystemData.FailedList
              (some ((List.filter (fun i => IsEnabledAP (W.mMpSystemData.Cpu i)) (List.range k)
                ++ k :: List.replicate
                  (E - (List.filter (fun i => IsEnabledAP (W.mMpSystemData.Cpu i))
                    (List.range k)).length - 1) 0))) } := by
        simp only [ResetAllFailedBody, hcpu, he'.1, he'.2, hst, hFL, hp, ne_eq,
          not_false_eq_true, if_true, Bool.false_eq_true, if_false, Bool.not_true,
          FailedListStore, hmem, ResetProcessorToIdleState, SetCpu_Cpu_self]
        rw [hmp]
        simp only
        rw [set_append_replicate _ _ _ (by omega)]
      rw [hbody]
      refine ⟨?_, ?_, hfm, htm, hsg⟩
      · simp only
        rw [hmp]
      · simp only
        rw [MemRead_MemWrite]
        simp [Nat.sub_add_eq]
    · have hbody : ResetAllFailedBody Wk k = Wk := by
        have he' := he
        rw [Bool.not_eq_true, IsEnabledAP_eq_false] at he'
        simp only [ResetAllFailedBody, hcpu]
        rcases he' with h | h
        · simp [h]
        · by_cases hb : TestCpuStatusFlag (W.mMpSystemData.Cpu k) PROCESSOR_AS_BSP_BIT = true
          · simp [hb]
          · simp [hb, h]
      rw [hbody]
      simp only [List.filter_cons, List.filter_nil, he, Bool.false_eq_true, if_false,
        List.length_nil, Nat.add_zero, List.append_nil]
      exact ⟨hmp, hmem, hfm, htm, hsg⟩

theorem EnabledAPs_congr (s s' : MP_SYSTEM_DATA)
    (hN : s.NumberOfProcessors = s'.NumberOfProcessors)
    (hinfo : ∀ i, (s.Cpu i).Info = (s'.Cpu i).Info) : EnabledAPs s = EnabledAPs s' := by
  unfold EnabledAPs
  rw [hN]
  apply List.filter_congr
  intro i _
  exact IsEnabledAP_congr _ _ (hinfo i)

/-- What `ResetAllFailedAPs` leaves behind when a failure list is asked for,
every enabled application processor is not idle and the buffer holds one entry
more than there are enabled application processors. -/
theorem ResetAllFailedAPs_spec (w : Nat) (W : MpWorld)
    (hp : W.mMpSystemData.FailedList ≠ 0)
    (hidx : W.mMpSystemData.FailedListIndex = 0)
    (hbusy : ∀ i, i < W.mMpSystemData.NumberOfProcessors →
      IsEnabledAP (W.mMpSystemData.Cpu i) = true →
      GetApState (W.mMpSystemData.Cpu i) ≠ CpuStateIdle)
    (hfit : FailedListEntries w W.mMpSystemData = (EnabledAPs W.mMpSystemData).length + 1) :
    (ResetAllFailedAPs w W).mMpSystemData =
        { W.mMpSystemData with FailedListIndex := (EnabledAPs W.mMpSystemData).length }
    ∧ MemRead (ResetAllFailedAPs w W).FailedCpuListMem W.mMpSystemData.FailedList none =
        some (EnabledAPs W.mMpSystemData ++ [END_OF_CPU_LIST])
    ∧ (ResetAllFailedAPs w W).FinishedMem = W.FinishedMem
    ∧ (ResetAllFailedAPs w W).PeriodicTimers = W.PeriodicTimers
    ∧ (ResetAllFailedAPs w W).SignaledEvents = W.SignaledEvents := by
  obtain ⟨hmp, hmem, hfm, htm, hsg⟩ := ResetAllFailedAPs_fold
    { W with FailedCpuListMem := (MemWrite W.FailedCpuListMem W.mMpSystemData.FailedList
        (some (List.replicate (FailedListEntries w W.mMpSystemData) 0))) }
    (FailedListEntries w W.mMpSystemData) W.mMpSystemData.NumberOfProcessors
    hp hidx (MemRead_MemWrite _ _ _ _) hbusy (le_refl _) (by simp only; omega)
  simp only at hmp hmem hfm htm hsg
  have hL : (List.range W.mMpSystemData.NumberOfProcessors).filter
      (fun i => IsEnabledAP (W.mMpSystemData.Cpu i)) = EnabledAPs W.mMpSystemData := rfl
  rw [hL] at hmp hmem
  simp only [ResetAllFailedAPs, hp, ne_eq, not_false_eq_true, if_true]
  generalize List.foldl ResetAllFailedBody
    { W with FailedCpuListMem := (MemWrite W.FailedCpuListMem W.mMpSystemData.FailedList
        (some (List.replicate (FailedListEntries w W.mMpSystemData) 0))) }
    (List.range W.mMpSystemData.NumberOfProcessors) = W2 at hmp hmem hfm htm hsg ⊢
  have hFL : W2.mMpSystemData.FailedList = W.mMpSystemData.FailedList := by rw [hmp]
  have hFI : W2.mMpSystemData.FailedListIndex = (EnabledAPs W.mMpSystemData).length := by
    rw [hmp]
  simp only [hFL, hp, not_false_eq_true, if_true, FailedListStore, hmem, hFI]
  refine ⟨hmp, ?_, hfm, htm, hsg⟩
  rw [MemRead_MemWrite, hfit, set_append_replicate _ _ _ (by omega)]
  simp

theorem ToINTN_of_range (w : Nat) (x : Int) (hw : 1 ≤ w)
    (h1 : -(2 : Int) ^ (w - 1) ≤ x) (h2 : x < (2 : Int) ^ (w - 1)) : ToINTN w x = x := by
  obtain ⟨v, rfl⟩ : ∃ v, w = v + 1 := ⟨w - 1, by omega⟩
  simp only [Nat.add_sub_cancel] at h1 h2
  have hpow : (2 : Int) ^ (v + 1) = 2 * 2 ^ v := by rw [pow_succ]; ring
  have hpos : (0 : Int) < 2 ^ v := by positivity
  unfold ToINTN
  simp only [Nat.add_sub_cancel]
  by_cases hx : 0 ≤ x
  · have : x % 2 ^ (v + 1) = x := Int.emod_eq_of_lt hx (by rw [hpow]; omega)
    rw [this, if_pos h2]
  · have : x % 2 ^ (v + 1) = x + 2 ^ (v + 1) := by
      rw [← Int.add_mul_emod_self (a := x) (b := 1) (c := 2 ^ (v + 1)), Int.one_mul]
      exact Int.emod_eq_of_lt (by rw [hpow]; omega) (by rw [hpow]; omega)
    rw [this, if_neg (by rw [hpow]; omega)]
    ring

theorem ToINTN_neg_of_ge (w T : Nat) (hw : 1 ≤ w) (h1 : 2 ^ (w - 1) ≤ T) (h2 : T < 2 ^ w) :
    ToINTN w T < 0 ∧ -(2 : Int) ^ (w - 1) ≤ ToINTN w T := by
  obtain ⟨v, rfl⟩ : ∃ v, w = v + 1 := ⟨w - 1, by omega⟩
  simp only [Nat.add_sub_cancel] at h1
  have hpow : (2 : Int) ^ (v + 1) = 2 * 2 ^ v := by rw [pow_succ]; ring
  have h1' : (2 : Int) ^ v ≤ (T : Int) := by exact_mod_cast h1
  have h2' : (T : Int) < 2 ^ (v + 1) := by exact_mod_cast h2
  have : (T : Int) % 2 ^ (v + 1) = T := Int.emod_eq_of_lt (by omega) h2'
  unfold ToINTN
  simp only [Nat.add_sub_cancel, this]
  rw [if_neg (by omega)]
  constructor
  · omega
  · rw [hpow]; omega

theorem ApSelfTransition_frame (s : MP_SYSTEM_DATA) (e : ApEvent) :
    ApSelfTransition s e = { s with CpuDatas := (ApSelfTransition s e).CpuDatas } := by
  cases e <;> simp only [ApSelfTransition] <;> split_ifs <;> rfl

theorem RunAps_frame (s : MP_SYSTEM_DATA) (Events : List ApEvent) :
    RunAps s Events = { s with CpuDatas := (RunAps s Events).CpuDatas } := by
  unfold RunAps
  induction Events generalizing s with
  | nil => rfl
  | cons e rest ih =>
    rw [List.foldl_cons, ih, ApSelfTransition_frame s e]

theorem SessionStuck_stall (w : Nat) (s0 s : MP_SYSTEM_DATA) (Events : List ApEvent)
    (hev : ∀ e, e ∈ Events → ∃ n, e = ApEvent.Begin n) (h : SessionStuck s0 s) :
    SessionStuck s0
      { RunAps s Events with Timeout := ToINTN w ((RunAps s Events).Timeout - gPollInterval) } := by
  obtain ⟨hframe, hlen, hinfo, hstate⟩ := SessionStuck_RunAps s0 s Events hev h
  exact ⟨hframe, hlen, hinfo, hstate⟩

theorem SessionStuck_fields (s0 s : MP_SYSTEM_DATA) (h : SessionStuck s0 s) :
    s.NumberOfProcessors = s0.NumberOfProcessors
    ∧ s.TimeoutActive = s0.TimeoutActive
    ∧ s.FinishCount = s0.FinishCount
    ∧ s.StartCount = s0.StartCount
    ∧ s.FailedList = s0.FailedList
    ∧ s.FailedListIndex = s0.FailedListIndex := by
  have hfr := h.1
  have e1 := congrArg MP_SYSTEM_DATA.NumberOfProcessors hfr
  have e2 := congrArg MP_SYSTEM_DATA.TimeoutActive hfr
  have e3 := congrArg MP_SYSTEM_DATA.FinishCount hfr
  have e4 := congrArg MP_SYSTEM_DATA.StartCount hfr
  have e5 := congrArg MP_SYSTEM_DATA.FailedList hfr
  have e6 := congrArg MP_SYSTEM_DATA.FailedListIndex hfr
  exact ⟨e1, e2, e3, e4, e5, e6⟩

theorem SessionStuck_harvest (s0 s : MP_SYSTEM_DATA) (h : SessionStuck s0 s) :
    CheckAndUpdateAllAPsToIdleState s = s := by
  obtain ⟨hframe, -, hinfo, hstate⟩ := h
  have hN : s.NumberOfProcessors = s0.NumberOfProcessors := by
    have e1 := congrArg MP_SYSTEM_DATA.NumberOfProcessors hframe
    exact e1
  apply CheckAndUpdateAllAPsToIdleState_of_none_finished
  intro i hi he
  rw [IsEnabledAP_congr _ _ (hinfo i)] at he
  exact (hstate i (by omega) he).2

/-- The polling loop of `StartupAllAPs` in a session in which no procedure
ever returns: with an active deadline and a schedule long enough for the
budget to become negative, the loop ends with `EFI_TIMEOUT` after
`ResetAllFailedAPs`, run in a state of the same kind. -/
theorem StartupAllAPsWait_stuck (w : Nat) (hw : 8 ≤ w) (s0 : MP_SYSTEM_DATA)
    (hact : s0.TimeoutActive = true) (hcnt : s0.FinishCount ≠ s0.StartCount) :
    ∀ (Schedule : List (List ApEvent)) (W : MpWorld),
      SessionStuck s0 W.mMpSystemData →
      (∀ Events, Events ∈ Schedule → ∀ e, e ∈ Events → ∃ n, e = ApEvent.Begin n) →
      -(2 : Int) ^ (w - 1) ≤ W.mMpSystemData.Timeout →
      W.mMpSystemData.Timeout < (2 : Int) ^ (w - 1) →
      W.mMpSystemData.Timeout < 100 * (Schedule.length : Int) →
      ∃ Wt, StartupAllAPsWait w Schedule W = some (EFI_TIMEOUT, ResetAllFailedAPs w Wt)
        ∧ SessionStuck s0 Wt.mMpSystemData
        ∧ Wt.FailedCpuListMem = W.FailedCpuListMem
        ∧ Wt.FinishedMem = W.FinishedMem
        ∧ Wt.PeriodicTimers = W.PeriodicTimers
        ∧ Wt.SignaledEvents = W.SignaledEvents := by
  have h128 : (100 : Int) ≤ 2 ^ (w - 1) := by
    have : (2 : Int) ^ 7 ≤ 2 ^ (w - 1) := pow_le_pow_right₀ (by norm_num) (by omega)
    norm_num at this
    omega
  intro Schedule
  induction Schedule with
  | nil =>
    intro W hstuck _ _ _ hlen
    have hharv := SessionStuck_harvest s0 _ hstuck
    obtain ⟨-, e2, e3, e4, -, -⟩ := SessionStuck_fields s0 _ hstuck
    have h1 : W.mMpSystemData.TimeoutActive = true := by rw [e2]; exact hact
    have h2 : W.mMpSystemData.FinishCount ≠ W.mMpSystemData.StartCount := by
      rw [e3, e4]; exact hcnt
    have hneg : W.mMpSystemData.Timeout < 0 := by simpa using hlen
    refine ⟨W, ?_, hstuck, rfl, rfl, rfl, rfl⟩
    simp [StartupAllAPsWait, StartupAllAPsPass, hharv, h1, h2, hneg]
  | cons Events rest ih =>
    intro W hstuck hev hlo hhi hlen
    have hharv := SessionStuck_harvest s0 _ hstuck
    obtain ⟨-, e2, e3, e4, -, -⟩ := SessionStuck_fields s0 _ hstuck
    have h1 : W.mMpSystemData.TimeoutActive = true := by rw [e2]; exact hact
    have h2 : W.mMpSystemData.FinishCount ≠ W.mMpSystemData.StartCount := by
      rw [e3, e4]; exact hcnt
    by_cases hneg : W.mMpSystemData.Timeout < 0
    · refine ⟨W, ?_, hstuck, rfl, rfl, rfl, rfl⟩
      simp [StartupAllAPsWait, StartupAllAPsPass, hharv, h1, h2, hneg]
    · have hT : (RunAps W.mMpSystemData Events).Timeout = W.mMpSystemData.Timeout := by
        rw [RunAps_frame]
      have hto : ToINTN w (W.mMpSystemData.Timeout - gPollInterval)
          = W.mMpSystemData.Timeout - 100 := by
        rw [ToINTN_of_range w _ (by omega)]
        · simp [gPollInterval]
        · simp only [gPollInterval, Nat.cast_ofNat]; omega
        · simp only [gPollInterval, Nat.cast_ofNat]; omega
      have hpass : StartupAllAPsPass w W = Sum.inr W := by
        simp [StartupAllAPsPass, hharv, h1, h2, hneg]
      obtain ⟨Wt, hw', hst', hm1, hm2, hm3, hm4⟩ := ih
        (StartupAllAPsStall w W Events)
        (SessionStuck_stall w s0 _ Events (hev Events (List.mem_cons_self _ _)) hstuck)
        (fun Ev hEv => hev Ev (List.mem_cons_of_mem _ hEv))
        (by simp only [StartupAllAPsStall, hT, hto]; omega)
        (by simp only [StartupAllAPsStall, hT, hto]; omega)
        (by
          simp only [StartupAllAPsStall, hT, hto]
          simp only [List.length_cons, Nat.cast_add, Nat.cast_one] at hlen
          omega)
      refine ⟨Wt, ?_, hst', hm1, hm2, hm3, hm4⟩
      simp only [StartupAllAPsWait, hpass, hw']

/-- After lines 640-687 of `StartupAllAPs` the flags are as before and every
enabled application processor is ready or blocked. -/
theorem StartupAllAPsDispatch_started (w : Nat) (s : MP_SYSTEM_DATA) (P : Nat) (ST : Bool)
    (E T A F : Nat)
    (hIdle : ∀ j, j < s.NumberOfProcessors → IsEnabledAP (s.Cpu j) = true →
      GetApState (s.Cpu j) = CpuStateIdle) :
    (∀ i, ((StartupAllAPsDispatch w s P ST E T A F).Cpu i).Info = (s.Cpu i).Info)
    ∧ (∀ i, i < s.NumberOfProcessors → IsEnabledAP (s.Cpu i) = true →
        GetApState ((StartupAllAPsDispatch w s P ST E T A F).Cpu i) = CpuStateReady
        ∨ GetApState ((StartupAllAPsDispatch w s P ST E T A F).Cpu i) = CpuStateBlocked) := by
  obtain ⟨-, -, hready, hblocked, hother⟩ := StartupAllAPsDispatch_spec w s P ST E T A F hIdle
  have hcase : ∀ i, i < s.NumberOfProcessors → IsEnabledAP (s.Cpu i) = true →
      (StartupAllAPsDispatch w s P ST E T A F).Cpu i
          = SetApProcedure (SetApState (s.Cpu i) CpuStateReady) P A
      ∨ (StartupAllAPsDispatch w s P ST E T A F).Cpu i = SetApState (s.Cpu i) CpuStateBlocked := by
    intro i hi he
    by_cases hex : ∃ j, j < i ∧ IsEnabledAP (s.Cpu j) = true
    · by_cases hST : ST = true
      · exact Or.inr (hblocked i hi he hST hex)
      · exact Or.inl (hready i hi he (Or.inl (by simpa using hST)))
    · refine Or.inl (hready i hi he (Or.inr ?_))
      intro j hj
      by_contra hne
      exact hex ⟨j, hj, by simpa using hne⟩
  constructor
  · intro i
    by_cases hc : i < s.NumberOfProcessors ∧ IsEnabledAP (s.Cpu i) = true
    · rcases hcase i hc.1 hc.2 with h | h <;> rw [h] <;> rfl
    · rw [hother i hc]
  · intro i hi he
    rcases hcase i hi he with h | h
    · left; rw [h]; rfl
    · right; rw [h]; rfl

/-- C6. Timeout failure list: the BSP calls `StartupAllAPs` in blocking mode
(`WaitEvent` null; single-thread or not) with a failure-list slot and a
deadline that is not zero, the call passes the pre-flight checks and
dispatches at least one application processor, and no procedure ever returns
(the application processors only ever begin).  With a schedule long enough for
the budget to run out (`TimeoutInMicroseconds / gPollInterval + 1` stalls) the
call returns `EFI_TIMEOUT` after running `ResetAllFailedAPs` in a state `Wt`
(the moment of the timeout), and the caller's slot then points to a buffer
holding exactly the handle numbers that are below `NumberOfProcessors`,
enabled application processors and not idle in `Wt`, in strictly ascending
order, followed by `END_OF_CPU_LIST`; these are the processors dispatched by
the call.  The machine word has at least 8 bits, and the deadline and the
number of processors plus one fit in it. -/
theorem C6_timeout_failure_list (w ApicId Procedure : Nat) (SingleThread : Bool)
    (TimeoutInMicroseconds ProcedureArgument FailedCpuList : Nat)
    (Schedule : List (List ApEvent)) (W : MpWorld)
    (hw : 8 ≤ w)
    (hBsp : IsBSP W.mMpSystemData ApicId = true)
    (hN : 2 ≤ W.mMpSystemData.NumberOfProcessors)
    (hNw : W.mMpSystemData.NumberOfProcessors + 1 < 2 ^ w)
    (hProc : Procedure ≠ 0)
    (hIdle : ∀ j, j < W.mMpSystemData.NumberOfProcessors →
      IsEnabledAP (W.mMpSystemData.Cpu j) = true →
      GetApState (W.mMpSystemData.Cpu j) = CpuStateIdle)
    (hSlot : FailedCpuList ≠ 0)
    (hT : TimeoutInMicroseconds ≠ 0)
    (hTw : TimeoutInMicroseconds < 2 ^ w)
    (hSome : EnabledAPs W.mMpSystemData ≠ [])
    (hNever : ∀ Events, Events ∈ Schedule → ∀ e, e ∈ Events → ∃ n, e = ApEvent.Begin n)
    (hLen : TimeoutInMicroseconds / gPollInterval + 1 ≤ Schedule.length) :
    ∃ Wt : MpWorld,
      StartupAllAPs w ApicId Procedure SingleThread 0 TimeoutInMicroseconds
          ProcedureArgument FailedCpuList Schedule W = some (EFI_TIMEOUT, ResetAllFailedAPs w Wt)
      ∧ MemRead (ResetAllFailedAPs w Wt).FailedCpuListMem FailedCpuList none =
          some ((List.range Wt.mMpSystemData.NumberOfProcessors).filter
              (fun i => IsEnabledAP (Wt.mMpSystemData.Cpu i)
                && decide (GetApState (Wt.mMpSystemData.Cpu i) ≠ CpuStateIdle))
            ++ [END_OF_CPU_LIST])
      ∧ (List.range Wt.mMpSystemData.NumberOfProcessors).filter
            (fun i => IsEnabledAP (Wt.mMpSystemData.Cpu i)
              && decide (GetApState (Wt.mMpSystemData.Cpu i) ≠ CpuStateIdle))
          = EnabledAPs W.mMpSystemData
      ∧ ((List.range Wt.mMpSystemData.NumberOfProcessors).filter
            (fun i => IsEnabledAP (Wt.mMpSystemData.Cpu i)
              && decide (GetApState (Wt.mMpSystemData.Cpu i) ≠ CpuStateIdle))).Pairwise
          (fun a b => a < b) := by
  obtain ⟨W1, hcall, hmp, -⟩ := StartupAllAPs_of_valid w ApicId Procedure SingleThread 0
    TimeoutInMicroseconds ProcedureArgument FailedCpuList Schedule W hBsp (by omega) hProc hIdle
  obtain ⟨hframe, hlen, -, -, -⟩ := StartupAllAPsDispatch_spec w W.mMpSystemData
    Procedure SingleThread 0 TimeoutInMicroseconds ProcedureArgument FailedCpuList hIdle
  obtain ⟨hinfo, hstarted⟩ := StartupAllAPsDispatch_started w W.mMpSystemData
    Procedure SingleThread 0 TimeoutInMicroseconds ProcedureArgument FailedCpuList hIdle
  rw [← hmp] at hframe hlen hinfo hstarted
  -- the fields of the dispatched session
  have fN : W1.mMpSystemData.NumberOfProcessors = W.mMpSystemData.NumberOfProcessors := by
    rw [hframe]; rfl
  have fAct : W1.mMpSystemData.TimeoutActive = true := by
    rw [hframe]; simp [StartupAllAPsInit, hT]
  have fTo : W1.mMpSystemData.Timeout = ToINTN w TimeoutInMicroseconds := by
    rw [hframe]; rfl
  have fFin : W1.mMpSystemData.FinishCount = 0 := by rw [hframe]; rfl
  have fStart : W1.mMpSystemData.StartCount = (EnabledAPs W.mMpSystemData).length := by
    rw [hframe]
  have fFL : W1.mMpSystemData.FailedList = FailedCpuList := by rw [hframe]; rfl
  have fFI : W1.mMpSystemData.FailedListIndex = 0 := by rw [hframe]; rfl
  have hM : 0 < (EnabledAPs W.mMpSystemData).length := List.length_pos.2 hSome
  have hEn : ∀ i, IsEnabledAP (W1.mMpSystemData.Cpu i) = IsEnabledAP (W.mMpSystemData.Cpu i) :=
    fun i => IsEnabledAP_congr _ _ (hinfo i)
  have hstuck : SessionStuck W1.mMpSystemData W1.mMpSystemData := by
    refine ⟨rfl, rfl, fun _ => rfl, ?_⟩
    intro i hi he
    rw [fN] at hi
    rw [hEn i] at he
    rcases hstarted i hi he with h | h <;> rw [h] <;> exact ⟨by decide, by decide⟩
  -- the budget
  have hw1 : 1 ≤ w := by omega
  have hbudget : -(2 : Int) ^ (w - 1) ≤ W1.mMpSystemData.Timeout
      ∧ W1.mMpSystemData.Timeout < (2 : Int) ^ (w - 1)
      ∧ W1.mMpSystemData.Timeout < 100 * (Schedule.length : Int) := by
    rw [fTo]
    have hpos : (0 : Int) < 2 ^ (w - 1) := by positivity
    by_cases hsmall : TimeoutInMicroseconds < 2 ^ (w - 1)
    · have hs' : (TimeoutInMicroseconds : Int) < 2 ^ (w - 1) := by exact_mod_cast hsmall
      rw [ToINTN_of_range w _ hw1 (by omega) hs']
      refine ⟨by omega, hs', ?_⟩
      simp only [gPollInterval] at hLen
      have : TimeoutInMicroseconds < 100 * Schedule.length := by omega
      exact_mod_cast this
    · obtain ⟨hneg, hlo⟩ := ToINTN_neg_of_ge w TimeoutInMicroseconds hw1 (by omega) hTw
      refine ⟨hlo, by omega, ?_⟩
      have : (0 : Int) ≤ 100 * (Schedule.length : Int) := by positivity
      omega
  obtain ⟨Wt, hwait, hst, hmem, -⟩ := StartupAllAPsWait_stuck w hw W1.mMpSystemData fAct
    (by rw [fFin, fStart]; omega) Schedule W1 hstuck hNever hbudget.1 hbudget.2.1 hbudget.2.2
  obtain ⟨gN, -, gFin, gStart, gFL, gFI⟩ := SessionStuck_fields _ _ hst
  have hEnt : ∀ i, IsEnabledAP (Wt.mMpSystemData.Cpu i) = IsEnabledAP (W.mMpSystemData.Cpu i) :=
    fun i => (IsEnabledAP_congr _ _ (hst.2.2.1 i)).trans (hEn i)
  have hAPs : EnabledAPs Wt.mMpSystemData = EnabledAPs W.mMpSystemData :=
    EnabledAPs_congr _ _ (gN.trans fN) (fun i => (hst.2.2.1 i).trans (hinfo i))
  have hbusy : ∀ i, i < Wt.mMpSystemData.NumberOfProcessors →
      IsEnabledAP (Wt.mMpSystemData.Cpu i) = true →
      GetApState (Wt.mMpSystemData.Cpu i) ≠ CpuStateIdle := by
    intro i hi he
    rw [gN] at hi
    rw [hEnt i, ← hEn i] at he
    exact (hst.2.2.2 i hi he).1
  have hfilter : (List.range Wt.mMpSystemData.NumberOfProcessors).filter
      (fun i => IsEnabledAP (Wt.mMpSystemData.Cpu i)
        && decide (GetApState (Wt.mMpSystemData.Cpu i) ≠ CpuStateIdle))
      = EnabledAPs Wt.mMpSystemData := by
    unfold EnabledAPs
    apply List.filter_congr
    intro i hi
    by_cases he : IsEnabledAP (Wt.mMpSystemData.Cpu i) = true
    · simp [he, hbusy i (List.mem_range.1 hi) he]
    · simp [he]
  have hMle : (EnabledAPs W.mMpSystemData).length ≤ W.mMpSystemData.NumberOfProcessors := by
    unfold EnabledAPs
    exact (List.length_filter_le _ _).trans (by simp)
  have hentries : FailedListEntries w Wt.mMpSystemData
      = (EnabledAPs Wt.mMpSystemData).length + 1 := by
    unfold FailedListEntries
    rw [gStart, gFin, fStart, fFin, hAPs]
    have hlt : (((EnabledAPs W.mMpSystemData).length : Int) - ((0 : Nat) : Int) + 1)
        < 2 ^ w := by
      have : (EnabledAPs W.mMpSystemData).length + 1 < 2 ^ w := by omega
      have h' : (((EnabledAPs W.mMpSystemData).length + 1 : Nat) : Int) < ((2 ^ w : Nat) : Int) :=
        by exact_mod_cast this
      simpa using h'
    rw [Int.emod_eq_of_lt (by omega) hlt]
    omega
  obtain ⟨-, hlist, -⟩ := ResetAllFailedAPs_spec w Wt (by rw [gFL, fFL]; exact hSlot)
    (by rw [gFI, fFI]) hbusy hentries
  rw [gFL, fFL] at hlist
  refine ⟨Wt, ?_, ?_, ?_, ?_⟩
  · rw [hcall]
    simpa using hwait
  · rw [hfilter]; exact hlist
  · rw [hfilter]; exact hAPs
  · exact List.Pairwise.filter _ (List.pairwise_lt_range _)

/-- Witness of C6: three processors, a deadline of 1000 microseconds polled
every 100 microseconds; processor 1 begins during the first stall, nothing
ever returns.  After eleven stalls the single-thread call returns
`EFI_TIMEOUT` with the failure list `1, 2, END_OF_CPU_LIST`. -/
theorem C6_timeout_failure_list_witness :
    ∃ W', StartupAllAPs 64 0 5 true 0 1000 9 77 (List.replicate 11 [ApEvent.Begin 1])
          (MkWorld Sys3) = some (EFI_TIMEOUT, W')
      ∧ MemRead W'.FailedCpuListMem 77 none = some [1, 2, END_OF_CPU_LIST] := by
  obtain ⟨Wt, h1, h2, h3, -⟩ := C6_timeout_failure_list 64 0 5 true 1000 9 77
    (List.replicate 11 [ApEvent.Begin 1]) (MkWorld Sys3) (by decide) (by decide) (by decide)
    (by decide) (by decide) (by decide) (by decide) (by decide) (by decide) (by decide)
    (by
      intro Events hE e he
      rw [List.eq_of_mem_replicate hE] at he
      exact ⟨1, List.eq_of_mem_singleton he⟩)
    (by decide)
  refine ⟨_, h1, ?_⟩
  rw [h2, h3]
  rfl

/-! ## Single-thread sessions -/

theorem mem_EnabledAPs (s : MP_SYSTEM_DATA) (i : Nat) :
    i ∈ EnabledAPs s ↔ i < s.NumberOfProcessors ∧ IsEnabledAP (s.Cpu i) = true := by
  simp [EnabledAPs, List.mem_filter, List.mem_range]

theorem EnabledAPs_pairwise (s : MP_SYSTEM_DATA) :
    (EnabledAPs s).Pairwise (fun a b => a < b) :=
  List.Pairwise.filter _ (List.pairwise_lt_range _)

theorem GetNextBlockedNumberLoop_append (s : MP_SYSTEM_DATA) (l1 l2 : List Nat) :
    GetNextBlockedNumberLoop s (l1 ++ l2) =
      (GetNextBlockedNumberLoop s l1).orElse (fun _ => GetNextBlockedNumberLoop s l2) := by
  induction l1 with
  | nil => rfl
  | cons a l1 ih =>
    simp only [List.cons_append, GetNextBlockedNumberLoop]
    split_ifs <;> simp [ih]

theorem GetNextBlockedNumberLoop_singleton (s : MP_SYSTEM_DATA) (k : Nat) :
    GetNextBlockedNumberLoop s [k] =
      if TestCpuStatusFlag (s.Cpu k) PROCESSOR_AS_BSP_BIT = false
          ∧ GetApState (s.Cpu k) = CpuStateBlocked then some k else none := by
  simp only [GetNextBlockedNumberLoop]
  by_cases hb : TestCpuStatusFlag (s.Cpu k) PROCESSOR_AS_BSP_BIT = true
  · simp [hb]
  · simp only [Bool.not_eq_true] at hb
    by_cases hs : GetApState (s.Cpu k) = CpuStateBlocked
    · simp [hb, hs]
    · simp [hb, hs]

theorem GetNextBlockedNumberLoop_range (s : MP_SYSTEM_DATA) (k : Nat) :
    (∀ n, GetNextBlockedNumberLoop s (List.range k) = some n ↔
      (n < k ∧ TestCpuStatusFlag (s.Cpu n) PROCESSOR_AS_BSP_BIT = false
        ∧ GetApState (s.Cpu n) = CpuStateBlocked
        ∧ ∀ m, m < n → ¬ (TestCpuStatusFlag (s.Cpu m) PROCESSOR_AS_BSP_BIT = false
            ∧ GetApState (s.Cpu m) = CpuStateBlocked)))
    ∧ (GetNextBlockedNumberLoop s (List.range k) = none ↔
      ∀ m, m < k → ¬ (TestCpuStatusFlag (s.Cpu m) PROCESSOR_AS_BSP_BIT = false
            ∧ GetApState (s.Cpu m) = CpuStateBlocked)) := by
  induction k with
  | zero =>
    refine ⟨fun n => ⟨fun h => ?_, fun h => absurd h.1 (Nat.not_lt_zero n)⟩,
      ⟨fun _ m hm => absurd hm (Nat.not_lt_zero m), fun _ => rfl⟩⟩
    simp [GetNextBlockedNumberLoop] at h
  | succ k ih =>
    obtain ⟨ihs, ihn⟩ := ih
    rw [List.range_succ, GetNextBlockedNumberLoop_append, GetNextBlockedNumberLoop_singleton]
    cases hloop : GetNextBlockedNumberLoop s (List.range k) with
    | some a =>
      obtain ⟨hak, hab, has, hamin⟩ := (ihs a).1 hloop
      have e : ∀ X : Option Nat, (some a).orElse (fun _ => X) = some a := fun _ => rfl
      rw [e]
      constructor
      · intro n
        constructor
        · intro h
          have : a = n := Option.some.inj h
          subst this
          exact ⟨by omega, hab, has, hamin⟩
        · rintro ⟨-, hnb, hns, hnmin⟩
          rcases Nat.lt_trichotomy a n with h | h | h
          · exact absurd ⟨hab, has⟩ (hnmin a h)
          · rw [h]
          · exact absurd ⟨hnb, hns⟩ (hamin n h)
      · constructor
        · intro h; cases h
        · intro h
          exact absurd ⟨hab, has⟩ (h a (by omega))
    | none =>
      have hnone := ihn.1 hloop
      have e : ∀ X : Option Nat, (none : Option Nat).orElse (fun _ => X) = X := fun _ => rfl
      rw [e]
      by_cases hP : TestCpuStatusFlag (s.Cpu k) PROCESSOR_AS_BSP_BIT = false
          ∧ GetApState (s.Cpu k) = CpuStateBlocked
      · rw [if_pos hP]
        constructor
        · intro n
          constructor
          · intro h
            have : k = n := Option.some.inj h
            subst this
            exact ⟨by omega, hP.1, hP.2, fun m hm => hnone m hm⟩
          · rintro ⟨hn, hnb, hns, hnmin⟩
            rcases Nat.lt_succ_iff_lt_or_eq.1 hn with h | h
            · exact absurd ⟨hnb, hns⟩ (hnone n h)
            · rw [h]
        · constructor
          · intro h; cases h
          · intro h
            exact absurd hP (h k (by omega))
      · rw [if_neg hP]
        constructor
        · intro n
          constructor
          · intro h; cases h
          · rintro ⟨hn, hnb, hns, -⟩
            rcases Nat.lt_succ_iff_lt_or_eq.1 hn with h | h
            · exact absurd ⟨hnb, hns⟩ (hnone n h)
            · subst h; exact absurd ⟨hnb, hns⟩ hP
        · constructor
          · intro _ m hm
            rcases Nat.lt_succ_iff_lt_or_eq.1 hm with h | h
            · exact hnone m h
            · subst h; exact hP
          · intro _; rfl

theorem GetNextBlockedNumberLoop_congr (s s' : MP_SYSTEM_DATA) (l : List Nat)
    (h : s.CpuDatas = s'.CpuDatas) :
    GetNextBlockedNumberLoop s l = GetNextBlockedNumberLoop s' l := by
  induction l with
  | nil => rfl
  | cons a l ih =>
    have hc : s.Cpu a = s'.Cpu a := by simp [MP_SYSTEM_DATA.Cpu, h]
    simp only [GetNextBlockedNumberLoop, hc, ih]

theorem CheckAndUpdateBody_finished_none (t : MP_SYSTEM_DATA) (c : Nat)
    (hen : IsEnabledAP (t.Cpu c) = true)
    (hfin : GetApState (t.Cpu c) = CpuStateFinished)
    (hnone : GetNextBlockedNumber t = none) :
    CheckAndUpdateBody t c =
      ({ t with FinishCount := t.FinishCount + 1 } : MP_SYSTEM_DATA).SetCpu c
        (SetApState (t.Cpu c) CpuStateIdle) := by
  simp only [IsEnabledAP, Bool.and_eq_true, Bool.not_eq_true'] at hen
  have hg : GetNextBlockedNumber ({ t with FinishCount := t.FinishCount + 1 } : MP_SYSTEM_DATA)
      = none := by
    rw [← hnone]
    exact GetNextBlockedNumberLoop_congr _ _ _ rfl
  simp only [CheckAndUpdateBody, hen.1, hen.2, hfin, hg, Bool.false_eq_true, if_false,
    Bool.not_true, if_true]
  split_ifs <;> rfl

theorem CheckAndUpdateBody_finished_some (t : MP_SYSTEM_DATA) (c q : Nat)
    (hen : IsEnabledAP (t.Cpu c) = true)
    (hfin : GetApState (t.Cpu c) = CpuStateFinished)
    (hst : t.SingleThread = true)
    (hsome : GetNextBlockedNumber t = some q) (hqc : q ≠ c) (hq : q < t.CpuDatas.length) :
    CheckAndUpdateBody t c =
      ((({ t with FinishCount := t.FinishCount + 1 } : MP_SYSTEM_DATA).SetCpu q
          (SetApProcedure (SetApState (t.Cpu q) CpuStateReady) t.Procedure
            t.ProcedureArgument)).SetCpu c
        (SetApState (t.Cpu c) CpuStateIdle)) := by
  simp only [IsEnabledAP, Bool.and_eq_true, Bool.not_eq_true'] at hen
  have hg : GetNextBlockedNumber ({ t with FinishCount := t.FinishCount + 1 } : MP_SYSTEM_DATA)
      = some q := by
    rw [← hsome]
    exact GetNextBlockedNumberLoop_congr _ _ _ rfl
  have hq' : q < ({ t with FinishCount := t.FinishCount + 1 } : MP_SYSTEM_DATA).CpuDatas.length :=
    hq
  have hc1 : ({ t with FinishCount := t.FinishCount + 1 } : MP_SYSTEM_DATA).Cpu q = t.Cpu q :=
    rfl
  have hc2 : ({ t with FinishCount := t.FinishCount + 1 } : MP_SYSTEM_DATA).Cpu c = t.Cpu c :=
    rfl
  simp only [CheckAndUpdateBody, hen.1, hen.2, hfin, hg, Bool.false_eq_true, if_false,
    Bool.not_true, if_true]
  rw [if_pos hst]
  simp only [SetCpu_SetCpu, Cpu_SetCpu, length_SetCpu, hq', and_self, hqc,
    false_and, hc1, hc2, if_true, if_false]
  rfl

theorem foldl_eq_of_single {α β : Type} (f : α → β → α) (a : α) (c : β) (l : List β)
    (hc : c ∈ l) (h1 : ∀ b, b ∈ l → b ≠ c → f a b = a)
    (h2 : ∀ b, b ∈ l → f (f a c) b = f a c) : l.foldl f a = f a c := by
  induction l with
  | nil => cases hc
  | cons b rest ih =>
    rw [List.foldl_cons]
    by_cases hb : b = c
    · subst hb
      exact foldl_eq_self f _ rest (fun b' hb' => h2 b' (List.mem_cons_of_mem _ hb'))
    · rw [h1 b (List.mem_cons_self _ _) hb]
      rcases List.mem_cons.1 hc with h | h
      · exact absurd h.symm hb
      · exact ih h (fun b' hb' => h1 b' (List.mem_cons_of_mem _ hb'))
          (fun b' hb' => h2 b' (List.mem_cons_of_mem _ hb'))

theorem IsEnabledAP_flag (c : CPU_DATA_BLOCK) (h : IsEnabledAP c = true) :
    TestCpuStatusFlag c PROCESSOR_AS_BSP_BIT = false := by
  simp only [IsEnabledAP, Bool.and_eq_true, Bool.not_eq_true'] at h
  exact h.1

/-- In a single-thread session an application processor other than the current
one is idle or blocked. -/
theorem ChainInv_other (s t : MP_SYSTEM_DATA) (c i : Nat) (h : ChainInv s t c)
    (hi : i < s.NumberOfProcessors)
    (hb : TestCpuStatusFlag (s.Cpu i) PROCESSOR_AS_BSP_BIT = false) (hic : i ≠ c) :
    GetApState (t.Cpu i) = CpuStateIdle ∨ (GetApState (t.Cpu i) = CpuStateBlocked
      ∧ i ∈ EnabledAPs s ∧ c < i) := by
  obtain ⟨-, -, -, -, I1, I2, I3, -, -, -⟩ := h
  by_cases hL : i ∈ EnabledAPs s
  · rcases Nat.lt_trichotomy i c with hlt | heq | hgt
    · exact Or.inl (I2 i hL hlt)
    · exact absurd heq hic
    · exact Or.inr ⟨I3 i hL hgt, hL, hgt⟩
  · exact Or.inl (I1 i hi hb hL)

theorem ChainInv_blocked_iff (s t : MP_SYSTEM_DATA) (c i : Nat) (h : ChainInv s t c)
    (hi : i < s.NumberOfProcessors) :
    (TestCpuStatusFlag (t.Cpu i) PROCESSOR_AS_BSP_BIT = false
        ∧ GetApState (t.Cpu i) = CpuStateBlocked)
      ↔ (i ∈ EnabledAPs s ∧ c < i) := by
  have hinfo := h.2.2.2.1
  rw [TestCpuStatusFlag_congr _ _ _ (hinfo i)]
  constructor
  · rintro ⟨hb, hs⟩
    by_cases hic : i = c
    · subst hic
      by_cases hL : i ∈ EnabledAPs s
      · exact absurd hs (h.2.2.2.2.2.2.2.1 hL)
      · rw [h.2.2.2.2.1 i hi hb hL] at hs; cases hs
    · rcases ChainInv_other s t c i h hi hb hic with h' | h'
      · rw [h'] at hs; cases hs
      · exact ⟨h'.2.1, h'.2.2⟩
  · rintro ⟨hL, hci⟩
    exact ⟨IsEnabledAP_flag _ ((mem_EnabledAPs s i).1 hL).2, h.2.2.2.2.2.2.1 i hL hci⟩

theorem ChainInv_next (s t : MP_SYSTEM_DATA) (c : Nat) (h : ChainInv s t c) :
    (GetNextBlockedNumber t = none → ∀ i, i ∈ EnabledAPs s → i ≤ c)
    ∧ (∀ q, GetNextBlockedNumber t = some q →
        q ∈ EnabledAPs s ∧ c < q ∧ ∀ i, i ∈ EnabledAPs s → i ≤ c ∨ q ≤ i) := by
  have hN := h.1
  obtain ⟨hsome, hnone⟩ := GetNextBlockedNumberLoop_range t t.NumberOfProcessors
  constructor
  · intro hg i hL
    have hi := ((mem_EnabledAPs s i).1 hL).1
    by_contra hle
    exact (hnone.1 hg) i (by omega)
      ((ChainInv_blocked_iff s t c i h hi).2 ⟨hL, by omega⟩)
  · intro q hg
    obtain ⟨hq, hqb, hqs, hmin⟩ := (hsome q).1 hg
    rw [hN] at hq
    obtain ⟨hqL, hcq⟩ := (ChainInv_blocked_iff s t c q h hq).1 ⟨hqb, hqs⟩
    refine ⟨hqL, hcq, ?_⟩
    intro i hL
    by_contra hcon
    have hi := ((mem_EnabledAPs s i).1 hL).1
    exact hmin i (by omega) ((ChainInv_blocked_iff s t c i h hi).2 ⟨hL, by omega⟩)

theorem ChainInv_not_finished (s t : MP_SYSTEM_DATA) (c i : Nat) (h : ChainInv s t c)
    (hi : i < s.NumberOfProcessors) (hen : IsEnabledAP (t.Cpu i) = true) (hic : i ≠ c) :
    GetApState (t.Cpu i) ≠ CpuStateFinished := by
  have hb : TestCpuStatusFlag (s.Cpu i) PROCESSOR_AS_BSP_BIT = false := by
    rw [← TestCpuStatusFlag_congr _ _ _ (h.2.2.2.1 i)]
    exact IsEnabledAP_flag _ hen
  rcases ChainInv_other s t c i h hi hb hic with h' | h'
  · rw [h']; decide
  · rw [h'.1]; decide

theorem MadeReady_self (t : MP_SYSTEM_DATA) : MadeReady t t = [] := by
  unfold MadeReady
  rw [List.filter_eq_nil_iff]
  intro i _
  by_cases h : GetApState (t.Cpu i) = CpuStateReady <;> simp [h]

theorem filter_range_eq_singleton (p : Nat → Bool) (N q : Nat) (hq : q < N)
    (hp : ∀ i, i < N → (p i = true ↔ i = q)) : (List.range N).filter p = [q] := by
  induction N with
  | zero => omega
  | succ N ih =>
    rw [List.range_succ, List.filter_append]
    by_cases hqN : q = N
    · subst hqN
      have h1 : (List.range q).filter p = [] := by
        rw [List.filter_eq_nil_iff]
        intro i hi
        have hi' := List.mem_range.1 hi
        rw [hp i (by omega)]
        omega
      have h2 : p q = true := (hp q (by omega)).2 rfl
      simp [h1, h2]
    · have h1 := ih (by omega) (fun i hi => hp i (by omega))
      have h2 : ¬ p N = true := by
        rw [hp N (by omega)]
        omega
      simp [h1, h2]

theorem ChainInv_enabled_iff (s t : MP_SYSTEM_DATA) (c i : Nat) (h : ChainInv s t c) :
    IsEnabledAP (t.Cpu i) = IsEnabledAP (s.Cpu i) :=
  IsEnabledAP_congr _ _ (h.2.2.2.1 i)

/-- A harvesting pass of a single-thread session whose current processor has
not finished changes nothing. -/
theorem ChainInv_harvest_idle (s t : MP_SYSTEM_DATA) (c : Nat) (h : ChainInv s t c)
    (hf : ¬ (c ∈ EnabledAPs s ∧ GetApState (t.Cpu c) = CpuStateFinished)) :
    CheckAndUpdateAllAPsToIdleState t = t := by
  apply CheckAndUpdateAllAPsToIdleState_of_none_finished
  intro i hi hen
  rw [h.1] at hi
  by_cases hic : i = c
  · subst hic
    intro hfin
    rw [ChainInv_enabled_iff s t i i h] at hen
    exact hf ⟨(mem_EnabledAPs s i).2 ⟨hi, hen⟩, hfin⟩
  · exact ChainInv_not_finished s t c i h hi hen hic

/-- A harvesting pass of a single-thread session whose current processor has
finished, when no processor is blocked: the current processor becomes idle. -/
theorem ChainInv_harvest_last (s t : MP_SYSTEM_DATA) (c : Nat) (h : ChainInv s t c)
    (hcL : c ∈ EnabledAPs s) (hfin : GetApState (t.Cpu c) = CpuStateFinished)
    (hg : GetNextBlockedNumber t = none) :
    ChainInv s (CheckAndUpdateAllAPsToIdleState t) c
    ∧ MadeReady t (CheckAndUpdateAllAPsToIdleState t) = [] := by
  have hcN := ((mem_EnabledAPs s c).1 hcL).1
  have hen : IsEnabledAP (t.Cpu c) = true := by
    rw [ChainInv_enabled_iff s t c c h]; exact ((mem_EnabledAPs s c).1 hcL).2
  have hclen : c < t.CpuDatas.length := lt_length_of_IsEnabledAP t c hen
  have hbody := CheckAndUpdateBody_finished_none t c hen hfin hg
  have hcpu : ∀ i, (CheckAndUpdateBody t c).Cpu i =
      if c = i then SetApState (t.Cpu c) CpuStateIdle else t.Cpu i := by
    intro i
    rw [hbody, Cpu_SetCpu]
    have : c < ({ t with FinishCount := t.FinishCount + 1 } : MP_SYSTEM_DATA).CpuDatas.length :=
      hclen
    simp only [this, and_true]
    rfl
  have hharv : CheckAndUpdateAllAPsToIdleState t = CheckAndUpdateBody t c := by
    unfold CheckAndUpdateAllAPsToIdleState
    apply foldl_eq_of_single
    · rw [h.1]; exact List.mem_range.2 hcN
    · intro i hi hic
      rw [h.1] at hi
      exact CheckAndUpdateBody_of_not_finished t i
        (fun he => ChainInv_not_finished s t c i h (List.mem_range.1 hi) he hic)
    · intro i hi
      rw [h.1] at hi
      apply CheckAndUpdateBody_of_not_finished
      intro he
      rw [hcpu i] at he ⊢
      by_cases hic : c = i
      · simp [hic, GetApState, SetApState]
      · simp only [hic, if_false] at he ⊢
        exact ChainInv_not_finished s t c i h (List.mem_range.1 hi) he (Ne.symm hic)
  rw [hharv]
  obtain ⟨F1, F2, F3, F4, I1, I2, I3, I4, I5, I6⟩ := h
  have hst : ∀ i, i ≠ c → (CheckAndUpdateBody t c).Cpu i = t.Cpu i := by
    intro i hic
    rw [hcpu i, if_neg (Ne.symm hic)]
  have hstc : GetApState ((CheckAndUpdateBody t c).Cpu c) = CpuStateIdle := by
    rw [hcpu c, if_pos rfl]; rfl
  constructor
  · refine ⟨?_, ?_, ?_, ?_, ?_, ?_, ?_, ?_, ?_, I6⟩
    · rw [hbody]; exact F1
    · rw [hbody]; exact F2
    · rw [hbody, length_SetCpu]; exact F3
    · intro i
      rw [hcpu i]
      by_cases hic : c = i
      · subst hic; simp only [if_true]; exact F4 c
      · simp only [hic, if_false]; exact F4 i
    · intro i hi hb hL
      have hic : i ≠ c := fun e => hL (e ▸ hcL)
      rw [hst i hic]; exact I1 i hi hb hL
    · intro i hL hlt
      rw [hst i (by omega)]; exact I2 i hL hlt
    · intro i hL hgt
      rw [hst i (by omega)]; exact I3 i hL hgt
    · intro _; rw [hstc]; decide
    · intro _ _
      exact (ChainInv_next s t c ⟨F1, F2, F3, F4, I1, I2, I3, I4, I5, I6⟩).1 hg
  · unfold MadeReady
    rw [List.filter_eq_nil_iff]
    intro i _
    by_cases hic : i = c
    · subst hic
      simp [hstc]
    · rw [hst i hic]
      by_cases hr : GetApState (t.Cpu i) = CpuStateReady <;> simp [hr]

/-- A harvesting pass of a single-thread session whose current processor has
finished, when `GetNextBlockedNumber` finds `q`: the current processor becomes
idle, `q` is made ready and becomes the current processor. -/
theorem ChainInv_harvest_next (s t : MP_SYSTEM_DATA) (c q : Nat) (h : ChainInv s t c)
    (hcL : c ∈ EnabledAPs s) (hfin : GetApState (t.Cpu c) = CpuStateFinished)
    (hg : GetNextBlockedNumber t = some q) :
    ChainInv s (CheckAndUpdateAllAPsToIdleState t) q
    ∧ MadeReady t (CheckAndUpdateAllAPsToIdleState t) = [q]
    ∧ ((CheckAndUpdateAllAPsToIdleState t).Cpu q).Procedure = t.Procedure
    ∧ ((CheckAndUpdateAllAPsToIdleState t).Cpu q).Parameter = t.ProcedureArgument := by
  have hcN := ((mem_EnabledAPs s c).1 hcL).1
  have hen : IsEnabledAP (t.Cpu c) = true := by
    rw [ChainInv_enabled_iff s t c c h]; exact ((mem_EnabledAPs s c).1 hcL).2
  obtain ⟨hqL, hcq, hgap⟩ := (ChainInv_next s t c h).2 q hg
  have hqN := ((mem_EnabledAPs s q).1 hqL).1
  have hqen : IsEnabledAP (t.Cpu q) = true := by
    rw [ChainInv_enabled_iff s t c q h]; exact ((mem_EnabledAPs s q).1 hqL).2
  have hclen : c < t.CpuDatas.length := lt_length_of_IsEnabledAP t c hen
  have hqlen : q < t.CpuDatas.length := lt_length_of_IsEnabledAP t q hqen
  have hqc : q ≠ c := by omega
  have hbody := CheckAndUpdateBody_finished_some t c q hen hfin h.2.1 hg hqc hqlen
  have hcpu : ∀ i, (CheckAndUpdateBody t c).Cpu i =
      if c = i then SetApState (t.Cpu c) CpuStateIdle
      else if q = i then
        SetApProcedure (SetApState (t.Cpu q) CpuStateReady) t.Procedure t.ProcedureArgument
      else t.Cpu i := by
    intro i
    rw [hbody, Cpu_SetCpu, Cpu_SetCpu, length_SetCpu]
    have h1 : c < ({ t with FinishCount := t.FinishCount + 1 } : MP_SYSTEM_DATA).CpuDatas.length :=
      hclen
    have h2 : q < ({ t with FinishCount := t.FinishCount + 1 } : MP_SYSTEM_DATA).CpuDatas.length :=
      hqlen
    simp only [h1, h2, and_true]
    rfl
  have hstq : (CheckAndUpdateBody t c).Cpu q =
      SetApProcedure (SetApState (t.Cpu q) CpuStateReady) t.Procedure t.ProcedureArgument := by
    rw [hcpu q, if_neg (Ne.symm hqc), if_pos rfl]
  have hstc : GetApState ((CheckAndUpdateBody t c).Cpu c) = CpuStateIdle := by
    rw [hcpu c, if_pos rfl]; rfl
  have hst : ∀ i, i ≠ c → i ≠ q → (CheckAndUpdateBody t c).Cpu i = t.Cpu i := by
    intro i hic hiq
    rw [hcpu i, if_neg (Ne.symm hic), if_neg (Ne.symm hiq)]
  have hharv : CheckAndUpdateAllAPsToIdleState t = CheckAndUpdateBody t c := by
    unfold CheckAndUpdateAllAPsToIdleState
    apply foldl_eq_of_single
    · rw [h.1]; exact List.mem_range.2 hcN
    · intro i hi hic
      rw [h.1] at hi
      exact CheckAndUpdateBody_of_not_finished t i
        (fun he => ChainInv_not_finished s t c i h (List.mem_range.1 hi) he hic)
    · intro i hi
      rw [h.1] at hi
      apply CheckAndUpdateBody_of_not_finished
      intro he
      by_cases hic : i = c
      · subst hic; rw [hstc]; decide
      · by_cases hiq : i = q
        · subst hiq; rw [hstq]; simp [GetApState, SetApProcedure, SetApState]
        · rw [hst i hic hiq] at he ⊢
          exact ChainInv_not_finished s t c i h (List.mem_range.1 hi) he hic
  rw [hharv]
  obtain ⟨F1, F2, F3, F4, I1, I2, I3, I4, I5, I6⟩ := h
  refine ⟨⟨?_, ?_, ?_, ?_, ?_, ?_, ?_, ?_, ?_, fun _ => hqL⟩, ?_, ?_, ?_⟩
  · rw [hbody]; exact F1
  · rw [hbody]; exact F2
  · rw [hbody, length_SetCpu, length_SetCpu]; exact F3
  · intro i
    rw [hcpu i]
    by_cases hic : c = i
    · subst hic; simp only [if_true]; exact F4 c
    · by_cases hiq : q = i
      · subst hiq; simp only [hic, if_false, if_true]; exact F4 q
      · simp only [hic, hiq, if_false]; exact F4 i
  · intro i hi hb hL
    have hic : i ≠ c := fun e => hL (e ▸ hcL)
    have hiq : i ≠ q := fun e => hL (e ▸ hqL)
    rw [hst i hic hiq]; exact I1 i hi hb hL
  · intro i hL hlt
    rcases hgap i hL with hle | hge
    · by_cases hic : i = c
      · subst hic; exact hstc
      · rw [hst i hic (by omega)]; exact I2 i hL (by omega)
    · omega
  · intro i hL hgt
    rw [hst i (by omega) (by omega)]; exact I3 i hL (by omega)
  · intro _; rw [hstq]; simp [GetApState, SetApProcedure, SetApState]
  · intro _ hidle
    rw [hstq] at hidle
    simp [GetApState, SetApProcedure, SetApState] at hidle
  · unfold MadeReady
    apply filter_range_eq_singleton _ _ _ (by rw [F1]; exact hqN)
    intro i hi
    rw [F1] at hi
    have hqb : GetApState (t.Cpu q) = CpuStateBlocked := I3 q hqL hcq
    constructor
    · intro hp
      simp only [Bool.and_eq_true, Bool.not_eq_true', decide_eq_true_eq] at hp
      obtain ⟨⟨-, hnr⟩, hr⟩ := hp
      by_contra hiq
      by_cases hic : i = c
      · subst hic; rw [hstc] at hr; cases hr
      · rw [hst i hic hiq] at hr; exact hnr hr
    · rintro rfl
      simp only [Bool.and_eq_true, Bool.not_eq_true', decide_eq_true_eq]
      refine ⟨⟨IsEnabledAP_flag _ hqen, ?_⟩, ?_⟩
      · rw [hqb]; decide
      · rw [hstq]; rfl
  · rw [hstq]; rfl
  · rw [hstq]; rfl

/-- The current processor of a single-thread session moves on by itself (to
busy, to finished): the shape of the session is kept and nobody is made
ready. -/
theorem ChainInv_progress (s t : MP_SYSTEM_DATA) (c : Nat) (X : CPU_DATA_BLOCK)
    (h : ChainInv s t c) (hold : GetApState (t.Cpu c) ≠ CpuStateIdle)
    (hinfo : X.Info = (t.Cpu c).Info)
    (hX : GetApState X = CpuStateBuzy ∨ GetApState X = CpuStateFinished) :
    ChainInv s (t.SetCpu c X) c ∧ MadeReady t (t.SetCpu c X) = [] := by
  obtain ⟨F1, F2, F3, F4, I1, I2, I3, I4, I5, I6⟩ := h
  have hclen : c < t.CpuDatas.length := lt_length_of_GetApState_ne t c hold
  have hst : ∀ i, i ≠ c → (t.SetCpu c X).Cpu i = t.Cpu i :=
    fun i hic => Cpu_SetCpu_of_ne t c i X (Ne.symm hic)
  have hstc : (t.SetCpu c X).Cpu c = X := Cpu_SetCpu_self t c X hclen
  constructor
  · refine ⟨F1, F2, ?_, ?_, ?_, ?_, ?_, ?_, ?_, I6⟩
    · rw [length_SetCpu]; exact F3
    · intro i
      by_cases hic : i = c
      · subst hic; rw [hstc, hinfo]; exact F4 i
      · rw [hst i hic]; exact F4 i
    · intro i hi hb hL
      by_cases hic : i = c
      · subst hic
        exact absurd (I1 i hi hb hL) hold
      · rw [hst i hic]; exact I1 i hi hb hL
    · intro i hL hlt
      rw [hst i (by omega)]; exact I2 i hL hlt
    · intro i hL hgt
      rw [hst i (by omega)]; exact I3 i hL hgt
    · intro _
      rw [hstc]
      rcases hX with h' | h' <;> rw [h'] <;> decide
    · intro _ hidle
      rw [hstc] at hidle
      rcases hX with h' | h' <;> rw [h'] at hidle <;> cases hidle
  · unfold MadeReady
    rw [List.filter_eq_nil_iff]
    intro i _
    by_cases hic : i = c
    · subst hic
      rw [hstc]
      rcases hX with h' | h' <;> simp [h']
    · rw [hst i hic]
      by_cases hr : GetApState (t.Cpu i) = CpuStateReady <;> simp [hr]



/-- A self-transition of an application processor keeps the shape of a
single-thread session and makes nobody ready. -/
theorem ChainInv_selfTransition (s t : MP_SYSTEM_DATA) (c : Nat) (e : ApEvent)
    (h : ChainInv s t c) :
    ChainInv s (ApSelfTransition t e) c ∧ MadeReady t (ApSelfTransition t e) = [] := by
  have key : ∀ n, n < t.NumberOfProcessors →
      TestCpuStatusFlag (t.Cpu n) PROCESSOR_AS_BSP_BIT = false →
      (GetApState (t.Cpu n) = CpuStateReady ∨ GetApState (t.Cpu n) = CpuStateBuzy) →
      n = c := by
    intro n hn hb hs
    by_contra hnc
    rw [h.1] at hn
    rw [TestCpuStatusFlag_congr _ _ _ (h.2.2.2.1 n)] at hb
    rcases ChainInv_other s t c n h hn hb hnc with h' | h' <;>
      rcases hs with hs | hs <;> simp_all
  cases e with
  | Begin n =>
    simp only [ApSelfTransition]
    split_ifs with hc
    · have hnc := key n hc.1 hc.2.1 (Or.inl hc.2.2)
      subst hnc
      exact ChainInv_progress s t n _ h (by rw [hc.2.2]; decide) rfl (Or.inl rfl)
    · exact ⟨h, MadeReady_self t⟩
  | Return n =>
    simp only [ApSelfTransition]
    split_ifs with hc
    · have hnc := key n hc.1 hc.2.1 (Or.inr hc.2.2)
      subst hnc
      exact ChainInv_progress s t n _ h (by rw [hc.2.2]; decide) rfl (Or.inr rfl)
    · exact ⟨h, MadeReady_self t⟩

theorem filter_le_prefix (L : List Nat) (c : Nat) (hL : L.Pairwise (fun a b => a < b)) :
    L.filter (fun i => decide (i ≤ c)) <+: L := by
  induction L with
  | nil => simp
  | cons a L ih =>
    rw [List.pairwise_cons] at hL
    by_cases hac : a ≤ c
    · simp only [List.filter_cons, hac, decide_True, if_true]
      exact (List.prefix_cons_inj a).2 (ih hL.2)
    · have : L.filter (fun i => decide (i ≤ c)) = [] := by
        rw [List.filter_eq_nil_iff]
        intro i hi
        have := hL.1 i hi
        simp only [decide_eq_true_eq]
        omega
      simp [List.filter_cons, hac, this]

theorem filter_le_next (L : List Nat) (c q : Nat) (hL : L.Pairwise (fun a b => a < b))
    (hq : q ∈ L) (hcq : c < q) (hgap : ∀ i, i ∈ L → i ≤ c ∨ q ≤ i) :
    L.filter (fun i => decide (i ≤ q)) = L.filter (fun i => decide (i ≤ c)) ++ [q] := by
  induction L with
  | nil => cases hq
  | cons a L ih =>
    rw [List.pairwise_cons] at hL
    by_cases haq : a = q
    · subst haq
      have h1 : L.filter (fun i => decide (i ≤ a)) = [] := by
        rw [List.filter_eq_nil_iff]
        intro i hi
        have := hL.1 i hi
        simp only [decide_eq_true_eq]
        omega
      have h2 : L.filter (fun i => decide (i ≤ c)) = [] := by
        rw [List.filter_eq_nil_iff]
        intro i hi
        have := hL.1 i hi
        simp only [decide_eq_true_eq]
        omega
      have h3 : ¬ a ≤ c := by omega
      simp [List.filter_cons, h1, h2, h3]
    · have hqL : q ∈ L := by
        rcases List.mem_cons.1 hq with h | h
        · exact absurd h.symm haq
        · exact h
      have haltq : a < q := hL.1 q hqL
      have hac : a ≤ c := by
        rcases hgap a (List.mem_cons_self _ _) with h | h
        · exact h
        · omega
      have haq' : a ≤ q := by omega
      simp only [List.filter_cons, hac, haq', decide_True, if_true, List.cons_append]
      rw [ih hL.2 hqL (fun i hi => hgap i (List.mem_cons_of_mem _ hi))]

/-- The single-thread dispatch of `StartupAllAPs` on a registry whose
application processors are all idle starts a single-thread session: the
enabled application processor of lowest handle number is the current one,
and it is the only one made ready. -/
theorem ChainInv_dispatch (w : Nat) (s : MP_SYSTEM_DATA) (P E T A F : Nat)
    (hIdle : ∀ i, i < s.NumberOfProcessors →
      TestCpuStatusFlag (s.Cpu i) PROCESSOR_AS_BSP_BIT = false →
      GetApState (s.Cpu i) = CpuStateIdle) :
    ∃ c, ChainInv s (StartupAllAPsDispatch w s P true E T A F) c
      ∧ MadeReady s (StartupAllAPsDispatch w s P true E T A F)
          = (EnabledAPs s).filter (fun i => decide (i ≤ c)) := by
  have hIdleEn : ∀ j, j < s.NumberOfProcessors → IsEnabledAP (s.Cpu j) = true →
      GetApState (s.Cpu j) = CpuStateIdle :=
    fun j hj he => hIdle j hj (IsEnabledAP_flag _ he)
  obtain ⟨hframe, hlen, hready, hblocked, hother⟩ :=
    StartupAllAPsDispatch_spec w s P true E T A F hIdleEn
  obtain ⟨hinfo, -⟩ := StartupAllAPsDispatch_started w s P true E T A F hIdleEn
  have F1 : (StartupAllAPsDispatch w s P true E T A F).NumberOfProcessors
      = s.NumberOfProcessors := by rw [hframe]; rfl
  have F2 : (StartupAllAPsDispatch w s P true E T A F).SingleThread = true := by
    rw [hframe]; rfl
  have hpw := EnabledAPs_pairwise s
  cases hL : EnabledAPs s with
  | nil =>
    have hnone : ∀ i, ¬ (i < s.NumberOfProcessors ∧ IsEnabledAP (s.Cpu i) = true) := by
      intro i hi
      have := (mem_EnabledAPs s i).2 hi
      rw [hL] at this
      cases this
    refine ⟨0, ⟨F1, F2, hlen, hinfo, ?_, ?_, ?_, ?_, ?_, ?_⟩, ?_⟩
    · intro i hi hb _
      rw [hother i (hnone i)]; exact hIdle i hi hb
    · intro i hi; rw [hL] at hi; cases hi
    · intro i hi; rw [hL] at hi; cases hi
    · intro hi; rw [hL] at hi; cases hi
    · intro hi; rw [hL] at hi; cases hi
    · intro h; exact absurd hL h
    · simp only [List.filter_nil]
      unfold MadeReady
      rw [List.filter_eq_nil_iff]
      intro i _
      rw [hother i (hnone i)]
      by_cases hr : GetApState (s.Cpu i) = CpuStateReady <;> simp [hr]
  | cons c L' =>
    rw [hL, List.pairwise_cons] at hpw
    have hmem : ∀ i, (i < s.NumberOfProcessors ∧ IsEnabledAP (s.Cpu i) = true)
        ↔ (i = c ∨ i ∈ L') := by
      intro i
      rw [← mem_EnabledAPs, hL, List.mem_cons]
    have hc := (hmem c).2 (Or.inl rfl)
    have hfirst : ∀ j, j < c → IsEnabledAP (s.Cpu j) = false := by
      intro j hj
      by_contra hne
      have hje : IsEnabledAP (s.Cpu j) = true := by simpa using hne
      rcases (hmem j).1 ⟨by omega, hje⟩ with h | h
      · omega
      · have := hpw.1 j h; omega
    have hstc := hready c hc.1 hc.2 (Or.inr hfirst)
    have hstL : ∀ i, i ∈ L' →
        (StartupAllAPsDispatch w s P true E T A F).Cpu i = SetApState (s.Cpu i) CpuStateBlocked := by
      intro i hi
      have hie := (hmem i).2 (Or.inr hi)
      exact hblocked i hie.1 hie.2 rfl ⟨c, hpw.1 i hi, hc.2⟩
    refine ⟨c, ⟨F1, F2, hlen, hinfo, ?_, ?_, ?_, ?_, ?_, ?_⟩, ?_⟩
    · intro i hi hb hnot
      have hne : ¬ (i < s.NumberOfProcessors ∧ IsEnabledAP (s.Cpu i) = true) := by
        rw [← mem_EnabledAPs]; exact hnot
      rw [hother i hne]; exact hIdle i hi hb
    · intro i hi hlt
      rw [hL] at hi
      rcases List.mem_cons.1 hi with h | h
      · omega
      · have := hpw.1 i h; omega
    · intro i hi hgt
      rw [hL] at hi
      rcases List.mem_cons.1 hi with h | h
      · omega
      · rw [hstL i h]; rfl
    · intro _; rw [hstc]; simp [GetApState, SetApProcedure, SetApState]
    · intro _ hidle
      rw [hstc] at hidle
      simp [GetApState, SetApProcedure, SetApState] at hidle
    · intro _; rw [hL]; exact List.mem_cons_self _ _
    · have hfil : (c :: L').filter (fun i => decide (i ≤ c)) = [c] := by
        have : L'.filter (fun i => decide (i ≤ c)) = [] := by
          rw [List.filter_eq_nil_iff]
          intro i hi
          have := hpw.1 i hi
          simp only [decide_eq_true_eq]
          omega
        simp [List.filter_cons, this]
      rw [hfil]
      unfold MadeReady
      apply filter_range_eq_singleton _ _ _ hc.1
      intro i hi
      constructor
      · intro hp
        simp only [Bool.and_eq_true, Bool.not_eq_true', decide_eq_true_eq] at hp
        obtain ⟨⟨-, hnr⟩, hr⟩ := hp
        by_contra hic
        by_cases hie : i < s.NumberOfProcessors ∧ IsEnabledAP (s.Cpu i) = true
        · rcases (hmem i).1 hie with h | h
          · exact hic h
          · rw [hstL i h] at hr; cases hr
        · rw [hother i hie] at hr; exact hnr hr
      · rintro rfl
        simp only [Bool.and_eq_true, Bool.not_eq_true', decide_eq_true_eq]
        refine ⟨⟨IsEnabledAP_flag _ hc.2, ?_⟩, ?_⟩
        · rw [hIdleEn i hc.1 hc.2]; decide
        · rw [hstc]; rfl

/-- The shape of every state of a single-thread session, and the processors
made ready so far: the enabled application processors up to the current one. -/
theorem SingleThreadRun_inv (w : Nat) (s : MP_SYSTEM_DATA) (P E T A F : Nat)
    (hIdle : ∀ i, i < s.NumberOfProcessors →
      TestCpuStatusFlag (s.Cpu i) PROCESSOR_AS_BSP_BIT = false →
      GetApState (s.Cpu i) = CpuStateIdle)
    (t : MP_SYSTEM_DATA) (Log : List Nat) (hrun : SingleThreadRun w s P E T A F t Log) :
    ∃ c, ChainInv s t c ∧ Log = (EnabledAPs s).filter (fun i => decide (i ≤ c)) := by
  induction hrun with
  | dispatch => exact ChainInv_dispatch w s P E T A F hIdle
  | harvest t Log _ ih =>
    obtain ⟨c, hinv, hlog⟩ := ih
    by_cases hf : c ∈ EnabledAPs s ∧ GetApState (t.Cpu c) = CpuStateFinished
    · cases hg : GetNextBlockedNumber t with
      | none =>
        obtain ⟨hinv', hmade⟩ := ChainInv_harvest_last s t c hinv hf.1 hf.2 hg
        exact ⟨c, hinv', by rw [hmade, List.append_nil, hlog]⟩
      | some q =>
        obtain ⟨hinv', hmade, -⟩ := ChainInv_harvest_next s t c q hinv hf.1 hf.2 hg
        obtain ⟨hqL, hcq, hgap⟩ := (ChainInv_next s t c hinv).2 q hg
        exact ⟨q, hinv', by
          rw [hmade, hlog, filter_le_next _ c q (EnabledAPs_pairwise s) hqL hcq hgap]⟩
    · rw [ChainInv_harvest_idle s t c hinv hf, MadeReady_self, List.append_nil]
      exact ⟨c, hinv, hlog⟩
  | selfTransition t Log e _ ih =>
    obtain ⟨c, hinv, hlog⟩ := ih
    obtain ⟨hinv', hmade⟩ := ChainInv_selfTransition s t c e hinv
    exact ⟨c, hinv', by rw [hmade, List.append_nil, hlog]⟩
  | tick t Log _ ih =>
    obtain ⟨c, hinv, hlog⟩ := ih
    exact ⟨c, hinv, hlog⟩

theorem ChainInv_active_eq (s t : MP_SYSTEM_DATA) (c n : Nat) (h : ChainInv s t c)
    (hn : n < t.NumberOfProcessors)
    (hb : TestCpuStatusFlag (t.Cpu n) PROCESSOR_AS_BSP_BIT = false)
    (hs : GetApState (t.Cpu n) ≠ CpuStateIdle ∧ GetApState (t.Cpu n) ≠ CpuStateBlocked) :
    n = c := by
  by_contra hnc
  rw [h.1] at hn
  rw [TestCpuStatusFlag_congr _ _ _ (h.2.2.2.1 n)] at hb
  rcases ChainInv_other s t c n h hn hb hnc with h' | h'
  · exact hs.1 h'
  · exact hs.2 h'.1

/-- C4. Single-thread dispatch executes one processor at a time.  Take a
registry in which every registered application processor is idle (the enabled
ones because the pre-flight check of `StartupAllAPs` passes, the others
because a processor is only ever disabled while idle).  In every state reached
after the dispatch of `StartupAllAPs` with `SingleThread = TRUE` by harvesting
passes, self-transitions of the application processors (ready to busy, busy to
finished) and decrements of the budget, in any order, at most one registered
record without `PROCESSOR_AS_BSP_BIT` is in state busy or in state ready with
a procedure installed. -/
theorem C4_single_thread_one_at_a_time (w : Nat) (s : MP_SYSTEM_DATA)
    (Procedure WaitEvent TimeoutInMicroseconds ProcedureArgument FailedCpuList : Nat)
    (hIdle : ∀ i, i < s.NumberOfProcessors →
      TestCpuStatusFlag (s.Cpu i) PROCESSOR_AS_BSP_BIT = false →
      GetApState (s.Cpu i) = CpuStateIdle)
    (t : MP_SYSTEM_DATA) (Log : List Nat)
    (hrun : SingleThreadRun w s Procedure WaitEvent TimeoutInMicroseconds ProcedureArgument
      FailedCpuList t Log) :
    ∀ i j, i < t.NumberOfProcessors → j < t.NumberOfProcessors →
      TestCpuStatusFlag (t.Cpu i) PROCESSOR_AS_BSP_BIT = false →
      TestCpuStatusFlag (t.Cpu j) PROCESSOR_AS_BSP_BIT = false →
      IsRunning (t.Cpu i) → IsRunning (t.Cpu j) → i = j := by
  obtain ⟨c, hinv, -⟩ := SingleThreadRun_inv w s Procedure WaitEvent TimeoutInMicroseconds
    ProcedureArgument FailedCpuList hIdle t Log hrun
  have hact : ∀ n, IsRunning (t.Cpu n) →
      GetApState (t.Cpu n) ≠ CpuStateIdle ∧ GetApState (t.Cpu n) ≠ CpuStateBlocked := by
    intro n hr
    rcases hr with h | h
    · rw [h]; exact ⟨by decide, by decide⟩
    · rw [h.1]; exact ⟨by decide, by decide⟩
  intro i j hi hj hbi hbj hri hrj
  rw [ChainInv_active_eq s t c i hinv hi hbi (hact i hri),
    ChainInv_active_eq s t c j hinv hj hbj (hact j hrj)]

/-- Witness of C4: three processors; after the dispatch processor 1 begins,
returns and is harvested, which makes processor 2 ready.  Processor 2 is then
running, so processor 1 is not. -/
theorem C4_single_thread_one_at_a_time_witness :
    IsRunning ((CheckAndUpdateAllAPsToIdleState (ApSelfTransition (ApSelfTransition
        (StartupAllAPsDispatch 64 Sys3 5 true 0 1000 9 77) (ApEvent.Begin 1))
        (ApEvent.Return 1))).Cpu 2)
    ∧ ¬ IsRunning ((CheckAndUpdateAllAPsToIdleState (ApSelfTransition (ApSelfTransition
        (StartupAllAPsDispatch 64 Sys3 5 true 0 1000 9 77) (ApEvent.Begin 1))
        (ApEvent.Return 1))).Cpu 1) :=
  ⟨Or.inr ⟨by decide, by decide⟩, fun h1 =>
    absurd
      (C4_single_thread_one_at_a_time 64 Sys3 5 0 1000 9 77 (by decide) _ _
        (SingleThreadRun.harvest _ _
          (SingleThreadRun.selfTransition _ _ (ApEvent.Return 1)
            (SingleThreadRun.selfTransition _ _ (ApEvent.Begin 1) SingleThreadRun.dispatch)))
        1 2 (by decide) (by decide) (by decide) (by decide) h1 (Or.inr ⟨by decide, by decide⟩))
      (by decide)⟩

/-- C5. Single-thread execution order is ascending handle number.
`GetNextBlockedNumber` returns the lowest handle number below
`NumberOfProcessors` whose record is without `PROCESSOR_AS_BSP_BIT` and in
state blocked, and `EFI_NOT_FOUND` exactly when there is none.  In a
single-thread session dispatched on a registry whose application processors
are all idle, the processors made ready so far, in the order in which they
were made ready, are always an initial segment of the enabled application
processors in ascending order (not empty when there is one); a
self-transition makes nobody ready; and a harvesting pass that makes a
processor `q` ready makes only `q` ready, `q` being the enabled application
processor that follows, in ascending order, an enabled application processor
`p` which the pass found in state finished. -/
theorem C5_single_thread_ascending_order (w : Nat) (s : MP_SYSTEM_DATA)
    (Procedure WaitEvent TimeoutInMicroseconds ProcedureArgument FailedCpuList : Nat)
    (hIdle : ∀ i, i < s.NumberOfProcessors →
      TestCpuStatusFlag (s.Cpu i) PROCESSOR_AS_BSP_BIT = false →
      GetApState (s.Cpu i) = CpuStateIdle) :
    (∀ (u : MP_SYSTEM_DATA) (n : Nat), GetNextBlockedNumber u = some n ↔
      (n < u.NumberOfProcessors
        ∧ TestCpuStatusFlag (u.Cpu n) PROCESSOR_AS_BSP_BIT = false
        ∧ GetApState (u.Cpu n) = CpuStateBlocked
        ∧ ∀ m, m < n → ¬ (TestCpuStatusFlag (u.Cpu m) PROCESSOR_AS_BSP_BIT = false
            ∧ GetApState (u.Cpu m) = CpuStateBlocked)))
    ∧ (∀ u : MP_SYSTEM_DATA, GetNextBlockedNumber u = none ↔
      ∀ m, m < u.NumberOfProcessors →
        ¬ (TestCpuStatusFlag (u.Cpu m) PROCESSOR_AS_BSP_BIT = false
            ∧ GetApState (u.Cpu m) = CpuStateBlocked))
    ∧ (∀ (t : MP_SYSTEM_DATA) (Log : List Nat),
        SingleThreadRun w s Procedure WaitEvent TimeoutInMicroseconds ProcedureArgument
          FailedCpuList t Log →
        Log <+: EnabledAPs s
        ∧ (EnabledAPs s ≠ [] → Log ≠ [])
        ∧ (∀ e, MadeReady t (ApSelfTransition t e) = [])
        ∧ (∀ q, q ∈ MadeReady t (CheckAndUpdateAllAPsToIdleState t) →
            MadeReady t (CheckAndUpdateAllAPsToIdleState t) = [q]
            ∧ ∃ p, p ∈ EnabledAPs s ∧ q ∈ EnabledAPs s ∧ p < q
              ∧ (∀ i, i ∈ EnabledAPs s → i ≤ p ∨ q ≤ i)
              ∧ GetApState (t.Cpu p) = CpuStateFinished)) := by
  refine ⟨fun u n => (GetNextBlockedNumberLoop_range u u.NumberOfProcessors).1 n,
    fun u => (GetNextBlockedNumberLoop_range u u.NumberOfProcessors).2, ?_⟩
  intro t Log hrun
  obtain ⟨c, hinv, hlog⟩ := SingleThreadRun_inv w s Procedure WaitEvent TimeoutInMicroseconds
    ProcedureArgument FailedCpuList hIdle t Log hrun
  refine ⟨?_, ?_, ?_, ?_⟩
  · rw [hlog]
    exact filter_le_prefix _ c (EnabledAPs_pairwise s)
  · intro hne
    have hc := hinv.2.2.2.2.2.2.2.2.2 hne
    have : c ∈ Log := by
      rw [hlog, List.mem_filter]
      exact ⟨hc, by simp⟩
    exact List.ne_nil_of_mem this
  · intro e
    exact (ChainInv_selfTransition s t c e hinv).2
  · intro q hq
    by_cases hf : c ∈ EnabledAPs s ∧ GetApState (t.Cpu c) = CpuStateFinished
    · cases hg : GetNextBlockedNumber t with
      | none =>
        rw [(ChainInv_harvest_last s t c hinv hf.1 hf.2 hg).2] at hq
        cases hq
      | some q' =>
        obtain ⟨-, hmade, -⟩ := ChainInv_harvest_next s t c q' hinv hf.1 hf.2 hg
        obtain ⟨hqL, hcq, hgap⟩ := (ChainInv_next s t c hinv).2 q' hg
        rw [hmade] at hq ⊢
        have hqq : q = q' := List.eq_of_mem_singleton hq
        subst hqq
        exact ⟨rfl, c, hf.1, hqL, hcq, hgap, hf.2⟩
    · rw [ChainInv_harvest_idle s t c hinv hf, MadeReady_self] at hq
      cases hq

/-- Witness of C5: on three processors, after the dispatch processor 1 begins,
returns and is harvested; the processors made ready are 1 and then 2. -/
theorem C5_single_thread_ascending_order_witness :
    [1, 2] <+: EnabledAPs Sys3 :=
  ((C5_single_thread_ascending_order 64 Sys3 5 0 1000 9 77 (by decide)).2.2
    (CheckAndUpdateAllAPsToIdleState (ApSelfTransition (ApSelfTransition
      (StartupAllAPsDispatch 64 Sys3 5 true 0 1000 9 77) (ApEvent.Begin 1))
      (ApEvent.Return 1)))
    [1, 2]
    (SingleThreadRun.harvest _ _
      (SingleThreadRun.selfTransition _ _ (ApEvent.Return 1)
        (SingleThreadRun.selfTransition _ _ (ApEvent.Begin 1) SingleThreadRun.dispatch)))).1

/-! ## Argument checks of `StartupAllAPs`, enabling and disabling, bring-up -/

/-- C11. Argument checks of `StartupAllAPs` and their precedence: when the
caller is not the BSP the call returns `EFI_DEVICE_ERROR`; when the caller is
the BSP and exactly one processor is registered it returns `EFI_NOT_STARTED`;
when the caller is the BSP, the number of registered processors is not one
and the procedure is null it returns `EFI_INVALID_PARAMETER`; in the three
cases `mMpSystemData` (every record, every field of the session) is exactly
as before, as are the timers, the signalled events and the `Finished`
objects. -/
theorem C11_StartupAllAPs_argument_checks (w ApicId Procedure : Nat) (SingleThread : Bool)
    (WaitEvent TimeoutInMicroseconds ProcedureArgument FailedCpuList : Nat)
    (Schedule : List (List ApEvent)) (W : MpWorld) :
    (IsBSP W.mMpSystemData ApicId = false →
      ∃ W', StartupAllAPs w ApicId Procedure SingleThread WaitEvent TimeoutInMicroseconds
          ProcedureArgument FailedCpuList Schedule W = some (EFI_DEVICE_ERROR, W')
        ∧ W'.mMpSystemData = W.mMpSystemData ∧ W'.PeriodicTimers = W.PeriodicTimers
        ∧ W'.SignaledEvents = W.SignaledEvents ∧ W'.FinishedMem = W.FinishedMem)
    ∧ (IsBSP W.mMpSystemData ApicId = true → W.mMpSystemData.NumberOfProcessors = 1 →
      ∃ W', StartupAllAPs w ApicId Procedure SingleThread WaitEvent TimeoutInMicroseconds
          ProcedureArgument FailedCpuList Schedule W = some (EFI_NOT_STARTED, W')
        ∧ W'.mMpSystemData = W.mMpSystemData ∧ W'.PeriodicTimers = W.PeriodicTimers
        ∧ W'.SignaledEvents = W.SignaledEvents ∧ W'.FinishedMem = W.FinishedMem)
    ∧ (IsBSP W.mMpSystemData ApicId = true → W.mMpSystemData.NumberOfProcessors ≠ 1 →
        Procedure = 0 →
      ∃ W', StartupAllAPs w ApicId Procedure SingleThread WaitEvent TimeoutInMicroseconds
          ProcedureArgument FailedCpuList Schedule W = some (EFI_INVALID_PARAMETER, W')
        ∧ W'.mMpSystemData = W.mMpSystemData ∧ W'.PeriodicTimers = W.PeriodicTimers
        ∧ W'.SignaledEvents = W.SignaledEvents ∧ W'.FinishedMem = W.FinishedMem) := by
  have hW0 : ∀ st : EFI_STATUS,
      ∃ W', some (st, (if FailedCpuList ≠ 0 then
            { W with FailedCpuListMem := MemWrite W.FailedCpuListMem FailedCpuList none }
          else W)) = some (st, W')
        ∧ W'.mMpSystemData = W.mMpSystemData ∧ W'.PeriodicTimers = W.PeriodicTimers
        ∧ W'.SignaledEvents = W.SignaledEvents ∧ W'.FinishedMem = W.FinishedMem := by
    intro st
    refine ⟨_, rfl, ?_, ?_, ?_, ?_⟩ <;> split_ifs <;> rfl
  have hmp : (if FailedCpuList ≠ 0 then
        { W with FailedCpuListMem := MemWrite W.FailedCpuListMem FailedCpuList none }
      else W).mMpSystemData = W.mMpSystemData := by split_ifs <;> rfl
  refine ⟨fun hb => ?_, fun hb hn => ?_, fun hb hn hp => ?_⟩
  · simp only [StartupAllAPs, hmp, hb, Bool.not_false, if_true]
    exact hW0 _
  · simp only [StartupAllAPs, hmp, hb, hn, Bool.not_true, Bool.false_eq_true, if_false, if_true]
    exact hW0 _
  · simp only [StartupAllAPs, hmp, hb, hn, hp, Bool.not_true, Bool.false_eq_true, if_false,
      if_true]
    exact hW0 _

/-- Witness of C11: the BSP alone calls `StartupAllAPs`. -/
theorem C11_StartupAllAPs_argument_checks_witness :
    ∃ W', StartupAllAPs 64 0 5 false 0 0 9 0 [] (MkWorld Sys1) = some (EFI_NOT_STARTED, W')
      ∧ W'.mMpSystemData = (MkWorld Sys1).mMpSystemData
      ∧ W'.PeriodicTimers = (MkWorld Sys1).PeriodicTimers
      ∧ W'.SignaledEvents = (MkWorld Sys1).SignaledEvents
      ∧ W'.FinishedMem = (MkWorld Sys1).FinishedMem :=
  (C11_StartupAllAPs_argument_checks 64 0 5 false 0 0 9 0 [] (MkWorld Sys1)).2.1 (by decide)
    (by decide)

/-- C12 fails on the code: `StartupAllAPs` returns `EFI_NOT_STARTED` only when
`NumberOfProcessors` is one.  On two processors whose only AP has been
disabled (no enabled AP exists) the BSP's blocking call dispatches nothing and
returns `EFI_SUCCESS` from the first turn of its loop, and the non-blocking
call sets the timer and returns `EFI_SUCCESS`. -/
theorem C12_all_disabled_returns_success :
    (EnableDisableAP 64 0 1 false none Sys2).1 = EFI_SUCCESS
    ∧ Sys2Disabled.NumberOfProcessors = 2
    ∧ EnabledAPs Sys2Disabled = []
    ∧ (∃ W', StartupAllAPs 64 0 5 false 0 0 9 0 [] (MkWorld Sys2Disabled)
        = some (EFI_SUCCESS, W') ∧ W'.mMpSystemData.StartCount = 0)
    ∧ (∃ W', StartupAllAPs 64 0 5 true 0 1000 9 0 [] (MkWorld Sys2Disabled)
        = some (EFI_SUCCESS, W') ∧ W'.mMpSystemData.StartCount = 0)
    ∧ (∃ W', StartupAllAPs 64 0 5 false 3 0 9 0 [] (MkWorld Sys2Disabled)
        = some (EFI_SUCCESS, W') ∧ W'.PeriodicTimers = [EventHandle 0]) := by
  refine ⟨rfl, rfl, rfl, ⟨_, rfl, rfl⟩, ⟨_, rfl, rfl⟩, ⟨_, rfl, rfl⟩⟩

/-- The status of `EnableDisableAP` called from the BSP, and the registry when
the status is not `EFI_SUCCESS`. -/
theorem EnableDisableAP_status (w ApicId ProcessorNumber : Nat) (EnableAP : Bool)
    (HealthFlag : Option Nat) (s : MP_SYSTEM_DATA)
    (hBsp : IsBSP s ApicId = true) :
    (EnableDisableAP w ApicId ProcessorNumber EnableAP HealthFlag s).1 =
        (if s.NumberOfProcessors ≤ ProcessorNumber then EFI_NOT_FOUND
         else if TestCpuStatusFlag (s.Cpu ProcessorNumber) PROCESSOR_AS_BSP_BIT = true then
           EFI_INVALID_PARAMETER
         else if GetApState (s.Cpu ProcessorNumber) ≠ CpuStateIdle then EFI_UNSUPPORTED
         else EFI_SUCCESS) := by
  simp only [EnableDisableAP, hBsp, Bool.not_true, Bool.false_eq_true, if_false, ge_iff_le]
  split_ifs <;> rfl

theorem EnableDisableAP_unchanged (w ApicId ProcessorNumber : Nat) (EnableAP : Bool)
    (HealthFlag : Option Nat) (s : MP_SYSTEM_DATA)
    (h : (EnableDisableAP w ApicId ProcessorNumber EnableAP HealthFlag s).1 ≠ EFI_SUCCESS) :
    (EnableDisableAP w ApicId ProcessorNumber EnableAP HealthFlag s).2 = s := by
  revert h
  simp only [EnableDisableAP]
  split_ifs <;> simp

/-- C15. Rejection table of `EnableDisableAP`: it returns `EFI_DEVICE_ERROR`
when the caller is not the BSP; called from the BSP it returns `EFI_NOT_FOUND`
exactly when `ProcessorNumber` is not below `NumberOfProcessors`; for a handle
number in range, `EFI_INVALID_PARAMETER` exactly when the target is the BSP;
for an application processor in range, `EFI_UNSUPPORTED` exactly when the
target is not idle.  Whenever the status is not `EFI_SUCCESS` the registry
(flags of the target, `NumberOfEnabledProcessors`, everything else) is
unchanged, so that the registry changes only when the target is idle. -/
theorem C15_EnableDisableAP_rejection_table (w ApicId ProcessorNumber : Nat) (EnableAP : Bool)
    (HealthFlag : Option Nat) (s : MP_SYSTEM_DATA) :
    (IsBSP s ApicId = false →
      EnableDisableAP w ApicId ProcessorNumber EnableAP HealthFlag s = (EFI_DEVICE_ERROR, s))
    ∧ (IsBSP s ApicId = true →
      ((EnableDisableAP w ApicId ProcessorNumber EnableAP HealthFlag s).1 = EFI_NOT_FOUND
        ↔ s.NumberOfProcessors ≤ ProcessorNumber))
    ∧ (IsBSP s ApicId = true → ProcessorNumber < s.NumberOfProcessors →
      ((EnableDisableAP w ApicId ProcessorNumber EnableAP HealthFlag s).1 = EFI_INVALID_PARAMETER
        ↔ TestCpuStatusFlag (s.Cpu ProcessorNumber) PROCESSOR_AS_BSP_BIT = true))
    ∧ (IsBSP s ApicId = true → ProcessorNumber < s.NumberOfProcessors →
      TestCpuStatusFlag (s.Cpu ProcessorNumber) PROCESSOR_AS_BSP_BIT = false →
      ((EnableDisableAP w ApicId ProcessorNumber EnableAP HealthFlag s).1 = EFI_UNSUPPORTED
        ↔ GetApState (s.Cpu ProcessorNumber) ≠ CpuStateIdle))
    ∧ ((EnableDisableAP w ApicId ProcessorNumber EnableAP HealthFlag s).1 ≠ EFI_SUCCESS →
      (EnableDisableAP w ApicId ProcessorNumber EnableAP HealthFlag s).2 = s)
    ∧ ((EnableDisableAP w ApicId ProcessorNumber EnableAP HealthFlag s).2 ≠ s →
      GetApState (s.Cpu ProcessorNumber) = CpuStateIdle) := by
  refine ⟨fun hb => ?_, fun hb => ?_, fun hb hlt => ?_, fun hb hlt hnb => ?_,
    EnableDisableAP_unchanged w ApicId ProcessorNumber EnableAP HealthFlag s, fun hch => ?_⟩
  · simp [EnableDisableAP, hb]
  · rw [EnableDisableAP_status w ApicId ProcessorNumber EnableAP HealthFlag s hb]
    split_ifs <;> simp_all
  · rw [EnableDisableAP_status w ApicId ProcessorNumber EnableAP HealthFlag s hb]
    have hge : ¬ s.NumberOfProcessors ≤ ProcessorNumber := by omega
    split_ifs <;> simp_all
  · rw [EnableDisableAP_status w ApicId ProcessorNumber EnableAP HealthFlag s hb]
    have hge : ¬ s.NumberOfProcessors ≤ ProcessorNumber := by omega
    split_ifs <;> simp_all
  · by_contra hst
    apply hch
    apply EnableDisableAP_unchanged
    simp only [EnableDisableAP]
    split_ifs <;> simp_all

/-- Witness of C15: on three processors, the first AP busy, the BSP tries to
disable it. -/
theorem C15_EnableDisableAP_rejection_table_witness :
    (EnableDisableAP 64 0 1 false none Sys3Busy).1 = EFI_UNSUPPORTED
      ↔ GetApState (Sys3Busy.Cpu 1) ≠ CpuStateIdle :=
  (C15_EnableDisableAP_rejection_table 64 0 1 false none Sys3Busy).2.2.2.1 (by decide)
    (by decide) (by decide)

/-- C16 fails on the code: with health bits supplied, `EnableDisableAP` calls
`CpuStatusFlagAndNot (CpuData, (UINT32)~PROCESSOR_HEALTH_STATUS_BIT)`, which
keeps only the health bit and so clears `PROCESSOR_ENABLED_BIT`.  On two
processors the BSP enables the idle AP with health bits `4`: the call returns
`EFI_SUCCESS` and the AP's enabled flag is clear, whether it was set before
(flags `6` become `4`) or clear before (flags `4` stay `4`, while
`NumberOfEnabledProcessors` is incremented).  Without health bits the flag is
set. -/
theorem C16_enable_with_health_clears_enabled :
    (EnableDisableAP 64 0 1 true (some 4) Sys2Counted).1 = EFI_SUCCESS
    ∧ TestCpuStatusFlag (Sys2Counted.Cpu 1) PROCESSOR_ENABLED_BIT = true
    ∧ TestCpuStatusFlag ((EnableDisableAP 64 0 1 true (some 4) Sys2Counted).2.Cpu 1)
        PROCESSOR_ENABLED_BIT = false
    ∧ (EnableDisableAP 64 0 1 true (some 4) Sys2Disabled).1 = EFI_SUCCESS
    ∧ TestCpuStatusFlag ((EnableDisableAP 64 0 1 true (some 4) Sys2Disabled).2.Cpu 1)
        PROCESSOR_ENABLED_BIT = false
    ∧ (EnableDisableAP 64 0 1 true (some 4) Sys2Disabled).2.NumberOfEnabledProcessors
        = Sys2Disabled.NumberOfEnabledProcessors + 1
    ∧ TestCpuStatusFlag ((EnableDisableAP 64 0 1 true none Sys2Disabled).2.Cpu 1)
        PROCESSOR_ENABLED_BIT = true := by
  refine ⟨rfl, rfl, rfl, rfl, rfl, rfl, rfl⟩

/-- C17 fails on the code, by the defect of C16.  On two processors, both
enabled, with `NumberOfEnabledProcessors = 2` equal to the number of records
whose enabled flag is set, the BSP calls `EnableDisableAP (1, TRUE, &Health)`
on the idle AP: the call returns `EFI_SUCCESS`, `NumberOfEnabledProcessors`
stays `2` and only one record has its enabled flag set. -/
theorem C17_count_disagrees_after_health :
    Sys2Counted.NumberOfProcessors = 2
    ∧ Sys2Counted.NumberOfEnabledProcessors = EnabledFlagCount Sys2Counted
    ∧ (EnableDisableAP 64 0 1 true (some 4) Sys2Counted).1 = EFI_SUCCESS
    ∧ (EnableDisableAP 64 0 1 true (some 4) Sys2Counted).2.NumberOfEnabledProcessors = 2
    ∧ EnabledFlagCount (EnableDisableAP 64 0 1 true (some 4) Sys2Counted).2 = 1 := by
  refine ⟨rfl, rfl, rfl, rfl, rfl⟩

/-- C18 fails on the code, by the defect of C16: the health bit is never
cleared, the old health bit is or-ed with the supplied one.  On two
processors the BSP calls `EnableDisableAP (1, TRUE, &Health)` with
`Health = 0` on the idle, healthy AP: the call returns `EFI_SUCCESS` and
`PROCESSOR_HEALTH_STATUS_BIT` is still set. -/
theorem C18_health_bit_not_cleared :
    (EnableDisableAP 64 0 1 true (some 0) Sys2Counted).1 = EFI_SUCCESS
    ∧ TestCpuStatusFlag (Sys2Counted.Cpu 1) PROCESSOR_HEALTH_STATUS_BIT = true
    ∧ (0 &&& PROCESSOR_HEALTH_STATUS_BIT) = 0
    ∧ TestCpuStatusFlag ((EnableDisableAP 64 0 1 true (some 0) Sys2Counted).2.Cpu 1)
        PROCESSOR_HEALTH_STATUS_BIT = true := by
  refine ⟨rfl, rfl, rfl, rfl⟩

/-- C20 fails on the code: `ApEntryPointInC` increments `NumberOfProcessors`
but not `NumberOfEnabledProcessors`, which `InitMpSystemData` sets to one.
After the bring-up of the BSP and of one application processor (`N = 2`),
`GetNumberOfProcessors` called from the BSP returns `(2, 1)`, while one
application processor is flagged enabled, so that the count should be `2`. -/
theorem C20_enabled_count_after_bring_up :
    GetNumberOfProcessors (BringUp 2 0 [1]) 0 1 1 = (EFI_SUCCESS, some (2, 1))
    ∧ EnabledAPCount (BringUp 2 0 [1]) + 1 = 2
    ∧ GetNumberOfProcessors (BringUp 4 0 [1, 2, 3]) 0 1 1 = (EFI_SUCCESS, some (4, 1))
    ∧ EnabledAPCount (BringUp 4 0 [1, 2, 3]) + 1 = 4 := by
  refine ⟨rfl, rfl, rfl, rfl⟩

/-- The enabled count after a successful `EnableDisableAP`. -/
theorem EnableDisableAP_count (w ApicId ProcessorNumber : Nat) (EnableAP : Bool)
    (HealthFlag : Option Nat) (s : MP_SYSTEM_DATA)
    (hBsp : IsBSP s ApicId = true)
    (hlt : ProcessorNumber < s.NumberOfProcessors)
    (hAp : TestCpuStatusFlag (s.Cpu ProcessorNumber) PROCESSOR_AS_BSP_BIT = false)
    (hIdle : GetApState (s.Cpu ProcessorNumber) = CpuStateIdle) :
    (EnableDisableAP w ApicId ProcessorNumber EnableAP HealthFlag s).1 = EFI_SUCCESS
    ∧ (EnableDisableAP w ApicId ProcessorNumber EnableAP HealthFlag s).2.NumberOfEnabledProcessors =
        (if EnableAP = TestCpuStatusFlag (s.Cpu ProcessorNumber) PROCESSOR_ENABLED_BIT then
          s.NumberOfEnabledProcessors
        else if EnableAP = true then (s.NumberOfEnabledProcessors + 1) % 2 ^ w
        else (s.NumberOfEnabledProcessors + 2 ^ w - 1) % 2 ^ w) := by
  have hge : ¬ ProcessorNumber ≥ s.NumberOfProcessors := by omega
  simp only [EnableDisableAP, hBsp, hge, hAp, hIdle, Bool.not_true, Bool.false_eq_true,
    if_false, ne_eq, not_true_eq_false]
  refine ⟨trivial, ?_⟩
  cases EnableAP <;>
    cases hE : TestCpuStatusFlag (s.Cpu ProcessorNumber) PROCESSOR_ENABLED_BIT <;>
    cases HealthFlag <;> simp [MP_SYSTEM_DATA.SetCpu]

/-- Effect of `EnableDisableAP` on the enabled count: for a call from the
BSP on an idle application processor in range (so that the call returns
`EFI_SUCCESS`), with or without health bits: when `EnableAP` equals the
target's enabled flag, `NumberOfEnabledProcessors` is unchanged; when the
target is disabled and `EnableAP` is `TRUE` the count is incremented, and
when the target is enabled and `EnableAP` is `FALSE` it is decremented, as
`UINTN` of `w` bits: by exactly one as long as the count plus one fits the
word, respectively the count is not zero. -/
theorem EnableDisableAP_count_step (w ApicId ProcessorNumber : Nat) (EnableAP : Bool)
    (HealthFlag : Option Nat) (s : MP_SYSTEM_DATA)
    (hBsp : IsBSP s ApicId = true)
    (hlt : ProcessorNumber < s.NumberOfProcessors)
    (hAp : TestCpuStatusFlag (s.Cpu ProcessorNumber) PROCESSOR_AS_BSP_BIT = false)
    (hIdle : GetApState (s.Cpu ProcessorNumber) = CpuStateIdle) :
    (EnableDisableAP w ApicId ProcessorNumber EnableAP HealthFlag s).1 = EFI_SUCCESS
    ∧ (EnableAP = TestCpuStatusFlag (s.Cpu ProcessorNumber) PROCESSOR_ENABLED_BIT →
        (EnableDisableAP w ApicId ProcessorNumber EnableAP HealthFlag s).2.NumberOfEnabledProcessors
          = s.NumberOfEnabledProcessors)
    ∧ (EnableAP = true →
        TestCpuStatusFlag (s.Cpu ProcessorNumber) PROCESSOR_ENABLED_BIT = false →
        (EnableDisableAP w ApicId ProcessorNumber EnableAP HealthFlag s).2.NumberOfEnabledProcessors
            = (s.NumberOfEnabledProcessors + 1) % 2 ^ w
        ∧ (s.NumberOfEnabledProcessors + 1 < 2 ^ w →
          (EnableDisableAP w ApicId ProcessorNumber EnableAP HealthFlag s).2.NumberOfEnabledProcessors
            = s.NumberOfEnabledProcessors + 1))
    ∧ (EnableAP = false →
        TestCpuStatusFlag (s.Cpu ProcessorNumber) PROCESSOR_ENABLED_BIT = true →
        (EnableDisableAP w ApicId ProcessorNumber EnableAP HealthFlag s).2.NumberOfEnabledProcessors
            = (s.NumberOfEnabledProcessors + 2 ^ w - 1) % 2 ^ w
        ∧ (0 < s.NumberOfEnabledProcessors → s.NumberOfEnabledProcessors < 2 ^ w →
          (EnableDisableAP w ApicId ProcessorNumber EnableAP HealthFlag s).2.NumberOfEnabledProcessors
            + 1 = s.NumberOfEnabledProcessors)) := by
  obtain ⟨hst, hcnt⟩ := EnableDisableAP_count w ApicId ProcessorNumber EnableAP HealthFlag s
    hBsp hlt hAp hIdle
  refine ⟨hst, fun h => ?_, fun hE hF => ?_, fun hE hT => ?_⟩
  · rw [hcnt, if_pos h]
  · have hne : ¬ EnableAP = TestCpuStatusFlag (s.Cpu ProcessorNumber) PROCESSOR_ENABLED_BIT := by
      rw [hE, hF]; decide
    rw [hcnt, if_neg hne, if_pos hE]
    exact ⟨rfl, fun hfit => Nat.mod_eq_of_lt hfit⟩
  · have hne : ¬ EnableAP = TestCpuStatusFlag (s.Cpu ProcessorNumber) PROCESSOR_ENABLED_BIT := by
      rw [hE, hT]; decide
    have hE' : ¬ EnableAP = true := by rw [hE]; decide
    rw [hcnt, if_neg hne, if_neg hE']
    refine ⟨rfl, fun hpos hfit => ?_⟩
    have h1 : s.NumberOfEnabledProcessors + 2 ^ w - 1
        = (s.NumberOfEnabledProcessors - 1) + 2 ^ w := by omega
    rw [h1, Nat.add_mod_right, Nat.mod_eq_of_lt (by omega)]
    omega

/-- C19 fails on the code at a state that bring-up reaches.  After the
bring-up of three processors every record has `PROCESSOR_ENABLED_BIT` set and
`NumberOfEnabledProcessors` is 1, because `ApEntryPointInC` does not count the
processors it registers.  The BSP disables processor 1 with
`EnableDisableAP (1, FALSE, NULL)`: the call returns `EFI_SUCCESS` and the
count is 0.  Processor 2 is then an idle application processor whose enabled
flag is set, and the BSP disables it with `EnableDisableAP (2, FALSE, NULL)`:
the call returns `EFI_SUCCESS`, clears the flag, and `NumberOfEnabledProcessors--`
on a `UINTN` of 64 bits leaves the count at `2 ^ 64 - 1`: the count has not
gone down by one.  Enabling processor 2 again takes the count from
`2 ^ 64 - 1` to 0, which is not one more. -/
theorem C19_enabled_count_wraps :
    (BringUp 3 0 [1, 2]).NumberOfEnabledProcessors = 1
    ∧ EnabledFlagCount (BringUp 3 0 [1, 2]) = 3
    ∧ (EnableDisableAP 64 0 1 false none (BringUp 3 0 [1, 2])).1 = EFI_SUCCESS
    ∧ Run3FirstDisabled.NumberOfEnabledProcessors = 0
    ∧ IsBSP Run3FirstDisabled 0 = true
    ∧ 2 < Run3FirstDisabled.NumberOfProcessors
    ∧ TestCpuStatusFlag (Run3FirstDisabled.Cpu 2) PROCESSOR_AS_BSP_BIT = false
    ∧ TestCpuStatusFlag (Run3FirstDisabled.Cpu 2) PROCESSOR_ENABLED_BIT = true
    ∧ GetApState (Run3FirstDisabled.Cpu 2) = CpuStateIdle
    ∧ (EnableDisableAP 64 0 2 false none Run3FirstDisabled).1 = EFI_SUCCESS
    ∧ TestCpuStatusFlag ((EnableDisableAP 64 0 2 false none Run3FirstDisabled).2.Cpu 2)
        PROCESSOR_ENABLED_BIT = false
    ∧ (EnableDisableAP 64 0 2 false none Run3FirstDisabled).2.NumberOfEnabledProcessors
        = 2 ^ 64 - 1
    ∧ (EnableDisableAP 64 0 2 false none Run3FirstDisabled).2.NumberOfEnabledProcessors + 1
        ≠ Run3FirstDisabled.NumberOfEnabledProcessors
    ∧ (EnableDisableAP 64 0 2 true none
        (EnableDisableAP 64 0 2 false none Run3FirstDisabled).2).1 = EFI_SUCCESS
    ∧ (EnableDisableAP 64 0 2 true none
        (EnableDisableAP 64 0 2 false none Run3FirstDisabled).2).2.NumberOfEnabledProcessors
        = 0 := by
  refine ⟨rfl, rfl, rfl, rfl, rfl, by decide, rfl, rfl, rfl, rfl, rfl, ?_, ?_, rfl, ?_⟩
  · decide
  · decide
  · decide

/-! ## The balance of a session: dispatched, finished and active processors -/

theorem countP_range_congr (p q : Nat → Bool) (N : Nat) (h : ∀ j, j < N → q j = p j) :
    (List.range N).countP q = (List.range N).countP p := by
  apply List.countP_congr
  intro j hj
  rw [h j (List.mem_range.1 hj)]

theorem countP_range_update (p q : Nat → Bool) (N i : Nat) (hi : i < N)
    (hp : p i = true) (hq : q i = false) (h : ∀ j, j < N → j ≠ i → q j = p j) :
    (List.range N).countP q + 1 = (List.range N).countP p := by
  induction N with
  | zero => omega
  | succ N ih =>
    rw [List.range_succ, List.countP_append, List.countP_append]
    by_cases hiN : i = N
    · subst hiN
      have h1 : (List.range i).countP q = (List.range i).countP p :=
        countP_range_congr p q i (fun j hj => h j (by omega) (by omega))
      simp [h1, hp, hq]
    · have h1 := ih (by omega) (fun j hj hne => h j (by omega) hne)
      have h2 : q N = p N := h N (by omega) (Ne.symm hiN)
      simp only [List.countP_cons, List.countP_nil, h2]
      omega

theorem CheckAndUpdateBody_finished_parallel (t : MP_SYSTEM_DATA) (c : Nat)
    (hen : IsEnabledAP (t.Cpu c) = true)
    (hfin : GetApState (t.Cpu c) = CpuStateFinished)
    (hst : t.SingleThread = false) :
    CheckAndUpdateBody t c =
      ({ t with FinishCount := t.FinishCount + 1 } : MP_SYSTEM_DATA).SetCpu c
        (SetApState (t.Cpu c) CpuStateIdle) := by
  simp only [IsEnabledAP, Bool.and_eq_true, Bool.not_eq_true'] at hen
  simp only [CheckAndUpdateBody, hen.1, hen.2, hfin, Bool.false_eq_true, if_false,
    Bool.not_true, if_true]
  rw [if_neg (by rw [hst]; decide)]
  rfl

/-- A step that moves one enabled application processor from not idle to idle,
adds one to `FinishCount` and keeps the flags and the idleness of the others
keeps the balance of the session. -/
theorem balance_of_harvest_one (s t : MP_SYSTEM_DATA) (i : Nat)
    (hi : i < s.NumberOfProcessors)
    (hN : t.NumberOfProcessors = s.NumberOfProcessors)
    (hF : t.FinishCount = s.FinishCount + 1)
    (hinfo : ∀ j, (t.Cpu j).Info = (s.Cpu j).Info)
    (hen : IsEnabledAP (s.Cpu i) = true)
    (hold : GetApState (s.Cpu i) ≠ CpuStateIdle)
    (hnew : GetApState (t.Cpu i) = CpuStateIdle)
    (hother : ∀ j, j ≠ i →
      (GetApState (t.Cpu j) = CpuStateIdle ↔ GetApState (s.Cpu j) = CpuStateIdle)) :
    t.FinishCount + ActiveCount t = s.FinishCount + ActiveCount s := by
  have hcount : ActiveCount t + 1 = ActiveCount s := by
    unfold ActiveCount
    rw [hN]
    apply countP_range_update _ _ _ i hi
    · simp [hen, hold]
    · simp [hnew]
    · intro j _ hji
      rw [IsEnabledAP_congr _ _ (hinfo j)]
      by_cases hs : GetApState (s.Cpu j) = CpuStateIdle
      · simp [hs, (hother j hji).2 hs]
      · have : ¬ GetApState (t.Cpu j) = CpuStateIdle := fun h => hs ((hother j hji).1 h)
        simp [hs, this]
  omega

/-- One turn of the loop of `CheckAndUpdateAllAPsToIdleState` keeps the balance
of the session, the flags and every field but the records and `FinishCount`. -/
theorem CheckAndUpdateBody_balance (s : MP_SYSTEM_DATA) (i : Nat)
    (hi : i < s.NumberOfProcessors) :
    CheckAndUpdateBody s i =
        { s with CpuDatas := (CheckAndUpdateBody s i).CpuDatas
                 FinishCount := (CheckAndUpdateBody s i).FinishCount }
    ∧ (CheckAndUpdateBody s i).FinishCount + ActiveCount (CheckAndUpdateBody s i)
        = s.FinishCount + ActiveCount s
    ∧ (∀ j, ((CheckAndUpdateBody s i).Cpu j).Info = (s.Cpu j).Info) := by
  by_cases hfin : IsEnabledAP (s.Cpu i) = true ∧ GetApState (s.Cpu i) = CpuStateFinished
  · obtain ⟨hen, hst⟩ := hfin
    have hilen : i < s.CpuDatas.length := lt_length_of_IsEnabledAP s i hen
    have hold : GetApState (s.Cpu i) ≠ CpuStateIdle := by rw [hst]; decide
    have hlen1 : ({ s with FinishCount := s.FinishCount + 1 } : MP_SYSTEM_DATA).CpuDatas.length
        = s.CpuDatas.length := rfl
    have hsimple : CheckAndUpdateBody s i =
        ({ s with FinishCount := s.FinishCount + 1 } : MP_SYSTEM_DATA).SetCpu i
          (SetApState (s.Cpu i) CpuStateIdle) →
        CheckAndUpdateBody s i =
            { s with CpuDatas := (CheckAndUpdateBody s i).CpuDatas
                     FinishCount := (CheckAndUpdateBody s i).FinishCount }
        ∧ (CheckAndUpdateBody s i).FinishCount + ActiveCount (CheckAndUpdateBody s i)
            = s.FinishCount + ActiveCount s
        ∧ (∀ j, ((CheckAndUpdateBody s i).Cpu j).Info = (s.Cpu j).Info) := by
      intro hbody
      have hcpu : ∀ j, (CheckAndUpdateBody s i).Cpu j =
          if i = j then SetApState (s.Cpu i) CpuStateIdle else s.Cpu j := by
        intro j
        rw [hbody, Cpu_SetCpu, hlen1]
        simp only [hilen, and_true]
        rfl
      have hinfo : ∀ j, ((CheckAndUpdateBody s i).Cpu j).Info = (s.Cpu j).Info := by
        intro j
        rw [hcpu j]
        by_cases hij : i = j
        · subst hij; simp only [if_true]; rfl
        · simp only [hij, if_false]
      refine ⟨?_, ?_, hinfo⟩
      · rw [hbody]; rfl
      · apply balance_of_harvest_one s _ i hi (by rw [hbody]; rfl) (by rw [hbody]; rfl) hinfo hen
          hold
        · rw [hcpu i, if_pos rfl]; rfl
        · intro j hji
          rw [hcpu j, if_neg (Ne.symm hji)]
    rcases Bool.eq_false_or_eq_true s.SingleThread with hST | hST
    · cases hg : GetNextBlockedNumber s with
      | none => exact hsimple (CheckAndUpdateBody_finished_none s i hen hst hg)
      | some q =>
        obtain ⟨-, hqb, hqs, -⟩ := (GetNextBlockedNumberLoop_range s s.NumberOfProcessors).1 q |>.1 hg
        have hqi : q ≠ i := by
          intro h; subst h; rw [hst] at hqs; cases hqs
        have hqlen : q < s.CpuDatas.length :=
          lt_length_of_GetApState_ne s q (by rw [hqs]; decide)
        have hbody := CheckAndUpdateBody_finished_some s i q hen hst hST hg hqi hqlen
        have hcpu : ∀ j, (CheckAndUpdateBody s i).Cpu j =
            if i = j then SetApState (s.Cpu i) CpuStateIdle
            else if q = j then
              SetApProcedure (SetApState (s.Cpu q) CpuStateReady) s.Procedure s.ProcedureArgument
            else s.Cpu j := by
          intro j
          rw [hbody, Cpu_SetCpu, Cpu_SetCpu, length_SetCpu, hlen1]
          simp only [hilen, hqlen, and_true]
          rfl
        have hinfo : ∀ j, ((CheckAndUpdateBody s i).Cpu j).Info = (s.Cpu j).Info := by
          intro j
          rw [hcpu j]
          by_cases hij : i = j
          · subst hij; simp only [if_true]; rfl
          · by_cases hqj : q = j
            · subst hqj; simp only [hij, if_false, if_true]; rfl
            · simp only [hij, hqj, if_false]
        refine ⟨?_, ?_, hinfo⟩
        · rw [hbody]; rfl
        · apply balance_of_harvest_one s _ i hi (by rw [hbody]; rfl) (by rw [hbody]; rfl) hinfo
            hen hold
          · rw [hcpu i, if_pos rfl]; rfl
          · intro j hji
            rw [hcpu j, if_neg (Ne.symm hji)]
            by_cases hqj : q = j
            · subst hqj
              simp only [if_true]
              constructor
              · intro h; simp [GetApState, SetApProcedure, SetApState] at h
              · intro h; rw [hqs] at h; cases h
            · simp only [hqj, if_false]
    · exact hsimple (CheckAndUpdateBody_finished_parallel s i hen hst hST)
  · have hbody : CheckAndUpdateBody s i = s :=
      CheckAndUpdateBody_of_not_finished s i (fun he hf => hfin ⟨he, hf⟩)
    rw [hbody]
    exact ⟨rfl, rfl, fun _ => rfl⟩

theorem CheckAndUpdate_fold_balance (s : MP_SYSTEM_DATA) (k : Nat)
    (hk : k ≤ s.NumberOfProcessors) :
    (List.range k).foldl CheckAndUpdateBody s =
        { s with CpuDatas := ((List.range k).foldl CheckAndUpdateBody s).CpuDatas
                 FinishCount := ((List.range k).foldl CheckAndUpdateBody s).FinishCount }
    ∧ ((List.range k).foldl CheckAndUpdateBody s).FinishCount
        + ActiveCount ((List.range k).foldl CheckAndUpdateBody s)
        = s.FinishCount + ActiveCount s
    ∧ (∀ j, (((List.range k).foldl CheckAndUpdateBody s).Cpu j).Info = (s.Cpu j).Info) := by
  induction k with
  | zero => exact ⟨rfl, rfl, fun _ => rfl⟩
  | succ k ih =>
    obtain ⟨hframe, hbal, hinfo⟩ := ih (by omega)
    rw [List.range_succ, List.foldl_append, List.foldl_cons, List.foldl_nil]
    generalize (List.range k).foldl CheckAndUpdateBody s = t at hframe hbal hinfo ⊢
    have hN : t.NumberOfProcessors = s.NumberOfProcessors := by rw [hframe]
    obtain ⟨hf2, hb2, hi2⟩ := CheckAndUpdateBody_balance t k (by omega)
    refine ⟨?_, by omega, fun j => (hi2 j).trans (hinfo j)⟩
    rw [hf2, hframe]

/-- A pass of `CheckAndUpdateAllAPsToIdleState` keeps the balance of the
session, the flags, and every field but the records and `FinishCount`. -/
theorem CheckAndUpdateAllAPsToIdleState_balance (s : MP_SYSTEM_DATA) :
    CheckAndUpdateAllAPsToIdleState s =
        { s with CpuDatas := (CheckAndUpdateAllAPsToIdleState s).CpuDatas
                 FinishCount := (CheckAndUpdateAllAPsToIdleState s).FinishCount }
    ∧ (CheckAndUpdateAllAPsToIdleState s).FinishCount
        + ActiveCount (CheckAndUpdateAllAPsToIdleState s) = s.FinishCount + ActiveCount s
    ∧ (∀ j, ((CheckAndUpdateAllAPsToIdleState s).Cpu j).Info = (s.Cpu j).Info) :=
  CheckAndUpdate_fold_balance s s.NumberOfProcessors (le_refl _)

theorem ActiveCount_congr (s t : MP_SYSTEM_DATA)
    (hN : t.NumberOfProcessors = s.NumberOfProcessors)
    (hinfo : ∀ j, (t.Cpu j).Info = (s.Cpu j).Info)
    (hidle : ∀ j, GetApState (t.Cpu j) = CpuStateIdle ↔ GetApState (s.Cpu j) = CpuStateIdle) :
    ActiveCount t = ActiveCount s := by
  unfold ActiveCount
  rw [hN]
  apply countP_range_congr
  intro j _
  rw [IsEnabledAP_congr _ _ (hinfo j)]
  by_cases hs : GetApState (s.Cpu j) = CpuStateIdle
  · simp [hs, (hidle j).2 hs]
  · have : ¬ GetApState (t.Cpu j) = CpuStateIdle := fun h => hs ((hidle j).1 h)
    simp [hs, this]

/-- A self-transition of an application processor keeps the flags, the
deadline fields of every record and which records are idle. -/
theorem ApSelfTransition_record (s : MP_SYSTEM_DATA) (e : ApEvent) (j : Nat) :
    ((ApSelfTransition s e).Cpu j).Info = (s.Cpu j).Info
    ∧ ((ApSelfTransition s e).Cpu j).TimeoutActive = (s.Cpu j).TimeoutActive
    ∧ (GetApState ((ApSelfTransition s e).Cpu j) = CpuStateIdle
        ↔ GetApState (s.Cpu j) = CpuStateIdle) := by
  cases e with
  | Begin n =>
    simp only [ApSelfTransition]
    split_ifs with h
    · rw [Cpu_SetCpu]
      split_ifs with h2
      · obtain ⟨h3, -⟩ := h2
        subst h3
        refine ⟨rfl, rfl, ?_⟩
        constructor
        · intro h4; simp [GetApState, SetApProcedure, SetApState] at h4
        · intro h4; rw [h.2.2] at h4; cases h4
      · exact ⟨rfl, rfl, Iff.rfl⟩
    · exact ⟨rfl, rfl, Iff.rfl⟩
  | Return n =>
    simp only [ApSelfTransition]
    split_ifs with h
    · rw [Cpu_SetCpu]
      split_ifs with h2
      · obtain ⟨h3, -⟩ := h2
        subst h3
        refine ⟨rfl, rfl, ?_⟩
        constructor
        · intro h4; simp [GetApState, SetApState] at h4
        · intro h4; rw [h.2.2] at h4; cases h4
      · exact ⟨rfl, rfl, Iff.rfl⟩
    · exact ⟨rfl, rfl, Iff.rfl⟩

theorem RunAps_record (s : MP_SYSTEM_DATA) (Events : List ApEvent) (j : Nat) :
    ((RunAps s Events).Cpu j).Info = (s.Cpu j).Info
    ∧ ((RunAps s Events).Cpu j).TimeoutActive = (s.Cpu j).TimeoutActive
    ∧ (GetApState ((RunAps s Events).Cpu j) = CpuStateIdle
        ↔ GetApState (s.Cpu j) = CpuStateIdle) := by
  unfold RunAps
  induction Events generalizing s with
  | nil => exact ⟨rfl, rfl, Iff.rfl⟩
  | cons e rest ih =>
    rw [List.foldl_cons]
    obtain ⟨h1, h2, h3⟩ := ih (ApSelfTransition s e)
    obtain ⟨g1, g2, g3⟩ := ApSelfTransition_record s e j
    exact ⟨h1.trans g1, h2.trans g2, h3.trans g3⟩

theorem ActiveCount_ApSelfTransition (s : MP_SYSTEM_DATA) (e : ApEvent) :
    ActiveCount (ApSelfTransition s e) = ActiveCount s :=
  ActiveCount_congr s _ (by rw [ApSelfTransition_frame s e])
    (fun j => (ApSelfTransition_record s e j).1) (fun j => (ApSelfTransition_record s e j).2.2)

theorem ActiveCount_RunAps (s : MP_SYSTEM_DATA) (Events : List ApEvent) :
    ActiveCount (RunAps s Events) = ActiveCount s :=
  ActiveCount_congr s _ (by rw [RunAps_frame s Events])
    (fun j => (RunAps_record s Events j).1) (fun j => (RunAps_record s Events j).2.2)

/-- No enabled application processor is active exactly when each of them is
idle. -/
theorem ActiveCount_eq_zero (s : MP_SYSTEM_DATA) :
    ActiveCount s = 0 ↔
      ∀ i, i < s.NumberOfProcessors → IsEnabledAP (s.Cpu i) = true →
        GetApState (s.Cpu i) = CpuStateIdle := by
  unfold ActiveCount
  rw [List.countP_eq_zero]
  constructor
  · intro h i hi he
    have := h i (List.mem_range.2 hi)
    simpa [he] using this
  · intro h i hi
    have hi' := List.mem_range.1 hi
    by_cases he : IsEnabledAP (s.Cpu i) = true
    · simp [he, h i hi' he]
    · simp [he]

/-- The pre-flight loop of `StartupAllAPs` runs to its end exactly when no
enabled application processor is active. -/
theorem StartupAllAPsReady_iff (s : MP_SYSTEM_DATA) :
    StartupAllAPsReady s (List.range s.NumberOfProcessors) = true ↔ ActiveCount s = 0 := by
  rw [ActiveCount_eq_zero]
  constructor
  · intro h i hi he
    by_contra hne
    have hf : StartupAllAPsReady s (List.range s.NumberOfProcessors) = false := by
      rw [StartupAllAPsReady_eq_false]
      simp only [IsEnabledAP, Bool.and_eq_true, Bool.not_eq_true'] at he
      exact ⟨i, List.mem_range.2 hi, he.1, he.2, hne⟩
    rw [hf] at h
    exact Bool.false_ne_true h
  · exact StartupAllAPsReady_of_idle s

/-- After lines 640-687 of `StartupAllAPs` the session is balanced: nothing is
finished and the active processors are the dispatched ones. -/
theorem StartupAllAPsDispatch_balanced (w : Nat) (s : MP_SYSTEM_DATA) (P : Nat) (ST : Bool)
    (E T A F : Nat)
    (hIdle : ∀ j, j < s.NumberOfProcessors → IsEnabledAP (s.Cpu j) = true →
      GetApState (s.Cpu j) = CpuStateIdle) :
    Balanced (StartupAllAPsDispatch w s P ST E T A F)
    ∧ (StartupAllAPsDispatch w s P ST E T A F).TimeoutActive = decide (T ≠ 0)
    ∧ (StartupAllAPsDispatch w s P ST E T A F).NumberOfProcessors = s.NumberOfProcessors
    ∧ (StartupAllAPsDispatch w s P ST E T A F).CheckAllAPsEvent = s.CheckAllAPsEvent
    ∧ (StartupAllAPsDispatch w s P ST E T A F).FinishCount = 0
    ∧ (StartupAllAPsDispatch w s P ST E T A F).StartCount = (EnabledAPs s).length := by
  obtain ⟨hframe, -⟩ := StartupAllAPsDispatch_spec w s P ST E T A F hIdle
  obtain ⟨hinfo, hstate⟩ := StartupAllAPsDispatch_started w s P ST E T A F hIdle
  have hN : (StartupAllAPsDispatch w s P ST E T A F).NumberOfProcessors
      = s.NumberOfProcessors := by rw [hframe]; rfl
  have hF : (StartupAllAPsDispatch w s P ST E T A F).FinishCount = 0 := by rw [hframe]; rfl
  have hS : (StartupAllAPsDispatch w s P ST E T A F).StartCount = (EnabledAPs s).length := by
    rw [hframe]
  have hA : ActiveCount (StartupAllAPsDispatch w s P ST E T A F) = (EnabledAPs s).length := by
    unfold ActiveCount EnabledAPs
    rw [hN, ← List.countP_eq_length_filter]
    apply countP_range_congr
    intro j hj
    rw [IsEnabledAP_congr _ _ (hinfo j)]
    by_cases he : IsEnabledAP (s.Cpu j) = true
    · rcases hstate j hj he with h | h <;> simp [he, h]
    · simp [he]
  refine ⟨?_, ?_, hN, ?_, hF, hS⟩
  · unfold Balanced
    rw [hF, hS, hA]
    omega
  · rw [hframe]; rfl
  · rw [hframe]; rfl

/-- A stall of the polling loop of `StartupAllAPs` keeps the counters, the
deadline switch, the flags and the number of active processors. -/
theorem StartupAllAPsStall_balance (w : Nat) (W : MpWorld) (Events : List ApEvent) :
    (StartupAllAPsStall w W Events).mMpSystemData.NumberOfProcessors
        = W.mMpSystemData.NumberOfProcessors
    ∧ (StartupAllAPsStall w W Events).mMpSystemData.StartCount = W.mMpSystemData.StartCount
    ∧ (StartupAllAPsStall w W Events).mMpSystemData.FinishCount = W.mMpSystemData.FinishCount
    ∧ (StartupAllAPsStall w W Events).mMpSystemData.TimeoutActive
        = W.mMpSystemData.TimeoutActive
    ∧ ActiveCount (StartupAllAPsStall w W Events).mMpSystemData = ActiveCount W.mMpSystemData
    ∧ (∀ j, ((StartupAllAPsStall w W Events).mMpSystemData.Cpu j).Info
        = (W.mMpSystemData.Cpu j).Info) := by
  have hf := RunAps_frame W.mMpSystemData Events
  have hN : (RunAps W.mMpSystemData Events).NumberOfProcessors
      = W.mMpSystemData.NumberOfProcessors := by rw [hf]
  have hS : (RunAps W.mMpSystemData Events).StartCount = W.mMpSystemData.StartCount := by
    rw [hf]
  have hF : (RunAps W.mMpSystemData Events).FinishCount = W.mMpSystemData.FinishCount := by
    rw [hf]
  have hT : (RunAps W.mMpSystemData Events).TimeoutActive = W.mMpSystemData.TimeoutActive := by
    rw [hf]
  refine ⟨hN, hS, hF, hT, ?_, fun j => (RunAps_record W.mMpSystemData Events j).1⟩
  exact (ActiveCount_RunAps W.mMpSystemData Events)

/-- One turn of the polling loop of `StartupAllAPs` when no deadline is active
and the session is balanced: it leaves with `EFI_SUCCESS` and every enabled
application processor idle, or it stalls with one of them still active. -/
theorem StartupAllAPsPass_no_deadline (w : Nat) (W : MpWorld)
    (hT : W.mMpSystemData.TimeoutActive = false) (hB : Balanced W.mMpSystemData) :
    ∃ W1 : MpWorld,
      W1.mMpSystemData.NumberOfProcessors = W.mMpSystemData.NumberOfProcessors
      ∧ W1.mMpSystemData.StartCount = W.mMpSystemData.StartCount
      ∧ W1.mMpSystemData.TimeoutActive = false
      ∧ Balanced W1.mMpSystemData
      ∧ (∀ j, (W1.mMpSystemData.Cpu j).Info = (W.mMpSystemData.Cpu j).Info)
      ∧ W1.mMpSystemData = CheckAndUpdateAllAPsToIdleState W.mMpSystemData
      ∧ ((StartupAllAPsPass w W = Sum.inl (EFI_SUCCESS, W1)
            ∧ W1.mMpSystemData.FinishCount = W1.mMpSystemData.StartCount
            ∧ ActiveCount W1.mMpSystemData = 0)
          ∨ (StartupAllAPsPass w W = Sum.inr W1 ∧ ActiveCount W1.mMpSystemData ≠ 0)) := by
  obtain ⟨hframe, hbal, hinfo⟩ := CheckAndUpdateAllAPsToIdleState_balance W.mMpSystemData
  have hN : (CheckAndUpdateAllAPsToIdleState W.mMpSystemData).NumberOfProcessors
      = W.mMpSystemData.NumberOfProcessors := by rw [hframe]
  have hS : (CheckAndUpdateAllAPsToIdleState W.mMpSystemData).StartCount
      = W.mMpSystemData.StartCount := by rw [hframe]
  have hT' : (CheckAndUpdateAllAPsToIdleState W.mMpSystemData).TimeoutActive = false := by
    rw [hframe]; exact hT
  have hB' : Balanced (CheckAndUpdateAllAPsToIdleState W.mMpSystemData) := by
    unfold Balanced at hB ⊢
    rw [hS]; omega
  refine ⟨{ W with mMpSystemData := CheckAndUpdateAllAPsToIdleState W.mMpSystemData },
    hN, hS, hT', hB', hinfo, rfl, ?_⟩
  by_cases hdone : (CheckAndUpdateAllAPsToIdleState W.mMpSystemData).FinishCount
      = (CheckAndUpdateAllAPsToIdleState W.mMpSystemData).StartCount
  · left
    refine ⟨?_, hdone, ?_⟩
    · simp only [StartupAllAPsPass, hdone, if_true]
    · unfold Balanced at hB'
      simp only
      omega
  · right
    refine ⟨?_, ?_⟩
    · simp only [StartupAllAPsPass, hdone, if_false, hT', Bool.false_and, Bool.false_eq_true]
    · unfold Balanced at hB'
      simp only
      omega

/-- The polling loop of `StartupAllAPs` when no deadline is active and the
session is balanced: if it returns, it returns `EFI_SUCCESS` with every
dispatched processor harvested. -/
theorem StartupAllAPsWait_no_deadline (w : Nat) (Schedule : List (List ApEvent)) (W : MpWorld)
    (hT : W.mMpSystemData.TimeoutActive = false) (hB : Balanced W.mMpSystemData)
    (st : EFI_STATUS) (W' : MpWorld) (h : StartupAllAPsWait w Schedule W = some (st, W')) :
    st = EFI_SUCCESS
    ∧ W'.mMpSystemData.NumberOfProcessors = W.mMpSystemData.NumberOfProcessors
    ∧ W'.mMpSystemData.StartCount = W.mMpSystemData.StartCount
    ∧ W'.mMpSystemData.FinishCount = W'.mMpSystemData.StartCount
    ∧ (∀ j, (W'.mMpSystemData.Cpu j).Info = (W.mMpSystemData.Cpu j).Info)
    ∧ ActiveCount W'.mMpSystemData = 0 := by
  induction Schedule generalizing W with
  | nil =>
    obtain ⟨W1, hN, hS, -, -, hinfo, -, hcase⟩ := StartupAllAPsPass_no_deadline w W hT hB
    unfold StartupAllAPsWait at h
    rcases hcase with ⟨hp, hF, hA⟩ | ⟨hp, -⟩
    · rw [hp] at h
      simp only [Option.some.injEq, Prod.mk.injEq] at h
      obtain ⟨h1, h2⟩ := h
      subst h1 h2
      exact ⟨rfl, hN, hS, hF, hinfo, hA⟩
    · rw [hp] at h
      simp at h
  | cons Events rest ih =>
    obtain ⟨W1, hN, hS, hT1, hB1, hinfo, -, hcase⟩ := StartupAllAPsPass_no_deadline w W hT hB
    unfold StartupAllAPsWait at h
    rcases hcase with ⟨hp, hF, hA⟩ | ⟨hp, -⟩
    · rw [hp] at h
      simp only [Option.some.injEq, Prod.mk.injEq] at h
      obtain ⟨h1, h2⟩ := h
      subst h1 h2
      exact ⟨rfl, hN, hS, hF, hinfo, hA⟩
    · rw [hp] at h
      simp only at h
      obtain ⟨gN, gS, gF, gT, gA, ginfo⟩ := StartupAllAPsStall_balance w W1 Events
      have hB2 : Balanced (StartupAllAPsStall w W1 Events).mMpSystemData := by
        unfold Balanced at hB1 ⊢
        rw [gF, gA, gS]; exact hB1
      obtain ⟨r1, r2, r3, r4, r5, r6⟩ := ih (StartupAllAPsStall w W1 Events)
        (by rw [gT]; exact hT1) hB2 h
      exact ⟨r1, by rw [r2, gN, hN], by rw [r3, gS, hS], r4,
        fun j => ((r5 j).trans (ginfo j)).trans (hinfo j), r6⟩

/-- A call of `StartupAllAPs` that fails one of the checks of lines 601-638:
the first failing check decides the status and nothing but the caller's
`*FailedCpuList` is written. -/
theorem StartupAllAPs_rejected (w ApicId Procedure : Nat) (SingleThread : Bool)
    (WaitEvent TimeoutInMicroseconds ProcedureArgument FailedCpuList : Nat)
    (Schedule : List (List ApEvent)) (W : MpWorld)
    (hbad : ¬ (IsBSP W.mMpSystemData ApicId = true
      ∧ W.mMpSystemData.NumberOfProcessors ≠ 1 ∧ Procedure ≠ 0
      ∧ StartupAllAPsReady W.mMpSystemData
          (List.range W.mMpSystemData.NumberOfProcessors) = true)) :
    ∃ W0 : MpWorld,
      StartupAllAPs w ApicId Procedure SingleThread WaitEvent TimeoutInMicroseconds
          ProcedureArgument FailedCpuList Schedule W =
        some (if IsBSP W.mMpSystemData ApicId = false then EFI_DEVICE_ERROR
              else if W.mMpSystemData.NumberOfProcessors = 1 then EFI_NOT_STARTED
              else if Procedure = 0 then EFI_INVALID_PARAMETER
              else EFI_NOT_READY, W0)
      ∧ W0.mMpSystemData = W.mMpSystemData
      ∧ W0.PeriodicTimers = W.PeriodicTimers
      ∧ W0.SignaledEvents = W.SignaledEvents
      ∧ W0.FinishedMem = W.FinishedMem := by
  refine ⟨if FailedCpuList ≠ 0 then
      { W with FailedCpuListMem := MemWrite W.FailedCpuListMem FailedCpuList none }
    else W, ?_, ?_, ?_, ?_, ?_⟩
  · have hmp : (if FailedCpuList ≠ 0 then
          { W with FailedCpuListMem := MemWrite W.FailedCpuListMem FailedCpuList none }
        else W).mMpSystemData = W.mMpSystemData := by split_ifs <;> rfl
    simp only [StartupAllAPs, hmp]
    by_cases h1 : IsBSP W.mMpSystemData ApicId = true
    · by_cases h2 : W.mMpSystemData.NumberOfProcessors = 1
      · simp [h1, h2]
      · by_cases h3 : Procedure = 0
        · simp [h1, h2, h3]
        · have h4 : StartupAllAPsReady W.mMpSystemData
              (List.range W.mMpSystemData.NumberOfProcessors) = false := by
            rw [← Bool.not_eq_true]
            exact fun h => hbad ⟨h1, h2, h3, h⟩
          simp [h1, h2, h3, h4]
    · simp only [Bool.not_eq_true] at h1
      simp [h1]
  all_goals split_ifs <;> rfl

/-- A self-transition other than the return of processor `j` does not finish
the procedure of processor `j`. -/
theorem ApSelfTransition_not_finished (s : MP_SYSTEM_DATA) (e : ApEvent) (j : Nat)
    (he : e ≠ ApEvent.Return j)
    (h : GetApState (s.Cpu j) ≠ CpuStateFinished) :
    GetApState ((ApSelfTransition s e).Cpu j) ≠ CpuStateFinished := by
  cases e with
  | Begin n =>
    simp only [ApSelfTransition]
    split_ifs with h1
    · rw [Cpu_SetCpu]
      split_ifs with h2
      · simp [GetApState, SetApProcedure, SetApState]
      · exact h
    · exact h
  | Return n =>
    have hn : n ≠ j := fun hnj => he (by rw [hnj])
    simp only [ApSelfTransition]
    split_ifs with h1
    · rw [Cpu_SetCpu_of_ne _ _ _ _ hn]
      exact h
    · exact h

theorem RunAps_not_finished (s : MP_SYSTEM_DATA) (Events : List ApEvent) (j : Nat)
    (he : ApEvent.Return j ∉ Events)
    (h : GetApState (s.Cpu j) ≠ CpuStateFinished) :
    GetApState ((RunAps s Events).Cpu j) ≠ CpuStateFinished := by
  unfold RunAps
  induction Events generalizing s with
  | nil => exact h
  | cons e rest ih =>
    rw [List.foldl_cons]
    simp only [List.mem_cons, not_or] at he
    exact ih _ he.2 (ApSelfTransition_not_finished s e j (Ne.symm he.1) h)

/-- One turn of the loop of `CheckAndUpdateAllAPsToIdleState` leaves a record
that is neither idle nor finished neither idle nor finished. -/
theorem CheckAndUpdateBody_unfinished (s : MP_SYSTEM_DATA) (i j : Nat)
    (h : GetApState (s.Cpu j) ≠ CpuStateIdle ∧ GetApState (s.Cpu j) ≠ CpuStateFinished) :
    GetApState ((CheckAndUpdateBody s i).Cpu j) ≠ CpuStateIdle
    ∧ GetApState ((CheckAndUpdateBody s i).Cpu j) ≠ CpuStateFinished := by
  by_cases hfin : IsEnabledAP (s.Cpu i) = true ∧ GetApState (s.Cpu i) = CpuStateFinished
  · obtain ⟨hen, hst⟩ := hfin
    have hij : i ≠ j := by
      intro hij; subst hij; exact h.2 hst
    have hsimple : CheckAndUpdateBody s i =
        ({ s with FinishCount := s.FinishCount + 1 } : MP_SYSTEM_DATA).SetCpu i
          (SetApState (s.Cpu i) CpuStateIdle) →
        GetApState ((CheckAndUpdateBody s i).Cpu j) ≠ CpuStateIdle
        ∧ GetApState ((CheckAndUpdateBody s i).Cpu j) ≠ CpuStateFinished := by
      intro hbody
      rw [hbody, Cpu_SetCpu_of_ne _ _ _ _ hij]
      exact h
    rcases Bool.eq_false_or_eq_true s.SingleThread with hST | hST
    · cases hg : GetNextBlockedNumber s with
      | none => exact hsimple (CheckAndUpdateBody_finished_none s i hen hst hg)
      | some q =>
        obtain ⟨-, hqb, hqs, -⟩ :=
          (GetNextBlockedNumberLoop_range s s.NumberOfProcessors).1 q |>.1 hg
        have hqi : q ≠ i := by
          intro h; subst h; rw [hst] at hqs; cases hqs
        have hqlen : q < s.CpuDatas.length :=
          lt_length_of_GetApState_ne s q (by rw [hqs]; decide)
        rw [CheckAndUpdateBody_finished_some s i q hen hst hST hg hqi hqlen,
          Cpu_SetCpu_of_ne _ _ _ _ hij, Cpu_SetCpu]
        split_ifs with h2
        · simp [GetApState, SetApProcedure, SetApState]
        · exact h
    · exact hsimple (CheckAndUpdateBody_finished_parallel s i hen hst hST)
  · rw [CheckAndUpdateBody_of_not_finished s i (fun he hf => hfin ⟨he, hf⟩)]
    exact h

theorem CheckAndUpdateAllAPsToIdleState_unfinished (s : MP_SYSTEM_DATA) (j : Nat)
    (h : GetApState (s.Cpu j) ≠ CpuStateIdle ∧ GetApState (s.Cpu j) ≠ CpuStateFinished) :
    GetApState ((CheckAndUpdateAllAPsToIdleState s).Cpu j) ≠ CpuStateIdle
    ∧ GetApState ((CheckAndUpdateAllAPsToIdleState s).Cpu j) ≠ CpuStateFinished := by
  unfold CheckAndUpdateAllAPsToIdleState
  generalize List.range s.NumberOfProcessors = l
  induction l generalizing s with
  | nil => exact h
  | cons i rest ih =>
    rw [List.foldl_cons]
    exact ih _ (CheckAndUpdateBody_unfinished s i j h)

/-- The polling loop of `StartupAllAPs` with no deadline does not return while
the procedure of an enabled application processor has not returned. -/
theorem StartupAllAPsWait_keeps_polling (w : Nat) (Schedule : List (List ApEvent)) (W : MpWorld)
    (hT : W.mMpSystemData.TimeoutActive = false) (hB : Balanced W.mMpSystemData)
    (i : Nat) (hi : i < W.mMpSystemData.NumberOfProcessors)
    (hen : IsEnabledAP (W.mMpSystemData.Cpu i) = true)
    (hun : GetApState (W.mMpSystemData.Cpu i) ≠ CpuStateIdle
      ∧ GetApState (W.mMpSystemData.Cpu i) ≠ CpuStateFinished)
    (hev : ∀ Events, Events ∈ Schedule → ApEvent.Return i ∉ Events) :
    StartupAllAPsWait w Schedule W = none := by
  induction Schedule generalizing W with
  | nil =>
    obtain ⟨W1, hN, -, -, -, hinfo, hW1, hcase⟩ := StartupAllAPsPass_no_deadline w W hT hB
    have hun1 := CheckAndUpdateAllAPsToIdleState_unfinished W.mMpSystemData i hun
    rw [← hW1] at hun1
    unfold StartupAllAPsWait
    rcases hcase with ⟨-, -, hA⟩ | ⟨hp, -⟩
    · exact absurd ((ActiveCount_eq_zero _).1 hA i (by rw [hN]; exact hi)
        (by rw [IsEnabledAP_congr _ _ (hinfo i)]; exact hen)) hun1.1
    · rw [hp]
  | cons Events rest ih =>
    obtain ⟨W1, hN, -, hT1, hB1, hinfo, hW1, hcase⟩ := StartupAllAPsPass_no_deadline w W hT hB
    have hun1 := CheckAndUpdateAllAPsToIdleState_unfinished W.mMpSystemData i hun
    rw [← hW1] at hun1
    unfold StartupAllAPsWait
    rcases hcase with ⟨-, -, hA⟩ | ⟨hp, -⟩
    · exact absurd ((ActiveCount_eq_zero _).1 hA i (by rw [hN]; exact hi)
        (by rw [IsEnabledAP_congr _ _ (hinfo i)]; exact hen)) hun1.1
    · rw [hp]
      simp only
      obtain ⟨gN, gS, gF, gT, gA, ginfo⟩ := StartupAllAPsStall_balance w W1 Events
      have hB2 : Balanced (StartupAllAPsStall w W1 Events).mMpSystemData := by
        unfold Balanced at hB1 ⊢
        rw [gF, gA, gS]; exact hB1
      have hnoret : ApEvent.Return i ∉ Events := hev Events (List.mem_cons_self _ _)
      apply ih (StartupAllAPsStall w W1 Events) (by rw [gT]; exact hT1) hB2
        (by rw [gN, hN]; exact hi)
        (by rw [IsEnabledAP_congr _ _ (ginfo i), IsEnabledAP_congr _ _ (hinfo i)]; exact hen)
      · have hrec := RunAps_record W1.mMpSystemData Events i
        constructor
        · intro hidle
          exact hun1.1 (hrec.2.2.1 hidle)
        · exact RunAps_not_finished W1.mMpSystemData Events i hnoret hun1.2
      · intro Ev hEv
        exact hev Ev (List.mem_cons_of_mem _ hEv)

/-- A stall of the polling loop of `StartupThisAP` keeps the deadline switch
of the target and leaves it in the state its own transitions put it in. -/
theorem StartupThisAPStall_record (w k : Nat) (W : MpWorld) (Events : List ApEvent) :
    ((StartupThisAPStall w k W Events).mMpSystemData.Cpu k).TimeoutActive
        = (W.mMpSystemData.Cpu k).TimeoutActive
    ∧ GetApState ((StartupThisAPStall w k W Events).mMpSystemData.Cpu k)
        = GetApState ((RunAps W.mMpSystemData Events).Cpu k) := by
  have hrec := RunAps_record W.mMpSystemData Events k
  simp only [StartupThisAPStall, Cpu_SetCpu]
  split_ifs
  · exact ⟨hrec.2.1, rfl⟩
  · exact ⟨hrec.2.1, rfl⟩

/-- The polling loop of `StartupThisAP` when the deadline of the target is
not active: if it returns, it returns `EFI_SUCCESS` with the target idle. -/
theorem StartupThisAPWait_no_deadline (w k : Nat) (Schedule : List (List ApEvent)) (W : MpWorld)
    (hT : (W.mMpSystemData.Cpu k).TimeoutActive = false)
    (st : EFI_STATUS) (W' : MpWorld) (h : StartupThisAPWait w k Schedule W = some (st, W')) :
    st = EFI_SUCCESS ∧ GetApState (W'.mMpSystemData.Cpu k) = CpuStateIdle := by
  have hpass : ∀ V : MpWorld, (V.mMpSystemData.Cpu k).TimeoutActive = false →
      (∃ V', StartupThisAPPass k V = Sum.inl (EFI_SUCCESS, V')
          ∧ GetApState (V'.mMpSystemData.Cpu k) = CpuStateIdle)
      ∨ StartupThisAPPass k V = Sum.inr V := by
    intro V hV
    by_cases hfin : GetApState (V.mMpSystemData.Cpu k) = CpuStateFinished
    · exact Or.inl (StartupThisAPPass_of_finished k V hfin)
    · right
      simp only [StartupThisAPPass, hfin, if_false, hV, Bool.false_and, Bool.false_eq_true]
  induction Schedule generalizing W with
  | nil =>
    unfold StartupThisAPWait at h
    rcases hpass W hT with ⟨V', hp, hidle⟩ | hp
    · rw [hp] at h
      simp only [Option.some.injEq, Prod.mk.injEq] at h
      obtain ⟨h1, h2⟩ := h
      subst h1 h2
      exact ⟨rfl, hidle⟩
    · rw [hp] at h
      simp at h
  | cons Events rest ih =>
    unfold StartupThisAPWait at h
    rcases hpass W hT with ⟨V', hp, hidle⟩ | hp
    · rw [hp] at h
      simp only [Option.some.injEq, Prod.mk.injEq] at h
      obtain ⟨h1, h2⟩ := h
      subst h1 h2
      exact ⟨rfl, hidle⟩
    · rw [hp] at h
      simp only at h
      exact ih (StartupThisAPStall w k W Events)
        (by rw [(StartupThisAPStall_record w k W Events).1]; exact hT) h

/-- The polling loop of `StartupThisAP` with no deadline does not return while
the procedure of the target has not returned. -/
theorem StartupThisAPWait_keeps_polling (w k : Nat) (Schedule : List (List ApEvent))
    (W : MpWorld)
    (hT : (W.mMpSystemData.Cpu k).TimeoutActive = false)
    (hun : GetApState (W.mMpSystemData.Cpu k) ≠ CpuStateFinished)
    (hev : ∀ Events, Events ∈ Schedule → ApEvent.Return k ∉ Events) :
    StartupThisAPWait w k Schedule W = none := by
  have hpass : ∀ V : MpWorld, (V.mMpSystemData.Cpu k).TimeoutActive = false →
      GetApState (V.mMpSystemData.Cpu k) ≠ CpuStateFinished →
      StartupThisAPPass k V = Sum.inr V := by
    intro V hV hfin
    simp only [StartupThisAPPass, hfin, if_false, hV, Bool.false_and, Bool.false_eq_true]
  induction Schedule generalizing W with
  | nil =>
    unfold StartupThisAPWait
    rw [hpass W hT hun]
  | cons Events rest ih =>
    unfold StartupThisAPWait
    rw [hpass W hT hun]
    simp only
    obtain ⟨gT, gS⟩ := StartupThisAPStall_record w k W Events
    apply ih (StartupThisAPStall w k W Events) (by rw [gT]; exact hT)
    · rw [gS]
      exact RunAps_not_finished W.mMpSystemData Events k
        (hev Events (List.mem_cons_self _ _)) hun
    · intro Ev hEv
      exact hev Ev (List.mem_cons_of_mem _ hEv)

/-- A call of `StartupThisAP` that fails one of the checks of lines 826-850
returns an error status other than `EFI_TIMEOUT`. -/
theorem StartupThisAP_rejected (w ApicId Procedure ProcessorNumber : Nat)
    (WaitEvent TimeoutInMicroseconds ProcedureArgument Finished : Nat)
    (Schedule : List (List ApEvent)) (W : MpWorld)
    (hbad : ¬ (IsBSP W.mMpSystemData ApicId = true ∧ Procedure ≠ 0
      ∧ ProcessorNumber < W.mMpSystemData.NumberOfProcessors
      ∧ IsEnabledAP (W.mMpSystemData.Cpu ProcessorNumber) = true
      ∧ GetApState (W.mMpSystemData.Cpu ProcessorNumber) = CpuStateIdle)) :
    ∃ st W0,
      StartupThisAP w ApicId Procedure ProcessorNumber WaitEvent TimeoutInMicroseconds
          ProcedureArgument Finished Schedule W = some (st, W0)
      ∧ st ≠ EFI_SUCCESS ∧ st ≠ EFI_TIMEOUT := by
  have hmp : (if Finished ≠ 0 then
        { W with FinishedMem := MemWrite W.FinishedMem Finished false }
      else W).mMpSystemData = W.mMpSystemData := by split_ifs <;> rfl
  by_cases h1 : IsBSP W.mMpSystemData ApicId = true
  · by_cases h2 : Procedure = 0
    · refine ⟨EFI_INVALID_PARAMETER, (if Finished ≠ 0 then
          { W with FinishedMem := MemWrite W.FinishedMem Finished false } else W),
        ?_, by decide, by decide⟩
      simp only [StartupThisAP, hmp, h1, h2, Bool.not_true, Bool.false_eq_true, if_false, if_true]
    · obtain ⟨W0, hcall, -⟩ := StartupThisAP_of_invalid w ApicId Procedure ProcessorNumber
        WaitEvent TimeoutInMicroseconds ProcedureArgument Finished Schedule W h1 h2
        (fun h => hbad ⟨h1, h2, h⟩)
      refine ⟨_, W0, hcall, ?_, ?_⟩ <;> split_ifs <;> decide
  · simp only [Bool.not_eq_true] at h1
    refine ⟨EFI_DEVICE_ERROR, (if Finished ≠ 0 then
        { W with FinishedMem := MemWrite W.FinishedMem Finished false } else W),
      ?_, by decide, by decide⟩
    simp only [StartupThisAP, hmp, h1, Bool.not_false, if_true]

/-! ## A zero deadline -/

/-- C14. A zero deadline means no deadline.  For `TimeoutInMicroseconds = 0`
and `WaitEvent` null, whatever the schedule of the application processors
(one entry per stall, so whatever the number of polling passes and however far
`Timeout` is decremented):
(1) `StartupAllAPs` never returns `EFI_TIMEOUT`, and when it returns
`EFI_SUCCESS` every dispatched processor has been harvested: `FinishCount`
equals `StartCount`, which is the number of enabled application processors,
and each of them is idle;
(2) a call of `StartupAllAPs` that passes the checks does not return within a
schedule in which the procedure of some enabled application processor does
not return: it keeps polling;
(3) `StartupThisAP` never returns `EFI_TIMEOUT`, and when it returns
`EFI_SUCCESS` the target is idle;
(4) a call of `StartupThisAP` that passes the checks does not return within a
schedule in which the procedure of the target does not return. -/
theorem C14_zero_deadline_never_times_out (w ApicId Procedure : Nat) (SingleThread : Bool)
    (ProcessorNumber ProcedureArgument FailedCpuList Finished : Nat)
    (Schedule : List (List ApEvent)) (W : MpWorld) :
    (∀ st W', StartupAllAPs w ApicId Procedure SingleThread 0 0 ProcedureArgument
          FailedCpuList Schedule W = some (st, W') →
        st ≠ EFI_TIMEOUT
        ∧ (st = EFI_SUCCESS →
            W'.mMpSystemData.FinishCount = W'.mMpSystemData.StartCount
            ∧ W'.mMpSystemData.StartCount = (EnabledAPs W.mMpSystemData).length
            ∧ ∀ i, i < W.mMpSystemData.NumberOfProcessors →
                IsEnabledAP (W.mMpSystemData.Cpu i) = true →
                GetApState (W'.mMpSystemData.Cpu i) = CpuStateIdle))
    ∧ (IsBSP W.mMpSystemData ApicId = true → W.mMpSystemData.NumberOfProcessors ≠ 1 →
        Procedure ≠ 0 →
        (∀ j, j < W.mMpSystemData.NumberOfProcessors →
          IsEnabledAP (W.mMpSystemData.Cpu j) = true →
          GetApState (W.mMpSystemData.Cpu j) = CpuStateIdle) →
        ∀ i, i < W.mMpSystemData.NumberOfProcessors →
          IsEnabledAP (W.mMpSystemData.Cpu i) = true →
          (∀ Events, Events ∈ Schedule → ApEvent.Return i ∉ Events) →
          StartupAllAPs w ApicId Procedure SingleThread 0 0 ProcedureArgument
            FailedCpuList Schedule W = none)
    ∧ (∀ st W', StartupThisAP w ApicId Procedure ProcessorNumber 0 0 ProcedureArgument
          Finished Schedule W = some (st, W') →
        st ≠ EFI_TIMEOUT
        ∧ (st = EFI_SUCCESS → GetApState (W'.mMpSystemData.Cpu ProcessorNumber) = CpuStateIdle))
    ∧ (IsBSP W.mMpSystemData ApicId = true → Procedure ≠ 0 →
        ProcessorNumber < W.mMpSystemData.NumberOfProcessors →
        IsEnabledAP (W.mMpSystemData.Cpu ProcessorNumber) = true →
        GetApState (W.mMpSystemData.Cpu ProcessorNumber) = CpuStateIdle →
        (∀ Events, Events ∈ Schedule → ApEvent.Return ProcessorNumber ∉ Events) →
        StartupThisAP w ApicId Procedure ProcessorNumber 0 0 ProcedureArgument
          Finished Schedule W = none) := by
  refine ⟨?_, ?_, ?_, ?_⟩
  · intro st W' h
    by_cases hv : IsBSP W.mMpSystemData ApicId = true
        ∧ W.mMpSystemData.NumberOfProcessors ≠ 1 ∧ Procedure ≠ 0
        ∧ StartupAllAPsReady W.mMpSystemData
            (List.range W.mMpSystemData.NumberOfProcessors) = true
    · obtain ⟨hBsp, hN, hProc, hReady⟩ := hv
      have hIdle := (ActiveCount_eq_zero _).1 ((StartupAllAPsReady_iff _).1 hReady)
      obtain ⟨W1, hcall, hmp, -⟩ := StartupAllAPs_of_valid w ApicId Procedure SingleThread 0 0
        ProcedureArgument FailedCpuList Schedule W hBsp hN hProc hIdle
      rw [hcall] at h
      simp only [ne_eq, not_true_eq_false, if_false] at h
      obtain ⟨hB, hT, dN, -, -, dS⟩ := StartupAllAPsDispatch_balanced w W.mMpSystemData
        Procedure SingleThread 0 0 ProcedureArgument FailedCpuList hIdle
      obtain ⟨dinfo, -⟩ := StartupAllAPsDispatch_started w W.mMpSystemData
        Procedure SingleThread 0 0 ProcedureArgument FailedCpuList hIdle
      rw [← hmp] at hB hT dN dS dinfo
      obtain ⟨r1, r2, r3, r4, r5, r6⟩ := StartupAllAPsWait_no_deadline w Schedule W1
        (by rw [hT]; decide) hB st W' h
      subst r1
      refine ⟨by decide, fun _ => ⟨r4, by rw [r3, dS], ?_⟩⟩
      intro i hi he
      apply (ActiveCount_eq_zero _).1 r6 i (by rw [r2, dN]; exact hi)
      rw [IsEnabledAP_congr _ _ ((r5 i).trans (dinfo i))]
      exact he
    · obtain ⟨W0, hcall, -⟩ := StartupAllAPs_rejected w ApicId Procedure SingleThread 0 0
        ProcedureArgument FailedCpuList Schedule W hv
      rw [hcall] at h
      simp only [Option.some.injEq, Prod.mk.injEq] at h
      obtain ⟨h1, -⟩ := h
      subst h1
      constructor
      · split_ifs <;> decide
      · intro h2
        split_ifs at h2
  · intro hBsp hN hProc hIdle i hi he hev
    obtain ⟨W1, hcall, hmp, -⟩ := StartupAllAPs_of_valid w ApicId Procedure SingleThread 0 0
      ProcedureArgument FailedCpuList Schedule W hBsp hN hProc hIdle
    rw [hcall]
    simp only [ne_eq, not_true_eq_false, if_false]
    obtain ⟨hB, hT, dN, -, -, -⟩ := StartupAllAPsDispatch_balanced w W.mMpSystemData
      Procedure SingleThread 0 0 ProcedureArgument FailedCpuList hIdle
    obtain ⟨dinfo, dstate⟩ := StartupAllAPsDispatch_started w W.mMpSystemData
      Procedure SingleThread 0 0 ProcedureArgument FailedCpuList hIdle
    have hst := dstate i hi he
    rw [← hmp] at hB hT dN dinfo hst
    apply StartupAllAPsWait_keeps_polling w Schedule W1 (by rw [hT]; decide) hB i
      (by rw [dN]; exact hi) (by rw [IsEnabledAP_congr _ _ (dinfo i)]; exact he) ?_ hev
    rcases hst with h | h <;> rw [h] <;> exact ⟨by decide, by decide⟩
  · intro st W' h
    by_cases hv : IsBSP W.mMpSystemData ApicId = true ∧ Procedure ≠ 0
        ∧ ProcessorNumber < W.mMpSystemData.NumberOfProcessors
        ∧ IsEnabledAP (W.mMpSystemData.Cpu ProcessorNumber) = true
        ∧ GetApState (W.mMpSystemData.Cpu ProcessorNumber) = CpuStateIdle
    · obtain ⟨hBsp, hProc, hlt, hEn, hIdle⟩ := hv
      obtain ⟨W1, hcall, hmp, -⟩ := StartupThisAP_of_valid w ApicId Procedure ProcessorNumber 0 0
        ProcedureArgument Finished Schedule W hBsp hProc hlt hEn hIdle
      rw [hcall] at h
      simp only [ne_eq, not_true_eq_false, if_false] at h
      obtain ⟨dk, -⟩ := StartupThisAPDispatch_spec w W.mMpSystemData Procedure ProcessorNumber
        0 0 ProcedureArgument Finished (lt_length_of_IsEnabledAP _ _ hEn)
      rw [← hmp] at dk
      obtain ⟨r1, r2⟩ := StartupThisAPWait_no_deadline w ProcessorNumber Schedule W1
        (by rw [dk]; rfl) st W' h
      subst r1
      exact ⟨by decide, fun _ => r2⟩
    · obtain ⟨st0, W0, hcall, h1, h2⟩ := StartupThisAP_rejected w ApicId Procedure
        ProcessorNumber 0 0 ProcedureArgument Finished Schedule W hv
      rw [hcall] at h
      simp only [Option.some.injEq, Prod.mk.injEq] at h
      obtain ⟨h3, -⟩ := h
      subst h3
      exact ⟨h2, fun h4 => absurd h4 h1⟩
  · intro hBsp hProc hlt hEn hIdle hev
    obtain ⟨W1, hcall, hmp, -⟩ := StartupThisAP_of_valid w ApicId Procedure ProcessorNumber 0 0
      ProcedureArgument Finished Schedule W hBsp hProc hlt hEn hIdle
    rw [hcall]
    simp only [ne_eq, not_true_eq_false, if_false]
    obtain ⟨dk, -⟩ := StartupThisAPDispatch_spec w W.mMpSystemData Procedure ProcessorNumber
      0 0 ProcedureArgument Finished (lt_length_of_IsEnabledAP _ _ hEn)
    rw [← hmp] at dk
    apply StartupThisAPWait_keeps_polling w ProcessorNumber Schedule W1
      (by rw [dk]; rfl) (by rw [dk]; simp [GetApState]) hev

/-- Witness of C14 on three processors.  The broadcast call sees two stalls
in which nothing happens, then both procedures begin and return: it returns
`EFI_SUCCESS` with `Timeout` at `-400` and both application processors idle.
With the return of processor 2 missing it does not return within the schedule.
The single-target call on processor 1 behaves the same way. -/
theorem C14_zero_deadline_never_times_out_witness :
    (∃ W', StartupAllAPs 64 0 5 false 0 0 9 0
          [[], [], [ApEvent.Begin 1, ApEvent.Begin 2], [ApEvent.Return 1, ApEvent.Return 2]]
          (MkWorld Sys3) = some (EFI_SUCCESS, W')
        ∧ W'.mMpSystemData.Timeout = -400
        ∧ W'.mMpSystemData.FinishCount = W'.mMpSystemData.StartCount
        ∧ W'.mMpSystemData.StartCount = (EnabledAPs (MkWorld Sys3).mMpSystemData).length
        ∧ ∀ i, i < (MkWorld Sys3).mMpSystemData.NumberOfProcessors →
            IsEnabledAP ((MkWorld Sys3).mMpSystemData.Cpu i) = true →
            GetApState (W'.mMpSystemData.Cpu i) = CpuStateIdle)
    ∧ StartupAllAPs 64 0 5 false 0 0 9 0
          [[], [], [ApEvent.Begin 1, ApEvent.Begin 2], [ApEvent.Return 1]]
          (MkWorld Sys3) = none
    ∧ (∃ W', StartupThisAP 64 0 5 1 0 0 9 0 [[], [ApEvent.Begin 1], [ApEvent.Return 1]]
          (MkWorld Sys3) = some (EFI_SUCCESS, W')
        ∧ GetApState (W'.mMpSystemData.Cpu 1) = CpuStateIdle)
    ∧ StartupThisAP 64 0 5 1 0 0 9 0 [[], [ApEvent.Begin 1], []] (MkWorld Sys3) = none :=
  ⟨⟨_, rfl, rfl,
      ((C14_zero_deadline_never_times_out 64 0 5 false 1 9 0 0
        [[], [], [ApEvent.Begin 1, ApEvent.Begin 2], [ApEvent.Return 1, ApEvent.Return 2]]
        (MkWorld Sys3)).1 _ _ rfl).2 rfl⟩,
    (C14_zero_deadline_never_times_out 64 0 5 false 1 9 0 0
        [[], [], [ApEvent.Begin 1, ApEvent.Begin 2], [ApEvent.Return 1]]
        (MkWorld Sys3)).2.1 (by decide) (by decide) (by decide) (by decide) 2 (by decide)
        (by decide) (by decide),
    ⟨_, rfl,
      ((C14_zero_deadline_never_times_out 64 0 5 false 1 9 0 0
        [[], [ApEvent.Begin 1], [ApEvent.Return 1]] (MkWorld Sys3)).2.2.1 _ _ rfl).2 rfl⟩,
    (C14_zero_deadline_never_times_out 64 0 5 false 1 9 0 0
        [[], [ApEvent.Begin 1], []] (MkWorld Sys3)).2.2.2 (by decide) (by decide) (by decide)
        (by decide) (by decide) (by decide)⟩

/-! ## One broadcast session at a time -/

theorem State_CpuStatusFlagOr (c : CPU_DATA_BLOCK) (f : Nat) :
    GetApState (CpuStatusFlagOr c f) = GetApState c := rfl

theorem State_CpuStatusFlagAndNot (c : CPU_DATA_BLOCK) (f : Nat) :
    GetApState (CpuStatusFlagAndNot c f) = GetApState c := rfl

/-- A store of a record with the state it had keeps the state of every
record. -/
theorem GetApState_SetCpu_same (s : MP_SYSTEM_DATA) (k : Nat) (c : CPU_DATA_BLOCK)
    (hc : GetApState c = GetApState (s.Cpu k)) (j : Nat) :
    GetApState ((s.SetCpu k c).Cpu j) = GetApState (s.Cpu j) := by
  rw [Cpu_SetCpu]
  split_ifs with h
  · rw [hc, h.1]
  · rfl

/-- The function `EnableDisableAP` keeps the session fields and the state of
every record, and changes no record but an idle target. -/
theorem EnableDisableAP_session (w ApicId k : Nat) (EnableAP : Bool)
    (HealthFlag : Option Nat) (s : MP_SYSTEM_DATA) :
    (EnableDisableAP w ApicId k EnableAP HealthFlag s).2 =
        { s with
          CpuDatas := (EnableDisableAP w ApicId k EnableAP HealthFlag s).2.CpuDatas
          NumberOfEnabledProcessors :=
            (EnableDisableAP w ApicId k EnableAP HealthFlag s).2.NumberOfEnabledProcessors }
    ∧ (∀ j, GetApState ((EnableDisableAP w ApicId k EnableAP HealthFlag s).2.Cpu j)
        = GetApState (s.Cpu j))
    ∧ (∀ j, (EnableDisableAP w ApicId k EnableAP HealthFlag s).2.Cpu j ≠ s.Cpu j →
        j = k ∧ GetApState (s.Cpu k) = CpuStateIdle) := by
  by_cases hv : IsBSP s ApicId = true ∧ k < s.NumberOfProcessors
      ∧ TestCpuStatusFlag (s.Cpu k) PROCESSOR_AS_BSP_BIT = false
      ∧ GetApState (s.Cpu k) = CpuStateIdle
  · obtain ⟨h1, h2, h3, h4⟩ := hv
    have hge : ¬ k ≥ s.NumberOfProcessors := by omega
    have hcount : ∀ n : Nat,
        (∀ j, GetApState (({ s with NumberOfEnabledProcessors := n } : MP_SYSTEM_DATA).Cpu j)
            = GetApState (s.Cpu j))
        ∧ (∀ j, j ≠ k →
            ({ s with NumberOfEnabledProcessors := n } : MP_SYSTEM_DATA).Cpu j = s.Cpu j) :=
      fun n => ⟨fun _ => rfl, fun _ _ => rfl⟩
    have hstep : ∀ (t : MP_SYSTEM_DATA) (f : CPU_DATA_BLOCK → CPU_DATA_BLOCK),
        (∀ c, GetApState (f c) = GetApState c) →
        ((∀ j, GetApState (t.Cpu j) = GetApState (s.Cpu j))
          ∧ (∀ j, j ≠ k → t.Cpu j = s.Cpu j)) →
        ((∀ j, GetApState ((t.SetCpu k (f (t.Cpu k))).Cpu j) = GetApState (s.Cpu j))
          ∧ (∀ j, j ≠ k → (t.SetCpu k (f (t.Cpu k))).Cpu j = s.Cpu j)) := by
      intro t f hf ht
      refine ⟨fun j => ?_, fun j hj => ?_⟩
      · rw [GetApState_SetCpu_same _ k _ (hf _) j]
        exact ht.1 j
      · rw [Cpu_SetCpu_of_ne _ _ _ _ (Ne.symm hj)]
        exact ht.2 j hj
    have hmain : (∀ j, GetApState ((EnableDisableAP w ApicId k EnableAP HealthFlag s).2.Cpu j)
          = GetApState (s.Cpu j))
        ∧ (∀ j, j ≠ k →
            (EnableDisableAP w ApicId k EnableAP HealthFlag s).2.Cpu j = s.Cpu j) := by
      simp only [EnableDisableAP, h1, hge, h3, h4, Bool.not_true, Bool.false_eq_true,
        if_false, ne_eq, not_true_eq_false]
      cases EnableAP <;> cases HealthFlag <;>
        cases hE : TestCpuStatusFlag (s.Cpu k) PROCESSOR_ENABLED_BIT <;>
        simp only [Bool.false_eq_true, if_false, if_true, Bool.not_false, Bool.not_true] <;>
        first
          | exact hstep _ (fun c => CpuStatusFlagOr c _) (fun _ => rfl)
              (hstep _ (fun c => CpuStatusFlagAndNot c _) (fun _ => rfl)
                (hstep _ (fun c => CpuStatusFlagOr c _) (fun _ => rfl) (hcount _)))
          | exact hstep _ (fun c => CpuStatusFlagOr c _) (fun _ => rfl)
              (hstep _ (fun c => CpuStatusFlagAndNot c _) (fun _ => rfl)
                (hstep _ (fun c => CpuStatusFlagAndNot c _) (fun _ => rfl) (hcount _)))
          | exact hstep _ (fun c => CpuStatusFlagOr c _) (fun _ => rfl) (hcount _)
          | exact hstep _ (fun c => CpuStatusFlagAndNot c _) (fun _ => rfl) (hcount _)
    refine ⟨?_, hmain.1, fun j hne => ?_⟩
    · simp only [EnableDisableAP, h1, hge, h3, h4, Bool.not_true, Bool.false_eq_true,
        if_false, ne_eq, not_true_eq_false]
      cases EnableAP <;> cases HealthFlag <;>
        cases hE : TestCpuStatusFlag (s.Cpu k) PROCESSOR_ENABLED_BIT <;> rfl
    · by_cases hj : j = k
      · exact ⟨hj, h4⟩
      · exact absurd (hmain.2 j hj) hne
  · have hst : (EnableDisableAP w ApicId k EnableAP HealthFlag s).1 ≠ EFI_SUCCESS := by
      by_cases h1 : IsBSP s ApicId = true
      · rw [EnableDisableAP_status w ApicId k EnableAP HealthFlag s h1]
        split_ifs with a b c
        · decide
        · decide
        · decide
        · exfalso
          apply hv
          refine ⟨h1, by omega, by simpa using b, by simpa using c⟩
      · simp only [Bool.not_eq_true] at h1
        simp [EnableDisableAP, h1]
    rw [EnableDisableAP_unchanged w ApicId k EnableAP HealthFlag s hst]
    exact ⟨rfl, fun _ => rfl, fun j h => absurd rfl h⟩

theorem ActiveCount_EnableDisableAP (w ApicId k : Nat) (EnableAP : Bool)
    (HealthFlag : Option Nat) (s : MP_SYSTEM_DATA) :
    ActiveCount (EnableDisableAP w ApicId k EnableAP HealthFlag s).2 = ActiveCount s := by
  obtain ⟨hframe, hstate, hcpu⟩ := EnableDisableAP_session w ApicId k EnableAP HealthFlag s
  unfold ActiveCount
  have hN : (EnableDisableAP w ApicId k EnableAP HealthFlag s).2.NumberOfProcessors
      = s.NumberOfProcessors := by rw [hframe]
  rw [hN]
  apply countP_range_congr
  intro j _
  by_cases hne : (EnableDisableAP w ApicId k EnableAP HealthFlag s).2.Cpu j = s.Cpu j
  · rw [hne]
  · obtain ⟨hj, hidle⟩ := hcpu j hne
    subst hj
    have h2 := hstate j
    rw [hidle] at h2
    simp [h2, hidle]

/-- What a notification of the periodic timer of `StartupAllAPs` leaves
behind: either the session is still open (`FinishCount` differs from
`StartCount`) and only the harvesting pass and the decrement of the budget
have happened, or the counters are equal and the timer is cancelled. -/
theorem CheckAllAPsStatus_cases (w : Nat) (W : MpWorld) :
    ((CheckAllAPsStatus w W).mMpSystemData.FinishCount
          ≠ (CheckAllAPsStatus w W).mMpSystemData.StartCount
        ∧ CheckAllAPsStatus w W =
            { W with mMpSystemData :=
                (CheckAndUpdateAllAPsToIdleState
                  (if W.mMpSystemData.TimeoutActive then
                    { W.mMpSystemData with
                      Timeout := ToINTN w (W.mMpSystemData.Timeout - gPollInterval) }
                  else W.mMpSystemData)) })
    ∨ ((CheckAllAPsStatus w W).mMpSystemData.FinishCount
          = (CheckAllAPsStatus w W).mMpSystemData.StartCount
        ∧ (CheckAllAPsStatus w W).mMpSystemData.CheckAllAPsEvent
            ∉ (CheckAllAPsStatus w W).PeriodicTimers) := by
  have htail : ∀ W3 : MpWorld, ∀ R : MpWorld,
      R = (if W3.mMpSystemData.FinishCount ≠ W3.mMpSystemData.StartCount then W3
        else
          if W3.mMpSystemData.WaitEvent ≠ 0 then
            { W3 with
              PeriodicTimers :=
                W3.PeriodicTimers.filter (fun e => e != W3.mMpSystemData.CheckAllAPsEvent)
              SignaledEvents := W3.mMpSystemData.WaitEvent :: W3.SignaledEvents
              mMpSystemData := { W3.mMpSystemData with WaitEvent := 0 } }
          else
            { W3 with
              PeriodicTimers :=
                W3.PeriodicTimers.filter (fun e => e != W3.mMpSystemData.CheckAllAPsEvent) }) →
      (R.mMpSystemData.FinishCount ≠ R.mMpSystemData.StartCount ∧ R = W3
        ∧ W3.mMpSystemData.FinishCount ≠ W3.mMpSystemData.StartCount)
      ∨ (R.mMpSystemData.FinishCount = R.mMpSystemData.StartCount
        ∧ R.mMpSystemData.CheckAllAPsEvent ∉ R.PeriodicTimers) := by
    intro W3 R hR
    by_cases hne : W3.mMpSystemData.FinishCount ≠ W3.mMpSystemData.StartCount
    · rw [if_pos hne] at hR
      subst hR
      exact Or.inl ⟨hne, rfl, hne⟩
    · rw [if_neg hne] at hR
      right
      by_cases hw : W3.mMpSystemData.WaitEvent ≠ 0
      · rw [if_pos hw] at hR
        subst hR
        refine ⟨not_not.1 hne, ?_⟩
        simp [List.mem_filter]
      · rw [if_neg hw] at hR
        subst hR
        refine ⟨not_not.1 hne, ?_⟩
        simp [List.mem_filter]
  by_cases hto : ((CheckAndUpdateAllAPsToIdleState
        (if W.mMpSystemData.TimeoutActive then
          { W.mMpSystemData with
            Timeout := ToINTN w (W.mMpSystemData.Timeout - gPollInterval) }
        else W.mMpSystemData)).TimeoutActive
      && decide ((CheckAndUpdateAllAPsToIdleState
        (if W.mMpSystemData.TimeoutActive then
          { W.mMpSystemData with
            Timeout := ToINTN w (W.mMpSystemData.Timeout - gPollInterval) }
        else W.mMpSystemData)).Timeout < 0)) = true
  · rcases htail
        { ResetAllFailedAPs w { W with mMpSystemData :=
            (CheckAndUpdateAllAPsToIdleState
              (if W.mMpSystemData.TimeoutActive then
                { W.mMpSystemData with
                  Timeout := ToINTN w (W.mMpSystemData.Timeout - gPollInterval) }
              else W.mMpSystemData)) } with
          mMpSystemData :=
            { (ResetAllFailedAPs w { W with mMpSystemData :=
                (CheckAndUpdateAllAPsToIdleState
                  (if W.mMpSystemData.TimeoutActive then
                    { W.mMpSystemData with
                      Timeout := ToINTN w (W.mMpSystemData.Timeout - gPollInterval) }
                  else W.mMpSystemData)) }).mMpSystemData with
              FinishCount := (ResetAllFailedAPs w { W with mMpSystemData :=
                (CheckAndUpdateAllAPsToIdleState
                  (if W.mMpSystemData.TimeoutActive then
                    { W.mMpSystemData with
                      Timeout := ToINTN w (W.mMpSystemData.Timeout - gPollInterval) }
                  else W.mMpSystemData)) }).mMpSystemData.StartCount } }
        (CheckAllAPsStatus w W)
        (by simp only [CheckAllAPsStatus, hto, if_true])
      with ⟨-, -, h3⟩ | h
    · exact absurd rfl h3
    · exact Or.inr h
  · rcases htail
        { W with mMpSystemData :=
            (CheckAndUpdateAllAPsToIdleState
              (if W.mMpSystemData.TimeoutActive then
                { W.mMpSystemData with
                  Timeout := ToINTN w (W.mMpSystemData.Timeout - gPollInterval) }
              else W.mMpSystemData)) }
        (CheckAllAPsStatus w W)
        (by simp only [CheckAllAPsStatus, hto, Bool.false_eq_true, if_false])
      with ⟨h1, h2, -⟩ | h
    · exact Or.inl ⟨h1, h2⟩
    · exact Or.inr h

/-- C21 fails on the code: the loop of `WhoAmI` leaves `Index` at
`NumberOfProcessors` when no record matches and the function still returns
`EFI_SUCCESS`.  With a table of three records, the BSP (APIC id 0) and one
application processor (APIC id 1) registered, the processor with APIC id 2,
not registered yet, gets `EFI_SUCCESS` and handle number `2`, which is
`NumberOfProcessors`; `IsBSP` then reads the record at that index. -/
theorem C21_unregistered_caller_gets_index :
    (BringUp 3 0 [1]).NumberOfProcessors = 2
    ∧ (∀ i, i < (BringUp 3 0 [1]).NumberOfProcessors →
        ((BringUp 3 0 [1]).Cpu i).Info.ProcessorId ≠ 2)
    ∧ WhoAmI (BringUp 3 0 [1]) 2 = (EFI_SUCCESS, 2)
    ∧ ¬ (WhoAmI (BringUp 3 0 [1]) 2).2 < (BringUp 3 0 [1]).NumberOfProcessors := by
  refine ⟨rfl, ?_, rfl, by decide⟩
  intro i hi
  have h2 : (BringUp 3 0 [1]).NumberOfProcessors = 2 := rfl
  rw [h2] at hi
  interval_cases i <;> decide

theorem WhoAmILoop_of_first (s : MP_SYSTEM_DATA) (i : Nat) (l : List Nat)
    (hl : ∀ j, j ∈ l → (s.Cpu j).Info.ProcessorId = (s.Cpu i).Info.ProcessorId → j = i)
    (hi : i ∈ l) :
    WhoAmILoop s (s.Cpu i).Info.ProcessorId l = i := by
  induction l with
  | nil => simp at hi
  | cons a rest ih =>
    unfold WhoAmILoop
    by_cases ha : (s.Cpu a).Info.ProcessorId = (s.Cpu i).Info.ProcessorId
    · simp only [ha, beq_self_eq_true, if_true]
      exact hl a (List.mem_cons_self _ _) ha
    · have hne : ((s.Cpu a).Info.ProcessorId == (s.Cpu i).Info.ProcessorId) = false := by
        simpa using ha
      rw [hne]
      simp only [Bool.false_eq_true, if_false]
      apply ih (fun j hj => hl j (List.mem_cons_of_mem _ hj))
      rcases List.mem_cons.1 hi with h | h
      · exact absurd (by rw [h]) ha
      · exact h

/-- C22. `WhoAmI` is a bijection onto `[0, N)`: in a registry of `N`
registered records whose `ProcessorId` are pairwise distinct, `WhoAmI` called
by the processor registered at index `i` returns `EFI_SUCCESS` and `i`; so
the handle numbers the `N` processors obtain, in the order of the indices, are
`0, 1, ..., N - 1`. -/
theorem C22_WhoAmI_bijection (s : MP_SYSTEM_DATA)
    (hdistinct : ∀ i j, i < s.NumberOfProcessors → j < s.NumberOfProcessors →
      (s.Cpu i).Info.ProcessorId = (s.Cpu j).Info.ProcessorId → i = j) :
    (∀ i, i < s.NumberOfProcessors →
      WhoAmI s (s.Cpu i).Info.ProcessorId = (EFI_SUCCESS, i))
    ∧ (List.range s.NumberOfProcessors).map
        (fun i => (WhoAmI s (s.Cpu i).Info.ProcessorId).2)
        = List.range s.NumberOfProcessors := by
  have h1 : ∀ i, i < s.NumberOfProcessors →
      WhoAmI s (s.Cpu i).Info.ProcessorId = (EFI_SUCCESS, i) := by
    intro i hi
    unfold WhoAmI
    rw [WhoAmILoop_of_first s i (List.range s.NumberOfProcessors)
      (fun j hj h => hdistinct j i (List.mem_range.1 hj) hi h) (List.mem_range.2 hi)]
  refine ⟨h1, ?_⟩
  conv_rhs => rw [← List.map_id (List.range s.NumberOfProcessors)]
  apply List.map_congr_left
  intro i hi
  rw [h1 i (List.mem_range.1 hi)]
  rfl

/-- Witness of C22 on three processors with APIC ids 0, 1, 2. -/
theorem C22_WhoAmI_bijection_witness :
    (∀ i, i < Sys3.NumberOfProcessors →
      WhoAmI Sys3 (Sys3.Cpu i).Info.ProcessorId = (EFI_SUCCESS, i))
    ∧ (List.range Sys3.NumberOfProcessors).map
        (fun i => (WhoAmI Sys3 (Sys3.Cpu i).Info.ProcessorId).2)
        = List.range Sys3.NumberOfProcessors :=
  C22_WhoAmI_bijection Sys3 (by
    intro i j hi hj
    have h3 : Sys3.NumberOfProcessors = 3 := rfl
    rw [h3] at hi hj
    interval_cases i <;> interval_cases j <;> decide)

/-- C28. Initial values of a registration: `FillInProcessorInformation (Bsp,
ProcessorNumber)` run by the processor with APIC id `ApicId`, for a
`ProcessorNumber` inside the table, leaves the record at `ProcessorNumber`
with `ProcessorId = ApicId`, `StatusFlag` equal to
`PROCESSOR_ENABLED_BIT | PROCESSOR_HEALTH_STATUS_BIT` plus
`PROCESSOR_AS_BSP_BIT` exactly when `Bsp`, location `(ApicId, 0, 0)`, state
busy when `Bsp` and idle otherwise, `Procedure` and `Parameter` null, and the
fields it does not assign as they were; every other record and every other
field of `mMpSystemData` is unchanged. -/
theorem C28_FillInProcessorInformation_initial_values (s : MP_SYSTEM_DATA)
    (ApicId : Nat) (Bsp : Bool) (ProcessorNumber : Nat)
    (hlt : ProcessorNumber < s.CpuDatas.length) :
    ((FillInProcessorInformation s ApicId Bsp ProcessorNumber).Cpu ProcessorNumber).Info.ProcessorId
        = ApicId
    ∧ ((FillInProcessorInformation s ApicId Bsp ProcessorNumber).Cpu ProcessorNumber).Info.StatusFlag
        = (if Bsp then 7 else 6)
    ∧ (TestCpuStatusFlag ((FillInProcessorInformation s ApicId Bsp ProcessorNumber).Cpu
          ProcessorNumber) PROCESSOR_ENABLED_BIT = true
      ∧ TestCpuStatusFlag ((FillInProcessorInformation s ApicId Bsp ProcessorNumber).Cpu
          ProcessorNumber) PROCESSOR_HEALTH_STATUS_BIT = true
      ∧ TestCpuStatusFlag ((FillInProcessorInformation s ApicId Bsp ProcessorNumber).Cpu
          ProcessorNumber) PROCESSOR_AS_BSP_BIT = Bsp)
    ∧ ((FillInProcessorInformation s ApicId Bsp ProcessorNumber).Cpu ProcessorNumber).Info.Location
        = { Package := ApicId, Core := 0, Thread := 0 }
    ∧ GetApState ((FillInProcessorInformation s ApicId Bsp ProcessorNumber).Cpu ProcessorNumber)
        = (if Bsp then CpuStateBuzy else CpuStateIdle)
    ∧ ((FillInProcessorInformation s ApicId Bsp ProcessorNumber).Cpu ProcessorNumber).Procedure = 0
    ∧ ((FillInProcessorInformation s ApicId Bsp ProcessorNumber).Cpu ProcessorNumber).Parameter = 0
    ∧ (FillInProcessorInformation s ApicId Bsp ProcessorNumber).Cpu ProcessorNumber
        = { s.Cpu ProcessorNumber with
            Info := ((FillInProcessorInformation s ApicId Bsp ProcessorNumber).Cpu
              ProcessorNumber).Info
            State := if Bsp then CpuStateBuzy else CpuStateIdle
            Procedure := 0
            Parameter := 0 }
    ∧ (∀ j, j ≠ ProcessorNumber →
        (FillInProcessorInformation s ApicId Bsp ProcessorNumber).Cpu j = s.Cpu j)
    ∧ (FillInProcessorInformation s ApicId Bsp ProcessorNumber).CpuDatas.length
        = s.CpuDatas.length
    ∧ FillInProcessorInformation s ApicId Bsp ProcessorNumber
        = { s with CpuDatas := (FillInProcessorInformation s ApicId Bsp ProcessorNumber).CpuDatas }
    := by
  have hk : (FillInProcessorInformation s ApicId Bsp ProcessorNumber).Cpu ProcessorNumber
      = { s.Cpu ProcessorNumber with
          Info := { ProcessorId := ApicId,
                    StatusFlag :=
                      if Bsp then
                        (PROCESSOR_ENABLED_BIT ||| PROCESSOR_HEALTH_STATUS_BIT)
                          ||| PROCESSOR_AS_BSP_BIT
                      else PROCESSOR_ENABLED_BIT ||| PROCESSOR_HEALTH_STATUS_BIT,
                    Location := { Package := ApicId, Core := 0, Thread := 0 } }
          State := if Bsp then CpuStateBuzy else CpuStateIdle
          Procedure := 0
          Parameter := 0 } := by
    unfold FillInProcessorInformation
    exact Cpu_SetCpu_self _ _ _ hlt
  rw [hk]
  refine ⟨rfl, ?_, ⟨?_, ?_, ?_⟩, rfl, rfl, rfl, rfl, rfl, ?_, ?_, rfl⟩
  · cases Bsp <;> rfl
  · cases Bsp <;> simp only [TestCpuStatusFlag, Bool.false_eq_true, if_false, if_true] <;> decide
  · cases Bsp <;> simp only [TestCpuStatusFlag, Bool.false_eq_true, if_false, if_true] <;> decide
  · cases Bsp <;> simp only [TestCpuStatusFlag, Bool.false_eq_true, if_false, if_true] <;> decide
  · intro j hj
    unfold FillInProcessorInformation
    exact Cpu_SetCpu_of_ne _ _ _ _ (Ne.symm hj)
  · unfold FillInProcessorInformation
    exact length_SetCpu _ _ _

/-- Witness of C28: the registration of the application processor with APIC
id 1 at index 1 of the table of `Sys1` made for two processors. -/
theorem C28_FillInProcessorInformation_initial_values_witness :
    ((FillInProcessorInformation (InitMpSystemData 2 0) 1 false 1).Cpu 1).Info.ProcessorId = 1
    ∧ ((FillInProcessorInformation (InitMpSystemData 2 0) 1 false 1).Cpu 1).Info.StatusFlag
        = (if false then 7 else 6) :=
  ⟨(C28_FillInProcessorInformation_initial_values (InitMpSystemData 2 0) 1 false 1
      (by decide)).1,
    (C28_FillInProcessorInformation_initial_values (InitMpSystemData 2 0) 1 false 1
      (by decide)).2.1⟩

/-! ## Bring-up and the stacks of the application processors -/

theorem InitMpSystemData_fold (s0 : MP_SYSTEM_DATA) (k : Nat) :
    (List.range k).foldl InitMpSystemDataBody s0 =
        { s0 with CpuDatas := ((List.range k).foldl InitMpSystemDataBody s0).CpuDatas }
    ∧ ((List.range k).foldl InitMpSystemDataBody s0).CpuDatas.length = s0.CpuDatas.length
    ∧ ∀ j, ((List.range k).foldl InitMpSystemDataBody s0).Cpu j =
        if j < k ∧ j < s0.CpuDatas.length then
          { s0.Cpu j with CheckThisAPEvent := EventHandle (j + 1) }
        else s0.Cpu j := by
  induction k with
  | zero => simp
  | succ k ih =>
    rw [List.range_succ, List.foldl_append, List.foldl_cons, List.foldl_nil]
    generalize (List.range k).foldl InitMpSystemDataBody s0 = t at ih ⊢
    obtain ⟨hframe, hlen, hcpu⟩ := ih
    unfold InitMpSystemDataBody
    refine ⟨?_, ?_, ?_⟩
    · rw [hframe]; rfl
    · rw [length_SetCpu]; exact hlen
    · intro j
      rw [Cpu_SetCpu, hlen]
      by_cases hjk : k = j
      · subst hjk
        by_cases hl : k < s0.CpuDatas.length
        · have hk : t.Cpu k = s0.Cpu k := by rw [hcpu k]; simp
          simp [hl, hk]
        · have hk : t.Cpu k = s0.Cpu k := by rw [hcpu k]; simp
          simp [hl, hk]
      · have h1 : (j < k + 1 ∧ j < s0.CpuDatas.length) ↔ (j < k ∧ j < s0.CpuDatas.length) := by
          constructor
          · rintro ⟨a, b⟩; exact ⟨by omega, b⟩
          · rintro ⟨a, b⟩; exact ⟨by omega, b⟩
        simp only [hjk, false_and, if_false, h1]
        exact hcpu j

theorem InitMpSystemData_aux (s0 : MP_SYSTEM_DATA) (Max ApicId : Nat)
    (hlen0 : s0.CpuDatas.length = Max) (hz : ∀ j, s0.Cpu j = ZeroCpuData) :
    FillInProcessorInformation ((List.range Max).foldl InitMpSystemDataBody s0) ApicId true 0
      = { s0 with CpuDatas := (FillInProcessorInformation
            ((List.range Max).foldl InitMpSystemDataBody s0) ApicId true 0).CpuDatas }
    ∧ (FillInProcessorInformation ((List.range Max).foldl InitMpSystemDataBody s0)
        ApicId true 0).CpuDatas.length = Max
    ∧ (∀ j, (FillInProcessorInformation ((List.range Max).foldl InitMpSystemDataBody s0)
        ApicId true 0).Cpu j =
        if j = 0 ∧ 0 < Max then
          { ZeroCpuData with
            Info := { ProcessorId := ApicId, StatusFlag := 7,
                      Location := { Package := ApicId, Core := 0, Thread := 0 } }
            State := CpuStateBuzy
            CheckThisAPEvent := EventHandle 1 }
        else if j < Max then { ZeroCpuData with CheckThisAPEvent := EventHandle (j + 1) }
        else ZeroCpuData) := by
  obtain ⟨hframe, hlen, hcpu⟩ := InitMpSystemData_fold s0 Max
  rw [hlen0] at hlen hcpu
  simp only [hz] at hcpu
  unfold FillInProcessorInformation
  simp only
  generalize (List.range Max).foldl InitMpSystemDataBody s0 = t at hframe hlen hcpu
  refine ⟨?_, ?_, ?_⟩
  · rw [hframe]; rfl
  · rw [length_SetCpu]; exact hlen
  · intro j
    rw [Cpu_SetCpu, hlen]
    by_cases hj : j = 0
    · subst hj
      by_cases hM : 0 < Max
      · simp only [hM, and_self, if_true, true_and]
        rw [hcpu 0]
        simp only [hM, and_self, if_true]
        rfl
      · simp only [hM, and_false, if_false]
        rw [hcpu 0]
        simp [hM]
    · have h0 : ¬ (0 = j ∧ 0 < Max) := fun h => hj h.1.symm
      simp only [h0, if_false, hj, false_and]
      rw [hcpu j]
      simp

/-- What `InitMpSystemData` leaves behind: one registered processor, a table
of `gMaxLogicalProcessorNumber` records, the BSP filled in at index 0 and the
other records zero but for their `CheckThisAPEvent`. -/
theorem InitMpSystemData_spec (Max ApicId : Nat) :
    (InitMpSystemData Max ApicId).NumberOfProcessors = 1
    ∧ (InitMpSystemData Max ApicId).CpuDatas.length = Max
    ∧ (∀ j, (InitMpSystemData Max ApicId).Cpu j =
        if j = 0 ∧ 0 < Max then
          { ZeroCpuData with
            Info := { ProcessorId := ApicId, StatusFlag := 7,
                      Location := { Package := ApicId, Core := 0, Thread := 0 } }
            State := CpuStateBuzy
            CheckThisAPEvent := EventHandle 1 }
        else if j < Max then { ZeroCpuData with CheckThisAPEvent := EventHandle (j + 1) }
        else ZeroCpuData) := by
  unfold InitMpSystemData
  simp only
  obtain ⟨h1, h2, h3⟩ := InitMpSystemData_aux
    { CpuDatas := List.replicate Max ZeroCpuData,
      NumberOfProcessors := 1, NumberOfEnabledProcessors := 1,
      Procedure := 0, ProcedureArgument := 0, StartCount := 0, FinishCount := 0,
      SingleThread := false, FailedList := 0, FailedListIndex := 0, Timeout := 0,
      TimeoutActive := false, WaitEvent := 0, CheckAllAPsEvent := EventHandle 0 } Max ApicId
    (List.length_replicate _ _)
    (by
      intro j
      simp only [MP_SYSTEM_DATA.Cpu, List.getD_eq_getElem?_getD, List.getElem?_replicate]
      split_ifs <;> rfl)
  refine ⟨?_, h2, h3⟩
  rw [h1]

theorem NumberOfProcessors_ApEntryPointInC (s : MP_SYSTEM_DATA) (ApicId : Nat) :
    (ApEntryPointInC s ApicId).NumberOfProcessors = s.NumberOfProcessors + 1 := rfl

/-- The registrations of the application processors: each adds one to
`NumberOfProcessors` and takes the next stack of `gApStackSize` bytes. -/
theorem ApEntryPointInC_fold (w : Nat) (ApIds : List Nat) (s : MP_SYSTEM_DATA) (k : MP_STACKS)
    (hfit : k.mApStackStart + ApIds.length * k.gApStackSize < 2 ^ w) :
    (ApIds.foldl (fun acc ApicId => (ApEntryPointInC acc.1 ApicId, ApEntryPointInCStack w acc.2))
        (s, k)).1.NumberOfProcessors = s.NumberOfProcessors + ApIds.length
    ∧ (ApIds.foldl (fun acc ApicId => (ApEntryPointInC acc.1 ApicId, ApEntryPointInCStack w acc.2))
        (s, k)).2 =
      { k with
        mApStackStart := k.mApStackStart + ApIds.length * k.gApStackSize
        SwitchStackCalls :=
          ((List.range ApIds.length).map
            (fun i => k.mApStackStart + (i + 1) * k.gApStackSize)).reverse
            ++ k.SwitchStackCalls } := by
  induction ApIds generalizing s k with
  | nil => simp
  | cons a rest ih =>
    rw [List.foldl_cons]
    have hpos : k.mApStackStart + k.gApStackSize < 2 ^ w := by
      simp only [List.length_cons] at hfit
      have : k.mApStackStart + k.gApStackSize
          ≤ k.mApStackStart + (rest.length + 1) * k.gApStackSize := by
        rw [Nat.add_mul]; omega
      omega
    have hk : ApEntryPointInCStack w k =
        { k with mApStackStart := k.mApStackStart + k.gApStackSize
                 SwitchStackCalls := (k.mApStackStart + k.gApStackSize) :: k.SwitchStackCalls } := by
      simp only [ApEntryPointInCStack, Nat.mod_eq_of_lt hpos]
    obtain ⟨h1, h2⟩ := ih (ApEntryPointInC s a) (ApEntryPointInCStack w k) (by
      rw [hk]
      simp only [List.length_cons] at hfit
      simp only
      rw [Nat.add_mul] at hfit
      omega)
    refine ⟨?_, ?_⟩
    · rw [h1, NumberOfProcessors_ApEntryPointInC, List.length_cons]; omega
    · rw [h2, hk]
      simp only [List.length_cons, List.range_succ_eq_map, List.map_cons, List.map_map,
        List.reverse_cons, List.append_assoc, List.singleton_append]
      congr 1
      · rw [Nat.add_mul]; omega
      · congr 2
        · apply List.map_congr_left
          intro i _
          simp only [Function.comp, Nat.succ_eq_add_one]
          rw [Nat.add_mul (i + 1) 1, Nat.one_mul]; omega
        · simp

/-- What `InitializeMpSupport` leaves behind when more than one processor is
configured, the reservation fits in the address space and the table has room
for the application processors that register. -/
theorem InitializeMpSupport_spec (w : Nat) (EFI_SIZE_TO_PAGES : Nat → Nat)
    (Max S Base BspId : Nat) (ApIds : List Nat)
    (hMax : 2 ≤ Max) (hfit : Base + Max * S < 2 ^ w) (hN : ApIds.length + 1 ≤ Max) :
    (InitializeMpSupport w EFI_SIZE_TO_PAGES Max S Base BspId ApIds).1.NumberOfProcessors
        = 1 + ApIds.length
    ∧ (InitializeMpSupport w EFI_SIZE_TO_PAGES Max S Base BspId ApIds).2 =
      { gMaxLogicalProcessorNumber := Max, gApStackSize := S, mCommonStack := Base,
        mTopOfApCommonStack := Base + S,
        mApStackStart := Base + S + ApIds.length * S,
        AllocatePagesCalls := [(Base, EFI_SIZE_TO_PAGES (Max * S))],
        FreePagesCalls :=
          (if 1 + ApIds.length = 1 then [(Base, EFI_SIZE_TO_PAGES (Max * S))]
           else if 1 + ApIds.length < Max then
             [(Base + S + ApIds.length * S,
               EFI_SIZE_TO_PAGES ((Max - (1 + ApIds.length)) * S))]
           else []),
        SwitchStackCalls :=
          ((List.range ApIds.length).map (fun i => Base + S + (i + 1) * S)).reverse } := by
  have h1 : ¬ Max < 1 := by omega
  have h2 : ¬ Max = 1 := by omega
  have hS : Base + S < 2 ^ w := by
    have : S ≤ Max * S := Nat.le_mul_of_pos_left S (by omega)
    omega
  have hMS : Max * S < 2 ^ w := by omega
  have hrest : (Max - (1 + ApIds.length)) * S < 2 ^ w := by
    have : (Max - (1 + ApIds.length)) * S ≤ Max * S := Nat.mul_le_mul_right S (by omega)
    omega
  simp only [InitializeMpSupport, h1, h2, if_false, Nat.mod_eq_of_lt hS, Nat.mod_eq_of_lt hMS]
  have hfit' : Base + S + ApIds.length * S < 2 ^ w := by
    have : (ApIds.length + 1) * S ≤ Max * S := Nat.mul_le_mul_right S hN
    rw [Nat.add_mul] at this
    omega
  obtain ⟨f1, f2⟩ := ApEntryPointInC_fold w ApIds (InitMpSystemData Max BspId)
    { gMaxLogicalProcessorNumber := Max, gApStackSize := S,
      mCommonStack := Base, mTopOfApCommonStack := Base + S, mApStackStart := Base + S,
      AllocatePagesCalls := [(Base, EFI_SIZE_TO_PAGES (Max * S))], FreePagesCalls := [],
      SwitchStackCalls := [] } hfit'
  rw [(InitMpSystemData_spec Max BspId).1] at f1
  simp only at f2
  simp only [f1, f2, Nat.mod_eq_of_lt hrest, Nat.mod_eq_of_lt hMS, List.append_nil]
  clear f2
  split_ifs <;> exact ⟨f1, rfl⟩

/-- C29. Stack reservation give-back.  `InitializeMpSupport` with a configured
maximum `Max ≥ 2`, a stack size `S` that is a multiple of 4 KiB and
`N = ApIds.length + 1 ≤ Max` registered processors, `EFI_SIZE_TO_PAGES` being
exact on multiples of the page size and the reservation fitting in the
address space: it reserves `[Base, Base + Max * S)`; the common stack is
`[Base, Base + S)`; the `i`-th application processor to register takes the
stack that ends at `Base + (i + 2) * S` (`i` from 0), at most `Base + N * S`;
and the calls of `FreePages` release exactly `[Base, Base + Max * S)` when
`N = 1`, exactly `[Base + N * S, Base + Max * S)` when `1 < N < Max`, and
nothing when `N = Max`. -/
theorem C29_stack_give_back (w : Nat) (EFI_SIZE_TO_PAGES : Nat → Nat)
    (Max S Base BspId : Nat) (ApIds : List Nat)
    (hpages : ∀ n, EFI_SIZE_TO_PAGES (n * EFI_PAGE_SIZE) = n)
    (hMax : 2 ≤ Max) (hS : S % EFI_PAGE_SIZE = 0)
    (hfit : Base + Max * S < 2 ^ w) (hN : ApIds.length + 1 ≤ Max) :
    (InitializeMpSupport w EFI_SIZE_TO_PAGES Max S Base BspId ApIds).1.NumberOfProcessors
        = ApIds.length + 1
    ∧ (InitializeMpSupport w EFI_SIZE_TO_PAGES Max S Base BspId ApIds).2.AllocatePagesCalls.map
        PageRegion = [(Base, Base + Max * S)]
    ∧ (InitializeMpSupport w EFI_SIZE_TO_PAGES Max S Base BspId ApIds).2.mCommonStack = Base
    ∧ (InitializeMpSupport w EFI_SIZE_TO_PAGES Max S Base BspId ApIds).2.mTopOfApCommonStack
        = Base + S
    ∧ (InitializeMpSupport w EFI_SIZE_TO_PAGES Max S Base BspId ApIds).2.SwitchStackCalls.reverse
        = (List.range ApIds.length).map (fun i => Base + (i + 2) * S)
    ∧ (InitializeMpSupport w EFI_SIZE_TO_PAGES Max S Base BspId ApIds).2.FreePagesCalls.map
        PageRegion =
          (if ApIds.length + 1 = 1 then [(Base, Base + Max * S)]
           else if ApIds.length + 1 < Max then
             [(Base + (ApIds.length + 1) * S, Base + Max * S)]
           else []) := by
  obtain ⟨h1, h2⟩ := InitializeMpSupport_spec w EFI_SIZE_TO_PAGES Max S Base BspId ApIds
    hMax hfit hN
  obtain ⟨m, hm⟩ : ∃ m, S = m * EFI_PAGE_SIZE :=
    ⟨S / EFI_PAGE_SIZE, by rw [Nat.div_mul_cancel (Nat.dvd_of_mod_eq_zero hS)]⟩
  have hbytes : ∀ n, EFI_SIZE_TO_PAGES (n * S) * EFI_PAGE_SIZE = n * S := by
    intro n
    rw [hm, ← Nat.mul_assoc, hpages]
  rw [h2]
  refine ⟨by omega, ?_, rfl, rfl, ?_, ?_⟩
  · simp only [List.map_cons, List.map_nil, PageRegion, hbytes]
  · simp only [List.reverse_reverse]
    apply List.map_congr_left
    intro i _
    rw [Nat.add_mul i 2 S, Nat.add_mul i 1 S]
    omega
  · have e1 : (1 + ApIds.length = 1) ↔ (ApIds.length + 1 = 1) := by omega
    have e2 : (1 + ApIds.length < Max) ↔ (ApIds.length + 1 < Max) := by omega
    simp only [e1, e2]
    split_ifs with a b
    · simp only [List.map_cons, List.map_nil, PageRegion, hbytes]
    · simp only [List.map_cons, List.map_nil, PageRegion, hbytes]
      have h3 : (Max - (1 + ApIds.length)) * S + (ApIds.length + 1) * S = Max * S := by
        rw [← Nat.add_mul]
        congr 1
        omega
      have h4 : Base + S + ApIds.length * S = Base + (ApIds.length + 1) * S := by
        rw [Nat.add_mul]; omega
      rw [h4]
      congr 2
      omega
    · rfl

/-- Witness of C29: four processors configured, stacks of 8 KiB at
`0x100000`, the BSP and two application processors registered: the fourth
stack `[0x106000, 0x108000)` is released. -/
theorem C29_stack_give_back_witness :
    (InitializeMpSupport 64 (fun x => x / 4096 + (if x % 4096 = 0 then 0 else 1))
        4 8192 1048576 0 [1, 2]).2.FreePagesCalls.map PageRegion =
      (if [1, 2].length + 1 = 1 then [(1048576, 1048576 + 4 * 8192)]
       else if [1, 2].length + 1 < 4 then [(1048576 + ([1, 2].length + 1) * 8192, 1048576 + 4 * 8192)]
       else []) :=
  (C29_stack_give_back 64 (fun x => x / 4096 + (if x % 4096 = 0 then 0 else 1))
    4 8192 1048576 0 [1, 2]
    (by intro n; simp [EFI_PAGE_SIZE])
    (by decide) (by decide) (by decide) (by decide)).2.2.2.2.2

/-! ## The harvesting pass -/

theorem IsBlockedAP_iff (c : CPU_DATA_BLOCK) :
    IsBlockedAP c = true ↔
      (TestCpuStatusFlag c PROCESSOR_AS_BSP_BIT = false ∧ GetApState c = CpuStateBlocked) := by
  simp [IsBlockedAP]

theorem IsHarvestable_iff (c : CPU_DATA_BLOCK) :
    IsHarvestable c = true ↔ (IsEnabledAP c = true ∧ GetApState c = CpuStateFinished) := by
  simp [IsHarvestable]

theorem HarvestCount_succ (s : MP_SYSTEM_DATA) (k : Nat) :
    HarvestCount s (k + 1) = HarvestCount s k + (if IsHarvestable (s.Cpu k) then 1 else 0) := by
  unfold HarvestCount
  rw [List.range_succ, List.countP_append]
  simp [List.countP_cons]

theorem BlockedRank_succ (s : MP_SYSTEM_DATA) (j : Nat) :
    BlockedRank s (j + 1) = BlockedRank s j + (if IsBlockedAP (s.Cpu j) then 1 else 0) := by
  unfold BlockedRank
  rw [List.range_succ, List.countP_append]
  simp [List.countP_cons]

theorem BlockedRank_mono (s : MP_SYSTEM_DATA) (a b : Nat) (h : a ≤ b) :
    BlockedRank s a ≤ BlockedRank s b := by
  induction b with
  | zero =>
    have : a = 0 := by omega
    rw [this]
  | succ b ih =>
    by_cases hab : a = b + 1
    · rw [hab]
    · have := ih (by omega)
      rw [BlockedRank_succ]
      omega

/-- A blocked application processor has a lower rank than every later one. -/
theorem BlockedRank_lt (s : MP_SYSTEM_DATA) (q j : Nat) (hqj : q < j)
    (hq : IsBlockedAP (s.Cpu q) = true) : BlockedRank s q < BlockedRank s j := by
  have h1 := BlockedRank_mono s (q + 1) j hqj
  rw [BlockedRank_succ, hq] at h1
  simp only [if_true] at h1
  omega

/-- When every blocked application processor below `q` has a rank below `H`,
the rank of `q` is at most `H`. -/
theorem BlockedRank_le_of_forall (s : MP_SYSTEM_DATA) (q H : Nat)
    (h : ∀ m, m < q → IsBlockedAP (s.Cpu m) = true → BlockedRank s m < H) :
    BlockedRank s q ≤ H := by
  induction q with
  | zero => simp [BlockedRank]
  | succ q ih =>
    rw [BlockedRank_succ]
    have h1 := ih (fun m hm hb => h m (by omega) hb)
    by_cases hb : IsBlockedAP (s.Cpu q) = true
    · have := h q (by omega) hb
      simp only [hb, if_true]
      omega
    · simp only [hb, Bool.false_eq_true, if_false]
      omega

theorem GetNextBlockedNumber_some (s : MP_SYSTEM_DATA) (q : Nat)
    (h : GetNextBlockedNumber s = some q) :
    q < s.NumberOfProcessors ∧ IsBlockedAP (s.Cpu q) = true
      ∧ ∀ m, m < q → IsBlockedAP (s.Cpu m) = false := by
  obtain ⟨h1, h2, h3, h4⟩ := ((GetNextBlockedNumberLoop_range s s.NumberOfProcessors).1 q).1 h
  refine ⟨h1, (IsBlockedAP_iff _).2 ⟨h2, h3⟩, fun m hm => ?_⟩
  rw [← Bool.not_eq_true, IsBlockedAP_iff]
  exact h4 m hm

theorem GetNextBlockedNumber_none (s : MP_SYSTEM_DATA)
    (h : GetNextBlockedNumber s = none) :
    ∀ m, m < s.NumberOfProcessors → IsBlockedAP (s.Cpu m) = false := by
  intro m hm
  rw [← Bool.not_eq_true, IsBlockedAP_iff]
  exact ((GetNextBlockedNumberLoop_range s s.NumberOfProcessors).2).1 h m hm

theorem HarvestedRecord_congr (s : MP_SYSTEM_DATA) (k k' j : Nat)
    (h1 : (j < k ∧ IsHarvestable (s.Cpu j) = true) ↔ (j < k' ∧ IsHarvestable (s.Cpu j) = true))
    (h2 : (s.SingleThread = true ∧ j < s.NumberOfProcessors ∧ IsBlockedAP (s.Cpu j) = true
        ∧ BlockedRank s j < HarvestCount s k) ↔
      (s.SingleThread = true ∧ j < s.NumberOfProcessors ∧ IsBlockedAP (s.Cpu j) = true
        ∧ BlockedRank s j < HarvestCount s k')) :
    HarvestedRecord s k j = HarvestedRecord s k' j := by
  simp only [HarvestedRecord, h1, h2]

theorem HarvestedRecord_Info (s : MP_SYSTEM_DATA) (k j : Nat) :
    (HarvestedRecord s k j).Info = (s.Cpu j).Info := by
  unfold HarvestedRecord
  split_ifs <;> rfl

theorem not_IsBlockedAP_of_IsHarvestable (c : CPU_DATA_BLOCK) (h : IsHarvestable c = true) :
    IsBlockedAP c = false := by
  rw [IsHarvestable_iff] at h
  rw [← Bool.not_eq_true, IsBlockedAP_iff]
  rintro ⟨-, hb⟩
  rw [h.2] at hb
  cases hb

/-- Which records are blocked application processors after `k` turns. -/
theorem IsBlockedAP_HarvestedRecord (s : MP_SYSTEM_DATA) (k j : Nat) :
    IsBlockedAP (HarvestedRecord s k j) = true ↔
      (IsBlockedAP (s.Cpu j) = true
        ∧ ¬ (s.SingleThread = true ∧ j < s.NumberOfProcessors
          ∧ BlockedRank s j < HarvestCount s k)) := by
  unfold HarvestedRecord
  split_ifs with h1 h2
  · have hb := not_IsBlockedAP_of_IsHarvestable _ h1.2
    constructor
    · intro h
      simp [IsBlockedAP, GetApState, SetApState] at h
    · rintro ⟨h, -⟩
      rw [hb] at h
      exact absurd h Bool.false_ne_true
  · constructor
    · intro h
      simp [IsBlockedAP, GetApState, SetApState, SetApProcedure] at h
    · rintro ⟨-, h⟩
      exact absurd ⟨h2.1, h2.2.1, h2.2.2.2⟩ h
  · constructor
    · intro h
      exact ⟨h, fun h3 => h2 ⟨h3.1, h3.2.1, h, h3.2.2⟩⟩
    · exact fun h => h.1

theorem FinishCount_frame_succ (s t u : MP_SYSTEM_DATA) (n : Nat)
    (hframe : t = { s with CpuDatas := t.CpuDatas, FinishCount := n })
    (hu : u = { t with CpuDatas := u.CpuDatas, FinishCount := t.FinishCount + 1 }) :
    u = { s with CpuDatas := u.CpuDatas, FinishCount := n + 1 } := by
  cases s; cases t; cases u
  simp only [MP_SYSTEM_DATA.mk.injEq] at hframe hu ⊢
  simp_all

/-- One turn of the loop of `CheckAndUpdateAllAPsToIdleState`, from the state
described by `HarvestedRecord s k` to the one described by
`HarvestedRecord s (k + 1)`. -/
theorem CheckAndUpdateBody_step (s t : MP_SYSTEM_DATA) (k : Nat)
    (hframe : t = { s with CpuDatas := t.CpuDatas
                           FinishCount := s.FinishCount + HarvestCount s k })
    (hlen : t.CpuDatas.length = s.CpuDatas.length)
    (hcpu : ∀ j, t.Cpu j = HarvestedRecord s k j) :
    CheckAndUpdateBody t k =
        { s with CpuDatas := (CheckAndUpdateBody t k).CpuDatas
                 FinishCount := s.FinishCount + HarvestCount s (k + 1) }
    ∧ (CheckAndUpdateBody t k).CpuDatas.length = s.CpuDatas.length
    ∧ ∀ j, (CheckAndUpdateBody t k).Cpu j = HarvestedRecord s (k + 1) j := by
  have hST : t.SingleThread = s.SingleThread := by rw [hframe]
  have hP : t.Procedure = s.Procedure := by rw [hframe]
  have hA : t.ProcedureArgument = s.ProcedureArgument := by rw [hframe]
  have hNt : t.NumberOfProcessors = s.NumberOfProcessors := by rw [hframe]
  have hFt : t.FinishCount = s.FinishCount + HarvestCount s k := by rw [hframe]
  have hinfo : ∀ j, (t.Cpu j).Info = (s.Cpu j).Info := by
    intro j; rw [hcpu j, HarvestedRecord_Info]
  by_cases hh : IsHarvestable (s.Cpu k) = true
  · -- the record at `k` is harvested
    have hH : HarvestCount s (k + 1) = HarvestCount s k + 1 := by
      rw [HarvestCount_succ, hh]; rfl
    have hbk := not_IsBlockedAP_of_IsHarvestable _ hh
    have htk : t.Cpu k = s.Cpu k := by
      rw [hcpu k]
      unfold HarvestedRecord
      rw [if_neg (fun h => absurd h.1 (Nat.lt_irrefl k)), if_neg]
      rintro ⟨-, -, hb, -⟩
      rw [hbk] at hb
      exact absurd hb Bool.false_ne_true
    obtain ⟨hen0, hfin0⟩ := (IsHarvestable_iff _).1 hh
    have hen : IsEnabledAP (t.Cpu k) = true := by rw [htk]; exact hen0
    have hfin : GetApState (t.Cpu k) = CpuStateFinished := by rw [htk]; exact hfin0
    have hklen : k < t.CpuDatas.length := lt_length_of_IsEnabledAP t k hen
    -- the two ways the turn can go when no blocked processor is made ready
    have hsimple : CheckAndUpdateBody t k =
          ({ t with FinishCount := t.FinishCount + 1 } : MP_SYSTEM_DATA).SetCpu k
            (SetApState (t.Cpu k) CpuStateIdle) →
        (∀ j, j < s.NumberOfProcessors → s.SingleThread = true →
          IsBlockedAP (s.Cpu j) = true → BlockedRank s j < HarvestCount s k) →
        CheckAndUpdateBody t k =
            { s with CpuDatas := (CheckAndUpdateBody t k).CpuDatas
                     FinishCount := s.FinishCount + HarvestCount s (k + 1) }
        ∧ (CheckAndUpdateBody t k).CpuDatas.length = s.CpuDatas.length
        ∧ ∀ j, (CheckAndUpdateBody t k).Cpu j = HarvestedRecord s (k + 1) j := by
      intro hbody hranks
      refine ⟨?_, ?_, ?_⟩
      · rw [hH, ← Nat.add_assoc]
        apply FinishCount_frame_succ s t _ _ hframe
        rw [hbody]
        rfl
      · rw [hbody, length_SetCpu]; exact hlen
      · intro j
        rw [hbody, Cpu_SetCpu]
        by_cases hkj : k = j
        · subst hkj
          have hl : k < ({ t with FinishCount := t.FinishCount + 1 }
              : MP_SYSTEM_DATA).CpuDatas.length := hklen
          simp only [hl, and_self, if_true]
          rw [htk]
          unfold HarvestedRecord
          rw [if_pos ⟨Nat.lt_succ_self k, hh⟩]
        · simp only [hkj, false_and, if_false]
          have e : ({ t with FinishCount := t.FinishCount + 1 } : MP_SYSTEM_DATA).Cpu j
              = t.Cpu j := rfl
          rw [e, hcpu j]
          apply HarvestedRecord_congr
          · constructor
            · rintro ⟨a, b⟩; exact ⟨by omega, b⟩
            · rintro ⟨a, b⟩; exact ⟨by omega, b⟩
          · rw [hH]
            constructor
            · rintro ⟨a, b, c, d⟩; exact ⟨a, b, c, by omega⟩
            · rintro ⟨a, b, c, -⟩; exact ⟨a, b, c, hranks j b a c⟩
    rcases Bool.eq_false_or_eq_true t.SingleThread with hst | hst
    · cases hg : GetNextBlockedNumber t with
      | none =>
        apply hsimple (CheckAndUpdateBody_finished_none t k hen hfin hg)
        intro j hj hs hb
        have hnb := GetNextBlockedNumber_none t hg j (by rw [hNt]; exact hj)
        rw [hcpu j, ← Bool.not_eq_true, IsBlockedAP_HarvestedRecord] at hnb
        by_contra hlt
        exact hnb ⟨hb, fun h => hlt h.2.2⟩
      | some q =>
        obtain ⟨hqN, hqb, hqmin⟩ := GetNextBlockedNumber_some t q hg
        rw [hNt] at hqN
        have hsst : s.SingleThread = true := by rw [← hST]; exact hst
        rw [hcpu q, IsBlockedAP_HarvestedRecord] at hqb
        obtain ⟨hqbs, hqr⟩ := hqb
        have hqge : HarvestCount s k ≤ BlockedRank s q := by
          by_contra hlt
          exact hqr ⟨hsst, hqN, by omega⟩
        have hbelow : ∀ m, m < q → IsBlockedAP (s.Cpu m) = true →
            BlockedRank s m < HarvestCount s k := by
          intro m hm hb
          have hnb := hqmin m hm
          rw [hcpu m, ← Bool.not_eq_true, IsBlockedAP_HarvestedRecord] at hnb
          by_contra hlt
          exact hnb ⟨hb, fun h => hlt h.2.2⟩
        have hqle := BlockedRank_le_of_forall s q (HarvestCount s k) hbelow
        have hqrank : BlockedRank s q = HarvestCount s k := by omega
        have hqk : q ≠ k := by
          intro h
          rw [h, hbk] at hqbs
          exact absurd hqbs Bool.false_ne_true
        have htq : t.Cpu q = s.Cpu q := by
          rw [hcpu q]
          unfold HarvestedRecord
          rw [if_neg, if_neg]
          · rintro ⟨-, -, -, h⟩; omega
          · rintro ⟨-, h⟩
            rw [not_IsBlockedAP_of_IsHarvestable _ h] at hqbs
            exact absurd hqbs Bool.false_ne_true
        have hqlen : q < t.CpuDatas.length := by
          apply lt_length_of_GetApState_ne
          rw [htq, ((IsBlockedAP_iff _).1 hqbs).2]
          decide
        have hbody := CheckAndUpdateBody_finished_some t k q hen hfin hst hg hqk hqlen
        refine ⟨?_, ?_, ?_⟩
        · rw [hH, ← Nat.add_assoc]
          apply FinishCount_frame_succ s t _ _ hframe
          rw [hbody]
          rfl
        · rw [hbody, length_SetCpu, length_SetCpu]; exact hlen
        · intro j
          rw [hbody, Cpu_SetCpu, Cpu_SetCpu, length_SetCpu]
          have hl : k < ({ t with FinishCount := t.FinishCount + 1 }
              : MP_SYSTEM_DATA).CpuDatas.length := hklen
          have hl2 : q < ({ t with FinishCount := t.FinishCount + 1 }
              : MP_SYSTEM_DATA).CpuDatas.length := hqlen
          simp only [hl, hl2, and_true]
          by_cases hkj : k = j
          · subst hkj
            simp only [if_true]
            rw [htk]
            unfold HarvestedRecord
            rw [if_pos ⟨Nat.lt_succ_self k, hh⟩]
          · by_cases hqj : q = j
            · subst hqj
              simp only [hkj, if_false, if_true]
              rw [htq, hP, hA]
              unfold HarvestedRecord
              rw [if_neg, if_pos ⟨hsst, hqN, hqbs, by omega⟩]
              rintro ⟨-, h⟩
              rw [not_IsBlockedAP_of_IsHarvestable _ h] at hqbs
              exact absurd hqbs Bool.false_ne_true
            · simp only [hkj, hqj, if_false]
              have e : ({ t with FinishCount := t.FinishCount + 1 } : MP_SYSTEM_DATA).Cpu j
                  = t.Cpu j := rfl
              rw [e, hcpu j]
              apply HarvestedRecord_congr
              · constructor
                · rintro ⟨a, b⟩; exact ⟨by omega, b⟩
                · rintro ⟨a, b⟩; exact ⟨by omega, b⟩
              · rw [hH]
                constructor
                · rintro ⟨a, b, c, d⟩; exact ⟨a, b, c, by omega⟩
                · rintro ⟨a, b, c, d⟩
                  refine ⟨a, b, c, ?_⟩
                  rcases Nat.lt_or_gt_of_ne hqj with h | h
                  · have := BlockedRank_lt s q j h hqbs
                    omega
                  · exact hbelow j h c
    · apply hsimple (CheckAndUpdateBody_finished_parallel t k hen hfin hst)
      intro j _ hs
      rw [← hST, hst] at hs
      exact absurd hs Bool.false_ne_true
  · -- the record at `k` is not harvested
    have hH : HarvestCount s (k + 1) = HarvestCount s k := by
      rw [HarvestCount_succ]
      simp only [hh, Bool.false_eq_true, if_false, Nat.add_zero]
    have hbody : CheckAndUpdateBody t k = t := by
      apply CheckAndUpdateBody_of_not_finished
      intro he hf
      rw [IsEnabledAP_congr _ _ (hinfo k)] at he
      rw [hcpu k] at hf
      unfold HarvestedRecord at hf
      split_ifs at hf with h1 h2
      · exact hh h1.2
      · simp [GetApState, SetApState, SetApProcedure] at hf
      · exact hh ((IsHarvestable_iff _).2 ⟨he, hf⟩)
    rw [hbody, hH]
    refine ⟨hframe, hlen, fun j => ?_⟩
    rw [hcpu j]
    apply HarvestedRecord_congr
    · constructor
      · rintro ⟨a, b⟩; exact ⟨by omega, b⟩
      · rintro ⟨a, b⟩
        refine ⟨?_, b⟩
        rcases Nat.lt_or_ge j k with h | h
        · exact h
        · have : j = k := by omega
          rw [this] at b
          exact absurd b hh
    · rw [hH]

theorem CheckAndUpdate_fold_spec (s : MP_SYSTEM_DATA) (k : Nat) :
    (List.range k).foldl CheckAndUpdateBody s =
        { s with CpuDatas := ((List.range k).foldl CheckAndUpdateBody s).CpuDatas
                 FinishCount := s.FinishCount + HarvestCount s k }
    ∧ ((List.range k).foldl CheckAndUpdateBody s).CpuDatas.length = s.CpuDatas.length
    ∧ ∀ j, ((List.range k).foldl CheckAndUpdateBody s).Cpu j = HarvestedRecord s k j := by
  induction k with
  | zero =>
    refine ⟨rfl, rfl, fun j => ?_⟩
    simp [HarvestedRecord, HarvestCount]
  | succ k ih =>
    obtain ⟨hframe, hlen, hcpu⟩ := ih
    rw [List.range_succ, List.foldl_append, List.foldl_cons, List.foldl_nil]
    exact CheckAndUpdateBody_step s _ k hframe hlen hcpu

/-- What a pass of `CheckAndUpdateAllAPsToIdleState` leaves behind. -/
theorem CheckAndUpdateAllAPsToIdleState_spec (s : MP_SYSTEM_DATA) :
    CheckAndUpdateAllAPsToIdleState s =
        { s with CpuDatas := (CheckAndUpdateAllAPsToIdleState s).CpuDatas
                 FinishCount := s.FinishCount + HarvestCount s s.NumberOfProcessors }
    ∧ (CheckAndUpdateAllAPsToIdleState s).CpuDatas.length = s.CpuDatas.length
    ∧ ∀ j, (CheckAndUpdateAllAPsToIdleState s).Cpu j
        = HarvestedRecord s s.NumberOfProcessors j :=
  CheckAndUpdate_fold_spec s s.NumberOfProcessors

/-- After a pass of `CheckAndUpdateAllAPsToIdleState` no enabled application
processor is in state finished. -/
theorem CheckAndUpdateAllAPsToIdleState_none_finished (s : MP_SYSTEM_DATA) (i : Nat)
    (hi : i < s.NumberOfProcessors)
    (hen : IsEnabledAP ((CheckAndUpdateAllAPsToIdleState s).Cpu i) = true) :
    GetApState ((CheckAndUpdateAllAPsToIdleState s).Cpu i) ≠ CpuStateFinished := by
  obtain ⟨-, -, hcpu⟩ := CheckAndUpdateAllAPsToIdleState_spec s
  rw [hcpu i] at hen ⊢
  rw [IsEnabledAP_congr _ _ (HarvestedRecord_Info s _ i)] at hen
  unfold HarvestedRecord
  split_ifs with h1 h2
  · simp [GetApState, SetApState]
  · simp [GetApState, SetApState, SetApProcedure]
  · intro hf
    exact h1 ⟨hi, (IsHarvestable_iff _).2 ⟨hen, hf⟩⟩

/-- C30. Semantics of one pass of `CheckAndUpdateAllAPsToIdleState`, for every
registry `s`.  `FinishCount` grows by the number of registered enabled
application processors that were finished, and no other field of the session
changes.  Each of those records is set to idle and is otherwise unchanged.
When `SingleThread` is `FALSE` every other record is unchanged.  When
`SingleThread` is `TRUE`, the blocked application processors (state blocked,
`PROCESSOR_AS_BSP_BIT` clear) whose rank is below the number `H` of harvested
records, that is the `H` lowest-indexed ones, one for each harvested record,
are made ready with `Procedure` and `ProcedureArgument` of the session
installed, and every other record is unchanged.  A record that is idle after
the pass was idle before or was harvested: the BSP, a disabled processor and a
processor that is not finished are never reset.  When no record with
`PROCESSOR_AS_BSP_BIT` is blocked, the blocked application processors are the
blocked records. -/
theorem C30_harvesting_pass (s : MP_SYSTEM_DATA) :
    (CheckAndUpdateAllAPsToIdleState s).FinishCount
        = s.FinishCount + HarvestCount s s.NumberOfProcessors
    ∧ CheckAndUpdateAllAPsToIdleState s =
        { s with CpuDatas := (CheckAndUpdateAllAPsToIdleState s).CpuDatas
                 FinishCount := (CheckAndUpdateAllAPsToIdleState s).FinishCount }
    ∧ (∀ j, j < s.NumberOfProcessors → IsEnabledAP (s.Cpu j) = true →
        GetApState (s.Cpu j) = CpuStateFinished →
        (CheckAndUpdateAllAPsToIdleState s).Cpu j = SetApState (s.Cpu j) CpuStateIdle)
    ∧ (s.SingleThread = false →
        ∀ j, ¬ (j < s.NumberOfProcessors ∧ IsHarvestable (s.Cpu j) = true) →
          (CheckAndUpdateAllAPsToIdleState s).Cpu j = s.Cpu j)
    ∧ (s.SingleThread = true →
        ∀ j, ¬ (j < s.NumberOfProcessors ∧ IsHarvestable (s.Cpu j) = true) →
          (CheckAndUpdateAllAPsToIdleState s).Cpu j =
            if j < s.NumberOfProcessors ∧ IsBlockedAP (s.Cpu j) = true
                ∧ BlockedRank s j < HarvestCount s s.NumberOfProcessors then
              SetApProcedure (SetApState (s.Cpu j) CpuStateReady) s.Procedure
                s.ProcedureArgument
            else s.Cpu j)
    ∧ (∀ j, GetApState ((CheckAndUpdateAllAPsToIdleState s).Cpu j) = CpuStateIdle →
        GetApState (s.Cpu j) = CpuStateIdle
        ∨ (j < s.NumberOfProcessors ∧ IsEnabledAP (s.Cpu j) = true
            ∧ GetApState (s.Cpu j) = CpuStateFinished))
    ∧ ((∀ j, TestCpuStatusFlag (s.Cpu j) PROCESSOR_AS_BSP_BIT = true →
          GetApState (s.Cpu j) ≠ CpuStateBlocked) →
        ∀ j, IsBlockedAP (s.Cpu j) = true ↔ GetApState (s.Cpu j) = CpuStateBlocked) := by
  obtain ⟨hframe, -, hcpu⟩ := CheckAndUpdateAllAPsToIdleState_spec s
  have hF : (CheckAndUpdateAllAPsToIdleState s).FinishCount
      = s.FinishCount + HarvestCount s s.NumberOfProcessors := by rw [hframe]
  refine ⟨hF, ?_, ?_, ?_, ?_, ?_, ?_⟩
  · rw [hF]; exact hframe
  · intro j hj he hf
    rw [hcpu j]
    unfold HarvestedRecord
    rw [if_pos ⟨hj, (IsHarvestable_iff _).2 ⟨he, hf⟩⟩]
  · intro hst j hj
    rw [hcpu j]
    unfold HarvestedRecord
    rw [if_neg hj, if_neg]
    rintro ⟨h, -⟩
    rw [hst] at h
    exact absurd h Bool.false_ne_true
  · intro hst j hj
    rw [hcpu j]
    unfold HarvestedRecord
    rw [if_neg hj]
    simp only [hst, true_and]
  · intro j hidle
    rw [hcpu j] at hidle
    unfold HarvestedRecord at hidle
    split_ifs at hidle with h1 h2
    · exact Or.inr ⟨h1.1, (IsHarvestable_iff _).1 h1.2⟩
    · simp [GetApState, SetApState, SetApProcedure] at hidle
    · exact Or.inl hidle
  · intro hbsp j
    rw [IsBlockedAP_iff]
    constructor
    · exact fun h => h.2
    · intro h
      refine ⟨?_, h⟩
      by_contra hb
      exact hbsp j (by simpa using hb) h

/-- Witness of C30 on `Sys3Chain`: the pass harvests processor 1 and makes
processor 2, the lowest-indexed blocked one, ready with procedure `5` and
argument `9`. -/
theorem C30_harvesting_pass_witness :
    (CheckAndUpdateAllAPsToIdleState Sys3Chain).FinishCount = Sys3Chain.FinishCount + 1
    ∧ (CheckAndUpdateAllAPsToIdleState Sys3Chain).Cpu 1 = SetApState (Sys3Chain.Cpu 1) CpuStateIdle
    ∧ (CheckAndUpdateAllAPsToIdleState Sys3Chain).Cpu 2 =
        (if 2 < Sys3Chain.NumberOfProcessors ∧ IsBlockedAP (Sys3Chain.Cpu 2) = true
            ∧ BlockedRank Sys3Chain 2 < HarvestCount Sys3Chain Sys3Chain.NumberOfProcessors then
          SetApProcedure (SetApState (Sys3Chain.Cpu 2) CpuStateReady) Sys3Chain.Procedure
            Sys3Chain.ProcedureArgument
        else Sys3Chain.Cpu 2)
    ∧ GetApState ((CheckAndUpdateAllAPsToIdleState Sys3Chain).Cpu 2) = CpuStateReady
    ∧ ((CheckAndUpdateAllAPsToIdleState Sys3Chain).Cpu 2).Procedure = 5 :=
  ⟨(C30_harvesting_pass Sys3Chain).1,
    (C30_harvesting_pass Sys3Chain).2.2.1 1 (by decide) (by decide) (by decide),
    (C30_harvesting_pass Sys3Chain).2.2.2.2.1 (by decide) 2 (by decide),
    by decide, by decide⟩

/-- C25. Harvesting is idempotent: a pass of `CheckAndUpdateAllAPsToIdleState`
over a registry in which no registered enabled application processor is
finished changes nothing (no record, no counter); and for every registry, a
second pass right after a first one changes nothing more. -/
theorem C25_harvesting_idempotent (s : MP_SYSTEM_DATA) :
    ((∀ i, i < s.NumberOfProcessors → IsEnabledAP (s.Cpu i) = true →
        GetApState (s.Cpu i) ≠ CpuStateFinished) →
      CheckAndUpdateAllAPsToIdleState s = s)
    ∧ CheckAndUpdateAllAPsToIdleState (CheckAndUpdateAllAPsToIdleState s)
        = CheckAndUpdateAllAPsToIdleState s := by
  refine ⟨CheckAndUpdateAllAPsToIdleState_of_none_finished s, ?_⟩
  apply CheckAndUpdateAllAPsToIdleState_of_none_finished
  intro i hi hen
  have hN : (CheckAndUpdateAllAPsToIdleState s).NumberOfProcessors = s.NumberOfProcessors := by
    rw [(CheckAndUpdateAllAPsToIdleState_spec s).1]
  rw [hN] at hi
  exact CheckAndUpdateAllAPsToIdleState_none_finished s i hi hen

/-- Witness of C25: on `Sys3`, where both application processors are idle, a
pass changes nothing; on `Sys3Chain`, where processor 1 is finished, the
second pass changes nothing. -/
theorem C25_harvesting_idempotent_witness :
    CheckAndUpdateAllAPsToIdleState Sys3 = Sys3
    ∧ CheckAndUpdateAllAPsToIdleState (CheckAndUpdateAllAPsToIdleState Sys3Chain)
        = CheckAndUpdateAllAPsToIdleState Sys3Chain
    ∧ CheckAndUpdateAllAPsToIdleState Sys3Chain ≠ Sys3Chain :=
  ⟨(C25_harvesting_idempotent Sys3).1 (by decide),
    (C25_harvesting_idempotent Sys3Chain).2, by decide⟩

/-! ## The supervision callback of `StartupThisAP` -/

theorem WaitEvent_eta (c : CPU_DATA_BLOCK) (h : c.WaitEvent = 0) :
    { c with WaitEvent := 0 } = c := by
  cases c
  simp only at h
  simp [h]

/-- What the code after the label `out` of `CheckThisAPStatus` leaves behind,
for a record inside the table. -/
theorem CheckThisAPStatusOut_eq (k : Nat) (W : MpWorld) :
    CheckThisAPStatusOut k W =
      { W with
        mMpSystemData :=
          W.mMpSystemData.SetCpu k { W.mMpSystemData.Cpu k with WaitEvent := 0 }
        PeriodicTimers :=
          W.PeriodicTimers.filter (fun e => e != (W.mMpSystemData.Cpu k).CheckThisAPEvent)
        SignaledEvents :=
          (if (W.mMpSystemData.Cpu k).WaitEvent ≠ 0 then
            (W.mMpSystemData.Cpu k).WaitEvent :: W.SignaledEvents
          else W.SignaledEvents) } := by
  unfold CheckThisAPStatusOut
  by_cases hw : (W.mMpSystemData.Cpu k).WaitEvent ≠ 0
  · simp only [hw, ne_eq, not_false_eq_true, if_true]
  · simp only [hw, if_false]
    rw [WaitEvent_eta _ (not_not.1 hw), SetCpu_Cpu_self]

/-- The three ways a notification of the timer of `StartupThisAP` can go, for
a record inside the table: the record is finished; it is not and its active
deadline is exhausted; neither. -/
theorem CheckThisAPStatus_cases (w k : Nat) (W : MpWorld)
    (hk : k < W.mMpSystemData.CpuDatas.length) :
    (GetApState (W.mMpSystemData.Cpu k) = CpuStateFinished →
      CheckThisAPStatus w k W =
        { W with
          mMpSystemData :=
            W.mMpSystemData.SetCpu k
              { W.mMpSystemData.Cpu k with
                Timeout :=
                  (if (W.mMpSystemData.Cpu k).TimeoutActive then
                    ToINTN w ((W.mMpSystemData.Cpu k).Timeout - gPollInterval)
                  else (W.mMpSystemData.Cpu k).Timeout)
                State := CpuStateIdle
                WaitEvent := 0 }
          FinishedMem :=
            (if (W.mMpSystemData.Cpu k).Finished ≠ 0 then
              MemWrite W.FinishedMem (W.mMpSystemData.Cpu k).Finished true
            else W.FinishedMem)
          PeriodicTimers :=
            W.PeriodicTimers.filter (fun e => e != (W.mMpSystemData.Cpu k).CheckThisAPEvent)
          SignaledEvents :=
            (if (W.mMpSystemData.Cpu k).WaitEvent ≠ 0 then
              (W.mMpSystemData.Cpu k).WaitEvent :: W.SignaledEvents
            else W.SignaledEvents) })
    ∧ (GetApState (W.mMpSystemData.Cpu k) ≠ CpuStateFinished →
        (W.mMpSystemData.Cpu k).TimeoutActive = true →
        ToINTN w ((W.mMpSystemData.Cpu k).Timeout - gPollInterval) < 0 →
      CheckThisAPStatus w k W =
        { W with
          mMpSystemData :=
            W.mMpSystemData.SetCpu k
              { W.mMpSystemData.Cpu k with
                Timeout := ToINTN w ((W.mMpSystemData.Cpu k).Timeout - gPollInterval)
                WaitEvent := 0 }
          FinishedMem :=
            (if GetApState (W.mMpSystemData.Cpu k) ≠ CpuStateIdle
                ∧ (W.mMpSystemData.Cpu k).Finished ≠ 0 then
              MemWrite W.FinishedMem (W.mMpSystemData.Cpu k).Finished false
            else W.FinishedMem)
          PeriodicTimers :=
            W.PeriodicTimers.filter (fun e => e != (W.mMpSystemData.Cpu k).CheckThisAPEvent)
          SignaledEvents :=
            (if (W.mMpSystemData.Cpu k).WaitEvent ≠ 0 then
              (W.mMpSystemData.Cpu k).WaitEvent :: W.SignaledEvents
            else W.SignaledEvents) })
    ∧ (GetApState (W.mMpSystemData.Cpu k) ≠ CpuStateFinished →
        ¬ ((W.mMpSystemData.Cpu k).TimeoutActive = true
          ∧ ToINTN w ((W.mMpSystemData.Cpu k).Timeout - gPollInterval) < 0) →
      CheckThisAPStatus w k W =
        { W with
          mMpSystemData :=
            W.mMpSystemData.SetCpu k
              { W.mMpSystemData.Cpu k with
                Timeout :=
                  (if (W.mMpSystemData.Cpu k).TimeoutActive then
                    ToINTN w ((W.mMpSystemData.Cpu k).Timeout - gPollInterval)
                  else (W.mMpSystemData.Cpu k).Timeout) } }) := by
  unfold CheckThisAPStatus
  simp only [CheckThisAPStatusOut_eq, GetApState, SetApState, ResetProcessorToIdleState]
  generalize W.mMpSystemData.Cpu k = c
  obtain ⟨info, proc, par, st, ev, tmo, ta, we, fin⟩ := c
  simp only
  refine ⟨fun hfin => ?_, fun hnf hta hneg => ?_, fun hnf hno => ?_⟩
  · subst hfin
    cases ta <;> by_cases hF : fin = 0 <;>
      simp [hF, Cpu_SetCpu, length_SetCpu, hk, SetCpu_SetCpu]
  · subst hta
    simp only [if_true, hnf, if_false, Bool.true_and, decide_eq_true_eq, hneg]
    by_cases hF : st ≠ CpuStateIdle ∧ fin ≠ 0
    · simp [hF, Cpu_SetCpu, length_SetCpu, hk, SetCpu_SetCpu]
    · simp [hF, Cpu_SetCpu, length_SetCpu, hk, SetCpu_SetCpu]
  · cases ta
    · simp [hnf]
    · simp only [true_and] at hno
      simp [hnf, hno]

/-- A self-transition of an application processor keeps the size of the table
and, in every record, the fields of the deadline and of the completion sink. -/
theorem ApSelfTransition_sink (s : MP_SYSTEM_DATA) (e : ApEvent) (j : Nat) :
    (ApSelfTransition s e).CpuDatas.length = s.CpuDatas.length
    ∧ ((ApSelfTransition s e).Cpu j).CheckThisAPEvent = (s.Cpu j).CheckThisAPEvent
    ∧ ((ApSelfTransition s e).Cpu j).WaitEvent = (s.Cpu j).WaitEvent
    ∧ ((ApSelfTransition s e).Cpu j).Finished = (s.Cpu j).Finished
    ∧ ((ApSelfTransition s e).Cpu j).Timeout = (s.Cpu j).Timeout
    ∧ ((ApSelfTransition s e).Cpu j).TimeoutActive = (s.Cpu j).TimeoutActive := by
  cases e with
  | Begin n =>
    simp only [ApSelfTransition]
    split_ifs with h
    · rw [length_SetCpu, Cpu_SetCpu]
      split_ifs with h2
      · obtain ⟨h3, -⟩ := h2
        subst h3
        exact ⟨rfl, rfl, rfl, rfl, rfl, rfl⟩
      · exact ⟨rfl, rfl, rfl, rfl, rfl, rfl⟩
    · exact ⟨rfl, rfl, rfl, rfl, rfl, rfl⟩
  | Return n =>
    simp only [ApSelfTransition]
    split_ifs with h
    · rw [length_SetCpu, Cpu_SetCpu]
      split_ifs with h2
      · obtain ⟨h3, -⟩ := h2
        subst h3
        exact ⟨rfl, rfl, rfl, rfl, rfl, rfl⟩
      · exact ⟨rfl, rfl, rfl, rfl, rfl, rfl⟩
    · exact ⟨rfl, rfl, rfl, rfl, rfl, rfl⟩

theorem RunAps_sink (s : MP_SYSTEM_DATA) (Events : List ApEvent) (j : Nat) :
    (RunAps s Events).CpuDatas.length = s.CpuDatas.length
    ∧ ((RunAps s Events).Cpu j).CheckThisAPEvent = (s.Cpu j).CheckThisAPEvent
    ∧ ((RunAps s Events).Cpu j).WaitEvent = (s.Cpu j).WaitEvent
    ∧ ((RunAps s Events).Cpu j).Finished = (s.Cpu j).Finished
    ∧ ((RunAps s Events).Cpu j).Timeout = (s.Cpu j).Timeout
    ∧ ((RunAps s Events).Cpu j).TimeoutActive = (s.Cpu j).TimeoutActive := by
  unfold RunAps
  induction Events generalizing s with
  | nil => exact ⟨rfl, rfl, rfl, rfl, rfl, rfl⟩
  | cons e rest ih =>
    rw [List.foldl_cons]
    obtain ⟨a1, a2, a3, a4, a5, a6⟩ := ih (ApSelfTransition s e)
    obtain ⟨b1, b2, b3, b4, b5, b6⟩ := ApSelfTransition_sink s e j
    exact ⟨a1.trans b1, a2.trans b2, a3.trans b3, a4.trans b4, a5.trans b5, a6.trans b6⟩

/-- A non-blocking `StartupThisAP` that returns `EFI_SUCCESS` passed every
check: the state it returns is the dispatch of lines 852-859 with the timer of
the target set. -/
theorem StartupThisAP_nonblocking_success (w ApicId Procedure k : Nat)
    (WaitEvent T A Finished : Nat) (Schedule : List (List ApEvent)) (W W0 : MpWorld)
    (hWait : WaitEvent ≠ 0)
    (hcall : StartupThisAP w ApicId Procedure k WaitEvent T A Finished Schedule W
      = some (EFI_SUCCESS, W0)) :
    k < W.mMpSystemData.CpuDatas.length
    ∧ GetApState (W.mMpSystemData.Cpu k) = CpuStateIdle
    ∧ W0.mMpSystemData = StartupThisAPDispatch w W.mMpSystemData Procedure k WaitEvent T A
        Finished
    ∧ W0.FinishedMem =
        (if Finished ≠ 0 then MemWrite W.FinishedMem Finished false else W.FinishedMem)
    ∧ W0.PeriodicTimers = (W.mMpSystemData.Cpu k).CheckThisAPEvent :: W.PeriodicTimers
    ∧ W0.SignaledEvents = W.SignaledEvents
    ∧ W0.FailedCpuListMem = W.FailedCpuListMem := by
  by_cases hv : IsBSP W.mMpSystemData ApicId = true ∧ Procedure ≠ 0
      ∧ k < W.mMpSystemData.NumberOfProcessors
      ∧ IsEnabledAP (W.mMpSystemData.Cpu k) = true
      ∧ GetApState (W.mMpSystemData.Cpu k) = CpuStateIdle
  · obtain ⟨hBsp, hProc, hlt, hEn, hIdle⟩ := hv
    have hklen := lt_length_of_IsEnabledAP _ _ hEn
    obtain ⟨W1, hc, hmp, hfm, hfl, htm, hsg⟩ := StartupThisAP_of_valid w ApicId Procedure k
      WaitEvent T A Finished Schedule W hBsp hProc hlt hEn hIdle
    rw [hc, if_pos hWait] at hcall
    simp only [Option.some.injEq, Prod.mk.injEq, true_and] at hcall
    subst hcall
    obtain ⟨dk, -, -, -⟩ := StartupThisAPDispatch_spec w W.mMpSystemData Procedure k
      WaitEvent T A Finished hklen
    refine ⟨hklen, hIdle, hmp, hfm, ?_, hsg, hfl⟩
    simp only
    rw [hmp, dk, htm]
  · obtain ⟨st, V, hc, h1, -⟩ := StartupThisAP_rejected w ApicId Procedure k
      WaitEvent T A Finished Schedule W hv
    rw [hc] at hcall
    simp only [Option.some.injEq, Prod.mk.injEq] at hcall
    exact absurd hcall.1 h1

/-- What a notification of the timer of `StartupThisAP` does to the record, to
the caller's flag, to the timer and to the events, in each of its three
cases. -/
theorem CheckThisAPStatus_tick (w k : Nat) (V : MpWorld) (d : Bool)
    (hk : k < V.mMpSystemData.CpuDatas.length) :
    (CheckThisAPStatus w k V).mMpSystemData.CpuDatas.length = V.mMpSystemData.CpuDatas.length
    ∧ ((CheckThisAPStatus w k V).mMpSystemData.Cpu k).CheckThisAPEvent
        = (V.mMpSystemData.Cpu k).CheckThisAPEvent
    ∧ ((CheckThisAPStatus w k V).mMpSystemData.Cpu k).Finished
        = (V.mMpSystemData.Cpu k).Finished
    ∧ (GetApState (V.mMpSystemData.Cpu k) = CpuStateFinished →
        GetApState ((CheckThisAPStatus w k V).mMpSystemData.Cpu k) = CpuStateIdle
        ∧ ((CheckThisAPStatus w k V).mMpSystemData.Cpu k).WaitEvent = 0
        ∧ (V.mMpSystemData.Cpu k).CheckThisAPEvent ∉ (CheckThisAPStatus w k V).PeriodicTimers
        ∧ (CheckThisAPStatus w k V).SignaledEvents =
            (if (V.mMpSystemData.Cpu k).WaitEvent ≠ 0 then
              (V.mMpSystemData.Cpu k).WaitEvent :: V.SignaledEvents
            else V.SignaledEvents)
        ∧ ((V.mMpSystemData.Cpu k).Finished ≠ 0 →
            MemRead (CheckThisAPStatus w k V).FinishedMem (V.mMpSystemData.Cpu k).Finished d
              = true))
    ∧ (GetApState (V.mMpSystemData.Cpu k) ≠ CpuStateFinished →
        (V.mMpSystemData.Cpu k).TimeoutActive = true →
        ToINTN w ((V.mMpSystemData.Cpu k).Timeout - gPollInterval) < 0 →
        GetApState ((CheckThisAPStatus w k V).mMpSystemData.Cpu k)
            = GetApState (V.mMpSystemData.Cpu k)
        ∧ ((CheckThisAPStatus w k V).mMpSystemData.Cpu k).WaitEvent = 0
        ∧ (V.mMpSystemData.Cpu k).CheckThisAPEvent ∉ (CheckThisAPStatus w k V).PeriodicTimers
        ∧ (CheckThisAPStatus w k V).SignaledEvents =
            (if (V.mMpSystemData.Cpu k).WaitEvent ≠ 0 then
              (V.mMpSystemData.Cpu k).WaitEvent :: V.SignaledEvents
            else V.SignaledEvents)
        ∧ ((V.mMpSystemData.Cpu k).Finished ≠ 0 →
            MemRead (CheckThisAPStatus w k V).FinishedMem (V.mMpSystemData.Cpu k).Finished d
              = (if GetApState (V.mMpSystemData.Cpu k) ≠ CpuStateIdle then false
                 else MemRead V.FinishedMem (V.mMpSystemData.Cpu k).Finished d)))
    ∧ (GetApState (V.mMpSystemData.Cpu k) ≠ CpuStateFinished →
        ¬ ((V.mMpSystemData.Cpu k).TimeoutActive = true
          ∧ ToINTN w ((V.mMpSystemData.Cpu k).Timeout - gPollInterval) < 0) →
        CheckThisAPStatus w k V =
          { V with
            mMpSystemData :=
              V.mMpSystemData.SetCpu k
                { V.mMpSystemData.Cpu k with
                  Timeout :=
                    (if (V.mMpSystemData.Cpu k).TimeoutActive then
                      ToINTN w ((V.mMpSystemData.Cpu k).Timeout - gPollInterval)
                    else (V.mMpSystemData.Cpu k).Timeout) } }) := by
  obtain ⟨c1, c2, c3⟩ := CheckThisAPStatus_cases w k V hk
  have hfilter : ∀ (l : List Nat) (e : Nat), e ∉ l.filter (fun x => x != e) := by
    intro l e h
    simp [List.mem_filter] at h
  by_cases hfin : GetApState (V.mMpSystemData.Cpu k) = CpuStateFinished
  · rw [c1 hfin]
    simp only [length_SetCpu, Cpu_SetCpu_self _ _ _ hk]
    refine ⟨trivial, trivial, trivial, fun _ => ⟨rfl, trivial, hfilter _ _, trivial, ?_⟩,
      fun h => absurd hfin h, fun h => absurd hfin h⟩
    intro hF
    rw [if_pos hF, MemRead_MemWrite]
  · by_cases hto : (V.mMpSystemData.Cpu k).TimeoutActive = true
        ∧ ToINTN w ((V.mMpSystemData.Cpu k).Timeout - gPollInterval) < 0
    · rw [c2 hfin hto.1 hto.2]
      simp only [length_SetCpu, Cpu_SetCpu_self _ _ _ hk]
      refine ⟨trivial, trivial, trivial, fun h => absurd h hfin,
        fun _ _ _ => ⟨rfl, trivial, hfilter _ _, trivial, ?_⟩, fun _ h => absurd hto h⟩
      intro hF
      by_cases hidle : GetApState (V.mMpSystemData.Cpu k) = CpuStateIdle
      · simp [hidle]
      · simp [hidle, hF, MemRead_MemWrite]
    · rw [c3 hfin hto]
      simp only [length_SetCpu, Cpu_SetCpu_self _ _ _ hk]
      exact ⟨trivial, trivial, trivial, fun h => absurd h hfin, fun _ h1 h2 => absurd ⟨h1, h2⟩ hto,
        fun _ _ => trivial⟩

/-- While the timer of a non-blocking `StartupThisAP` is set, the wait event
has not been signalled, the record still names it and the caller's flag reads
`FALSE`; once the timer is cancelled the wait event has been signalled once
and the record names no wait event. -/
theorem ThisAPRun_inv (w k : Nat) (W0 V : MpWorld) (E F ev : Nat) (Sig : List Nat)
    (hE : E ≠ 0)
    (hk0 : k < W0.mMpSystemData.CpuDatas.length)
    (hev0 : (W0.mMpSystemData.Cpu k).CheckThisAPEvent = ev)
    (hF0 : (W0.mMpSystemData.Cpu k).Finished = F)
    (hE0 : (W0.mMpSystemData.Cpu k).WaitEvent = E)
    (hS0 : W0.SignaledEvents = Sig)
    (hM0 : F ≠ 0 → MemRead W0.FinishedMem F true = false)
    (hA0 : ev ∈ W0.PeriodicTimers)
    (hrun : ThisAPRun w k W0 V) :
    k < V.mMpSystemData.CpuDatas.length
    ∧ (V.mMpSystemData.Cpu k).CheckThisAPEvent = ev
    ∧ (V.mMpSystemData.Cpu k).Finished = F
    ∧ (ev ∈ V.PeriodicTimers →
        (V.mMpSystemData.Cpu k).WaitEvent = E ∧ V.SignaledEvents = Sig
        ∧ (F ≠ 0 → MemRead V.FinishedMem F true = false))
    ∧ (ev ∉ V.PeriodicTimers →
        (V.mMpSystemData.Cpu k).WaitEvent = 0 ∧ V.SignaledEvents = E :: Sig) := by
  induction hrun with
  | start => exact ⟨hk0, hev0, hF0, fun _ => ⟨hE0, hS0, hM0⟩, fun h => absurd hA0 h⟩
  | tick U _ harmed ih =>
    obtain ⟨hk, hev, hF, hin, -⟩ := ih
    rw [hev] at harmed
    obtain ⟨hw, hs, hm⟩ := hin harmed
    obtain ⟨t1, t2, t3, tfin, tto, tno⟩ := CheckThisAPStatus_tick w k U true hk
    refine ⟨by rw [t1]; exact hk, by rw [t2]; exact hev, by rw [t3]; exact hF, ?_, ?_⟩
    · intro hmem
      by_cases hfin : GetApState (U.mMpSystemData.Cpu k) = CpuStateFinished
      · obtain ⟨-, -, hno, -⟩ := tfin hfin
        rw [hev] at hno
        exact absurd hmem hno
      · by_cases hto : (U.mMpSystemData.Cpu k).TimeoutActive = true
            ∧ ToINTN w ((U.mMpSystemData.Cpu k).Timeout - gPollInterval) < 0
        · obtain ⟨-, -, hno, -⟩ := tto hfin hto.1 hto.2
          rw [hev] at hno
          exact absurd hmem hno
        · rw [tno hfin hto]
          simp only [Cpu_SetCpu_self _ _ _ hk]
          exact ⟨hw, hs, hm⟩
    · intro hnot
      by_cases hfin : GetApState (U.mMpSystemData.Cpu k) = CpuStateFinished
      · obtain ⟨-, h2, -, h4, -⟩ := tfin hfin
        rw [hw, if_pos hE, hs] at h4
        exact ⟨h2, h4⟩
      · by_cases hto : (U.mMpSystemData.Cpu k).TimeoutActive = true
            ∧ ToINTN w ((U.mMpSystemData.Cpu k).Timeout - gPollInterval) < 0
        · obtain ⟨-, h2, -, h4, -⟩ := tto hfin hto.1 hto.2
          rw [hw, if_pos hE, hs] at h4
          exact ⟨h2, h4⟩
        · rw [tno hfin hto] at hnot
          exact absurd harmed hnot
  | selfTransition U e _ ih =>
    obtain ⟨hk, hev, hF, hin, hout⟩ := ih
    obtain ⟨a1, a2, a3, a4, -, -⟩ := ApSelfTransition_sink U.mMpSystemData e k
    simp only [a1, a2, a3, a4]
    exact ⟨hk, hev, hF, hin, hout⟩

/-- C27. The finished flag of a non-blocking `StartupThisAP`.  The BSP calls
`StartupThisAP` on the record at `k` with a wait event and a `Finished`
pointer, both not null, and the call returns `EFI_SUCCESS` in state `W0`; `V`
is reached from `W0` by notifications of the timer of the record (while it is
set) and self-transitions of the application processors.
(1) In `W0` the flag reads `FALSE`, the timer is set and nothing has been
signalled.
(2) While the timer is set in `V`, the flag reads `FALSE`, the wait event has
not been signalled and the record names it; and the next notification
(a) when the record is finished, sets the flag to `TRUE` and the record to
idle, signals the wait event, clears `WaitEvent` and cancels the timer;
(b) when the record is not finished and its active deadline is exhausted,
leaves the flag `FALSE`, signals the wait event, clears `WaitEvent` and
cancels the timer;
(c) otherwise changes nothing but `Timeout` of the record.
(3) Once the timer is cancelled the wait event has been signalled exactly once
more than before the call and the record names no wait event. -/
theorem C27_nonblocking_finished_flag (w ApicId Procedure k : Nat)
    (WaitEvent T A Finished : Nat) (Schedule : List (List ApEvent)) (W W0 V : MpWorld)
    (hWait : WaitEvent ≠ 0) (hFin : Finished ≠ 0)
    (hcall : StartupThisAP w ApicId Procedure k WaitEvent T A Finished Schedule W
      = some (EFI_SUCCESS, W0))
    (hrun : ThisAPRun w k W0 V) :
    (MemRead W0.FinishedMem Finished true = false
      ∧ (W0.mMpSystemData.Cpu k).CheckThisAPEvent ∈ W0.PeriodicTimers
      ∧ W0.SignaledEvents = W.SignaledEvents)
    ∧ ((V.mMpSystemData.Cpu k).CheckThisAPEvent ∈ V.PeriodicTimers →
        MemRead V.FinishedMem Finished true = false
        ∧ V.SignaledEvents = W.SignaledEvents
        ∧ (V.mMpSystemData.Cpu k).WaitEvent = WaitEvent
        ∧ (GetApState (V.mMpSystemData.Cpu k) = CpuStateFinished →
            MemRead (CheckThisAPStatus w k V).FinishedMem Finished false = true
            ∧ GetApState ((CheckThisAPStatus w k V).mMpSystemData.Cpu k) = CpuStateIdle
            ∧ (CheckThisAPStatus w k V).SignaledEvents = WaitEvent :: W.SignaledEvents
            ∧ ((CheckThisAPStatus w k V).mMpSystemData.Cpu k).WaitEvent = 0
            ∧ ((CheckThisAPStatus w k V).mMpSystemData.Cpu k).CheckThisAPEvent
                ∉ (CheckThisAPStatus w k V).PeriodicTimers)
        ∧ (GetApState (V.mMpSystemData.Cpu k) ≠ CpuStateFinished →
            (V.mMpSystemData.Cpu k).TimeoutActive = true →
            ToINTN w ((V.mMpSystemData.Cpu k).Timeout - gPollInterval) < 0 →
            MemRead (CheckThisAPStatus w k V).FinishedMem Finished true = false
            ∧ (CheckThisAPStatus w k V).SignaledEvents = WaitEvent :: W.SignaledEvents
            ∧ ((CheckThisAPStatus w k V).mMpSystemData.Cpu k).WaitEvent = 0
            ∧ ((CheckThisAPStatus w k V).mMpSystemData.Cpu k).CheckThisAPEvent
                ∉ (CheckThisAPStatus w k V).PeriodicTimers)
        ∧ (GetApState (V.mMpSystemData.Cpu k) ≠ CpuStateFinished →
            ¬ ((V.mMpSystemData.Cpu k).TimeoutActive = true
              ∧ ToINTN w ((V.mMpSystemData.Cpu k).Timeout - gPollInterval) < 0) →
            CheckThisAPStatus w k V =
              { V with
                mMpSystemData :=
                  V.mMpSystemData.SetCpu k
                    { V.mMpSystemData.Cpu k with
                      Timeout :=
                        (if (V.mMpSystemData.Cpu k).TimeoutActive then
                          ToINTN w ((V.mMpSystemData.Cpu k).Timeout - gPollInterval)
                        else (V.mMpSystemData.Cpu k).Timeout) } }))
    ∧ ((V.mMpSystemData.Cpu k).CheckThisAPEvent ∉ V.PeriodicTimers →
        V.SignaledEvents = WaitEvent :: W.SignaledEvents
        ∧ (V.mMpSystemData.Cpu k).WaitEvent = 0)
    ∧ V.SignaledEvents.count WaitEvent ≤ W.SignaledEvents.count WaitEvent + 1 := by
  obtain ⟨hklen, -, hmp, hfm, htm, hsg, -⟩ := StartupThisAP_nonblocking_success w ApicId
    Procedure k WaitEvent T A Finished Schedule W W0 hWait hcall
  obtain ⟨dk, -, -, dlen⟩ := StartupThisAPDispatch_spec w W.mMpSystemData Procedure k
    WaitEvent T A Finished hklen
  rw [← hmp] at dk dlen
  have hk0 : k < W0.mMpSystemData.CpuDatas.length := by rw [dlen]; exact hklen
  have hev0 : (W0.mMpSystemData.Cpu k).CheckThisAPEvent
      = (W.mMpSystemData.Cpu k).CheckThisAPEvent := by rw [dk]
  have hF0 : (W0.mMpSystemData.Cpu k).Finished = Finished := by rw [dk]
  have hE0 : (W0.mMpSystemData.Cpu k).WaitEvent = WaitEvent := by rw [dk]
  have hM0 : MemRead W0.FinishedMem Finished true = false := by
    rw [hfm, if_pos hFin, MemRead_MemWrite]
  have hA0 : (W.mMpSystemData.Cpu k).CheckThisAPEvent ∈ W0.PeriodicTimers := by
    rw [htm]; exact List.mem_cons_self _ _
  obtain ⟨hk, hev, hF, hin, hout⟩ := ThisAPRun_inv w k W0 V WaitEvent Finished
    (W.mMpSystemData.Cpu k).CheckThisAPEvent W.SignaledEvents hWait hk0 hev0 hF0 hE0 hsg
    (fun _ => hM0) hA0 hrun
  obtain ⟨t1, t2, t3, tfin, tto, tno⟩ := CheckThisAPStatus_tick w k V true hk
  obtain ⟨-, -, -, tfin', -, -⟩ := CheckThisAPStatus_tick w k V false hk
  refine ⟨⟨hM0, by rw [hev0]; exact hA0, hsg⟩, ?_, ?_, ?_⟩
  · intro harmed
    rw [hev] at harmed
    obtain ⟨hw, hs, hm⟩ := hin harmed
    refine ⟨hm hFin, hs, hw, ?_, ?_, tno⟩
    · intro hfin
      obtain ⟨a1, a2, a3, a4, a5⟩ := tfin' hfin
      rw [hw, if_pos hWait, hs] at a4
      rw [hF] at a5
      exact ⟨a5 hFin, a1, a4, a2, by rw [t2]; exact a3⟩
    · intro hnf hta hneg
      obtain ⟨a1, a2, a3, a4, a5⟩ := tto hnf hta hneg
      rw [hw, if_pos hWait, hs] at a4
      rw [hF] at a5
      refine ⟨?_, a4, a2, by rw [t2]; exact a3⟩
      rw [a5 hFin]
      split_ifs
      · rfl
      · exact hm hFin
  · intro hnot
    rw [hev] at hnot
    obtain ⟨a, b⟩ := hout hnot
    exact ⟨b, a⟩
  · by_cases harmed : (W.mMpSystemData.Cpu k).CheckThisAPEvent ∈ V.PeriodicTimers
    · rw [(hin harmed).2.1]
      omega
    · rw [(hout harmed).2, List.count_cons_self]

/-- Witness of C27 on `Sys3ThisAPPending`: processor 1 begins and returns its
procedure; the next notification sets the flag at address `77` to `TRUE`, the
record to idle and signals the wait event `8`. -/
theorem C27_nonblocking_finished_flag_witness :
    MemRead (CheckThisAPStatus 64 1
        { Sys3ThisAPPending with mMpSystemData :=
            (ApSelfTransition (ApSelfTransition Sys3ThisAPPending.mMpSystemData
              (ApEvent.Begin 1)) (ApEvent.Return 1)) }).FinishedMem 77 false = true
    ∧ GetApState ((CheckThisAPStatus 64 1
        { Sys3ThisAPPending with mMpSystemData :=
            (ApSelfTransition (ApSelfTransition Sys3ThisAPPending.mMpSystemData
              (ApEvent.Begin 1)) (ApEvent.Return 1)) }).mMpSystemData.Cpu 1) = CpuStateIdle
    ∧ (CheckThisAPStatus 64 1
        { Sys3ThisAPPending with mMpSystemData :=
            (ApSelfTransition (ApSelfTransition Sys3ThisAPPending.mMpSystemData
              (ApEvent.Begin 1)) (ApEvent.Return 1)) }).SignaledEvents
        = 8 :: (MkWorld (BringUp 3 0 [1, 2])).SignaledEvents
    ∧ ((CheckThisAPStatus 64 1
        { Sys3ThisAPPending with mMpSystemData :=
            (ApSelfTransition (ApSelfTransition Sys3ThisAPPending.mMpSystemData
              (ApEvent.Begin 1)) (ApEvent.Return 1)) }).mMpSystemData.Cpu 1).WaitEvent = 0
    ∧ ((CheckThisAPStatus 64 1
        { Sys3ThisAPPending with mMpSystemData :=
            (ApSelfTransition (ApSelfTransition Sys3ThisAPPending.mMpSystemData
              (ApEvent.Begin 1)) (ApEvent.Return 1)) }).mMpSystemData.Cpu 1).CheckThisAPEvent
        ∉ (CheckThisAPStatus 64 1
        { Sys3ThisAPPending with mMpSystemData :=
            (ApSelfTransition (ApSelfTransition Sys3ThisAPPending.mMpSystemData
              (ApEvent.Begin 1)) (ApEvent.Return 1)) }).PeriodicTimers :=
  ((C27_nonblocking_finished_flag 64 0 5 1 8 250 9 77 [] (MkWorld (BringUp 3 0 [1, 2]))
      Sys3ThisAPPending _ (by decide) (by decide) rfl
      (ThisAPRun.selfTransition _ (ApEvent.Return 1)
        (ThisAPRun.selfTransition _ (ApEvent.Begin 1) ThisAPRun.start))).2.1
    (by decide)).2.2.2.1 (by decide)

theorem SetCpu_comm (s : MP_SYSTEM_DATA) (i j : Nat) (a b : CPU_DATA_BLOCK) (h : i ≠ j) :
    (s.SetCpu i a).SetCpu j b = (s.SetCpu j b).SetCpu i a := by
  unfold MP_SYSTEM_DATA.SetCpu
  simp only [List.set_comm a b s.CpuDatas h]

/-- A self-transition of an application processor does not read `WaitEvent`:
it commutes with clearing the `WaitEvent` of the record at `k`. -/
theorem ApSelfTransition_clearWait (s : MP_SYSTEM_DATA) (k : Nat) (e : ApEvent)
    (hk : k < s.CpuDatas.length) :
    ApSelfTransition (s.SetCpu k { s.Cpu k with WaitEvent := 0 }) e
      = (ApSelfTransition s e).SetCpu k { (ApSelfTransition s e).Cpu k with WaitEvent := 0 } := by
  have hN : ∀ c, (s.SetCpu k c).NumberOfProcessors = s.NumberOfProcessors := fun _ => rfl
  cases e with
  | Begin n =>
    simp only [ApSelfTransition, hN]
    by_cases hnk : n = k
    · subst hnk
      rw [Cpu_SetCpu_self _ _ _ hk]
      by_cases hc : n < s.NumberOfProcessors
          ∧ TestCpuStatusFlag (s.Cpu n) PROCESSOR_AS_BSP_BIT = false
          ∧ GetApState (s.Cpu n) = CpuStateReady
      · rw [if_pos hc, if_pos (by exact hc), SetCpu_SetCpu, Cpu_SetCpu_self _ _ _ hk,
          SetCpu_SetCpu]
        rfl
      · rw [if_neg hc, if_neg (by exact hc)]
    · rw [Cpu_SetCpu_of_ne _ _ _ _ (Ne.symm hnk)]
      by_cases hc : n < s.NumberOfProcessors
          ∧ TestCpuStatusFlag (s.Cpu n) PROCESSOR_AS_BSP_BIT = false
          ∧ GetApState (s.Cpu n) = CpuStateReady
      · simp only [if_pos hc]
        rw [Cpu_SetCpu_of_ne _ _ _ _ hnk, SetCpu_comm _ _ _ _ _ (Ne.symm hnk)]
      · simp only [if_neg hc]
  | Return n =>
    simp only [ApSelfTransition, hN]
    by_cases hnk : n = k
    · subst hnk
      rw [Cpu_SetCpu_self _ _ _ hk]
      by_cases hc : n < s.NumberOfProcessors
          ∧ TestCpuStatusFlag (s.Cpu n) PROCESSOR_AS_BSP_BIT = false
          ∧ GetApState (s.Cpu n) = CpuStateBuzy
      · rw [if_pos hc, if_pos (by exact hc), SetCpu_SetCpu, Cpu_SetCpu_self _ _ _ hk,
          SetCpu_SetCpu]
        rfl
      · rw [if_neg hc, if_neg (by exact hc)]
    · rw [Cpu_SetCpu_of_ne _ _ _ _ (Ne.symm hnk)]
      by_cases hc : n < s.NumberOfProcessors
          ∧ TestCpuStatusFlag (s.Cpu n) PROCESSOR_AS_BSP_BIT = false
          ∧ GetApState (s.Cpu n) = CpuStateBuzy
      · simp only [if_pos hc]
        rw [Cpu_SetCpu_of_ne _ _ _ _ hnk, SetCpu_comm _ _ _ _ _ (Ne.symm hnk)]
      · simp only [if_neg hc]

theorem RunAps_clearWait (s : MP_SYSTEM_DATA) (k : Nat) (Events : List ApEvent)
    (hk : k < s.CpuDatas.length) :
    RunAps (s.SetCpu k { s.Cpu k with WaitEvent := 0 }) Events
      = (RunAps s Events).SetCpu k { (RunAps s Events).Cpu k with WaitEvent := 0 } := by
  unfold RunAps
  induction Events generalizing s with
  | nil => rfl
  | cons e rest ih =>
    rw [List.foldl_cons, List.foldl_cons, ApSelfTransition_clearWait s k e hk]
    exact ih _ (by rw [(ApSelfTransition_sink s e k).1]; exact hk)

/-- The three ways a turn of the `while (TRUE)` loop of `StartupThisAP` can
go. -/
theorem StartupThisAPPass_cases (k : Nat) (W : MpWorld) :
    (GetApState (W.mMpSystemData.Cpu k) = CpuStateFinished →
      StartupThisAPPass k W = Sum.inl (EFI_SUCCESS,
        { W with mMpSystemData :=
            W.mMpSystemData.SetCpu k (SetApState (W.mMpSystemData.Cpu k) CpuStateIdle) }))
    ∧ (GetApState (W.mMpSystemData.Cpu k) ≠ CpuStateFinished →
        (W.mMpSystemData.Cpu k).TimeoutActive = true →
        (W.mMpSystemData.Cpu k).Timeout < 0 →
        StartupThisAPPass k W = Sum.inl (EFI_TIMEOUT, W))
    ∧ (GetApState (W.mMpSystemData.Cpu k) ≠ CpuStateFinished →
        ¬ ((W.mMpSystemData.Cpu k).TimeoutActive = true
          ∧ (W.mMpSystemData.Cpu k).Timeout < 0) →
        StartupThisAPPass k W = Sum.inr W) := by
  refine ⟨fun hfin => ?_, fun hnf hta hneg => ?_, fun hnf hno => ?_⟩
  · simp only [StartupThisAPPass, hfin, if_true]
  · simp only [StartupThisAPPass, hnf, if_false, hta, Bool.true_and, decide_eq_true_eq, hneg,
      if_true, ResetProcessorToIdleState, SetCpu_Cpu_self]
  · simp only [StartupThisAPPass, hnf, if_false]
    rw [if_neg]
    simpa using hno

theorem StartupThisAPWait_of_inl (w k : Nat) (Schedule : List (List ApEvent)) (W : MpWorld)
    (r : EFI_STATUS × MpWorld) (h : StartupThisAPPass k W = Sum.inl r) :
    StartupThisAPWait w k Schedule W = some r := by
  cases Schedule <;> simp only [StartupThisAPWait, h]

theorem StartupThisAPWait_of_inr (w k : Nat) (Events : List ApEvent)
    (rest : List (List ApEvent)) (W : MpWorld) (h : StartupThisAPPass k W = Sum.inr W) :
    StartupThisAPWait w k [] W = none
    ∧ StartupThisAPWait w k (Events :: rest) W
        = StartupThisAPWait w k rest (StartupThisAPStall w k W Events) := by
  constructor <;> simp only [StartupThisAPWait, h]

/-- The loop of the blocking `StartupThisAP` and the notifications of the
timer of the non-blocking one, run on the same schedule from states that differ
only in the `WaitEvent` of the record and the timer, reach the same verdict
after the same number of polls, with the same registry. -/
theorem StartupThisAPWait_CheckThisAPRun (w k E F : Nat) (hw : gPollInterval ≤ 2 ^ (w - 1))
    (hE : E ≠ 0) :
    ∀ (Schedule : List (List ApEvent)) (Wb Wn : MpWorld) (T : Int),
      Wb.mMpSystemData
        = Wn.mMpSystemData.SetCpu k { Wn.mMpSystemData.Cpu k with WaitEvent := 0 } →
      k < Wn.mMpSystemData.CpuDatas.length →
      (Wn.mMpSystemData.Cpu k).TimeoutActive = true →
      (Wn.mMpSystemData.Cpu k).Timeout = T → 0 ≤ T → T < 2 ^ (w - 1) →
      (Wn.mMpSystemData.Cpu k).WaitEvent = E →
      (Wn.mMpSystemData.Cpu k).Finished = F →
      (Wn.mMpSystemData.Cpu k).CheckThisAPEvent ∈ Wn.PeriodicTimers →
      GetApState (Wn.mMpSystemData.Cpu k) ≠ CpuStateIdle →
      GetApState (Wn.mMpSystemData.Cpu k) ≠ CpuStateFinished →
      (F ≠ 0 → MemRead Wn.FinishedMem F true = false) →
      (StartupThisAPWait w k Schedule Wb = none →
        CheckThisAPRun w k Schedule Wn = none
          ∧ (Schedule.length : Int) * gPollInterval ≤ T)
      ∧ (∀ st Wb', StartupThisAPWait w k Schedule Wb = some (st, Wb') →
          ∃ j Wn', CheckThisAPRun w k Schedule Wn = some (j, Wn')
            ∧ 1 ≤ j ∧ j ≤ Schedule.length
            ∧ Wn'.mMpSystemData = Wb'.mMpSystemData
            ∧ (Wb'.mMpSystemData.Cpu k).Timeout = T - (j : Int) * gPollInterval
            ∧ ((j : Int) - 1) * gPollInterval ≤ T
            ∧ Wn'.SignaledEvents = E :: Wn.SignaledEvents
            ∧ (Wn'.mMpSystemData.Cpu k).CheckThisAPEvent ∉ Wn'.PeriodicTimers
            ∧ ((st = EFI_SUCCESS ∧ GetApState (Wb'.mMpSystemData.Cpu k) = CpuStateIdle
                  ∧ (F ≠ 0 → MemRead Wn'.FinishedMem F false = true))
              ∨ (st = EFI_TIMEOUT ∧ GetApState (Wb'.mMpSystemData.Cpu k) ≠ CpuStateIdle
                  ∧ T < (j : Int) * gPollInterval
                  ∧ (F ≠ 0 → MemRead Wn'.FinishedMem F true = false)))) := by
  have hw1 : 1 ≤ w := by
    rcases Nat.eq_zero_or_pos w with h | h
    · subst h; simp [gPollInterval] at hw
    · exact h
  have hwI : (100 : Int) ≤ 2 ^ (w - 1) := by
    have : ((gPollInterval : Nat) : Int) ≤ ((2 ^ (w - 1) : Nat) : Int) := by exact_mod_cast hw
    simpa [gPollInterval] using this
  intro Schedule
  induction Schedule with
  | nil =>
    intro Wb Wn T hreg hk hta hT h0 hlt hWE hFn harm hni hnf hfl
    have hcb : Wb.mMpSystemData.Cpu k = { Wn.mMpSystemData.Cpu k with WaitEvent := 0 } := by
      rw [hreg, Cpu_SetCpu_self _ _ _ hk]
    have hpass : StartupThisAPPass k Wb = Sum.inr Wb := by
      apply (StartupThisAPPass_cases k Wb).2.2
      · rw [hcb]; exact hnf
      · rw [hcb]; intro h; have := h.2; simp only [hT] at this; omega
    have h1 := (StartupThisAPWait_of_inr w k [] [] Wb hpass).1
    refine ⟨fun _ => ⟨rfl, by simpa using h0⟩, fun st Wb' h => ?_⟩
    rw [h1] at h; cases h
  | cons Events rest ih =>
    intro Wb Wn T hreg hk hta hT h0 hlt hWE hFn harm hni hnf hfl
    have hcb : Wb.mMpSystemData.Cpu k = { Wn.mMpSystemData.Cpu k with WaitEvent := 0 } := by
      rw [hreg, Cpu_SetCpu_self _ _ _ hk]
    have hpass : StartupThisAPPass k Wb = Sum.inr Wb := by
      apply (StartupThisAPPass_cases k Wb).2.2
      · rw [hcb]; exact hnf
      · rw [hcb]; intro h; have := h.2; simp only [hT] at this; omega
    rw [(StartupThisAPWait_of_inr w k Events rest Wb hpass).2]
    -- the state after the stall, on both sides
    obtain ⟨slen, sev, swe, sfin, sto, sta⟩ := RunAps_sink Wn.mMpSystemData Events k
    obtain ⟨-, -, sidle⟩ := RunAps_record Wn.mMpSystemData Events k
    have hk1 : k < (RunAps Wn.mMpSystemData Events).CpuDatas.length := by rw [slen]; exact hk
    have hT1 : ToINTN w (T - (gPollInterval : Nat)) = T - 100 := by
      rw [ToINTN_of_range w _ hw1 (by simp only [gPollInterval]; push_cast; omega)
        (by simp only [gPollInterval]; push_cast; omega)]
      simp [gPollInterval]
    have hstall : (StartupThisAPStall w k Wb Events).mMpSystemData
        = (RunAps Wn.mMpSystemData Events).SetCpu k
            { (RunAps Wn.mMpSystemData Events).Cpu k with
              WaitEvent := 0, Timeout := T - 100 } := by
      simp only [StartupThisAPStall]
      rw [hreg, RunAps_clearWait _ _ _ hk, Cpu_SetCpu_self _ _ _ hk1, SetCpu_SetCpu]
      simp only [sto, hT, hT1]
    have hstallC : (StartupThisAPStall w k Wb Events).mMpSystemData.Cpu k
        = { (RunAps Wn.mMpSystemData Events).Cpu k with WaitEvent := 0, Timeout := T - 100 } := by
      rw [hstall, Cpu_SetCpu_self _ _ _ hk1]
    obtain ⟨tfin, tto, tno⟩ := CheckThisAPStatus_cases w k
      { Wn with mMpSystemData := RunAps Wn.mMpSystemData Events } hk1
    simp only [sto, sta, hta, hT, hT1, if_true, swe, hWE, sfin, hFn, sev, if_pos hE] at tfin tto tno
    obtain ⟨pfin, pto, pno⟩ := StartupThisAPPass_cases k (StartupThisAPStall w k Wb Events)
    rw [hstallC] at pfin pto pno
    have hrun1 : ∀ V : MpWorld,
        CheckThisAPStatus w k { Wn with mMpSystemData := RunAps Wn.mMpSystemData Events } = V →
        (V.mMpSystemData.Cpu k).CheckThisAPEvent ∉ V.PeriodicTimers →
        CheckThisAPRun w k (Events :: rest) Wn = some (1, V) := by
      intro V hV hnot
      simp only [CheckThisAPRun, hV, if_neg hnot]
    have hfilter : (Wn.mMpSystemData.Cpu k).CheckThisAPEvent
        ∉ Wn.PeriodicTimers.filter (fun e => e != (Wn.mMpSystemData.Cpu k).CheckThisAPEvent) := by
      simp [List.mem_filter]
    by_cases hfin : GetApState ((RunAps Wn.mMpSystemData Events).Cpu k) = CpuStateFinished
    · have hb := StartupThisAPWait_of_inl w k rest _ _ (pfin hfin)
      refine ⟨fun h => ?_, fun st Wb' h => ?_⟩
      · rw [hb] at h; cases h
      · rw [hb] at h
        simp only [Option.some.injEq, Prod.mk.injEq] at h
        obtain ⟨rfl, rfl⟩ := h
        refine ⟨1, _, hrun1 _ (tfin hfin) ?_, le_refl _, by simp, ?_, ?_, ?_, rfl, ?_, ?_⟩
        · simp only [Cpu_SetCpu_self _ _ _ hk1]
          exact hfilter
        · simp only [hstall, SetCpu_SetCpu, SetApState, sev, sfin, sta, hta, hFn]
        · simp only [hstall, SetCpu_SetCpu, SetApState, Cpu_SetCpu_self _ _ _ hk1, gPollInterval]
          push_cast; ring
        · simp
          exact h0
        · simp only [Cpu_SetCpu_self _ _ _ hk1]
          exact hfilter
        · left
          refine ⟨rfl, ?_, fun hF => ?_⟩
          · simp only [hstall, SetCpu_SetCpu, SetApState, Cpu_SetCpu_self _ _ _ hk1, GetApState]
          · simp only [if_pos hF, MemRead_MemWrite]
    · have hni1 : GetApState ((RunAps Wn.mMpSystemData Events).Cpu k) ≠ CpuStateIdle :=
        fun h => hni (sidle.1 h)
      by_cases hneg : T - 100 < 0
      · have hb := StartupThisAPWait_of_inl w k rest _ _ (pto hfin (sta.trans hta) hneg)
        refine ⟨fun h => ?_, fun st Wb' h => ?_⟩
        · rw [hb] at h; cases h
        · rw [hb] at h
          simp only [Option.some.injEq, Prod.mk.injEq] at h
          obtain ⟨rfl, rfl⟩ := h
          refine ⟨1, _, hrun1 _ (tto hfin trivial hneg) ?_, le_refl _, by simp, ?_, ?_, ?_, rfl, ?_, ?_⟩
          · simp only [Cpu_SetCpu_self _ _ _ hk1]
            exact hfilter
          · simp only [hstall, sev, sfin, sta, hta, hFn]
          · simp only [hstallC, gPollInterval]
            push_cast; ring
          · simp
            exact h0
          · simp only [Cpu_SetCpu_self _ _ _ hk1]
            exact hfilter
          · right
            refine ⟨rfl, ?_, ?_, fun hF => ?_⟩
            · simp only [hstallC, GetApState]
              exact hni1
            · simp only [gPollInterval]; push_cast; omega
            · simp only [if_pos (And.intro hni1 hF), MemRead_MemWrite]
      · have hpassS := pno hfin (fun h => hneg h.2)
        have htick := tno hfin (by simpa using hneg)
        have harm1 : ((CheckThisAPStatus w k
              { Wn with mMpSystemData := RunAps Wn.mMpSystemData Events }).mMpSystemData.Cpu
                k).CheckThisAPEvent
            ∈ (CheckThisAPStatus w k
              { Wn with mMpSystemData := RunAps Wn.mMpSystemData Events }).PeriodicTimers := by
          rw [htick]
          simp only [Cpu_SetCpu_self _ _ _ hk1, sev]
          exact harm
        have hrunS : CheckThisAPRun w k (Events :: rest) Wn
            = (CheckThisAPRun w k rest (CheckThisAPStatus w k
                { Wn with mMpSystemData := RunAps Wn.mMpSystemData Events })).map
                (fun r => (r.1 + 1, r.2)) := by
          simp only [CheckThisAPRun, if_pos harm1]
        obtain ⟨ihn, ihs⟩ := ih (StartupThisAPStall w k Wb Events)
          (CheckThisAPStatus w k { Wn with mMpSystemData := RunAps Wn.mMpSystemData Events })
          (T - 100)
          (by
            rw [htick, hstall]
            simp only [Cpu_SetCpu_self _ _ _ hk1, SetCpu_SetCpu, sev, sfin, sta, hta, hFn])
          (by rw [htick]; simp only [length_SetCpu]; exact hk1)
          (by rw [htick]; simp only [Cpu_SetCpu_self _ _ _ hk1])
          (by rw [htick]; simp only [Cpu_SetCpu_self _ _ _ hk1])
          (by omega) (by omega)
          (by rw [htick]; simp only [Cpu_SetCpu_self _ _ _ hk1])
          (by rw [htick]; simp only [Cpu_SetCpu_self _ _ _ hk1])
          harm1
          (by rw [htick]; simp only [Cpu_SetCpu_self _ _ _ hk1, GetApState]; exact hni1)
          (by rw [htick]; simp only [Cpu_SetCpu_self _ _ _ hk1, GetApState]; exact hfin)
          (by rw [htick]; exact hfl)
        have hsig : (CheckThisAPStatus w k
              { Wn with mMpSystemData := RunAps Wn.mMpSystemData Events }).SignaledEvents
            = Wn.SignaledEvents := by rw [htick]
        refine ⟨fun h => ?_, fun st Wb' h => ?_⟩
        · obtain ⟨a, b⟩ := ihn h
          refine ⟨by rw [hrunS, a]; rfl, ?_⟩
          simp only [List.length_cons, gPollInterval] at b ⊢
          push_cast at b ⊢
          omega
        · obtain ⟨j, Wn', a1, a2, a3, a4, a5, a6, a7, a8, a9⟩ := ihs st Wb' h
          refine ⟨j + 1, Wn', by rw [hrunS, a1]; rfl, by omega,
            by simp only [List.length_cons]; omega, a4, ?_, ?_, by rw [a7, hsig], a8, ?_⟩
          · rw [a5]; simp only [gPollInterval]; push_cast; ring
          · simp only [gPollInterval] at a6 ⊢
            push_cast at a6 ⊢
            omega
          · rcases a9 with ⟨b1, b2, b3⟩ | ⟨b1, b2, b3, b4⟩
            · exact Or.inl ⟨b1, b2, b3⟩
            · refine Or.inr ⟨b1, b2, ?_, b4⟩
              simp only [gPollInterval] at b3 ⊢
              push_cast at b3 ⊢
              omega

/-- The dispatch of a blocking `StartupThisAP` is that of the non-blocking one
with the `WaitEvent` of the target cleared. -/
theorem StartupThisAPDispatch_clearWait (w : Nat) (s : MP_SYSTEM_DATA) (P k E T A F : Nat)
    (hk : k < s.CpuDatas.length) :
    StartupThisAPDispatch w s P k 0 T A F
      = (StartupThisAPDispatch w s P k E T A F).SetCpu k
          { (StartupThisAPDispatch w s P k E T A F).Cpu k with WaitEvent := 0 } := by
  simp only [StartupThisAPDispatch, Cpu_SetCpu, length_SetCpu, hk, and_self, if_true,
    SetCpu_SetCpu]

/-- C26. Blocking and non-blocking supervision of a single-target dispatch.
On a machine word of `w` bits that holds the poll interval
(`gPollInterval ≤ 2 ^ (w - 1)`), let a non-blocking `StartupThisAP` with
deadline `T`, `0 < T < 2 ^ (w - 1)`, be accepted in state `W` and return in
state `Wn`.  For every schedule of the application processors (one entry per
poll interval):
(1) the blocking call with the same arguments in `W` is still in its loop after
the schedule exactly when the timer of the non-blocking one is still set, and
then the schedule is not longer than the deadline;
(2) when the blocking call returns `st` in state `Wb`, the timer of the
non-blocking one is cancelled by its notification number `j`,
`1 ≤ j ≤ Schedule.length`, in a state with the registry of `Wb`; the blocking
loop has stalled `j` times (its budget is `T - j * gPollInterval`); no multiple
of the poll interval before `j * gPollInterval` exceeds `T`; the wait event is
signalled and the timer cancelled; and either `st` is `EFI_SUCCESS`, the target
is idle and the callback has set the caller's flag, or `st` is `EFI_TIMEOUT`,
the target is not idle, `j * gPollInterval` is the first multiple of the poll
interval strictly greater than `T` and the flag is `FALSE`. -/
theorem C26_blocking_and_callback_agree (w ApicId Procedure k E T A F : Nat)
    (Schedule Schedule0 : List (List ApEvent)) (W Wn : MpWorld)
    (hw : gPollInterval ≤ 2 ^ (w - 1)) (hE : E ≠ 0) (hT0 : 0 < T) (hT : T < 2 ^ (w - 1))
    (hn : StartupThisAP w ApicId Procedure k E T A F Schedule0 W = some (EFI_SUCCESS, Wn)) :
    (StartupThisAP w ApicId Procedure k 0 T A F Schedule W = none
      ↔ CheckThisAPRun w k Schedule Wn = none)
    ∧ (StartupThisAP w ApicId Procedure k 0 T A F Schedule W = none →
        Schedule.length * gPollInterval ≤ T)
    ∧ (∀ st Wb, StartupThisAP w ApicId Procedure k 0 T A F Schedule W = some (st, Wb) →
        ∃ j Wn', CheckThisAPRun w k Schedule Wn = some (j, Wn')
          ∧ 1 ≤ j ∧ j ≤ Schedule.length
          ∧ Wn'.mMpSystemData = Wb.mMpSystemData
          ∧ (Wb.mMpSystemData.Cpu k).Timeout = (T : Int) - (j : Int) * gPollInterval
          ∧ (j - 1) * gPollInterval ≤ T
          ∧ Wn'.SignaledEvents = E :: W.SignaledEvents
          ∧ (Wn'.mMpSystemData.Cpu k).CheckThisAPEvent ∉ Wn'.PeriodicTimers
          ∧ ((st = EFI_SUCCESS ∧ GetApState (Wb.mMpSystemData.Cpu k) = CpuStateIdle
                ∧ (F ≠ 0 → MemRead Wn'.FinishedMem F false = true))
            ∨ (st = EFI_TIMEOUT ∧ GetApState (Wb.mMpSystemData.Cpu k) ≠ CpuStateIdle
                ∧ T < j * gPollInterval
                ∧ (F ≠ 0 → MemRead Wn'.FinishedMem F true = false)))) := by
  have hw1 : 1 ≤ w := by
    rcases Nat.eq_zero_or_pos w with h | h
    · subst h; simp [gPollInterval] at hw
    · exact h
  by_cases hv : IsBSP W.mMpSystemData ApicId = true ∧ Procedure ≠ 0
      ∧ k < W.mMpSystemData.NumberOfProcessors
      ∧ IsEnabledAP (W.mMpSystemData.Cpu k) = true
      ∧ GetApState (W.mMpSystemData.Cpu k) = CpuStateIdle
  · obtain ⟨hBsp, hProc, hlt, hEn, hIdle⟩ := hv
    have hklen := lt_length_of_IsEnabledAP _ _ hEn
    obtain ⟨-, -, nmp, nfm, ntm, nsg, -⟩ := StartupThisAP_nonblocking_success w ApicId
      Procedure k E T A F Schedule0 W Wn hE hn
    obtain ⟨Wb1, bc, bmp, bfm, -, btm, bsg⟩ := StartupThisAP_of_valid w ApicId Procedure k
      0 T A F Schedule W hBsp hProc hlt hEn hIdle
    rw [if_neg (by simp)] at bc
    obtain ⟨dk, -, -, dlen⟩ := StartupThisAPDispatch_spec w W.mMpSystemData Procedure k
      E T A F hklen
    rw [← nmp] at dk dlen
    have hTI : (T : Int) < 2 ^ (w - 1) := by exact_mod_cast hT
    have hpos : (0 : Int) < 2 ^ (w - 1) := by positivity
    have hToT : ToINTN w (T : Int) = T := ToINTN_of_range w _ hw1 (by omega) hTI
    obtain ⟨sn, ss⟩ := StartupThisAPWait_CheckThisAPRun w k E F hw hE Schedule Wb1 Wn (T : Int)
      (by rw [bmp, nmp]; exact StartupThisAPDispatch_clearWait w _ _ _ _ _ _ _ hklen)
      (by rw [dlen]; exact hklen)
      (by rw [dk]; simp; omega)
      (by rw [dk]; exact hToT)
      (by positivity) hTI
      (by rw [dk])
      (by rw [dk])
      (by rw [dk, ntm]; exact List.mem_cons_self _ _)
      (by rw [dk]; simp [GetApState])
      (by rw [dk]; simp [GetApState])
      (by intro hF; rw [nfm, if_pos hF, MemRead_MemWrite])
    rw [bc]
    refine ⟨⟨fun h => (sn h).1, fun h => ?_⟩, fun h => ?_, fun st Wb h => ?_⟩
    · cases hb : StartupThisAPWait w k Schedule Wb1 with
      | none => rfl
      | some r =>
        obtain ⟨st, Wb⟩ := r
        obtain ⟨j, Wn', a, -⟩ := ss st Wb hb
        rw [a] at h; cases h
    · have := (sn h).2
      simp only [gPollInterval] at this ⊢
      push_cast at this
      omega
    · obtain ⟨j, Wn', a1, a2, a3, a4, a5, a6, a7, a8, a9⟩ := ss st Wb h
      refine ⟨j, Wn', a1, a2, a3, a4, a5, ?_, by rw [a7, nsg], a8, ?_⟩
      · simp only [gPollInterval] at a6 ⊢
        push_cast at a6
        omega
      · rcases a9 with ⟨b1, b2, b3⟩ | ⟨b1, b2, b3, b4⟩
        · exact Or.inl ⟨b1, b2, b3⟩
        · refine Or.inr ⟨b1, b2, ?_, b4⟩
          simp only [gPollInterval] at b3 ⊢
          push_cast at b3
          omega
  · obtain ⟨st, V, hc, h1, -⟩ := StartupThisAP_rejected w ApicId Procedure k
      E T A F Schedule0 W hv
    rw [hc] at hn
    simp only [Option.some.injEq, Prod.mk.injEq] at hn
    exact absurd hn.1 h1

/-- Witness of C26 on three processors: processor 1 begins its procedure in the
first poll interval and returns from it in the second; the blocking call
returns `EFI_SUCCESS` in `Sys3ThisAPBlocking` and the second notification of
the timer cancels it. -/
theorem C26_blocking_and_callback_agree_witness :
    ∃ j Wn', CheckThisAPRun 64 1 [[ApEvent.Begin 1], [ApEvent.Return 1]] Sys3ThisAPPending
        = some (j, Wn')
      ∧ 1 ≤ j ∧ j ≤ [[ApEvent.Begin 1], [ApEvent.Return 1]].length
      ∧ Wn'.mMpSystemData = Sys3ThisAPBlocking.mMpSystemData
      ∧ (Sys3ThisAPBlocking.mMpSystemData.Cpu 1).Timeout
          = ((250 : Nat) : Int) - (j : Int) * gPollInterval
      ∧ (j - 1) * gPollInterval ≤ 250
      ∧ Wn'.SignaledEvents = 8 :: (MkWorld (BringUp 3 0 [1, 2])).SignaledEvents
      ∧ (Wn'.mMpSystemData.Cpu 1).CheckThisAPEvent ∉ Wn'.PeriodicTimers
      ∧ ((EFI_SUCCESS = EFI_SUCCESS
            ∧ GetApState (Sys3ThisAPBlocking.mMpSystemData.Cpu 1) = CpuStateIdle
            ∧ (77 ≠ 0 → MemRead Wn'.FinishedMem 77 false = true))
        ∨ (EFI_SUCCESS = EFI_TIMEOUT
            ∧ GetApState (Sys3ThisAPBlocking.mMpSystemData.Cpu 1) ≠ CpuStateIdle
            ∧ 250 < j * gPollInterval
            ∧ (77 ≠ 0 → MemRead Wn'.FinishedMem 77 true = false))) :=
  (C26_blocking_and_callback_agree 64 0 5 1 8 250 9 77
    [[ApEvent.Begin 1], [ApEvent.Return 1]] [] (MkWorld (BringUp 3 0 [1, 2]))
    Sys3ThisAPPending (by decide) (by decide) (by decide) (by decide) rfl).2.2
    EFI_SUCCESS Sys3ThisAPBlocking rfl

theorem KeepsRecords_refl (s : MP_SYSTEM_DATA) : KeepsRecords s s :=
  ⟨rfl, fun _ => ⟨rfl, id⟩⟩

theorem KeepsRecords_trans (s t u : MP_SYSTEM_DATA) (h1 : KeepsRecords s t)
    (h2 : KeepsRecords t u) : KeepsRecords s u :=
  ⟨h2.1.trans h1.1, fun j => ⟨((h2.2 j).1).trans (h1.2 j).1, fun h => (h2.2 j).2 ((h1.2 j).2 h)⟩⟩

/-- A step that changes neither the table of records nor the number of
processors. -/
theorem KeepsRecords_of_frame (s t : MP_SYSTEM_DATA) (hN : t.NumberOfProcessors = s.NumberOfProcessors)
    (hC : t.CpuDatas = s.CpuDatas) : KeepsRecords s t := by
  have hc : ∀ j, t.Cpu j = s.Cpu j := fun j => by simp [MP_SYSTEM_DATA.Cpu, hC]
  exact ⟨hN, fun j => by rw [hc j]; exact ⟨rfl, id⟩⟩

/-- A store to one record. -/
theorem KeepsRecords_SetCpu (s : MP_SYSTEM_DATA) (i : Nat) (c : CPU_DATA_BLOCK)
    (hI : c.Info = (s.Cpu i).Info)
    (hA : AssignmentOk (s.Cpu i) → AssignmentOk c) : KeepsRecords s (s.SetCpu i c) := by
  refine ⟨rfl, fun j => ?_⟩
  rw [Cpu_SetCpu]
  split_ifs with h
  · obtain ⟨rfl, -⟩ := h
    exact ⟨hI, hA⟩
  · exact ⟨rfl, id⟩

theorem AssignmentOk_idle (c : CPU_DATA_BLOCK) (h : AssignmentOk c)
    (hs : GetApState c = CpuStateFinished) : AssignmentOk (SetApState c CpuStateIdle) := by
  intro hp
  have := h hp
  rw [hs] at this
  rcases this with h1 | h1 <;> cases h1

theorem AssignmentOk_ready (c : CPU_DATA_BLOCK) (p a : Nat) :
    AssignmentOk (SetApProcedure (SetApState c CpuStateReady) p a) :=
  fun _ => Or.inl rfl

theorem AssignmentOk_blocked (c : CPU_DATA_BLOCK) :
    AssignmentOk (SetApState c CpuStateBlocked) :=
  fun _ => Or.inr rfl

theorem AssignmentOk_begin (c : CPU_DATA_BLOCK) :
    AssignmentOk (SetApProcedure (SetApState c CpuStateBuzy) 0 0) :=
  fun h => absurd rfl h

theorem AssignmentOk_return (c : CPU_DATA_BLOCK) (h : AssignmentOk c)
    (hs : GetApState c = CpuStateBuzy) : AssignmentOk (SetApState c CpuStateFinished) := by
  intro hp
  have := h hp
  rw [hs] at this
  rcases this with h1 | h1 <;> cases h1

theorem KeepsRecords_ApSelfTransition (s : MP_SYSTEM_DATA) (e : ApEvent) :
    KeepsRecords s (ApSelfTransition s e) := by
  cases e with
  | Begin n =>
    simp only [ApSelfTransition]
    split_ifs with h
    · exact KeepsRecords_SetCpu s n _ rfl (fun _ => AssignmentOk_begin _)
    · exact KeepsRecords_refl s
  | Return n =>
    simp only [ApSelfTransition]
    split_ifs with h
    · exact KeepsRecords_SetCpu s n _ rfl (fun ha => AssignmentOk_return _ ha h.2.2)
    · exact KeepsRecords_refl s

theorem KeepsRecords_RunAps (s : MP_SYSTEM_DATA) (Events : List ApEvent) :
    KeepsRecords s (RunAps s Events) := by
  unfold RunAps
  induction Events generalizing s with
  | nil => exact KeepsRecords_refl s
  | cons e rest ih =>
    rw [List.foldl_cons]
    exact KeepsRecords_trans _ _ _ (KeepsRecords_ApSelfTransition s e) (ih _)

theorem KeepsRecords_CheckAndUpdateAllAPsToIdleState (s : MP_SYSTEM_DATA) :
    KeepsRecords s (CheckAndUpdateAllAPsToIdleState s) := by
  obtain ⟨hframe, -, hcpu⟩ := CheckAndUpdateAllAPsToIdleState_spec s
  refine ⟨by rw [hframe], fun j => ?_⟩
  rw [hcpu j]
  unfold HarvestedRecord
  split_ifs with h1 h2
  · refine ⟨rfl, fun ha => AssignmentOk_idle _ ha ?_⟩
    exact ((IsHarvestable_iff _).1 h1.2).2
  · exact ⟨rfl, fun _ => AssignmentOk_ready _ _ _⟩
  · exact ⟨rfl, id⟩

theorem KeepsRecords_ResetAllFailedBody (W : MpWorld) (Number : Nat) :
    KeepsRecords W.mMpSystemData (ResetAllFailedBody W Number).mMpSystemData := by
  unfold ResetAllFailedBody
  simp only [ResetProcessorToIdleState, SetCpu_Cpu_self]
  split_ifs
  · exact KeepsRecords_refl _
  · exact KeepsRecords_refl _
  · exact KeepsRecords_of_frame _ _ rfl rfl
  · exact KeepsRecords_refl _
  · exact KeepsRecords_refl _

theorem FailedListStore_mMpSystemData (W : MpWorld) (Index Value : Nat) :
    (FailedListStore W Index Value).mMpSystemData = W.mMpSystemData := by
  unfold FailedListStore
  split <;> rfl

theorem KeepsRecords_ResetAllFailedAPs (w : Nat) (W : MpWorld) :
    KeepsRecords W.mMpSystemData (ResetAllFailedAPs w W).mMpSystemData := by
  have hfold : ∀ (l : List Nat) (V : MpWorld),
      KeepsRecords V.mMpSystemData (l.foldl ResetAllFailedBody V).mMpSystemData := by
    intro l
    induction l with
    | nil => intro V; exact KeepsRecords_refl _
    | cons a rest ih =>
      intro V
      rw [List.foldl_cons]
      exact KeepsRecords_trans _ _ _ (KeepsRecords_ResetAllFailedBody V a) (ih _)
  unfold ResetAllFailedAPs
  simp only
  split_ifs
  · rw [FailedListStore_mMpSystemData]
    exact hfold _ _
  · exact hfold _ _
  · rw [FailedListStore_mMpSystemData]
    exact hfold _ _
  · exact hfold _ _

theorem KeepsRecords_CheckAllAPsStatus (w : Nat) (W : MpWorld) :
    KeepsRecords W.mMpSystemData (CheckAllAPsStatus w W).mMpSystemData := by
  have h1 : KeepsRecords W.mMpSystemData
      (if W.mMpSystemData.TimeoutActive then
        { W.mMpSystemData with Timeout := ToINTN w (W.mMpSystemData.Timeout - gPollInterval) }
      else W.mMpSystemData) := by
    split_ifs
    · exact KeepsRecords_of_frame _ _ rfl rfl
    · exact KeepsRecords_refl _
  have h2 := KeepsRecords_trans _ _ _ h1 (KeepsRecords_CheckAndUpdateAllAPsToIdleState _)
  have htail : ∀ W3 : MpWorld, ∀ R : MpWorld,
      R = (if W3.mMpSystemData.FinishCount ≠ W3.mMpSystemData.StartCount then W3
        else
          if W3.mMpSystemData.WaitEvent ≠ 0 then
            { W3 with
              PeriodicTimers :=
                W3.PeriodicTimers.filter (fun e => e != W3.mMpSystemData.CheckAllAPsEvent)
              SignaledEvents := W3.mMpSystemData.WaitEvent :: W3.SignaledEvents
              mMpSystemData := { W3.mMpSystemData with WaitEvent := 0 } }
          else
            { W3 with
              PeriodicTimers :=
                W3.PeriodicTimers.filter (fun e => e != W3.mMpSystemData.CheckAllAPsEvent) }) →
      KeepsRecords W3.mMpSystemData R.mMpSystemData := by
    intro W3 R hR
    subst hR
    split_ifs
    · exact KeepsRecords_refl _
    · exact KeepsRecords_of_frame _ _ rfl rfl
    · exact KeepsRecords_refl _
  by_cases hto : ((CheckAndUpdateAllAPsToIdleState
        (if W.mMpSystemData.TimeoutActive then
          { W.mMpSystemData with
            Timeout := ToINTN w (W.mMpSystemData.Timeout - gPollInterval) }
        else W.mMpSystemData)).TimeoutActive
      && decide ((CheckAndUpdateAllAPsToIdleState
        (if W.mMpSystemData.TimeoutActive then
          { W.mMpSystemData with
            Timeout := ToINTN w (W.mMpSystemData.Timeout - gPollInterval) }
        else W.mMpSystemData)).Timeout < 0)) = true
  · have h3 := htail
        { ResetAllFailedAPs w { W with mMpSystemData :=
            (CheckAndUpdateAllAPsToIdleState
              (if W.mMpSystemData.TimeoutActive then
                { W.mMpSystemData with
                  Timeout := ToINTN w (W.mMpSystemData.Timeout - gPollInterval) }
              else W.mMpSystemData)) } with
          mMpSystemData :=
            { (ResetAllFailedAPs w { W with mMpSystemData :=
                (CheckAndUpdateAllAPsToIdleState
                  (if W.mMpSystemData.TimeoutActive then
                    { W.mMpSystemData with
                      Timeout := ToINTN w (W.mMpSystemData.Timeout - gPollInterval) }
                  else W.mMpSystemData)) }).mMpSystemData with
              FinishCount := (ResetAllFailedAPs w { W with mMpSystemData :=
                (CheckAndUpdateAllAPsToIdleState
                  (if W.mMpSystemData.TimeoutActive then
                    { W.mMpSystemData with
                      Timeout := ToINTN w (W.mMpSystemData.Timeout - gPollInterval) }
                  else W.mMpSystemData)) }).mMpSystemData.StartCount } }
        (CheckAllAPsStatus w W)
        (by simp only [CheckAllAPsStatus, hto, if_true])
    refine KeepsRecords_trans _ _ _ (KeepsRecords_trans _ _ _ h2 ?_) h3
    exact KeepsRecords_trans _ _ _ (KeepsRecords_ResetAllFailedAPs w _)
      (KeepsRecords_of_frame _ _ rfl rfl)
  · have h3 := htail
        { W with mMpSystemData :=
            (CheckAndUpdateAllAPsToIdleState
              (if W.mMpSystemData.TimeoutActive then
                { W.mMpSystemData with
                  Timeout := ToINTN w (W.mMpSystemData.Timeout - gPollInterval) }
              else W.mMpSystemData)) }
        (CheckAllAPsStatus w W)
        (by simp only [CheckAllAPsStatus, hto, Bool.false_eq_true, if_false])
    exact KeepsRecords_trans _ _ _ h2 h3

theorem SetCpu_of_length_le (s : MP_SYSTEM_DATA) (k : Nat) (c : CPU_DATA_BLOCK)
    (h : s.CpuDatas.length ≤ k) : s.SetCpu k c = s := by
  unfold MP_SYSTEM_DATA.SetCpu
  rw [List.set_eq_of_length_le h]

theorem KeepsRecords_CheckThisAPStatus (w k : Nat) (W : MpWorld) :
    KeepsRecords W.mMpSystemData (CheckThisAPStatus w k W).mMpSystemData := by
  by_cases hk : k < W.mMpSystemData.CpuDatas.length
  · obtain ⟨c1, c2, c3⟩ := CheckThisAPStatus_cases w k W hk
    by_cases hfin : GetApState (W.mMpSystemData.Cpu k) = CpuStateFinished
    · rw [c1 hfin]
      exact KeepsRecords_SetCpu _ _ _ rfl (fun ha => AssignmentOk_idle _ ha hfin)
    · by_cases hto : (W.mMpSystemData.Cpu k).TimeoutActive = true
          ∧ ToINTN w ((W.mMpSystemData.Cpu k).Timeout - gPollInterval) < 0
      · rw [c2 hfin hto.1 hto.2]
        exact KeepsRecords_SetCpu _ _ _ rfl id
      · rw [c3 hfin hto]
        exact KeepsRecords_SetCpu _ _ _ rfl id
  · have hle : W.mMpSystemData.CpuDatas.length ≤ k := by omega
    unfold CheckThisAPStatus
    simp only [CheckThisAPStatusOut_eq]
    split_ifs <;> simp only [SetCpu_of_length_le _ _ _ hle] <;> exact KeepsRecords_refl _

theorem KeepsRecords_StartupThisAPWait (w k : Nat) (Schedule : List (List ApEvent)) :
    ∀ (W : MpWorld) (st : EFI_STATUS) (W' : MpWorld),
      StartupThisAPWait w k Schedule W = some (st, W') →
      KeepsRecords W.mMpSystemData W'.mMpSystemData := by
  have hstall : ∀ (W : MpWorld) (Events : List ApEvent),
      KeepsRecords W.mMpSystemData (StartupThisAPStall w k W Events).mMpSystemData := by
    intro W Events
    simp only [StartupThisAPStall]
    exact KeepsRecords_trans _ _ _ (KeepsRecords_RunAps _ _) (KeepsRecords_SetCpu _ _ _ rfl id)
  have hpass : ∀ (W : MpWorld) (r : EFI_STATUS × MpWorld),
      StartupThisAPPass k W = Sum.inl r → KeepsRecords W.mMpSystemData r.2.mMpSystemData := by
    intro W r hr
    obtain ⟨p1, p2, p3⟩ := StartupThisAPPass_cases k W
    by_cases hfin : GetApState (W.mMpSystemData.Cpu k) = CpuStateFinished
    · rw [p1 hfin] at hr
      simp only [Sum.inl.injEq] at hr
      subst hr
      exact KeepsRecords_SetCpu _ _ _ rfl (fun ha => AssignmentOk_idle _ ha hfin)
    · by_cases hto : (W.mMpSystemData.Cpu k).TimeoutActive = true
          ∧ (W.mMpSystemData.Cpu k).Timeout < 0
      · rw [p2 hfin hto.1 hto.2] at hr
        simp only [Sum.inl.injEq] at hr
        subst hr
        exact KeepsRecords_refl _
      · rw [p3 hfin hto] at hr
        cases hr
  have hinr : ∀ (W W1 : MpWorld), StartupThisAPPass k W = Sum.inr W1 → W1 = W := by
    intro W W1 hr
    simp only [StartupThisAPPass] at hr
    split_ifs at hr
    simp only [Sum.inr.injEq] at hr
    exact hr.symm
  induction Schedule with
  | nil =>
    intro W st W' h
    unfold StartupThisAPWait at h
    cases hp : StartupThisAPPass k W with
    | inl r =>
      rw [hp] at h
      simp only [Option.some.injEq] at h
      subst h
      exact hpass W _ hp
    | inr W1 =>
      rw [hp] at h
      cases h
  | cons Events rest ih =>
    intro W st W' h
    unfold StartupThisAPWait at h
    cases hp : StartupThisAPPass k W with
    | inl r =>
      rw [hp] at h
      simp only [Option.some.injEq] at h
      subst h
      exact hpass W _ hp
    | inr W1 =>
      rw [hp] at h
      simp only at h
      have := hinr W W1 hp
      subst this
      exact KeepsRecords_trans _ _ _ (hstall W1 Events) (ih _ st W' h)

theorem KeepsRecords_StartupThisAPDispatch (w : Nat) (s : MP_SYSTEM_DATA) (P k E T A F : Nat)
    (hk : k < s.CpuDatas.length) :
    KeepsRecords s (StartupThisAPDispatch w s P k E T A F) := by
  obtain ⟨dk, dother, dframe, -⟩ := StartupThisAPDispatch_spec w s P k E T A F hk
  refine ⟨by rw [dframe], fun j => ?_⟩
  by_cases hj : j = k
  · subst hj
    rw [dk]
    exact ⟨rfl, fun _ _ => Or.inl rfl⟩
  · rw [dother j hj]
    exact ⟨rfl, id⟩

theorem KeepsRecords_StartupThisAP (w ApicId Procedure k : Nat)
    (WaitEvent T A Finished : Nat) (Schedule : List (List ApEvent)) (W W' : MpWorld)
    (st : EFI_STATUS)
    (h : StartupThisAP w ApicId Procedure k WaitEvent T A Finished Schedule W = some (st, W')) :
    KeepsRecords W.mMpSystemData W'.mMpSystemData := by
  have hmp : (if Finished ≠ 0 then
        { W with FinishedMem := MemWrite W.FinishedMem Finished false }
      else W).mMpSystemData = W.mMpSystemData := by split_ifs <;> rfl
  by_cases h1 : IsBSP W.mMpSystemData ApicId = true
  · by_cases h2 : Procedure = 0
    · simp only [StartupThisAP, hmp, h1, h2, Bool.not_true, Bool.false_eq_true, if_false,
        if_true, Option.some.injEq, Prod.mk.injEq] at h
      rw [← h.2, hmp]
      exact KeepsRecords_refl _
    · by_cases hv : k < W.mMpSystemData.NumberOfProcessors
          ∧ IsEnabledAP (W.mMpSystemData.Cpu k) = true
          ∧ GetApState (W.mMpSystemData.Cpu k) = CpuStateIdle
      · obtain ⟨hlt, hEn, hIdle⟩ := hv
        obtain ⟨W1, hc, hm, -⟩ := StartupThisAP_of_valid w ApicId Procedure k WaitEvent T A
          Finished Schedule W h1 h2 hlt hEn hIdle
        have hd : KeepsRecords W.mMpSystemData W1.mMpSystemData := by
          rw [hm]
          exact KeepsRecords_StartupThisAPDispatch w _ _ _ _ _ _ _
            (lt_length_of_IsEnabledAP _ _ hEn)
        rw [hc] at h
        split_ifs at h
        · simp only [Option.some.injEq, Prod.mk.injEq] at h
          rw [← h.2]
          exact hd
        · exact KeepsRecords_trans _ _ _ hd
            (KeepsRecords_StartupThisAPWait w k Schedule W1 st W' h)
      · obtain ⟨W0, hc, hm, -⟩ := StartupThisAP_of_invalid w ApicId Procedure k WaitEvent T A
          Finished Schedule W h1 h2 hv
        rw [hc] at h
        simp only [Option.some.injEq, Prod.mk.injEq] at h
        rw [← h.2, hm]
        exact KeepsRecords_refl _
  · simp only [Bool.not_eq_true] at h1
    simp only [StartupThisAP, hmp, h1, Bool.not_false, if_true, Option.some.injEq,
      Prod.mk.injEq] at h
    rw [← h.2, hmp]
    exact KeepsRecords_refl _

theorem KeepsRecords_StartupAllAPsDispatch (w : Nat) (s : MP_SYSTEM_DATA) (P : Nat) (ST : Bool)
    (E T A F : Nat) : KeepsRecords s (StartupAllAPsDispatch w s P ST E T A F) := by
  obtain ⟨hframe, -, -, hcpu⟩ :=
    StartupAllAPs_fold P A ST (StartupAllAPsInit w s P ST E T A F) s.NumberOfProcessors
  have hc0 : ∀ i, (StartupAllAPsInit w s P ST E T A F).Cpu i = s.Cpu i := fun _ => rfl
  refine ⟨?_, fun j => ?_⟩
  · unfold StartupAllAPsDispatch
    rw [hframe]
    rfl
  · unfold StartupAllAPsDispatch
    rw [hcpu j, hc0 j]
    split_ifs
    · exact ⟨rfl, fun _ => AssignmentOk_blocked _⟩
    · exact ⟨rfl, fun _ => AssignmentOk_ready _ _ _⟩
    · exact ⟨rfl, id⟩

theorem KeepsRecords_StartupAllAPsWait (w : Nat) (Schedule : List (List ApEvent)) :
    ∀ (W : MpWorld) (st : EFI_STATUS) (W' : MpWorld),
      StartupAllAPsWait w Schedule W = some (st, W') →
      KeepsRecords W.mMpSystemData W'.mMpSystemData := by
  have hstall : ∀ (W : MpWorld) (Events : List ApEvent),
      KeepsRecords W.mMpSystemData (StartupAllAPsStall w W Events).mMpSystemData := by
    intro W Events
    simp only [StartupAllAPsStall]
    exact KeepsRecords_trans _ _ _ (KeepsRecords_RunAps _ _) (KeepsRecords_of_frame _ _ rfl rfl)
  have hpass : ∀ (W : MpWorld),
      (∀ r, StartupAllAPsPass w W = Sum.inl r → KeepsRecords W.mMpSystemData r.2.mMpSystemData)
      ∧ (∀ W1, StartupAllAPsPass w W = Sum.inr W1 →
          KeepsRecords W.mMpSystemData W1.mMpSystemData) := by
    intro W
    have hh := KeepsRecords_CheckAndUpdateAllAPsToIdleState W.mMpSystemData
    constructor
    · intro r hr
      simp only [StartupAllAPsPass] at hr
      split_ifs at hr
      · simp only [Sum.inl.injEq] at hr
        subst hr
        exact hh
      · simp only [Sum.inl.injEq] at hr
        subst hr
        exact KeepsRecords_trans _ _ _ hh (KeepsRecords_ResetAllFailedAPs w _)
    · intro W1 hr
      simp only [StartupAllAPsPass] at hr
      split_ifs at hr
      simp only [Sum.inr.injEq] at hr
      subst hr
      exact hh
  induction Schedule with
  | nil =>
    intro W st W' h
    unfold StartupAllAPsWait at h
    cases hp : StartupAllAPsPass w W with
    | inl r =>
      rw [hp] at h
      simp only [Option.some.injEq] at h
      subst h
      exact (hpass W).1 _ hp
    | inr W1 =>
      rw [hp] at h
      cases h
  | cons Events rest ih =>
    intro W st W' h
    unfold StartupAllAPsWait at h
    cases hp : StartupAllAPsPass w W with
    | inl r =>
      rw [hp] at h
      simp only [Option.some.injEq] at h
      subst h
      exact (hpass W).1 _ hp
    | inr W1 =>
      rw [hp] at h
      simp only at h
      exact KeepsRecords_trans _ _ _ ((hpass W).2 W1 hp)
        (KeepsRecords_trans _ _ _ (hstall W1 Events) (ih _ st W' h))

theorem KeepsRecords_StartupAllAPs (w ApicId Procedure : Nat) (SingleThread : Bool)
    (WaitEvent T A FailedCpuList : Nat) (Schedule : List (List ApEvent)) (W W' : MpWorld)
    (st : EFI_STATUS)
    (h : StartupAllAPs w ApicId Procedure SingleThread WaitEvent T A FailedCpuList Schedule W
      = some (st, W')) :
    KeepsRecords W.mMpSystemData W'.mMpSystemData := by
  by_cases hv : IsBSP W.mMpSystemData ApicId = true
      ∧ W.mMpSystemData.NumberOfProcessors ≠ 1 ∧ Procedure ≠ 0
      ∧ StartupAllAPsReady W.mMpSystemData
          (List.range W.mMpSystemData.NumberOfProcessors) = true
  · obtain ⟨h1, h2, h3, h4⟩ := hv
    have hIdle := (ActiveCount_eq_zero _).1 ((StartupAllAPsReady_iff _).1 h4)
    obtain ⟨W1, hc, hm, -⟩ := StartupAllAPs_of_valid w ApicId Procedure SingleThread WaitEvent
      T A FailedCpuList Schedule W h1 h2 h3 hIdle
    have hd : KeepsRecords W.mMpSystemData W1.mMpSystemData := by
      rw [hm]
      exact KeepsRecords_StartupAllAPsDispatch w _ _ _ _ _ _ _
    rw [hc] at h
    split_ifs at h
    · simp only [Option.some.injEq, Prod.mk.injEq] at h
      rw [← h.2]
      exact hd
    · exact KeepsRecords_trans _ _ _ hd (KeepsRecords_StartupAllAPsWait w Schedule W1 st W' h)
  · obtain ⟨W0, hc, hm, -⟩ := StartupAllAPs_rejected w ApicId Procedure SingleThread WaitEvent
      T A FailedCpuList Schedule W hv
    rw [hc] at h
    simp only [Option.some.injEq, Prod.mk.injEq] at h
    rw [← h.2, hm]
    exact KeepsRecords_refl _

/-- Every reachable state satisfies a property of the registry that holds
after `InitMpSystemData` and is kept by the registration of an application
processor, by `EnableDisableAP` and by every step that keeps the records. -/
theorem MpRun_induction (w gMax BspId : Nat) (P : MP_SYSTEM_DATA → Prop)
    (hinit : P (InitMpSystemData gMax BspId))
    (hreg : ∀ s ApicId, P s → P (ApEntryPointInC s ApicId))
    (hen : ∀ s ApicId k EnableAP HealthFlag, P s →
      P (EnableDisableAP w ApicId k EnableAP HealthFlag s).2)
    (hkeep : ∀ s t, P s → KeepsRecords s t → P t)
    (W : MpWorld) (hrun : MpRun w gMax BspId W) : P W.mMpSystemData := by
  induction hrun with
  | init => exact hinit
  | register W ApicId _ _ ih => exact hreg _ _ ih
  | enableDisable W ApicId k EnableAP HealthFlag _ ih => exact hen _ _ _ _ _ ih
  | startupAllAPs W W' Status ApicId Procedure SingleThread WaitEvent T A F Schedule _ hc ih =>
    exact hkeep _ _ ih (KeepsRecords_StartupAllAPs w _ _ _ _ _ _ _ _ _ _ _ hc)
  | startupThisAP W W' Status ApicId Procedure k WaitEvent T A F Schedule _ hc ih =>
    exact hkeep _ _ ih (KeepsRecords_StartupThisAP w _ _ _ _ _ _ _ _ _ _ _ hc)
  | checkAllAPsStatus W _ ih => exact hkeep _ _ ih (KeepsRecords_CheckAllAPsStatus w W)
  | checkThisAPStatus W Number _ ih =>
    exact hkeep _ _ ih (KeepsRecords_CheckThisAPStatus w Number W)
  | harvest W _ ih =>
    exact hkeep _ _ ih (KeepsRecords_CheckAndUpdateAllAPsToIdleState _)
  | resetAllFailedAPs W _ ih => exact hkeep _ _ ih (KeepsRecords_ResetAllFailedAPs w W)
  | selfTransition W e _ ih => exact hkeep _ _ ih (KeepsRecords_ApSelfTransition _ e)

theorem BspBit_eq_testBit (c : CPU_DATA_BLOCK) :
    TestCpuStatusFlag c PROCESSOR_AS_BSP_BIT = c.Info.StatusFlag.testBit 0 := by
  simp only [TestCpuStatusFlag, PROCESSOR_AS_BSP_BIT, Nat.and_one_is_mod, Nat.testBit_zero]
  rcases Nat.mod_two_eq_zero_or_one c.Info.StatusFlag with h | h <;> simp [h]

theorem BspBit_CpuStatusFlagAndNot (c : CPU_DATA_BLOCK) (f : Nat)
    (h : TestCpuStatusFlag c PROCESSOR_AS_BSP_BIT = false) :
    TestCpuStatusFlag (CpuStatusFlagAndNot c f) PROCESSOR_AS_BSP_BIT = false := by
  rw [BspBit_eq_testBit] at h ⊢
  simp only [CpuStatusFlagAndNot, Nat.testBit_and, h, Bool.false_and]

theorem BspBit_CpuStatusFlagOr (c : CPU_DATA_BLOCK) (f : Nat)
    (hf : f.testBit 0 = false)
    (h : TestCpuStatusFlag c PROCESSOR_AS_BSP_BIT = false) :
    TestCpuStatusFlag (CpuStatusFlagOr c f) PROCESSOR_AS_BSP_BIT = false := by
  rw [BspBit_eq_testBit] at h ⊢
  simp only [CpuStatusFlagOr, Nat.testBit_or, h, hf, Bool.or_self]

set_option maxHeartbeats 1600000 in
/-- The function `EnableDisableAP` keeps the number of processors and, in every
record, the procedure, the state and a clear `PROCESSOR_AS_BSP_BIT`; it changes
no record whose `PROCESSOR_AS_BSP_BIT` is set. -/
theorem EnableDisableAP_records (w ApicId k : Nat) (EnableAP : Bool)
    (HealthFlag : Option Nat) (s : MP_SYSTEM_DATA) :
    (EnableDisableAP w ApicId k EnableAP HealthFlag s).2.NumberOfProcessors
        = s.NumberOfProcessors
    ∧ ∀ j, ((EnableDisableAP w ApicId k EnableAP HealthFlag s).2.Cpu j).Procedure
          = (s.Cpu j).Procedure
        ∧ GetApState ((EnableDisableAP w ApicId k EnableAP HealthFlag s).2.Cpu j)
          = GetApState (s.Cpu j)
        ∧ TestCpuStatusFlag ((EnableDisableAP w ApicId k EnableAP HealthFlag s).2.Cpu j)
            PROCESSOR_AS_BSP_BIT
          = TestCpuStatusFlag (s.Cpu j) PROCESSOR_AS_BSP_BIT := by
  obtain ⟨hframe, hstate, -⟩ := EnableDisableAP_session w ApicId k EnableAP HealthFlag s
  refine ⟨by rw [hframe], ?_⟩
  by_cases hv : IsBSP s ApicId = true ∧ k < s.NumberOfProcessors
      ∧ TestCpuStatusFlag (s.Cpu k) PROCESSOR_AS_BSP_BIT = false
      ∧ GetApState (s.Cpu k) = CpuStateIdle
  · obtain ⟨h1, h2, h3, h4⟩ := hv
    have hge : ¬ k ≥ s.NumberOfProcessors := by omega
    have hcount : ∀ n : Nat,
        (∀ j, (({ s with NumberOfEnabledProcessors := n } : MP_SYSTEM_DATA).Cpu j).Procedure
              = (s.Cpu j).Procedure
            ∧ TestCpuStatusFlag
                (({ s with NumberOfEnabledProcessors := n } : MP_SYSTEM_DATA).Cpu j)
                PROCESSOR_AS_BSP_BIT
              = TestCpuStatusFlag (s.Cpu j) PROCESSOR_AS_BSP_BIT) :=
      fun n j => ⟨rfl, rfl⟩
    have hstep : ∀ (t : MP_SYSTEM_DATA) (f : CPU_DATA_BLOCK → CPU_DATA_BLOCK),
        (∀ c, (f c).Procedure = c.Procedure) →
        (∀ c, TestCpuStatusFlag c PROCESSOR_AS_BSP_BIT = false →
          TestCpuStatusFlag (f c) PROCESSOR_AS_BSP_BIT = false) →
        (∀ j, (t.Cpu j).Procedure = (s.Cpu j).Procedure
          ∧ TestCpuStatusFlag (t.Cpu j) PROCESSOR_AS_BSP_BIT
            = TestCpuStatusFlag (s.Cpu j) PROCESSOR_AS_BSP_BIT) →
        (∀ j, ((t.SetCpu k (f (t.Cpu k))).Cpu j).Procedure = (s.Cpu j).Procedure
          ∧ TestCpuStatusFlag ((t.SetCpu k (f (t.Cpu k))).Cpu j) PROCESSOR_AS_BSP_BIT
            = TestCpuStatusFlag (s.Cpu j) PROCESSOR_AS_BSP_BIT) := by
      intro t f hf hb ht j
      rw [Cpu_SetCpu]
      split_ifs with h
      · obtain ⟨rfl, -⟩ := h
        refine ⟨(hf _).trans (ht k).1, ?_⟩
        rw [h3]
        exact hb _ (by rw [(ht k).2, h3])
      · exact ht j
    have hOr2 : ∀ c, TestCpuStatusFlag c PROCESSOR_AS_BSP_BIT = false →
        TestCpuStatusFlag (CpuStatusFlagOr c PROCESSOR_ENABLED_BIT) PROCESSOR_AS_BSP_BIT
          = false :=
      fun c hc => BspBit_CpuStatusFlagOr c _ (by decide) hc
    have hOrV : ∀ v c, TestCpuStatusFlag c PROCESSOR_AS_BSP_BIT = false →
        TestCpuStatusFlag (CpuStatusFlagOr c (v &&& PROCESSOR_HEALTH_STATUS_BIT))
          PROCESSOR_AS_BSP_BIT = false :=
      fun v c hc => BspBit_CpuStatusFlagOr c _
        (by simp [Nat.testBit_and, PROCESSOR_HEALTH_STATUS_BIT]) hc
    have hAnd : ∀ f c, TestCpuStatusFlag c PROCESSOR_AS_BSP_BIT = false →
        TestCpuStatusFlag (CpuStatusFlagAndNot c f) PROCESSOR_AS_BSP_BIT = false :=
      fun f c hc => BspBit_CpuStatusFlagAndNot c f hc
    have hmain : ∀ j, ((EnableDisableAP w ApicId k EnableAP HealthFlag s).2.Cpu j).Procedure
          = (s.Cpu j).Procedure
        ∧ TestCpuStatusFlag ((EnableDisableAP w ApicId k EnableAP HealthFlag s).2.Cpu j)
            PROCESSOR_AS_BSP_BIT
          = TestCpuStatusFlag (s.Cpu j) PROCESSOR_AS_BSP_BIT := by
      simp only [EnableDisableAP, h1, hge, h3, h4, Bool.not_true, Bool.false_eq_true,
        if_false, ne_eq, not_true_eq_false]
      cases EnableAP <;> cases HealthFlag <;>
        cases hE : TestCpuStatusFlag (s.Cpu k) PROCESSOR_ENABLED_BIT <;>
        simp only [Bool.false_eq_true, if_false, if_true, Bool.not_false, Bool.not_true] <;>
        first
          | exact hstep _ (fun c => CpuStatusFlagOr c _) (fun _ => rfl) (hOrV _)
              (hstep _ (fun c => CpuStatusFlagAndNot c _) (fun _ => rfl) (hAnd _)
                (hstep _ (fun c => CpuStatusFlagOr c _) (fun _ => rfl) hOr2 (hcount _)))
          | exact hstep _ (fun c => CpuStatusFlagOr c _) (fun _ => rfl) (hOrV _)
              (hstep _ (fun c => CpuStatusFlagAndNot c _) (fun _ => rfl) (hAnd _)
                (hstep _ (fun c => CpuStatusFlagAndNot c _) (fun _ => rfl) (hAnd _)
                  (hcount _)))
          | exact hstep _ (fun c => CpuStatusFlagOr c _) (fun _ => rfl) hOr2 (hcount _)
          | exact hstep _ (fun c => CpuStatusFlagAndNot c _) (fun _ => rfl) (hAnd _)
              (hcount _)
    exact fun j => ⟨(hmain j).1, hstate j, (hmain j).2⟩
  · have hst : (EnableDisableAP w ApicId k EnableAP HealthFlag s).1 ≠ EFI_SUCCESS := by
      by_cases h1 : IsBSP s ApicId = true
      · rw [EnableDisableAP_status w ApicId k EnableAP HealthFlag s h1]
        split_ifs with a b c
        · decide
        · decide
        · decide
        · exfalso
          apply hv
          refine ⟨h1, by omega, by simpa using b, by simpa using c⟩
      · simp only [Bool.not_eq_true] at h1
        simp [EnableDisableAP, h1]
    rw [EnableDisableAP_unchanged w ApicId k EnableAP HealthFlag s hst]
    exact fun _ => ⟨rfl, rfl, rfl⟩

/-- The records after `ApEntryPointInC`. -/
theorem Cpu_ApEntryPointInC (s : MP_SYSTEM_DATA) (ApicId j : Nat) :
    (ApEntryPointInC s ApicId).Cpu j =
      if s.NumberOfProcessors = j ∧ s.NumberOfProcessors < s.CpuDatas.length then
        { s.Cpu s.NumberOfProcessors with
          Info := { ProcessorId := ApicId, StatusFlag := 6,
                    Location := { Package := ApicId, Core := 0, Thread := 0 } }
          State := CpuStateIdle
          Procedure := 0
          Parameter := 0 }
      else s.Cpu j := by
  have h : (ApEntryPointInC s ApicId).Cpu j
      = (FillInProcessorInformation s ApicId false s.NumberOfProcessors).Cpu j := rfl
  rw [h]
  unfold FillInProcessorInformation
  simp only [Cpu_SetCpu, Bool.false_eq_true, if_false]
  split_ifs <;> rfl

theorem filter_range_eq_zero (p : Nat → Bool) (N : Nat) (hN : 1 ≤ N)
    (hp : ∀ j, p j = true ↔ j = 0) : (List.range N).filter p = [0] := by
  induction N with
  | zero => omega
  | succ n ih =>
    rw [List.range_succ, List.filter_append]
    rcases Nat.eq_zero_or_pos n with h0 | hpos
    · subst h0
      simp [(hp 0).2 rfl]
    · rw [ih hpos]
      have : p n = false := by
        rcases Bool.eq_false_or_eq_true (p n) with h | h
        · have := (hp n).1 h; omega
        · exact h
      simp [this]

/-- The property behind C23 is an invariant of the reachable states. -/
theorem MpRun_primary (w gMax BspId : Nat) (W : MpWorld) (hMax : 1 ≤ gMax)
    (hrun : MpRun w gMax BspId W) :
    1 ≤ W.mMpSystemData.NumberOfProcessors
    ∧ ∀ j, TestCpuStatusFlag (W.mMpSystemData.Cpu j) PROCESSOR_AS_BSP_BIT = true ↔ j = 0 := by
  apply MpRun_induction w gMax BspId
    (fun s => 1 ≤ s.NumberOfProcessors
      ∧ ∀ j, TestCpuStatusFlag (s.Cpu j) PROCESSOR_AS_BSP_BIT = true ↔ j = 0) _ _ _ _ W hrun
  · obtain ⟨hN, -, hcpu⟩ := InitMpSystemData_spec gMax BspId
    refine ⟨by rw [hN], fun j => ?_⟩
    rw [hcpu j]
    by_cases hj : j = 0
    · subst hj
      simp only [true_and, hMax, Nat.lt_of_lt_of_le Nat.zero_lt_one hMax, if_true, iff_true]
      rw [BspBit_eq_testBit]
      exact (by decide : Nat.testBit 7 0 = true)
    · simp only [hj, false_and, if_false, iff_false, Bool.not_eq_true]
      split_ifs
      · exact TestCpuStatusFlag_ZeroCpuData _
      · exact TestCpuStatusFlag_ZeroCpuData _
  · intro s ApicId hs
    obtain ⟨hN, hb⟩ := hs
    refine ⟨by rw [NumberOfProcessors_ApEntryPointInC]; omega, fun j => ?_⟩
    rw [Cpu_ApEntryPointInC]
    split_ifs with h
    · have hj : j ≠ 0 := by omega
      simp only [hj, iff_false, Bool.not_eq_true]
      rw [BspBit_eq_testBit]
      exact (by decide : Nat.testBit 6 0 = false)
    · exact hb j
  · intro s ApicId k EnableAP HealthFlag hs
    obtain ⟨hN, hb⟩ := hs
    obtain ⟨eN, erec⟩ := EnableDisableAP_records w ApicId k EnableAP HealthFlag s
    refine ⟨by rw [eN]; exact hN, fun j => ?_⟩
    rw [(erec j).2.2]
    exact hb j
  · intro s t hs hk
    obtain ⟨hN, hb⟩ := hs
    refine ⟨by rw [hk.1]; exact hN, fun j => ?_⟩
    rw [TestCpuStatusFlag_congr _ _ _ (hk.2 j).1]
    exact hb j

/-- The property behind C24 is an invariant of the reachable states. -/
theorem MpRun_assignment (w gMax BspId : Nat) (W : MpWorld)
    (hrun : MpRun w gMax BspId W) : ∀ j, AssignmentOk (W.mMpSystemData.Cpu j) := by
  apply MpRun_induction w gMax BspId (fun s => ∀ j, AssignmentOk (s.Cpu j)) _ _ _ _ W hrun
  · intro j
    obtain ⟨-, -, hcpu⟩ := InitMpSystemData_spec gMax BspId
    rw [hcpu j]
    intro hp
    split_ifs at hp <;> exact absurd rfl hp
  · intro s ApicId hs j
    rw [Cpu_ApEntryPointInC]
    split_ifs with h
    · intro hp
      exact absurd rfl hp
    · exact hs j
  · intro s ApicId k EnableAP HealthFlag hs j
    obtain ⟨-, erec⟩ := EnableDisableAP_records w ApicId k EnableAP HealthFlag s
    intro hp
    rw [(erec j).1] at hp
    rw [(erec j).2.1]
    exact hs j hp
  · intro s t hs hk j
    exact (hk.2 j).2 (hs j)

/-- C23. Exactly one primary.  In every state reached from `InitMpSystemData`
on a table of at least one record by registrations of application processors
(`ApEntryPointInC`), calls of `EnableDisableAP` (with or without a health
flag), `StartupAllAPs` and `StartupThisAP` (blocking or not, accepted or not),
notifications of the two timers, harvesting passes, the timeout handling
`ResetAllFailedAPs` and self-transitions of the application processors, a
record has `PROCESSOR_AS_BSP_BIT` set exactly when it is the record at index 0,
which is registered; so the registered records with the flag are the record 0
alone, and no step clears the flag of record 0 or sets it elsewhere. -/
theorem C23_exactly_one_primary (w gMaxLogicalProcessorNumber BspId : Nat) (W : MpWorld)
    (hMax : 1 ≤ gMaxLogicalProcessorNumber)
    (hrun : MpRun w gMaxLogicalProcessorNumber BspId W) :
    1 ≤ W.mMpSystemData.NumberOfProcessors
    ∧ (∀ j, TestCpuStatusFlag (W.mMpSystemData.Cpu j) PROCESSOR_AS_BSP_BIT = true ↔ j = 0)
    ∧ (List.range W.mMpSystemData.NumberOfProcessors).filter
        (fun j => TestCpuStatusFlag (W.mMpSystemData.Cpu j) PROCESSOR_AS_BSP_BIT) = [0] := by
  obtain ⟨hN, hb⟩ := MpRun_primary w gMaxLogicalProcessorNumber BspId W hMax hrun
  exact ⟨hN, hb, filter_range_eq_zero _ _ hN hb⟩

/-- Witness of C23 on `Run3Disabled`: after the registration of one
application processor and a call of `EnableDisableAP` with a health flag on
it, record 0 is the primary and record 1 is not. -/
theorem C23_exactly_one_primary_witness :
    (TestCpuStatusFlag (Run3Disabled.mMpSystemData.Cpu 0) PROCESSOR_AS_BSP_BIT = true ↔ 0 = 0)
    ∧ (TestCpuStatusFlag (Run3Disabled.mMpSystemData.Cpu 1) PROCESSOR_AS_BSP_BIT = true
        ↔ 1 = 0)
    ∧ (List.range Run3Disabled.mMpSystemData.NumberOfProcessors).filter
        (fun j => TestCpuStatusFlag (Run3Disabled.mMpSystemData.Cpu j) PROCESSOR_AS_BSP_BIT)
        = [0] :=
  ⟨(C23_exactly_one_primary 64 3 0 Run3Disabled (by decide)
      (MpRun.enableDisable _ 0 1 false (some 0)
        (MpRun.register _ 1 MpRun.init (by decide)))).2.1 0,
    (C23_exactly_one_primary 64 3 0 Run3Disabled (by decide)
      (MpRun.enableDisable _ 0 1 false (some 0)
        (MpRun.register _ 1 MpRun.init (by decide)))).2.1 1,
    (C23_exactly_one_primary 64 3 0 Run3Disabled (by decide)
      (MpRun.enableDisable _ 0 1 false (some 0)
        (MpRun.register _ 1 MpRun.init (by decide)))).2.2⟩

/-- C24. Assignment only while ready or blocked.  In every state reached from
`InitMpSystemData` by registrations of application processors, calls of
`StartupAllAPs`, `StartupThisAP` and `EnableDisableAP`, notifications of the
two timers, harvesting passes, the timeout handling and self-transitions of
the application processors (which empty the assignment on the way to busy), the
`Procedure` of a record is not null only while the record is in state ready or
blocked; in particular an idle record, such as one harvested back to idle, has
a null `Procedure`. -/
theorem C24_assignment_only_ready_or_blocked (w gMaxLogicalProcessorNumber BspId : Nat)
    (W : MpWorld) (hrun : MpRun w gMaxLogicalProcessorNumber BspId W) :
    (∀ j, (W.mMpSystemData.Cpu j).Procedure ≠ 0 →
      GetApState (W.mMpSystemData.Cpu j) = CpuStateReady
        ∨ GetApState (W.mMpSystemData.Cpu j) = CpuStateBlocked)
    ∧ (∀ j, GetApState (W.mMpSystemData.Cpu j) = CpuStateIdle →
        (W.mMpSystemData.Cpu j).Procedure = 0) := by
  have h := MpRun_assignment w gMaxLogicalProcessorNumber BspId W hrun
  refine ⟨fun j => h j, fun j hidle => ?_⟩
  by_contra hp
  rcases h j hp with h1 | h1 <;> rw [hidle] at h1 <;> cases h1

/-- Witness of C24 on `Sys3ThisAPHarvested`: processor 1 was dispatched by
`StartupThisAP`, ran its procedure and was harvested by the notification of its
timer; it is idle with a null `Procedure`. -/
theorem C24_assignment_only_ready_or_blocked_witness :
    GetApState (Sys3ThisAPHarvested.mMpSystemData.Cpu 1) = CpuStateIdle
    ∧ (Sys3ThisAPHarvested.mMpSystemData.Cpu 1).Procedure = 0 :=
  ⟨by decide,
    (C24_assignment_only_ready_or_blocked 64 3 0 Sys3ThisAPHarvested
      (MpRun.checkThisAPStatus _ 1
        (MpRun.selfTransition _ (ApEvent.Return 1)
          (MpRun.selfTransition _ (ApEvent.Begin 1)
            (MpRun.startupThisAP (MkWorld (BringUp 3 0 [1, 2])) Sys3ThisAPPending EFI_SUCCESS
              0 5 1 8 250 9 77 []
              (MpRun.register _ 2 (MpRun.register _ 1 MpRun.init (by decide)) (by decide))
              rfl))))).2 1 (by decide)⟩

/-- C31 fails on the code: `CheckAllAPsStatus` tests the deadline before it
compares `FinishCount` with `StartCount`.  In `Sys3LateFinish` the failure
list slot at address `77` is `NULL`; on the next notification the budget
becomes -50, the harvesting pass finds both dispatched processors finished
(`FinishCount = StartCount = 2`, every application processor idle), and
`ResetAllFailedAPs` still runs: the slot is left pointing to a buffer that
holds `END_OF_CPU_LIST` alone. -/
theorem C31_list_allocated_though_all_finished :
    MpRun 64 3 0 Sys3LateFinish
    ∧ MemRead Sys3LateFinish.FailedCpuListMem 77 none = none
    ∧ (CheckAndUpdateAllAPsToIdleState
        { Sys3LateFinish.mMpSystemData with
          Timeout := ToINTN 64 (Sys3LateFinish.mMpSystemData.Timeout - gPollInterval) }).FinishCount
        = 2
    ∧ (CheckAndUpdateAllAPsToIdleState
        { Sys3LateFinish.mMpSystemData with
          Timeout := ToINTN 64 (Sys3LateFinish.mMpSystemData.Timeout - gPollInterval) }).StartCount
        = 2
    ∧ GetApState ((CheckAllAPsStatus 64 Sys3LateFinish).mMpSystemData.Cpu 1) = CpuStateIdle
    ∧ GetApState ((CheckAllAPsStatus 64 Sys3LateFinish).mMpSystemData.Cpu 2) = CpuStateIdle
    ∧ MemRead (CheckAllAPsStatus 64 Sys3LateFinish).FailedCpuListMem 77 none
        = some [END_OF_CPU_LIST] := by
  refine ⟨?_, by decide, by decide, by decide, by decide, by decide, by decide⟩
  exact MpRun.selfTransition _ (ApEvent.Return 2)
    (MpRun.selfTransition _ (ApEvent.Return 1)
      (MpRun.checkAllAPsStatus _
        (MpRun.selfTransition _ (ApEvent.Begin 2)
          (MpRun.selfTransition _ (ApEvent.Begin 1)
            (MpRun.startupAllAPs (MkWorld (BringUp 3 0 [1, 2])) Sys3Deadline EFI_SUCCESS
              0 5 false 3 150 9 77 []
              (MpRun.register _ 2 (MpRun.register _ 1 MpRun.init (by decide)) (by decide))
              rfl)))))

set_option maxRecDepth 8192 in
/-- C32 fails on the code: `ResetAllFailedAPs` sizes the buffer from the
counters of the broadcast session and fills it with every enabled application
processor that is not idle, and `StartupThisAP` may dispatch a processor the
session has already harvested.  In `Sys3RedispatchedTimeout`, reached by
`StartupAllAPs`, self-transitions, a notification of the timer and
`StartupThisAP`, `StartCount - FinishCount` is `2 - 1`, the buffer has two
entries, and `ResetAllFailedAPs` records the two handle numbers 1 and 2 and
leaves `FailedListIndex = 2`: the store of `END_OF_CPU_LIST` goes to entry 2,
past the end of the buffer. -/
theorem C32_failure_list_overflows :
    MpRun 64 3 0 Sys3Redispatched
    ∧ Sys3RedispatchedTimeout.mMpSystemData.StartCount = 2
    ∧ Sys3RedispatchedTimeout.mMpSystemData.FinishCount = 1
    ∧ FailedListEntries 64 Sys3RedispatchedTimeout.mMpSystemData = 2
    ∧ (ResetAllFailedAPs 64 Sys3RedispatchedTimeout).mMpSystemData.FailedListIndex = 2
    ∧ MemRead (ResetAllFailedAPs 64 Sys3RedispatchedTimeout).FailedCpuListMem 77 none
        = some [1, 2]
    ∧ MemRead (CheckAllAPsStatus 64 Sys3Redispatched).FailedCpuListMem 77 none
        = some [1, 2] := by
  refine ⟨?_, rfl, rfl, rfl, rfl, rfl, rfl⟩
  exact MpRun.startupThisAP Sys3OneHarvested Sys3Redispatched EFI_SUCCESS 0 6 1 4 0 0 0 []
    (MpRun.checkAllAPsStatus _
      (MpRun.selfTransition _ (ApEvent.Return 1)
        (MpRun.selfTransition _ (ApEvent.Begin 1)
          (MpRun.startupAllAPs (MkWorld (BringUp 3 0 [1, 2])) Sys3Deadline EFI_SUCCESS
            0 5 false 3 150 9 77 []
            (MpRun.register _ 2 (MpRun.register _ 1 MpRun.init (by decide)) (by decide))
            rfl))))
    rfl

theorem KeepsDisabledIdle_refl (s : MP_SYSTEM_DATA) : KeepsDisabledIdle s s :=
  ⟨rfl, fun _ => ⟨rfl, fun _ h => h⟩⟩

theorem KeepsDisabledIdle_trans (s t u : MP_SYSTEM_DATA) (h1 : KeepsDisabledIdle s t)
    (h2 : KeepsDisabledIdle t u) : KeepsDisabledIdle s u :=
  ⟨h2.1.trans h1.1, fun j => ⟨((h2.2 j).1).trans (h1.2 j).1, fun he hi =>
    (h2.2 j).2 (by rw [IsEnabledAP_congr _ _ (h1.2 j).1]; exact he) ((h1.2 j).2 he hi)⟩⟩

/-- A step that changes neither the table of records nor the number of
processors. -/
theorem KeepsDisabledIdle_of_frame (s t : MP_SYSTEM_DATA) (hN : t.NumberOfProcessors = s.NumberOfProcessors)
    (hC : t.CpuDatas = s.CpuDatas) : KeepsDisabledIdle s t := by
  have hc : ∀ j, t.Cpu j = s.Cpu j := fun j => by simp [MP_SYSTEM_DATA.Cpu, hC]
  exact ⟨hN, fun j => by rw [hc j]; exact ⟨rfl, fun _ h => h⟩⟩

/-- A store to one record. -/
theorem KeepsDisabledIdle_SetCpu (s : MP_SYSTEM_DATA) (i : Nat) (c : CPU_DATA_BLOCK)
    (hI : c.Info = (s.Cpu i).Info)
    (hA : IsEnabledAP (s.Cpu i) = false → GetApState (s.Cpu i) = CpuStateIdle →
      GetApState c = CpuStateIdle) : KeepsDisabledIdle s (s.SetCpu i c) := by
  refine ⟨rfl, fun j => ?_⟩
  rw [Cpu_SetCpu]
  split_ifs with h
  · obtain ⟨rfl, -⟩ := h
    exact ⟨hI, hA⟩
  · exact ⟨rfl, fun _ h => h⟩

theorem KeepsDisabledIdle_ApSelfTransition (s : MP_SYSTEM_DATA) (e : ApEvent) :
    KeepsDisabledIdle s (ApSelfTransition s e) := by
  cases e with
  | Begin n =>
    simp only [ApSelfTransition]
    split_ifs with h
    · exact KeepsDisabledIdle_SetCpu s n _ rfl (fun _ hi => by rw [h.2.2] at hi; cases hi)
    · exact KeepsDisabledIdle_refl s
  | Return n =>
    simp only [ApSelfTransition]
    split_ifs with h
    · exact KeepsDisabledIdle_SetCpu s n _ rfl (fun _ hi => by rw [h.2.2] at hi; cases hi)
    · exact KeepsDisabledIdle_refl s

theorem KeepsDisabledIdle_RunAps (s : MP_SYSTEM_DATA) (Events : List ApEvent) :
    KeepsDisabledIdle s (RunAps s Events) := by
  unfold RunAps
  induction Events generalizing s with
  | nil => exact KeepsDisabledIdle_refl s
  | cons e rest ih =>
    rw [List.foldl_cons]
    exact KeepsDisabledIdle_trans _ _ _ (KeepsDisabledIdle_ApSelfTransition s e) (ih _)

theorem KeepsDisabledIdle_CheckAndUpdateAllAPsToIdleState (s : MP_SYSTEM_DATA) :
    KeepsDisabledIdle s (CheckAndUpdateAllAPsToIdleState s) := by
  obtain ⟨hframe, -, hcpu⟩ := CheckAndUpdateAllAPsToIdleState_spec s
  refine ⟨by rw [hframe], fun j => ?_⟩
  rw [hcpu j]
  unfold HarvestedRecord
  split_ifs with h1 h2
  · exact ⟨rfl, fun _ _ => rfl⟩
  · refine ⟨rfl, fun _ hi => ?_⟩
    rw [((IsBlockedAP_iff _).1 h2.2.2.1).2] at hi
    cases hi
  · exact ⟨rfl, fun _ h => h⟩

theorem KeepsDisabledIdle_ResetAllFailedBody (W : MpWorld) (Number : Nat) :
    KeepsDisabledIdle W.mMpSystemData (ResetAllFailedBody W Number).mMpSystemData := by
  unfold ResetAllFailedBody
  simp only [ResetProcessorToIdleState, SetCpu_Cpu_self]
  split_ifs
  · exact KeepsDisabledIdle_refl _
  · exact KeepsDisabledIdle_refl _
  · exact KeepsDisabledIdle_of_frame _ _ rfl rfl
  · exact KeepsDisabledIdle_refl _
  · exact KeepsDisabledIdle_refl _

theorem KeepsDisabledIdle_ResetAllFailedAPs (w : Nat) (W : MpWorld) :
    KeepsDisabledIdle W.mMpSystemData (ResetAllFailedAPs w W).mMpSystemData := by
  have hfold : ∀ (l : List Nat) (V : MpWorld),
      KeepsDisabledIdle V.mMpSystemData (l.foldl ResetAllFailedBody V).mMpSystemData := by
    intro l
    induction l with
    | nil => intro V; exact KeepsDisabledIdle_refl _
    | cons a rest ih =>
      intro V
      rw [List.foldl_cons]
      exact KeepsDisabledIdle_trans _ _ _ (KeepsDisabledIdle_ResetAllFailedBody V a) (ih _)
  unfold ResetAllFailedAPs
  simp only
  split_ifs
  · rw [FailedListStore_mMpSystemData]
    exact hfold _ _
  · exact hfold _ _
  · rw [FailedListStore_mMpSystemData]
    exact hfold _ _
  · exact hfold _ _

theorem KeepsDisabledIdle_CheckAllAPsStatus (w : Nat) (W : MpWorld) :
    KeepsDisabledIdle W.mMpSystemData (CheckAllAPsStatus w W).mMpSystemData := by
  have h1 : KeepsDisabledIdle W.mMpSystemData
      (if W.mMpSystemData.TimeoutActive then
        { W.mMpSystemData with Timeout := ToINTN w (W.mMpSystemData.Timeout - gPollInterval) }
      else W.mMpSystemData) := by
    split_ifs
    · exact KeepsDisabledIdle_of_frame _ _ rfl rfl
    · exact KeepsDisabledIdle_refl _
  have h2 := KeepsDisabledIdle_trans _ _ _ h1 (KeepsDisabledIdle_CheckAndUpdateAllAPsToIdleState _)
  have htail : ∀ W3 : MpWorld, ∀ R : MpWorld,
      R = (if W3.mMpSystemData.FinishCount ≠ W3.mMpSystemData.StartCount then W3
        else
          if W3.mMpSystemData.WaitEvent ≠ 0 then
            { W3 with
              PeriodicTimers :=
                W3.PeriodicTimers.filter (fun e => e != W3.mMpSystemData.CheckAllAPsEvent)
              SignaledEvents := W3.mMpSystemData.WaitEvent :: W3.SignaledEvents
              mMpSystemData := { W3.mMpSystemData with WaitEvent := 0 } }
          else
            { W3 with
              PeriodicTimers :=
                W3.PeriodicTimers.filter (fun e => e != W3.mMpSystemData.CheckAllAPsEvent) }) →
      KeepsDisabledIdle W3.mMpSystemData R.mMpSystemData := by
    intro W3 R hR
    subst hR
    split_ifs
    · exact KeepsDisabledIdle_refl _
    · exact KeepsDisabledIdle_of_frame _ _ rfl rfl
    · exact KeepsDisabledIdle_refl _
  by_cases hto : ((CheckAndUpdateAllAPsToIdleState
        (if W.mMpSystemData.TimeoutActive then
          { W.mMpSystemData with
            Timeout := ToINTN w (W.mMpSystemData.Timeout - gPollInterval) }
        else W.mMpSystemData)).TimeoutActive
      && decide ((CheckAndUpdateAllAPsToIdleState
        (if W.mMpSystemData.TimeoutActive then
          { W.mMpSystemData with
            Timeout := ToINTN w (W.mMpSystemData.Timeout - gPollInterval) }
        else W.mMpSystemData)).Timeout < 0)) = true
  · have h3 := htail
        { ResetAllFailedAPs w { W with mMpSystemData :=
            (CheckAndUpdateAllAPsToIdleState
              (if W.mMpSystemData.TimeoutActive then
                { W.mMpSystemData with
                  Timeout := ToINTN w (W.mMpSystemData.Timeout - gPollInterval) }
              else W.mMpSystemData)) } with
          mMpSystemData :=
            { (ResetAllFailedAPs w { W with mMpSystemData :=
                (CheckAndUpdateAllAPsToIdleState
                  (if W.mMpSystemData.TimeoutActive then
                    { W.mMpSystemData with
                      Timeout := ToINTN w (W.mMpSystemData.Timeout - gPollInterval) }
                  else W.mMpSystemData)) }).mMpSystemData with
              FinishCount := (ResetAllFailedAPs w { W with mMpSystemData :=
                (CheckAndUpdateAllAPsToIdleState
                  (if W.mMpSystemData.TimeoutActive then
                    { W.mMpSystemData with
                      Timeout := ToINTN w (W.mMpSystemData.Timeout - gPollInterval) }
                  else W.mMpSystemData)) }).mMpSystemData.StartCount } }
        (CheckAllAPsStatus w W)
        (by simp only [CheckAllAPsStatus, hto, if_true])
    refine KeepsDisabledIdle_trans _ _ _ (KeepsDisabledIdle_trans _ _ _ h2 ?_) h3
    exact KeepsDisabledIdle_trans _ _ _ (KeepsDisabledIdle_ResetAllFailedAPs w _)
      (KeepsDisabledIdle_of_frame _ _ rfl rfl)
  · have h3 := htail
        { W with mMpSystemData :=
            (CheckAndUpdateAllAPsToIdleState
              (if W.mMpSystemData.TimeoutActive then
                { W.mMpSystemData with
                  Timeout := ToINTN w (W.mMpSystemData.Timeout - gPollInterval) }
              else W.mMpSystemData)) }
        (CheckAllAPsStatus w W)
        (by simp only [CheckAllAPsStatus, hto, Bool.false_eq_true, if_false])
    exact KeepsDisabledIdle_trans _ _ _ h2 h3

theorem KeepsDisabledIdle_CheckThisAPStatus (w k : Nat) (W : MpWorld) :
    KeepsDisabledIdle W.mMpSystemData (CheckThisAPStatus w k W).mMpSystemData := by
  by_cases hk : k < W.mMpSystemData.CpuDatas.length
  · obtain ⟨c1, c2, c3⟩ := CheckThisAPStatus_cases w k W hk
    by_cases hfin : GetApState (W.mMpSystemData.Cpu k) = CpuStateFinished
    · rw [c1 hfin]
      exact KeepsDisabledIdle_SetCpu _ _ _ rfl (fun _ _ => rfl)
    · by_cases hto : (W.mMpSystemData.Cpu k).TimeoutActive = true
          ∧ ToINTN w ((W.mMpSystemData.Cpu k).Timeout - gPollInterval) < 0
      · rw [c2 hfin hto.1 hto.2]
        exact KeepsDisabledIdle_SetCpu _ _ _ rfl (fun _ h => h)
      · rw [c3 hfin hto]
        exact KeepsDisabledIdle_SetCpu _ _ _ rfl (fun _ h => h)
  · have hle : W.mMpSystemData.CpuDatas.length ≤ k := by omega
    unfold CheckThisAPStatus
    simp only [CheckThisAPStatusOut_eq]
    split_ifs <;> simp only [SetCpu_of_length_le _ _ _ hle] <;> exact KeepsDisabledIdle_refl _

theorem KeepsDisabledIdle_StartupThisAPWait (w k : Nat) (Schedule : List (List ApEvent)) :
    ∀ (W : MpWorld) (st : EFI_STATUS) (W' : MpWorld),
      StartupThisAPWait w k Schedule W = some (st, W') →
      KeepsDisabledIdle W.mMpSystemData W'.mMpSystemData := by
  have hstall : ∀ (W : MpWorld) (Events : List ApEvent),
      KeepsDisabledIdle W.mMpSystemData (StartupThisAPStall w k W Events).mMpSystemData := by
    intro W Events
    simp only [StartupThisAPStall]
    exact KeepsDisabledIdle_trans _ _ _ (KeepsDisabledIdle_RunAps _ _) (KeepsDisabledIdle_SetCpu _ _ _ rfl (fun _ h => h))
  have hpass : ∀ (W : MpWorld) (r : EFI_STATUS × MpWorld),
      StartupThisAPPass k W = Sum.inl r → KeepsDisabledIdle W.mMpSystemData r.2.mMpSystemData := by
    intro W r hr
    obtain ⟨p1, p2, p3⟩ := StartupThisAPPass_cases k W
    by_cases hfin : GetApState (W.mMpSystemData.Cpu k) = CpuStateFinished
    · rw [p1 hfin] at hr
      simp only [Sum.inl.injEq] at hr
      subst hr
      exact KeepsDisabledIdle_SetCpu _ _ _ rfl (fun _ _ => rfl)
    · by_cases hto : (W.mMpSystemData.Cpu k).TimeoutActive = true
          ∧ (W.mMpSystemData.Cpu k).Timeout < 0
      · rw [p2 hfin hto.1 hto.2] at hr
        simp only [Sum.inl.injEq] at hr
        subst hr
        exact KeepsDisabledIdle_refl _
      · rw [p3 hfin hto] at hr
        cases hr
  have hinr : ∀ (W W1 : MpWorld), StartupThisAPPass k W = Sum.inr W1 → W1 = W := by
    intro W W1 hr
    simp only [StartupThisAPPass] at hr
    split_ifs at hr
    simp only [Sum.inr.injEq] at hr
    exact hr.symm
  induction Schedule with
  | nil =>
    intro W st W' h
    unfold StartupThisAPWait at h
    cases hp : StartupThisAPPass k W with
    | inl r =>
      rw [hp] at h
      simp only [Option.some.injEq] at h
      subst h
      exact hpass W _ hp
    | inr W1 =>
      rw [hp] at h
      cases h
  | cons Events rest ih =>
    intro W st W' h
    unfold StartupThisAPWait at h
    cases hp : StartupThisAPPass k W with
    | inl r =>
      rw [hp] at h
      simp only [Option.some.injEq] at h
      subst h
      exact hpass W _ hp
    | inr W1 =>
      rw [hp] at h
      simp only at h
      have := hinr W W1 hp
      subst this
      exact KeepsDisabledIdle_trans _ _ _ (hstall W1 Events) (ih _ st W' h)

theorem KeepsDisabledIdle_StartupThisAPDispatch (w : Nat) (s : MP_SYSTEM_DATA) (P k E T A F : Nat)
    (hEn : IsEnabledAP (s.Cpu k) = true) :
    KeepsDisabledIdle s (StartupThisAPDispatch w s P k E T A F) := by
  obtain ⟨dk, dother, dframe, -⟩ := StartupThisAPDispatch_spec w s P k E T A F
    (lt_length_of_IsEnabledAP _ _ hEn)
  refine ⟨by rw [dframe], fun j => ?_⟩
  by_cases hj : j = k
  · subst hj
    rw [dk]
    refine ⟨rfl, fun he _ => ?_⟩
    rw [hEn] at he
    cases he
  · rw [dother j hj]
    exact ⟨rfl, fun _ h => h⟩

theorem KeepsDisabledIdle_StartupThisAP (w ApicId Procedure k : Nat)
    (WaitEvent T A Finished : Nat) (Schedule : List (List ApEvent)) (W W' : MpWorld)
    (st : EFI_STATUS)
    (h : StartupThisAP w ApicId Procedure k WaitEvent T A Finished Schedule W = some (st, W')) :
    KeepsDisabledIdle W.mMpSystemData W'.mMpSystemData := by
  have hmp : (if Finished ≠ 0 then
        { W with FinishedMem := MemWrite W.FinishedMem Finished false }
      else W).mMpSystemData = W.mMpSystemData := by split_ifs <;> rfl
  by_cases h1 : IsBSP W.mMpSystemData ApicId = true
  · by_cases h2 : Procedure = 0
    · simp only [StartupThisAP, hmp, h1, h2, Bool.not_true, Bool.false_eq_true, if_false,
        if_true, Option.some.injEq, Prod.mk.injEq] at h
      rw [← h.2, hmp]
      exact KeepsDisabledIdle_refl _
    · by_cases hv : k < W.mMpSystemData.NumberOfProcessors
          ∧ IsEnabledAP (W.mMpSystemData.Cpu k) = true
          ∧ GetApState (W.mMpSystemData.Cpu k) = CpuStateIdle
      · obtain ⟨hlt, hEn, hIdle⟩ := hv
        obtain ⟨W1, hc, hm, -⟩ := StartupThisAP_of_valid w ApicId Procedure k WaitEvent T A
          Finished Schedule W h1 h2 hlt hEn hIdle
        have hd : KeepsDisabledIdle W.mMpSystemData W1.mMpSystemData := by
          rw [hm]
          exact KeepsDisabledIdle_StartupThisAPDispatch w _ _ _ _ _ _ _ hEn
        rw [hc] at h
        split_ifs at h
        · simp only [Option.some.injEq, Prod.mk.injEq] at h
          rw [← h.2]
          exact hd
        · exact KeepsDisabledIdle_trans _ _ _ hd
            (KeepsDisabledIdle_StartupThisAPWait w k Schedule W1 st W' h)
      · obtain ⟨W0, hc, hm, -⟩ := StartupThisAP_of_invalid w ApicId Procedure k WaitEvent T A
          Finished Schedule W h1 h2 hv
        rw [hc] at h
        simp only [Option.some.injEq, Prod.mk.injEq] at h
        rw [← h.2, hm]
        exact KeepsDisabledIdle_refl _
  · simp only [Bool.not_eq_true] at h1
    simp only [StartupThisAP, hmp, h1, Bool.not_false, if_true, Option.some.injEq,
      Prod.mk.injEq] at h
    rw [← h.2, hmp]
    exact KeepsDisabledIdle_refl _

theorem KeepsDisabledIdle_StartupAllAPsDispatch (w : Nat) (s : MP_SYSTEM_DATA) (P : Nat) (ST : Bool)
    (E T A F : Nat) : KeepsDisabledIdle s (StartupAllAPsDispatch w s P ST E T A F) := by
  obtain ⟨hframe, -, -, hcpu⟩ :=
    StartupAllAPs_fold P A ST (StartupAllAPsInit w s P ST E T A F) s.NumberOfProcessors
  have hc0 : ∀ i, (StartupAllAPsInit w s P ST E T A F).Cpu i = s.Cpu i := fun _ => rfl
  refine ⟨?_, fun j => ?_⟩
  · unfold StartupAllAPsDispatch
    rw [hframe]
    rfl
  · unfold StartupAllAPsDispatch
    rw [hcpu j, hc0 j]
    have hen : ∀ c : CPU_DATA_BLOCK, IsIdleEnabledAP c = true → IsEnabledAP c = false →
        False := by
      intro c h1 h2
      simp only [IsIdleEnabledAP, Bool.and_eq_true] at h1
      rw [h2] at h1
      exact Bool.false_ne_true h1.1
    split_ifs with h1 h2
    · exact ⟨rfl, fun he _ => (hen _ h1.2 he).elim⟩
    · exact ⟨rfl, fun he _ => (hen _ h1.2 he).elim⟩
    · exact ⟨rfl, fun _ h => h⟩

theorem KeepsDisabledIdle_StartupAllAPsWait (w : Nat) (Schedule : List (List ApEvent)) :
    ∀ (W : MpWorld) (st : EFI_STATUS) (W' : MpWorld),
      StartupAllAPsWait w Schedule W = some (st, W') →
      KeepsDisabledIdle W.mMpSystemData W'.mMpSystemData := by
  have hstall : ∀ (W : MpWorld) (Events : List ApEvent),
      KeepsDisabledIdle W.mMpSystemData (StartupAllAPsStall w W Events).mMpSystemData := by
    intro W Events
    simp only [StartupAllAPsStall]
    exact KeepsDisabledIdle_trans _ _ _ (KeepsDisabledIdle_RunAps _ _) (KeepsDisabledIdle_of_frame _ _ rfl rfl)
  have hpass : ∀ (W : MpWorld),
      (∀ r, StartupAllAPsPass w W = Sum.inl r → KeepsDisabledIdle W.mMpSystemData r.2.mMpSystemData)
      ∧ (∀ W1, StartupAllAPsPass w W = Sum.inr W1 →
          KeepsDisabledIdle W.mMpSystemData W1.mMpSystemData) := by
    intro W
    have hh := KeepsDisabledIdle_CheckAndUpdateAllAPsToIdleState W.mMpSystemData
    constructor
    · intro r hr
      simp only [StartupAllAPsPass] at hr
      split_ifs at hr
      · simp only [Sum.inl.injEq] at hr
        subst hr
        exact hh
      · simp only [Sum.inl.injEq] at hr
        subst hr
        exact KeepsDisabledIdle_trans _ _ _ hh (KeepsDisabledIdle_ResetAllFailedAPs w _)
    · intro W1 hr
      simp only [StartupAllAPsPass] at hr
      split_ifs at hr
      simp only [Sum.inr.injEq] at hr
      subst hr
      exact hh
  induction Schedule with
  | nil =>
    intro W st W' h
    unfold StartupAllAPsWait at h
    cases hp : StartupAllAPsPass w W with
    | inl r =>
      rw [hp] at h
      simp only [Option.some.injEq] at h
      subst h
      exact (hpass W).1 _ hp
    | inr W1 =>
      rw [hp] at h
      cases h
  | cons Events rest ih =>
    intro W st W' h
    unfold StartupAllAPsWait at h
    cases hp : StartupAllAPsPass w W with
    | inl r =>
      rw [hp] at h
      simp only [Option.some.injEq] at h
      subst h
      exact (hpass W).1 _ hp
    | inr W1 =>
      rw [hp] at h
      simp only at h
      exact KeepsDisabledIdle_trans _ _ _ ((hpass W).2 W1 hp)
        (KeepsDisabledIdle_trans _ _ _ (hstall W1 Events) (ih _ st W' h))

theorem KeepsDisabledIdle_StartupAllAPs (w ApicId Procedure : Nat) (SingleThread : Bool)
    (WaitEvent T A FailedCpuList : Nat) (Schedule : List (List ApEvent)) (W W' : MpWorld)
    (st : EFI_STATUS)
    (h : StartupAllAPs w ApicId Procedure SingleThread WaitEvent T A FailedCpuList Schedule W
      = some (st, W')) :
    KeepsDisabledIdle W.mMpSystemData W'.mMpSystemData := by
  by_cases hv : IsBSP W.mMpSystemData ApicId = true
      ∧ W.mMpSystemData.NumberOfProcessors ≠ 1 ∧ Procedure ≠ 0
      ∧ StartupAllAPsReady W.mMpSystemData
          (List.range W.mMpSystemData.NumberOfProcessors) = true
  · obtain ⟨h1, h2, h3, h4⟩ := hv
    have hIdle := (ActiveCount_eq_zero _).1 ((StartupAllAPsReady_iff _).1 h4)
    obtain ⟨W1, hc, hm, -⟩ := StartupAllAPs_of_valid w ApicId Procedure SingleThread WaitEvent
      T A FailedCpuList Schedule W h1 h2 h3 hIdle
    have hd : KeepsDisabledIdle W.mMpSystemData W1.mMpSystemData := by
      rw [hm]
      exact KeepsDisabledIdle_StartupAllAPsDispatch w _ _ _ _ _ _ _
    rw [hc] at h
    split_ifs at h
    · simp only [Option.some.injEq, Prod.mk.injEq] at h
      rw [← h.2]
      exact hd
    · exact KeepsDisabledIdle_trans _ _ _ hd (KeepsDisabledIdle_StartupAllAPsWait w Schedule W1 st W' h)
  · obtain ⟨W0, hc, hm, -⟩ := StartupAllAPs_rejected w ApicId Procedure SingleThread WaitEvent
      T A FailedCpuList Schedule W hv
    rw [hc] at h
    simp only [Option.some.injEq, Prod.mk.injEq] at h
    rw [← h.2, hm]
    exact KeepsDisabledIdle_refl _

/-- The property behind C34 is an invariant of the reachable states. -/
theorem MpRun_disabled_idle (w gMax BspId : Nat) (W : MpWorld)
    (hrun : MpRun w gMax BspId W) :
    ∀ j, TestCpuStatusFlag (W.mMpSystemData.Cpu j) PROCESSOR_AS_BSP_BIT = false →
      TestCpuStatusFlag (W.mMpSystemData.Cpu j) PROCESSOR_ENABLED_BIT = false →
      GetApState (W.mMpSystemData.Cpu j) = CpuStateIdle := by
  have hkeep : ∀ s t : MP_SYSTEM_DATA,
      (∀ j, TestCpuStatusFlag (s.Cpu j) PROCESSOR_AS_BSP_BIT = false →
        TestCpuStatusFlag (s.Cpu j) PROCESSOR_ENABLED_BIT = false →
        GetApState (s.Cpu j) = CpuStateIdle) →
      KeepsDisabledIdle s t →
      (∀ j, TestCpuStatusFlag (t.Cpu j) PROCESSOR_AS_BSP_BIT = false →
        TestCpuStatusFlag (t.Cpu j) PROCESSOR_ENABLED_BIT = false →
        GetApState (t.Cpu j) = CpuStateIdle) := by
    intro s t hs hk j hb he
    rw [TestCpuStatusFlag_congr _ _ _ (hk.2 j).1] at hb he
    refine (hk.2 j).2 ?_ (hs j hb he)
    simp only [IsEnabledAP, he, Bool.and_false]
  induction hrun with
  | init =>
    intro j hb _
    obtain ⟨-, -, hcpu⟩ := InitMpSystemData_spec gMax BspId
    simp only at hb ⊢
    rw [hcpu j] at hb ⊢
    split_ifs at hb ⊢ with h1 h2
    · rw [BspBit_eq_testBit] at hb
      exact absurd hb (by decide : ¬ Nat.testBit 7 0 = false)
    · rfl
    · rfl
  | register W ApicId _ _ ih =>
    intro j hb he
    simp only at hb he ⊢
    rw [Cpu_ApEntryPointInC] at hb he ⊢
    split_ifs at hb he ⊢ with h
    · rfl
    · exact ih j hb he
  | enableDisable W ApicId k EnableAP HealthFlag _ ih =>
    intro j hb he
    obtain ⟨-, hstate, hcpu⟩ := EnableDisableAP_session w ApicId k EnableAP HealthFlag
      W.mMpSystemData
    simp only at hb he ⊢
    rw [hstate j]
    by_cases hne : (EnableDisableAP w ApicId k EnableAP HealthFlag W.mMpSystemData).2.Cpu j
        = W.mMpSystemData.Cpu j
    · rw [hne] at hb he
      exact ih j hb he
    · obtain ⟨rfl, hidle⟩ := hcpu j hne
      exact hidle
  | startupAllAPs W W' Status ApicId Procedure SingleThread WaitEvent T A F Schedule _ hc ih =>
    exact hkeep _ _ ih (KeepsDisabledIdle_StartupAllAPs w _ _ _ _ _ _ _ _ _ _ _ hc)
  | startupThisAP W W' Status ApicId Procedure k WaitEvent T A F Schedule _ hc ih =>
    exact hkeep _ _ ih (KeepsDisabledIdle_StartupThisAP w _ _ _ _ _ _ _ _ _ _ _ hc)
  | checkAllAPsStatus W _ ih => exact hkeep _ _ ih (KeepsDisabledIdle_CheckAllAPsStatus w W)
  | checkThisAPStatus W Number _ ih =>
    exact hkeep _ _ ih (KeepsDisabledIdle_CheckThisAPStatus w Number W)
  | harvest W _ ih =>
    exact hkeep _ _ ih (KeepsDisabledIdle_CheckAndUpdateAllAPsToIdleState _)
  | resetAllFailedAPs W _ ih => exact hkeep _ _ ih (KeepsDisabledIdle_ResetAllFailedAPs w W)
  | selfTransition W e _ ih => exact hkeep _ _ ih (KeepsDisabledIdle_ApSelfTransition _ e)

/-- C34. Disabled cores are always idle.  In every state reached from
`InitMpSystemData` by registrations of application processors, calls of
`EnableDisableAP`, `StartupAllAPs` and `StartupThisAP`, notifications of the
two timers, harvesting passes, the timeout handling and self-transitions of the
application processors:
(1) every record with `PROCESSOR_AS_BSP_BIT` and `PROCESSOR_ENABLED_BIT` both
clear is in state idle;
(2) so every record without `PROCESSOR_AS_BSP_BIT` that is not idle (ready or
blocked after a dispatch, busy, finished and about to be harvested, or about
to be listed by `ResetAllFailedAPs`) is an enabled application processor;
(3) and the processor `GetNextBlockedNumber` finds for a promotion, which it
picks without testing `PROCESSOR_ENABLED_BIT`, is enabled. -/
theorem C34_disabled_cores_idle (w gMaxLogicalProcessorNumber BspId : Nat) (W : MpWorld)
    (hrun : MpRun w gMaxLogicalProcessorNumber BspId W) :
    (∀ j, TestCpuStatusFlag (W.mMpSystemData.Cpu j) PROCESSOR_AS_BSP_BIT = false →
      TestCpuStatusFlag (W.mMpSystemData.Cpu j) PROCESSOR_ENABLED_BIT = false →
      GetApState (W.mMpSystemData.Cpu j) = CpuStateIdle)
    ∧ (∀ j, TestCpuStatusFlag (W.mMpSystemData.Cpu j) PROCESSOR_AS_BSP_BIT = false →
        GetApState (W.mMpSystemData.Cpu j) ≠ CpuStateIdle →
        IsEnabledAP (W.mMpSystemData.Cpu j) = true)
    ∧ (∀ q, GetNextBlockedNumber W.mMpSystemData = some q →
        IsEnabledAP (W.mMpSystemData.Cpu q) = true) := by
  have h := MpRun_disabled_idle w gMaxLogicalProcessorNumber BspId W hrun
  have h2 : ∀ j, TestCpuStatusFlag (W.mMpSystemData.Cpu j) PROCESSOR_AS_BSP_BIT = false →
      GetApState (W.mMpSystemData.Cpu j) ≠ CpuStateIdle →
      IsEnabledAP (W.mMpSystemData.Cpu j) = true := by
    intro j hb hni
    rcases Bool.eq_false_or_eq_true
      (TestCpuStatusFlag (W.mMpSystemData.Cpu j) PROCESSOR_ENABLED_BIT) with he | he
    · simp only [IsEnabledAP, hb, he, Bool.not_false, Bool.and_self]
    · exact absurd (h j hb he) hni
  refine ⟨h, h2, fun q hq => ?_⟩
  obtain ⟨-, hblocked, -⟩ := GetNextBlockedNumber_some _ q hq
  obtain ⟨hb, hs⟩ := (IsBlockedAP_iff _).1 hblocked
  exact h2 q hb (by rw [hs]; decide)

/-- Witness of C34 on `Run3SecondDisabledPending`: processor 2, disabled before
the single-thread `StartupAllAPs`, is idle while processor 1 is ready. -/
theorem C34_disabled_cores_idle_witness :
    GetApState (Run3SecondDisabledPending.mMpSystemData.Cpu 2) = CpuStateIdle
    ∧ GetApState (Run3SecondDisabledPending.mMpSystemData.Cpu 1) = CpuStateReady :=
  ⟨(C34_disabled_cores_idle 64 3 0 Run3SecondDisabledPending
      (MpRun.startupAllAPs Run3SecondDisabled Run3SecondDisabledPending EFI_SUCCESS
        0 5 true 3 0 9 0 []
        (MpRun.enableDisable _ 0 2 false none
          (MpRun.register _ 2 (MpRun.register _ 1 MpRun.init (by decide)) (by decide)))
        rfl)).1 2 (by decide) (by decide),
    by decide⟩

theorem pollInterval_fits (w : Nat) (hw : gPollInterval ≤ 2 ^ (w - 1)) :
    1 ≤ w ∧ (100 : Int) ≤ 2 ^ (w - 1) := by
  constructor
  · rcases Nat.eq_zero_or_pos w with h | h
    · subst h; simp [gPollInterval] at hw
    · exact h
  · have : ((gPollInterval : Nat) : Int) ≤ ((2 ^ (w - 1) : Nat) : Int) := by exact_mod_cast hw
    simpa [gPollInterval] using this

/-- The polling loop of `StartupThisAP` on a target that never finishes, with
an active deadline and a budget `T` in the lower half of the word range: the
loop is still polling after a schedule of at most `T / 100` stalls and returns
`EFI_TIMEOUT` in the turn after stall number `T / 100 + 1`. -/
theorem StartupThisAPWait_stalls (w k : Nat) (hw : gPollInterval ≤ 2 ^ (w - 1)) :
    ∀ (Schedule : List (List ApEvent)) (W : MpWorld) (T : Int),
      k < W.mMpSystemData.CpuDatas.length →
      (W.mMpSystemData.Cpu k).TimeoutActive = true →
      (W.mMpSystemData.Cpu k).Timeout = T → 0 ≤ T → T < 2 ^ (w - 1) →
      GetApState (W.mMpSystemData.Cpu k) ≠ CpuStateFinished →
      (∀ Events, Events ∈ Schedule → ApEvent.Return k ∉ Events) →
      (StartupThisAPWait w k Schedule W = none ↔ (Schedule.length : Int) ≤ T / 100)
      ∧ (T / 100 + 1 ≤ (Schedule.length : Int) →
          ∃ W', StartupThisAPWait w k Schedule W = some (EFI_TIMEOUT, W')
            ∧ (W'.mMpSystemData.Cpu k).Timeout = T - (T / 100 + 1) * 100) := by
  obtain ⟨hw1, hwI⟩ := pollInterval_fits w hw
  intro Schedule
  induction Schedule with
  | nil =>
    intro W T hk hta hT h0 hlt hnf hev
    have hpass : StartupThisAPPass k W = Sum.inr W :=
      (StartupThisAPPass_cases k W).2.2 hnf (fun h => by have := h.2; rw [hT] at this; omega)
    rw [(StartupThisAPWait_of_inr w k [] [] W hpass).1]
    simp only [List.length_nil, Nat.cast_zero, true_iff]
    constructor
    · omega
    · intro h; omega
  | cons Events rest ih =>
    intro W T hk hta hT h0 hlt hnf hev
    have hpass : StartupThisAPPass k W = Sum.inr W :=
      (StartupThisAPPass_cases k W).2.2 hnf (fun h => by have := h.2; rw [hT] at this; omega)
    rw [(StartupThisAPWait_of_inr w k Events rest W hpass).2]
    obtain ⟨slen, -, -, -, sto, sta⟩ := RunAps_sink W.mMpSystemData Events k
    have hk1 : k < (RunAps W.mMpSystemData Events).CpuDatas.length := by rw [slen]; exact hk
    have hT1 : ToINTN w (T - (gPollInterval : Nat)) = T - 100 := by
      rw [ToINTN_of_range w _ hw1 (by simp only [gPollInterval]; push_cast; omega)
        (by simp only [gPollInterval]; push_cast; omega)]
      simp [gPollInterval]
    have hrec : (StartupThisAPStall w k W Events).mMpSystemData.Cpu k
        = { (RunAps W.mMpSystemData Events).Cpu k with Timeout := T - 100 } := by
      simp only [StartupThisAPStall]
      rw [Cpu_SetCpu_self _ _ _ hk1]
      simp only [sto, hT, hT1]
    have hlen1 : k < (StartupThisAPStall w k W Events).mMpSystemData.CpuDatas.length := by
      simp only [StartupThisAPStall, length_SetCpu]
      exact hk1
    have hta1 : ((StartupThisAPStall w k W Events).mMpSystemData.Cpu k).TimeoutActive = true := by
      rw [hrec]; exact sta.trans hta
    have hto1 : ((StartupThisAPStall w k W Events).mMpSystemData.Cpu k).Timeout = T - 100 := by
      rw [hrec]
    have hnf1 : GetApState ((StartupThisAPStall w k W Events).mMpSystemData.Cpu k)
        ≠ CpuStateFinished := by
      rw [hrec]
      exact RunAps_not_finished W.mMpSystemData Events k
        (hev Events (List.mem_cons_self _ _)) hnf
    simp only [List.length_cons, Nat.cast_add, Nat.cast_one]
    by_cases hneg : T - 100 < 0
    · have hb := StartupThisAPWait_of_inl w k rest _ _
        ((StartupThisAPPass_cases k (StartupThisAPStall w k W Events)).2.1 hnf1 hta1
          (by rw [hto1]; exact hneg))
      rw [hb]
      constructor
      · constructor
        · intro h; cases h
        · intro h; omega
      · intro _
        refine ⟨_, rfl, ?_⟩
        rw [hto1]
        omega
    · obtain ⟨i1, i2⟩ := ih (StartupThisAPStall w k W Events) (T - 100) hlen1 hta1 hto1
        (by omega) (by omega) hnf1 (fun Ev hEv => hev Ev (List.mem_cons_of_mem _ hEv))
      constructor
      · rw [i1]
        omega
      · intro h
        obtain ⟨W', a, b⟩ := i2 (by omega)
        refine ⟨W', a, ?_⟩
        rw [b]
        omega

/-- The polling loop of `StartupAllAPs` in a session in which no procedure
ever returns, with an active deadline and a budget `T` in the lower half of the
word range: the loop is still polling after a schedule of at most `T / 100`
stalls and returns `EFI_TIMEOUT` in the turn after stall number `T / 100 + 1`. -/
theorem StartupAllAPsWait_stalls (w : Nat) (hw : gPollInterval ≤ 2 ^ (w - 1))
    (s0 : MP_SYSTEM_DATA) (hact : s0.TimeoutActive = true)
    (hcnt : s0.FinishCount ≠ s0.StartCount) :
    ∀ (Schedule : List (List ApEvent)) (W : MpWorld) (T : Int),
      SessionStuck s0 W.mMpSystemData →
      (∀ Events, Events ∈ Schedule → ∀ e, e ∈ Events → ∃ n, e = ApEvent.Begin n) →
      W.mMpSystemData.Timeout = T → 0 ≤ T → T < 2 ^ (w - 1) →
      (StartupAllAPsWait w Schedule W = none ↔ (Schedule.length : Int) ≤ T / 100)
      ∧ (T / 100 + 1 ≤ (Schedule.length : Int) →
          ∃ Wt, StartupAllAPsWait w Schedule W = some (EFI_TIMEOUT, ResetAllFailedAPs w Wt)
            ∧ SessionStuck s0 Wt.mMpSystemData
            ∧ Wt.mMpSystemData.Timeout = T - (T / 100 + 1) * 100) := by
  obtain ⟨hw1, hwI⟩ := pollInterval_fits w hw
  have hturn : ∀ W : MpWorld, SessionStuck s0 W.mMpSystemData →
      (W.mMpSystemData.Timeout < 0 →
        StartupAllAPsPass w W = Sum.inl (EFI_TIMEOUT, ResetAllFailedAPs w W))
      ∧ (¬ W.mMpSystemData.Timeout < 0 → StartupAllAPsPass w W = Sum.inr W) := by
    intro W hstuck
    have hharv := SessionStuck_harvest s0 _ hstuck
    obtain ⟨-, e2, e3, e4, -, -⟩ := SessionStuck_fields s0 _ hstuck
    have h1 : W.mMpSystemData.TimeoutActive = true := by rw [e2]; exact hact
    have h2 : W.mMpSystemData.FinishCount ≠ W.mMpSystemData.StartCount := by
      rw [e3, e4]; exact hcnt
    constructor
    · intro hneg
      simp [StartupAllAPsPass, hharv, h1, h2, hneg]
    · intro hneg
      simp [StartupAllAPsPass, hharv, h1, h2, hneg]
  intro Schedule
  induction Schedule with
  | nil =>
    intro W T hstuck hev hT h0 hlt
    have hpass := (hturn W hstuck).2 (by rw [hT]; omega)
    simp only [StartupAllAPsWait, hpass, List.length_nil, Nat.cast_zero, true_iff]
    constructor
    · omega
    · intro h; omega
  | cons Events rest ih =>
    intro W T hstuck hev hT h0 hlt
    have hpass := (hturn W hstuck).2 (by rw [hT]; omega)
    have hstuck1 : SessionStuck s0 (StartupAllAPsStall w W Events).mMpSystemData :=
      SessionStuck_stall w s0 _ Events (hev Events (List.mem_cons_self _ _)) hstuck
    have hT0 : (RunAps W.mMpSystemData Events).Timeout = W.mMpSystemData.Timeout := by
      rw [RunAps_frame]
    have hT1 : ToINTN w (T - (gPollInterval : Nat)) = T - 100 := by
      rw [ToINTN_of_range w _ hw1 (by simp only [gPollInterval]; push_cast; omega)
        (by simp only [gPollInterval]; push_cast; omega)]
      simp [gPollInterval]
    have hto1 : (StartupAllAPsStall w W Events).mMpSystemData.Timeout = T - 100 := by
      simp only [StartupAllAPsStall, hT0, hT, hT1]
    have hstep : StartupAllAPsWait w (Events :: rest) W
        = StartupAllAPsWait w rest (StartupAllAPsStall w W Events) := by
      simp only [StartupAllAPsWait, hpass]
    rw [hstep]
    simp only [List.length_cons, Nat.cast_add, Nat.cast_one]
    by_cases hneg : T - 100 < 0
    · have hb : StartupAllAPsWait w rest (StartupAllAPsStall w W Events)
          = some (EFI_TIMEOUT, ResetAllFailedAPs w (StartupAllAPsStall w W Events)) := by
        have := (hturn _ hstuck1).1 (by rw [hto1]; exact hneg)
        cases rest <;> simp only [StartupAllAPsWait, this]
      rw [hb]
      constructor
      · constructor
        · intro h; cases h
        · intro h; omega
      · intro _
        refine ⟨_, rfl, hstuck1, ?_⟩
        rw [hto1]
        omega
    · obtain ⟨i1, i2⟩ := ih (StartupAllAPsStall w W Events) (T - 100) hstuck1
        (fun Ev hEv => hev Ev (List.mem_cons_of_mem _ hEv)) hto1 (by omega) (by omega)
      constructor
      · rw [i1]
        omega
      · intro h
        obtain ⟨Wt, a, b, c⟩ := i2 (by omega)
        refine ⟨Wt, a, b, ?_⟩
        rw [c]
        omega

/-- The state in which the polling loop of a blocking `StartupAllAPs` that
passes the checks and dispatches at least one processor starts: the session of
lines 640-687, stuck until some procedure returns, with the deadline active
when `TimeoutInMicroseconds` is not zero. -/
theorem StartupAllAPs_blocking_start (w ApicId Procedure : Nat) (SingleThread : Bool)
    (T A FailedCpuList : Nat) (Schedule : List (List ApEvent)) (W : MpWorld)
    (hBsp : IsBSP W.mMpSystemData ApicId = true)
    (hN : W.mMpSystemData.NumberOfProcessors ≠ 1)
    (hProc : Procedure ≠ 0)
    (hIdle : ∀ j, j < W.mMpSystemData.NumberOfProcessors →
      IsEnabledAP (W.mMpSystemData.Cpu j) = true →
      GetApState (W.mMpSystemData.Cpu j) = CpuStateIdle)
    (hSome : EnabledAPs W.mMpSystemData ≠ [])
    (hT : T ≠ 0) :
    ∃ W1 : MpWorld,
      StartupAllAPs w ApicId Procedure SingleThread 0 T A FailedCpuList Schedule W
        = StartupAllAPsWait w Schedule W1
      ∧ W1.mMpSystemData = StartupAllAPsDispatch w W.mMpSystemData Procedure SingleThread 0 T A
          FailedCpuList
      ∧ SessionStuck W1.mMpSystemData W1.mMpSystemData
      ∧ W1.mMpSystemData.TimeoutActive = true
      ∧ W1.mMpSystemData.FinishCount ≠ W1.mMpSystemData.StartCount
      ∧ W1.mMpSystemData.Timeout = ToINTN w T := by
  obtain ⟨W1, hcall, hmp, -⟩ := StartupAllAPs_of_valid w ApicId Procedure SingleThread 0
    T A FailedCpuList Schedule W hBsp hN hProc hIdle
  obtain ⟨hframe, hlen, -, -, -⟩ := StartupAllAPsDispatch_spec w W.mMpSystemData
    Procedure SingleThread 0 T A FailedCpuList hIdle
  obtain ⟨hinfo, hstarted⟩ := StartupAllAPsDispatch_started w W.mMpSystemData
    Procedure SingleThread 0 T A FailedCpuList hIdle
  rw [← hmp] at hframe hlen hinfo hstarted
  have fN : W1.mMpSystemData.NumberOfProcessors = W.mMpSystemData.NumberOfProcessors := by
    rw [hframe]; rfl
  have fAct : W1.mMpSystemData.TimeoutActive = true := by
    rw [hframe]; simp [StartupAllAPsInit, hT]
  have fTo : W1.mMpSystemData.Timeout = ToINTN w T := by
    rw [hframe]; rfl
  have fFin : W1.mMpSystemData.FinishCount = 0 := by rw [hframe]; rfl
  have fStart : W1.mMpSystemData.StartCount = (EnabledAPs W.mMpSystemData).length := by
    rw [hframe]
  have hM : 0 < (EnabledAPs W.mMpSystemData).length := List.length_pos.2 hSome
  have hEn : ∀ i, IsEnabledAP (W1.mMpSystemData.Cpu i) = IsEnabledAP (W.mMpSystemData.Cpu i) :=
    fun i => IsEnabledAP_congr _ _ (hinfo i)
  have hstuck : SessionStuck W1.mMpSystemData W1.mMpSystemData := by
    refine ⟨rfl, rfl, fun _ => rfl, ?_⟩
    intro i hi he
    rw [fN] at hi
    rw [hEn i] at he
    rcases hstarted i hi he with h | h <;> rw [h] <;> exact ⟨by decide, by decide⟩
  refine ⟨W1, ?_, hmp, hstuck, fAct, by rw [fFin, fStart]; omega, fTo⟩
  rw [hcall]
  simp

/-- C33. Deadlines and the signed budget.  The BSP calls `StartupThisAP` or
`StartupAllAPs` in blocking mode (`WaitEvent` null) with a procedure and a
deadline `T` that fits the machine word, `T < 2 ^ w`.
(1) When `2 ^ (w - 1) ≤ T`: a `StartupThisAP` that passes the checks returns
`EFI_TIMEOUT` whatever the schedule, the empty one included, in the state of
the dispatch, the budget of the target still at its initial, negative value;
a `StartupAllAPs` that passes the checks and dispatches at least one processor
returns `EFI_TIMEOUT` whatever the schedule, after `ResetAllFailedAPs` run in
the state of the dispatch, the budget still at its initial, negative value.
No stall has taken place.
(2) When `0 < T < 2 ^ (w - 1)`, on a machine word that holds the poll interval:
if the target never returns from its procedure, `StartupThisAP` is still in its
loop exactly when the schedule has at most `T / gPollInterval` stalls, and with
`T / gPollInterval + 1` stalls or more it returns `EFI_TIMEOUT` with the budget
at `T - (T / gPollInterval + 1) * gPollInterval`; if no processor ever returns
from its procedure, the same holds for `StartupAllAPs`. -/
theorem C33_deadline_signed_budget (w ApicId Procedure T A : Nat)
    (Schedule : List (List ApEvent)) (W : MpWorld)
    (hBsp : IsBSP W.mMpSystemData ApicId = true)
    (hProc : Procedure ≠ 0)
    (hTw : T < 2 ^ w) :
    (2 ^ (w - 1) ≤ T →
      (∀ k F, k < W.mMpSystemData.NumberOfProcessors →
        IsEnabledAP (W.mMpSystemData.Cpu k) = true →
        GetApState (W.mMpSystemData.Cpu k) = CpuStateIdle →
        ∃ W', StartupThisAP w ApicId Procedure k 0 T A F Schedule W = some (EFI_TIMEOUT, W')
          ∧ W'.mMpSystemData = StartupThisAPDispatch w W.mMpSystemData Procedure k 0 T A F
          ∧ (W'.mMpSystemData.Cpu k).Timeout = ToINTN w T
          ∧ ToINTN w T < 0)
      ∧ (∀ SingleThread FailedCpuList, W.mMpSystemData.NumberOfProcessors ≠ 1 →
          (∀ j, j < W.mMpSystemData.NumberOfProcessors →
            IsEnabledAP (W.mMpSystemData.Cpu j) = true →
            GetApState (W.mMpSystemData.Cpu j) = CpuStateIdle) →
          EnabledAPs W.mMpSystemData ≠ [] →
          ∃ Wt, StartupAllAPs w ApicId Procedure SingleThread 0 T A FailedCpuList Schedule W
              = some (EFI_TIMEOUT, ResetAllFailedAPs w Wt)
            ∧ Wt.mMpSystemData = StartupAllAPsDispatch w W.mMpSystemData Procedure SingleThread
                0 T A FailedCpuList
            ∧ Wt.mMpSystemData.Timeout = ToINTN w T
            ∧ ToINTN w T < 0))
    ∧ (0 < T → T < 2 ^ (w - 1) → gPollInterval ≤ 2 ^ (w - 1) →
      (∀ k F, k < W.mMpSystemData.NumberOfProcessors →
        IsEnabledAP (W.mMpSystemData.Cpu k) = true →
        GetApState (W.mMpSystemData.Cpu k) = CpuStateIdle →
        (∀ Events, Events ∈ Schedule → ApEvent.Return k ∉ Events) →
        (StartupThisAP w ApicId Procedure k 0 T A F Schedule W = none
          ↔ Schedule.length ≤ T / gPollInterval)
        ∧ (T / gPollInterval + 1 ≤ Schedule.length →
            ∃ W', StartupThisAP w ApicId Procedure k 0 T A F Schedule W
                = some (EFI_TIMEOUT, W')
              ∧ (W'.mMpSystemData.Cpu k).Timeout
                  = (T : Int) - (((T / gPollInterval + 1) * gPollInterval : Nat) : Int)))
      ∧ (∀ SingleThread FailedCpuList, W.mMpSystemData.NumberOfProcessors ≠ 1 →
          (∀ j, j < W.mMpSystemData.NumberOfProcessors →
            IsEnabledAP (W.mMpSystemData.Cpu j) = true →
            GetApState (W.mMpSystemData.Cpu j) = CpuStateIdle) →
          EnabledAPs W.mMpSystemData ≠ [] →
          (∀ Events, Events ∈ Schedule → ∀ e, e ∈ Events → ∃ n, e = ApEvent.Begin n) →
          (StartupAllAPs w ApicId Procedure SingleThread 0 T A FailedCpuList Schedule W = none
            ↔ Schedule.length ≤ T / gPollInterval)
          ∧ (T / gPollInterval + 1 ≤ Schedule.length →
              ∃ Wt, StartupAllAPs w ApicId Procedure SingleThread 0 T A FailedCpuList
                    Schedule W
                  = some (EFI_TIMEOUT, ResetAllFailedAPs w Wt)
                ∧ Wt.mMpSystemData.Timeout
                    = (T : Int) - (((T / gPollInterval + 1) * gPollInterval : Nat) : Int)))) := by
  constructor
  · intro hhi
    have hw1 : 1 ≤ w := by
      rcases Nat.eq_zero_or_pos w with h | h
      · subst h
        simp at hhi hTw
        omega
      · exact h
    obtain ⟨hneg, -⟩ := ToINTN_neg_of_ge w T hw1 hhi hTw
    have hT0 : T ≠ 0 := by
      have : 0 < 2 ^ (w - 1) := Nat.pos_pow_of_pos _ (by decide)
      omega
    constructor
    · intro k F hlt hEn hIdle
      have hk := lt_length_of_IsEnabledAP _ _ hEn
      obtain ⟨W1, hc, hm, -⟩ := StartupThisAP_of_valid w ApicId Procedure k 0 T A F Schedule W
        hBsp hProc hlt hEn hIdle
      obtain ⟨dk, -, -, -⟩ := StartupThisAPDispatch_spec w W.mMpSystemData Procedure k 0 T A F hk
      rw [← hm] at dk
      rw [if_neg (by simp)] at hc
      have hpass := (StartupThisAPPass_cases k W1).2.1 (by rw [dk]; simp [GetApState])
        (by rw [dk]; simpa using hT0) (by rw [dk]; exact hneg)
      refine ⟨W1, ?_, hm, by rw [dk], hneg⟩
      rw [hc]
      exact StartupThisAPWait_of_inl w k Schedule W1 _ hpass
    · intro ST FL hN hIdle hSome
      obtain ⟨W1, hc, hm, hstuck, fAct, fCnt, fTo⟩ := StartupAllAPs_blocking_start w ApicId
        Procedure ST T A FL Schedule W hBsp hN hProc hIdle hSome hT0
      have hharv := SessionStuck_harvest _ _ hstuck
      have hpass : StartupAllAPsPass w W1
          = Sum.inl (EFI_TIMEOUT, ResetAllFailedAPs w W1) := by
        have hneg' : W1.mMpSystemData.Timeout < 0 := by rw [fTo]; exact hneg
        simp [StartupAllAPsPass, hharv, fAct, fCnt, hneg']
      refine ⟨W1, ?_, hm, fTo, hneg⟩
      rw [hc]
      cases Schedule <;> simp only [StartupAllAPsWait, hpass]
  · intro hT0 hlo hw
    obtain ⟨hw1, hwI⟩ := pollInterval_fits w hw
    have hTI : (T : Int) < 2 ^ (w - 1) := by exact_mod_cast hlo
    have hpos : (0 : Int) < 2 ^ (w - 1) := by positivity
    have hToT : ToINTN w (T : Int) = T := ToINTN_of_range w _ hw1 (by omega) hTI
    constructor
    · intro k F hlt hEn hIdle hev
      have hk := lt_length_of_IsEnabledAP _ _ hEn
      obtain ⟨W1, hc, hm, -⟩ := StartupThisAP_of_valid w ApicId Procedure k 0 T A F Schedule W
        hBsp hProc hlt hEn hIdle
      obtain ⟨dk, -, -, dlen⟩ := StartupThisAPDispatch_spec w W.mMpSystemData Procedure k 0 T A
        F hk
      rw [← hm] at dk dlen
      rw [if_neg (by simp)] at hc
      obtain ⟨s1, s2⟩ := StartupThisAPWait_stalls w k hw Schedule W1 (T : Int)
        (by rw [dlen]; exact hk) (by rw [dk]; simp; omega) (by rw [dk]; exact hToT)
        (by positivity) hTI (by rw [dk]; simp [GetApState]) hev
      rw [hc]
      constructor
      · rw [s1]
        simp only [gPollInterval]
        omega
      · intro hlen
        obtain ⟨W', a, b⟩ := s2 (by simp only [gPollInterval] at hlen; omega)
        refine ⟨W', a, ?_⟩
        rw [b]
        simp only [gPollInterval]
        push_cast
        omega
    · intro ST FL hN hIdle hSome hev
      obtain ⟨W1, hc, hm, hstuck, fAct, fCnt, fTo⟩ := StartupAllAPs_blocking_start w ApicId
        Procedure ST T A FL Schedule W hBsp hN hProc hIdle hSome (by omega)
      obtain ⟨s1, s2⟩ := StartupAllAPsWait_stalls w hw W1.mMpSystemData fAct fCnt Schedule W1
        (T : Int) hstuck hev (by rw [fTo]; exact hToT) (by positivity) hTI
      rw [hc]
      constructor
      · rw [s1]
        simp only [gPollInterval]
        omega
      · intro hlen
        obtain ⟨Wt, a, -, b⟩ := s2 (by simp only [gPollInterval] at hlen; omega)
        refine ⟨Wt, a, ?_⟩
        rw [b]
        simp only [gPollInterval]
        push_cast
        omega

/-- Witness of C33 on three processors after bring-up with a machine word of
64 bits.  With the deadline `2 ^ 63` and no stall available, `StartupThisAP` on
processor 1 and `StartupAllAPs` return `EFI_TIMEOUT`.  With the deadline 250
and a schedule of three stalls in which the processors only begin their
procedure, both return `EFI_TIMEOUT` with a budget of `250 - 300`. -/
theorem C33_deadline_signed_budget_witness :
    (∃ W', StartupThisAP 64 0 5 1 0 (2 ^ 63) 9 0 [] (MkWorld (BringUp 3 0 [1, 2]))
        = some (EFI_TIMEOUT, W')
      ∧ W'.mMpSystemData
          = StartupThisAPDispatch 64 (MkWorld (BringUp 3 0 [1, 2])).mMpSystemData 5 1 0
              (2 ^ 63) 9 0
      ∧ (W'.mMpSystemData.Cpu 1).Timeout = ToINTN 64 ((2 ^ 63 : Nat) : Int)
      ∧ ToINTN 64 ((2 ^ 63 : Nat) : Int) < 0)
    ∧ (∃ Wt, StartupAllAPs 64 0 5 false 0 (2 ^ 63) 9 0 [] (MkWorld (BringUp 3 0 [1, 2]))
        = some (EFI_TIMEOUT, ResetAllFailedAPs 64 Wt)
      ∧ Wt.mMpSystemData
          = StartupAllAPsDispatch 64 (MkWorld (BringUp 3 0 [1, 2])).mMpSystemData 5 false 0
              (2 ^ 63) 9 0
      ∧ Wt.mMpSystemData.Timeout = ToINTN 64 ((2 ^ 63 : Nat) : Int)
      ∧ ToINTN 64 ((2 ^ 63 : Nat) : Int) < 0)
    ∧ (∃ W', StartupThisAP 64 0 5 1 0 250 9 0 [[ApEvent.Begin 1, ApEvent.Begin 2], [], []]
          (MkWorld (BringUp 3 0 [1, 2]))
        = some (EFI_TIMEOUT, W')
      ∧ (W'.mMpSystemData.Cpu 1).Timeout
          = ((250 : Nat) : Int) - (((250 / gPollInterval + 1) * gPollInterval : Nat) : Int))
    ∧ (∃ Wt, StartupAllAPs 64 0 5 false 0 250 9 0 [[ApEvent.Begin 1, ApEvent.Begin 2], [], []]
          (MkWorld (BringUp 3 0 [1, 2]))
        = some (EFI_TIMEOUT, ResetAllFailedAPs 64 Wt)
      ∧ Wt.mMpSystemData.Timeout
          = ((250 : Nat) : Int) - (((250 / gPollInterval + 1) * gPollInterval : Nat) : Int)) :=
  ⟨((C33_deadline_signed_budget 64 0 5 (2 ^ 63) 9 [] (MkWorld (BringUp 3 0 [1, 2]))
        (by decide) (by decide) (by decide)).1 (by decide)).1 1 0
      (by decide) (by decide) (by decide),
    ((C33_deadline_signed_budget 64 0 5 (2 ^ 63) 9 [] (MkWorld (BringUp 3 0 [1, 2]))
        (by decide) (by decide) (by decide)).1 (by decide)).2 false 0
      (by decide) (by decide) (by decide),
    ((((C33_deadline_signed_budget 64 0 5 250 9 [[ApEvent.Begin 1, ApEvent.Begin 2], [], []]
        (MkWorld (BringUp 3 0 [1, 2])) (by decide) (by decide) (by decide)).2
        (by decide) (by decide) (by decide)).1 1 0
      (by decide) (by decide) (by decide) (by decide)).2 (by decide)),
    ((((C33_deadline_signed_budget 64 0 5 250 9 [[ApEvent.Begin 1, ApEvent.Begin 2], [], []]
        (MkWorld (BringUp 3 0 [1, 2])) (by decide) (by decide) (by decide)).2
        (by decide) (by decide) (by decide)).2 false 0
      (by decide) (by decide) (by decide) (by simp)).2 (by decide))⟩

/-! ## Sessions during a run of a non-blocking `StartupAllAPs` -/

/-- A call of `StartupThisAP` that the code accepts while the session of a
non-blocking `StartupAllAPs` is open breaks the count of that session.  On
three processors the BSP dispatches both application processors in
non-blocking mode (procedure `5`, wait event `3`), processor 1 finishes and is
harvested, the BSP dispatches it again with a non-blocking `StartupThisAP`,
both processors finish and the next notification of the timer harvests both:
`FinishCount` is 3 and `StartCount` is 2, so the timer stays set and the wait
event is not signalled, while every application processor is idle.  A further
non-blocking `StartupAllAPs` (procedure `7`, wait event `8`) in that state
returns `EFI_SUCCESS` and assigns the session anew. -/
theorem NonBlockingRun_overcounts_after_StartupThisAP :
    StartupAllAPs 64 0 5 false 3 0 9 0 [] (MkWorld (BringUp 3 0 [1, 2]))
        = some (EFI_SUCCESS, Sys3Pending)
    ∧ StartupThisAP 64 0 6 1 4 0 0 0 [] Sys3PendingOneHarvested
        = some (EFI_SUCCESS, Sys3PendingRedispatched)
    ∧ NonBlockingRun 64 Sys3Pending Sys3Overcounted
    ∧ Sys3Overcounted.mMpSystemData.FinishCount = 3
    ∧ Sys3Overcounted.mMpSystemData.StartCount = 2
    ∧ Sys3Overcounted.mMpSystemData.CheckAllAPsEvent ∈ Sys3Overcounted.PeriodicTimers
    ∧ Sys3Overcounted.mMpSystemData.WaitEvent = 3
    ∧ Sys3Overcounted.SignaledEvents = []
    ∧ (∀ j, j < Sys3Overcounted.mMpSystemData.NumberOfProcessors →
        IsEnabledAP (Sys3Overcounted.mMpSystemData.Cpu j) = true →
        GetApState (Sys3Overcounted.mMpSystemData.Cpu j) = CpuStateIdle)
    ∧ ∃ W2, StartupAllAPs 64 0 7 false 8 0 9 0 [] Sys3Overcounted = some (EFI_SUCCESS, W2)
        ∧ W2.mMpSystemData.Procedure = 7
        ∧ W2.mMpSystemData.WaitEvent = 8
        ∧ W2.mMpSystemData.FinishCount = 0 := by
  refine ⟨rfl, rfl, ?_, rfl, rfl, by decide, rfl, rfl, by decide, _, rfl, rfl, rfl, rfl⟩
  exact NonBlockingRun.tick _
    (NonBlockingRun.selfTransition _ (ApEvent.Return 2)
      (NonBlockingRun.selfTransition _ (ApEvent.Begin 2)
        (NonBlockingRun.selfTransition _ (ApEvent.Return 1)
          (NonBlockingRun.selfTransition _ (ApEvent.Begin 1)
            (NonBlockingRun.startupThisAP Sys3PendingOneHarvested Sys3PendingRedispatched
              EFI_SUCCESS 0 6 1 4 0 0 0 []
              (NonBlockingRun.tick _
                (NonBlockingRun.selfTransition _ (ApEvent.Return 1)
                  (NonBlockingRun.selfTransition _ (ApEvent.Begin 1) NonBlockingRun.start))
                (by decide))
              rfl)))))
    (by decide)

end CpuMp
